import Mathlib

/-!
Snap-point resolution engine (Scroller): shallow embedding.

Source files embedded here:
* `dev/Scroller/ScrollerSnapPoint.cpp`  (the four snap point kinds)
* `dev/Scroller/SnapPointWrapper.cpp`   (the per-point state holder)

Numbers.

The C++ code computes with `double`.  It uses `INFINITY` and `NAN` as ordinary
values (`-INFINITY`/`INFINITY` zone bounds, an infinite applicable range for
mandatory points, `NAN` for "no ignored value"), so the embedding keeps them:
`Dbl` is the set of rationals extended with `-inf`, `+inf` and `nan`, with the
IEEE-754 rules for the special values (every comparison with `nan` is false,
`inf - inf = nan`, `0 * inf = nan`, ...).  The sign of zero is not modelled.

Arithmetic comes in two layers.

* The operators `+`, `-`, `*`, `/` of `Dbl` are exact on finite numbers.  The methods written
  with them (sections `ScrollSnapPoint` to `ImpulseInfluence and the impulse zone resolver`)
  give the value of the source expression read over the rationals.  They carry the properties
  that are decided by comparisons, by the order of `std::min`/`std::max` arguments, by the
  special values and by the thrown errors, and the properties that state a result as the
  source expression itself.
* The processor rounds the result of every operation to binary64, and a large result overflows
  to an infinity.  `Dbl.round64` is that rounding (round to nearest, ties to even, subnormal
  numbers, overflow), and the section `The arithmetic methods in binary64` repeats every method
  that computes, with each operation rounded, under the same names in the namespace `Binary64`.
  A property that depends on the computed digits (a distance, a bound on a computed position,
  an equality between two computations) is stated about the `Binary64` methods.
  `static_cast<float>(value)` in `SnapsAt` is `Dbl.static_cast_float`, the rounding to binary32.

An `int` is a 32-bit integer: `int_wrap` reduces the result of `combinationCount++` to the
interval from `-2^31` to `2^31 - 1`.

The properties below are stated for numbers.  `nan` is only the "no ignored value" sentinel
(the specification calls a `nan` position a caller error), so a property that quantifies over
positions or values excludes `nan` where the comparison rules would otherwise decide the
outcome, and says so in its statement.

Build configuration.

The source guards the mandatory/optional distinction with `#ifdef ApplicableRangeType`.  The
embedding follows the guarded branches, which handle both range types; with every point
mandatory they agree with the unguarded `#else` branches.  The class declarations
(`ScrollerSnapPoint.h`) are not part of the embedded sources: members appear here as structure
fields, and the tolerance `s_equalityEpsilon` is a parameter of the functions that read it.
The member values a constructor leaves untouched (adjustment `0`, range `INFINITY`, range type
mandatory) are named constants next to the constructors.  A `MUX_ASSERT` has no effect, as in a
build without assertions; where a property needs the asserted fact it is a hypothesis, and the
functions with the suffix `_withAssert` repeat the impulse zone resolver with the branch
`MUX_ASSERT(false)` of `ImpulseInfluence` visible as a result of its own.

Errors.

A C++ `throw` becomes an `Except hresult_error _` result.
-/

/-! ## `double` -/

/-- Values of the C++ type `double`: exact rationals plus the three IEEE special values. -/
inductive Dbl where
  | nan : Dbl
  | ninf : Dbl
  | fin : ℚ → Dbl
  | pinf : Dbl
deriving DecidableEq

namespace Dbl

/-- Unary minus. -/
def neg : Dbl → Dbl
  | nan => nan
  | ninf => pinf
  | fin a => fin (-a)
  | pinf => ninf

/-- Binary `+` on doubles. -/
def add : Dbl → Dbl → Dbl
  | nan, _ => nan
  | _, nan => nan
  | pinf, ninf => nan
  | ninf, pinf => nan
  | pinf, _ => pinf
  | _, pinf => pinf
  | ninf, _ => ninf
  | _, ninf => ninf
  | fin a, fin b => fin (a + b)

/-- Binary `-` on doubles. -/
def sub (a b : Dbl) : Dbl := add a (neg b)

/-- Sign-directed infinity: the product of an infinity with a nonzero finite factor. -/
def infOfSign (positive : Bool) : Dbl := if positive then pinf else ninf

/-- Binary `*` on doubles. -/
def mul : Dbl → Dbl → Dbl
  | nan, _ => nan
  | _, nan => nan
  | fin a, fin b => fin (a * b)
  | fin a, pinf => if a = 0 then nan else infOfSign (decide (0 < a))
  | fin a, ninf => if a = 0 then nan else infOfSign (decide (a < 0))
  | pinf, fin b => if b = 0 then nan else infOfSign (decide (0 < b))
  | ninf, fin b => if b = 0 then nan else infOfSign (decide (b < 0))
  | pinf, pinf => pinf
  | ninf, ninf => pinf
  | pinf, ninf => ninf
  | ninf, pinf => ninf

/-- Binary `/` on doubles (a zero divisor counts as `+0`). -/
def div : Dbl → Dbl → Dbl
  | nan, _ => nan
  | _, nan => nan
  | fin a, fin b =>
      if b = 0 then (if a = 0 then nan else infOfSign (decide (0 < a))) else fin (a / b)
  | fin _, pinf => fin 0
  | fin _, ninf => fin 0
  | pinf, fin b => infOfSign (decide (0 ≤ b))
  | ninf, fin b => infOfSign (decide (b < 0))
  | pinf, pinf => nan
  | pinf, ninf => nan
  | ninf, pinf => nan
  | ninf, ninf => nan

/-- Comparison `a < b` on doubles, as a Boolean. -/
def blt : Dbl → Dbl → Bool
  | nan, _ => false
  | _, nan => false
  | fin a, fin b => decide (a < b)
  | ninf, ninf => false
  | ninf, _ => true
  | pinf, _ => false
  | fin _, pinf => true
  | fin _, ninf => false

/-- Comparison `a <= b` on doubles, as a Boolean. -/
def ble : Dbl → Dbl → Bool
  | nan, _ => false
  | _, nan => false
  | fin a, fin b => decide (a ≤ b)
  | ninf, _ => true
  | _, pinf => true
  | pinf, _ => false
  | fin _, ninf => false

/-- Comparison `a == b` on doubles (`nan` equals nothing, itself included). -/
def beq : Dbl → Dbl → Bool
  | fin a, fin b => decide (a = b)
  | pinf, pinf => true
  | ninf, ninf => true
  | _, _ => false

/-- Predicate `isnan`. -/
def isnan : Dbl → Bool
  | nan => true
  | _ => false

/-- Function `std::floor`. -/
def floor : Dbl → Dbl
  | fin a => fin (⌊a⌋ : ℤ)
  | x => x

/-- Function `std::abs`. -/
def abs : Dbl → Dbl
  | nan => nan
  | ninf => pinf
  | fin a => fin |a|
  | pinf => pinf

instance : Neg Dbl := ⟨neg⟩
instance : Add Dbl := ⟨add⟩
instance : Sub Dbl := ⟨sub⟩
instance : Mul Dbl := ⟨mul⟩
instance : Div Dbl := ⟨div⟩
instance : LT Dbl := ⟨fun a b => blt a b = true⟩
instance : LE Dbl := ⟨fun a b => ble a b = true⟩
instance (a b : Dbl) : Decidable (a < b) := inferInstanceAs (Decidable (blt a b = true))
instance (a b : Dbl) : Decidable (a ≤ b) := inferInstanceAs (Decidable (ble a b = true))

/-- Function `std::max(a, b)`: `(a < b) ? b : a`. -/
def std_max (a b : Dbl) : Dbl := if a < b then b else a

/-- Function `std::min(a, b)`: `(b < a) ? b : a`. -/
def std_min (a b : Dbl) : Dbl := if b < a then b else a

/-- The constant `INFINITY`. -/
def INFINITY : Dbl := pinf

/-- The constant `NAN`. -/
def NAN : Dbl := nan

end Dbl

/-! ## Errors -/

/-- Error codes carried by `winrt::hresult_error`. -/
inductive HRESULT where
  | E_INVALIDARG : HRESULT
deriving DecidableEq

/-- The exception type `winrt::hresult_error`: a code and a (possibly empty) message. -/
structure hresult_error where
  code : HRESULT
  message : String
deriving DecidableEq

/-- Expression `winrt::hresult_error(E_INVALIDARG)`. -/
def hresult_error.E_INVALIDARG : hresult_error := ⟨HRESULT.E_INVALIDARG, ""⟩

/-- Expression `winrt::hresult_invalid_argument(message)`. -/
def hresult_invalid_argument (message : String) : hresult_error := ⟨HRESULT.E_INVALIDARG, message⟩

/-! ## Data model -/

/-- The enum `winrt::ScrollSnapPointsAlignment`. -/
inductive ScrollSnapPointsAlignment where
  | Near : ScrollSnapPointsAlignment
  | Center : ScrollSnapPointsAlignment
  | Far : ScrollSnapPointsAlignment
deriving DecidableEq

/-- The enum `winrt::SnapPointApplicableRangeType`. -/
inductive SnapPointApplicableRangeType where
  | Mandatory : SnapPointApplicableRangeType
  | Optional : SnapPointApplicableRangeType
deriving DecidableEq

/-- The sort key `ScrollerSnapPointSortPredicate`. -/
structure ScrollerSnapPointSortPredicate where
  primary : Dbl
  secondary : Dbl
  tertiary : Int
deriving DecidableEq

/-- State of a `ScrollSnapPoint` (irregular scroll snap point). -/
structure ScrollSnapPoint where
  m_value : Dbl
  m_alignment : ScrollSnapPointsAlignment
  m_alignmentAdjustment : Dbl
  m_specifiedApplicableRange : Dbl
  m_applicableRangeType : SnapPointApplicableRangeType
deriving DecidableEq

/-- State of a `RepeatedScrollSnapPoint`. -/
structure RepeatedScrollSnapPoint where
  m_offset : Dbl
  m_interval : Dbl
  m_start : Dbl
  m_end : Dbl
  m_alignment : ScrollSnapPointsAlignment
  m_alignmentAdjustment : Dbl
  m_specifiedApplicableRange : Dbl
  m_applicableRangeType : SnapPointApplicableRangeType
deriving DecidableEq

/-- State of a `ZoomSnapPoint` (irregular zoom snap point). -/
structure ZoomSnapPoint where
  m_value : Dbl
  m_specifiedApplicableRange : Dbl
  m_applicableRangeType : SnapPointApplicableRangeType
deriving DecidableEq

/-- State of a `RepeatedZoomSnapPoint`. -/
structure RepeatedZoomSnapPoint where
  m_offset : Dbl
  m_interval : Dbl
  m_start : Dbl
  m_end : Dbl
  m_specifiedApplicableRange : Dbl
  m_applicableRangeType : SnapPointApplicableRangeType
deriving DecidableEq

/-- The polymorphic `SnapPointBase`: one case per concrete class; virtual calls dispatch on it. -/
inductive SnapPointBase where
  | scroll : ScrollSnapPoint → SnapPointBase
  | repeatedScroll : RepeatedScrollSnapPoint → SnapPointBase
  | zoom : ZoomSnapPoint → SnapPointBase
  | repeatedZoom : RepeatedZoomSnapPoint → SnapPointBase
deriving DecidableEq

/-! ## ScrollSnapPoint -/

namespace ScrollSnapPoint

/-- Method `ScrollSnapPoint::ActualValue`. -/
def ActualValue (p : ScrollSnapPoint) : Dbl :=
  p.m_value + p.m_alignmentAdjustment

/-- Method `ScrollSnapPoint::SortPredicate`. -/
def SortPredicate (p : ScrollSnapPoint) : ScrollerSnapPointSortPredicate :=
  let actualValue := p.ActualValue
  { primary := actualValue, secondary := actualValue, tertiary := 0 }

/-- Method `ScrollSnapPoint::Influence`. -/
def Influence (p : ScrollSnapPoint) (edgeOfMidpoint : Dbl) : Dbl :=
  let actualValue := p.ActualValue
  let midPoint := (actualValue + edgeOfMidpoint) / Dbl.fin 2
  match p.m_applicableRangeType with
  | SnapPointApplicableRangeType.Optional =>
      if actualValue ≤ edgeOfMidpoint then
        Dbl.std_min (actualValue + p.m_specifiedApplicableRange) midPoint
      else
        Dbl.std_max (actualValue - p.m_specifiedApplicableRange) midPoint
  | SnapPointApplicableRangeType.Mandatory => midPoint

/-- Method `ScrollSnapPoint::Evaluate`. -/
def Evaluate (p : ScrollSnapPoint) (actualApplicableZone : Dbl × Dbl) (value : Dbl) : Dbl :=
  if value ≥ actualApplicableZone.1 ∧ value ≤ actualApplicableZone.2 then
    p.ActualValue
  else
    value

end ScrollSnapPoint

/-! ## RepeatedScrollSnapPoint -/

namespace RepeatedScrollSnapPoint

/-- Method `RepeatedScrollSnapPoint::ActualOffset`. -/
def ActualOffset (p : RepeatedScrollSnapPoint) : Dbl :=
  p.m_offset + p.m_alignmentAdjustment

/-- Method `RepeatedScrollSnapPoint::ActualStart`. -/
def ActualStart (p : RepeatedScrollSnapPoint) : Dbl :=
  p.m_start + p.m_alignmentAdjustment

/-- Method `RepeatedScrollSnapPoint::ActualEnd`. -/
def ActualEnd (p : RepeatedScrollSnapPoint) : Dbl :=
  p.m_end + p.m_alignmentAdjustment

/-- Method `RepeatedScrollSnapPoint::SortPredicate`. -/
def SortPredicate (p : RepeatedScrollSnapPoint) : ScrollerSnapPointSortPredicate :=
  { primary := p.ActualStart, secondary := p.ActualEnd, tertiary := 1 }

/-- Method `RepeatedScrollSnapPoint::DetermineFirstRepeatedSnapPointValue`. -/
def DetermineFirstRepeatedSnapPointValue (p : RepeatedScrollSnapPoint) : Dbl :=
  let actualOffset := p.ActualOffset
  let actualStart := p.ActualStart
  actualOffset - Dbl.floor ((actualOffset - actualStart) / p.m_interval) * p.m_interval

/-- Method `RepeatedScrollSnapPoint::DetermineLastRepeatedSnapPointValue`. -/
def DetermineLastRepeatedSnapPointValue (p : RepeatedScrollSnapPoint) : Dbl :=
  let actualOffset := p.ActualOffset
  let actualEnd := p.ActualEnd
  actualOffset + Dbl.floor ((actualEnd - actualOffset) / p.m_interval) * p.m_interval

/-- Method `RepeatedScrollSnapPoint::Influence`; the `throw` is the `Except.error` result. -/
def Influence (p : RepeatedScrollSnapPoint) (edgeOfMidpoint : Dbl) : Except hresult_error Dbl :=
  let actualStart := p.ActualStart
  let actualEnd := p.ActualEnd
  if edgeOfMidpoint ≤ actualStart then
    Except.ok actualStart
  else if edgeOfMidpoint ≥ actualEnd then
    Except.ok actualEnd
  else
    Except.error hresult_error.E_INVALIDARG

/-- Method `RepeatedScrollSnapPoint::Evaluate`.  The zone argument is not read. -/
def Evaluate (p : RepeatedScrollSnapPoint) (_actualApplicableZone : Dbl × Dbl) (value : Dbl) :
    Dbl :=
  if value ≥ p.ActualStart ∧ value ≤ p.ActualEnd then
    let firstSnapPointValue := p.DetermineFirstRepeatedSnapPointValue
    let passedSnapPoints := Dbl.floor ((value - firstSnapPointValue) / p.m_interval)
    let previousSnapPointValue := (passedSnapPoints * p.m_interval) + firstSnapPointValue
    let nextSnapPointValue := previousSnapPointValue + p.m_interval
    if (value - previousSnapPointValue) ≤ (nextSnapPointValue - value) then
      if previousSnapPointValue + p.m_specifiedApplicableRange ≥ value then
        previousSnapPointValue
      else
        value
    else
      if nextSnapPointValue - p.m_specifiedApplicableRange ≤ value then
        nextSnapPointValue
      else
        value
  else
    value

end RepeatedScrollSnapPoint

/-! ## ZoomSnapPoint -/

namespace ZoomSnapPoint

/-- Method `ZoomSnapPoint::SortPredicate`. -/
def SortPredicate (p : ZoomSnapPoint) : ScrollerSnapPointSortPredicate :=
  { primary := p.m_value, secondary := p.m_value, tertiary := 0 }

/-- Method `ZoomSnapPoint::Influence`. -/
def Influence (p : ZoomSnapPoint) (edgeOfMidpoint : Dbl) : Dbl :=
  let midPoint := (p.m_value + edgeOfMidpoint) / Dbl.fin 2
  match p.m_applicableRangeType with
  | SnapPointApplicableRangeType.Optional =>
      if p.m_value ≤ edgeOfMidpoint then
        Dbl.std_min (p.m_value + p.m_specifiedApplicableRange) midPoint
      else
        Dbl.std_max (p.m_value - p.m_specifiedApplicableRange) midPoint
  | SnapPointApplicableRangeType.Mandatory => midPoint

/-- Method `ZoomSnapPoint::Evaluate`. -/
def Evaluate (p : ZoomSnapPoint) (actualApplicableZone : Dbl × Dbl) (value : Dbl) : Dbl :=
  if value ≥ actualApplicableZone.1 ∧ value ≤ actualApplicableZone.2 then
    p.m_value
  else
    value

end ZoomSnapPoint

/-! ## RepeatedZoomSnapPoint -/

namespace RepeatedZoomSnapPoint

/-- Method `RepeatedZoomSnapPoint::SortPredicate`. -/
def SortPredicate (p : RepeatedZoomSnapPoint) : ScrollerSnapPointSortPredicate :=
  { primary := p.m_start, secondary := p.m_end, tertiary := 1 }

/-- Method `RepeatedZoomSnapPoint::DetermineFirstRepeatedSnapPointValue`. -/
def DetermineFirstRepeatedSnapPointValue (p : RepeatedZoomSnapPoint) : Dbl :=
  p.m_offset - Dbl.floor ((p.m_offset - p.m_start) / p.m_interval) * p.m_interval

/-- Method `RepeatedZoomSnapPoint::DetermineLastRepeatedSnapPointValue`. -/
def DetermineLastRepeatedSnapPointValue (p : RepeatedZoomSnapPoint) : Dbl :=
  p.m_offset + Dbl.floor ((p.m_end - p.m_offset) / p.m_interval) * p.m_interval

/-- Method `RepeatedZoomSnapPoint::Influence`; the `throw` is the `Except.error` result. -/
def Influence (p : RepeatedZoomSnapPoint) (edgeOfMidpoint : Dbl) : Except hresult_error Dbl :=
  if edgeOfMidpoint ≤ p.m_start then
    Except.ok p.m_start
  else if edgeOfMidpoint ≥ p.m_end then
    Except.ok p.m_end
  else
    Except.error hresult_error.E_INVALIDARG

/-- Method `RepeatedZoomSnapPoint::Evaluate`.  The zone argument is not read. -/
def Evaluate (p : RepeatedZoomSnapPoint) (_actualApplicableZone : Dbl × Dbl) (value : Dbl) :
    Dbl :=
  if value ≥ p.m_start ∧ value ≤ p.m_end then
    let firstSnapPointValue := p.DetermineFirstRepeatedSnapPointValue
    let passedSnapPoints := Dbl.floor ((value - firstSnapPointValue) / p.m_interval)
    let previousSnapPointValue := (passedSnapPoints * p.m_interval) + firstSnapPointValue
    let nextSnapPointValue := previousSnapPointValue + p.m_interval
    if (value - previousSnapPointValue) ≤ (nextSnapPointValue - value) then
      if previousSnapPointValue + p.m_specifiedApplicableRange ≥ value then
        previousSnapPointValue
      else
        value
    else
      if nextSnapPointValue - p.m_specifiedApplicableRange ≤ value then
        nextSnapPointValue
      else
        value
  else
    value

end RepeatedZoomSnapPoint

/-! ## SnapPointBase: virtual dispatch, ordering and equality -/

namespace SnapPointBase

/-- Virtual method `SnapPointBase::SortPredicate`. -/
def SortPredicate : SnapPointBase → ScrollerSnapPointSortPredicate
  | scroll p => p.SortPredicate
  | repeatedScroll p => p.SortPredicate
  | zoom p => p.SortPredicate
  | repeatedZoom p => p.SortPredicate

/-- Virtual method `SnapPointBase::Influence`. -/
def Influence : SnapPointBase → Dbl → Except hresult_error Dbl
  | scroll p, edgeOfMidpoint => Except.ok (p.Influence edgeOfMidpoint)
  | repeatedScroll p, edgeOfMidpoint => p.Influence edgeOfMidpoint
  | zoom p, edgeOfMidpoint => Except.ok (p.Influence edgeOfMidpoint)
  | repeatedZoom p, edgeOfMidpoint => p.Influence edgeOfMidpoint

/-- Virtual method `SnapPointBase::Evaluate`. -/
def Evaluate : SnapPointBase → Dbl × Dbl → Dbl → Dbl
  | scroll p, actualApplicableZone, value => p.Evaluate actualApplicableZone value
  | repeatedScroll p, actualApplicableZone, value => p.Evaluate actualApplicableZone value
  | zoom p, actualApplicableZone, value => p.Evaluate actualApplicableZone value
  | repeatedZoom p, actualApplicableZone, value => p.Evaluate actualApplicableZone value

/-- Operator `SnapPointBase::operator<`. -/
def operator_lt (self snapPoint : SnapPointBase) : Bool :=
  let mySortPredicate := self.SortPredicate
  let theirSortPredicate := snapPoint.SortPredicate
  if mySortPredicate.primary < theirSortPredicate.primary then true
  else if theirSortPredicate.primary < mySortPredicate.primary then false
  else if mySortPredicate.secondary < theirSortPredicate.secondary then true
  else if theirSortPredicate.secondary < mySortPredicate.secondary then false
  else if mySortPredicate.tertiary < theirSortPredicate.tertiary then true
  else false

/-- Operator `SnapPointBase::operator==`.  The tolerance `s_equalityEpsilon` is a constant of the
class declaration; it is a parameter here. -/
def operator_eq (s_equalityEpsilon : Dbl) (self snapPoint : SnapPointBase) : Bool :=
  let mySortPredicate := self.SortPredicate
  let theirSortPredicate := snapPoint.SortPredicate
  if Dbl.abs (mySortPredicate.primary - theirSortPredicate.primary) < s_equalityEpsilon
      ∧ Dbl.abs (mySortPredicate.secondary - theirSortPredicate.secondary) < s_equalityEpsilon
      ∧ mySortPredicate.tertiary = theirSortPredicate.tertiary then
    true
  else
    false

end SnapPointBase

/-! ## Zone resolver -/

namespace ScrollSnapPoint

/-- Method `ScrollSnapPoint::DetermineMinActualApplicableZone`.  The first test reads
`applicableRangeType` in the source; it is the member `m_applicableRangeType`, as in
`DetermineMaxActualApplicableZone`. -/
def DetermineMinActualApplicableZone (p : ScrollSnapPoint)
    (previousSnapPoint : Option SnapPointBase) : Except hresult_error Dbl :=
  match previousSnapPoint with
  | none =>
      if p.m_applicableRangeType ≠ SnapPointApplicableRangeType.Optional then
        Except.ok (-Dbl.INFINITY)
      else
        Except.ok (p.ActualValue - p.m_specifiedApplicableRange)
  | some previousSnapPoint => do
      let previousMaxInfluence ← previousSnapPoint.Influence p.ActualValue
      match p.m_applicableRangeType with
      | SnapPointApplicableRangeType.Optional =>
          Except.ok (Dbl.std_max previousMaxInfluence (p.ActualValue - p.m_specifiedApplicableRange))
      | SnapPointApplicableRangeType.Mandatory => Except.ok previousMaxInfluence

/-- Method `ScrollSnapPoint::DetermineMaxActualApplicableZone`. -/
def DetermineMaxActualApplicableZone (p : ScrollSnapPoint)
    (nextSnapPoint : Option SnapPointBase) : Except hresult_error Dbl :=
  match nextSnapPoint with
  | none =>
      if p.m_applicableRangeType ≠ SnapPointApplicableRangeType.Optional then
        Except.ok Dbl.INFINITY
      else
        Except.ok (p.ActualValue + p.m_specifiedApplicableRange)
  | some nextSnapPoint => do
      let nextMinInfluence ← nextSnapPoint.Influence p.ActualValue
      match p.m_applicableRangeType with
      | SnapPointApplicableRangeType.Optional =>
          Except.ok (Dbl.std_min (p.ActualValue + p.m_specifiedApplicableRange) nextMinInfluence)
      | SnapPointApplicableRangeType.Mandatory => Except.ok nextMinInfluence

/-- Method `ScrollSnapPoint::DetermineActualApplicableZone`. -/
def DetermineActualApplicableZone (p : ScrollSnapPoint)
    (previousSnapPoint nextSnapPoint : Option SnapPointBase) : Except hresult_error (Dbl × Dbl) := do
  let min ← p.DetermineMinActualApplicableZone previousSnapPoint
  let max ← p.DetermineMaxActualApplicableZone nextSnapPoint
  Except.ok (min, max)

end ScrollSnapPoint

namespace ZoomSnapPoint

/-- Method `ZoomSnapPoint::DetermineMinActualApplicableZone` (same remark on
`applicableRangeType` as for the scroll kind). -/
def DetermineMinActualApplicableZone (p : ZoomSnapPoint)
    (previousSnapPoint : Option SnapPointBase) : Except hresult_error Dbl :=
  match previousSnapPoint with
  | none =>
      if p.m_applicableRangeType ≠ SnapPointApplicableRangeType.Optional then
        Except.ok (-Dbl.INFINITY)
      else
        Except.ok (p.m_value - p.m_specifiedApplicableRange)
  | some previousSnapPoint => do
      let previousMaxInfluence ← previousSnapPoint.Influence p.m_value
      match p.m_applicableRangeType with
      | SnapPointApplicableRangeType.Optional =>
          Except.ok (Dbl.std_max previousMaxInfluence (p.m_value - p.m_specifiedApplicableRange))
      | SnapPointApplicableRangeType.Mandatory => Except.ok previousMaxInfluence

/-- Method `ZoomSnapPoint::DetermineMaxActualApplicableZone`. -/
def DetermineMaxActualApplicableZone (p : ZoomSnapPoint)
    (nextSnapPoint : Option SnapPointBase) : Except hresult_error Dbl :=
  match nextSnapPoint with
  | none =>
      if p.m_applicableRangeType ≠ SnapPointApplicableRangeType.Optional then
        Except.ok Dbl.INFINITY
      else
        Except.ok (p.m_value + p.m_specifiedApplicableRange)
  | some nextSnapPoint => do
      let nextMinInfluence ← nextSnapPoint.Influence p.m_value
      match p.m_applicableRangeType with
      | SnapPointApplicableRangeType.Optional =>
          Except.ok (Dbl.std_min (p.m_value + p.m_specifiedApplicableRange) nextMinInfluence)
      | SnapPointApplicableRangeType.Mandatory => Except.ok nextMinInfluence

/-- Method `ZoomSnapPoint::DetermineActualApplicableZone`. -/
def DetermineActualApplicableZone (p : ZoomSnapPoint)
    (previousSnapPoint nextSnapPoint : Option SnapPointBase) : Except hresult_error (Dbl × Dbl) := do
  let min ← p.DetermineMinActualApplicableZone previousSnapPoint
  let max ← p.DetermineMaxActualApplicableZone nextSnapPoint
  Except.ok (min, max)

end ZoomSnapPoint

namespace RepeatedScrollSnapPoint

/-- Method `RepeatedScrollSnapPoint::DetermineMinActualApplicableZone`: the neighbour's
`Influence` is called for its check only, its value is dropped. -/
def DetermineMinActualApplicableZone (p : RepeatedScrollSnapPoint)
    (previousSnapPoint : Option SnapPointBase) : Except hresult_error Dbl :=
  let actualStart := p.ActualStart
  match previousSnapPoint with
  | some previousSnapPoint => do
      let _ ← previousSnapPoint.Influence actualStart
      Except.ok actualStart
  | none => Except.ok actualStart

/-- Method `RepeatedScrollSnapPoint::DetermineMaxActualApplicableZone`. -/
def DetermineMaxActualApplicableZone (p : RepeatedScrollSnapPoint)
    (nextSnapPoint : Option SnapPointBase) : Except hresult_error Dbl :=
  let actualEnd := p.ActualEnd
  match nextSnapPoint with
  | some nextSnapPoint => do
      let _ ← nextSnapPoint.Influence actualEnd
      Except.ok actualEnd
  | none => Except.ok actualEnd

/-- Method `RepeatedScrollSnapPoint::DetermineActualApplicableZone`. -/
def DetermineActualApplicableZone (s_equalityEpsilon : Dbl) (p : RepeatedScrollSnapPoint)
    (previousSnapPoint nextSnapPoint : Option SnapPointBase) : Except hresult_error (Dbl × Dbl) := do
  let min ← p.DetermineMinActualApplicableZone previousSnapPoint
  let max ← p.DetermineMaxActualApplicableZone nextSnapPoint
  let actualApplicableZoneReturned := (min, max)
  match nextSnapPoint with
  | some next =>
      if SnapPointBase.operator_eq s_equalityEpsilon (SnapPointBase.repeatedScroll p) next then
        Except.error hresult_error.E_INVALIDARG
      else
        Except.ok actualApplicableZoneReturned
  | none => Except.ok actualApplicableZoneReturned

end RepeatedScrollSnapPoint

namespace RepeatedZoomSnapPoint

/-- Method `RepeatedZoomSnapPoint::DetermineMinActualApplicableZone`. -/
def DetermineMinActualApplicableZone (p : RepeatedZoomSnapPoint)
    (previousSnapPoint : Option SnapPointBase) : Except hresult_error Dbl :=
  match previousSnapPoint with
  | some previousSnapPoint => do
      let _ ← previousSnapPoint.Influence p.m_start
      Except.ok p.m_start
  | none => Except.ok p.m_start

/-- Method `RepeatedZoomSnapPoint::DetermineMaxActualApplicableZone`. -/
def DetermineMaxActualApplicableZone (p : RepeatedZoomSnapPoint)
    (nextSnapPoint : Option SnapPointBase) : Except hresult_error Dbl :=
  match nextSnapPoint with
  | some nextSnapPoint => do
      let _ ← nextSnapPoint.Influence p.m_end
      Except.ok p.m_end
  | none => Except.ok p.m_end

/-- Method `RepeatedZoomSnapPoint::DetermineActualApplicableZone`. -/
def DetermineActualApplicableZone (s_equalityEpsilon : Dbl) (p : RepeatedZoomSnapPoint)
    (previousSnapPoint nextSnapPoint : Option SnapPointBase) : Except hresult_error (Dbl × Dbl) := do
  let min ← p.DetermineMinActualApplicableZone previousSnapPoint
  let max ← p.DetermineMaxActualApplicableZone nextSnapPoint
  let actualApplicableZoneReturned := (min, max)
  match nextSnapPoint with
  | some next =>
      if SnapPointBase.operator_eq s_equalityEpsilon (SnapPointBase.repeatedZoom p) next then
        Except.error hresult_error.E_INVALIDARG
      else
        Except.ok actualApplicableZoneReturned
  | none => Except.ok actualApplicableZoneReturned

end RepeatedZoomSnapPoint

namespace SnapPointBase

/-- Virtual method `SnapPointBase::DetermineActualApplicableZone`. -/
def DetermineActualApplicableZone (s_equalityEpsilon : Dbl) :
    SnapPointBase → Option SnapPointBase → Option SnapPointBase → Except hresult_error (Dbl × Dbl)
  | scroll p, previousSnapPoint, nextSnapPoint =>
      p.DetermineActualApplicableZone previousSnapPoint nextSnapPoint
  | repeatedScroll p, previousSnapPoint, nextSnapPoint =>
      p.DetermineActualApplicableZone s_equalityEpsilon previousSnapPoint nextSnapPoint
  | zoom p, previousSnapPoint, nextSnapPoint =>
      p.DetermineActualApplicableZone previousSnapPoint nextSnapPoint
  | repeatedZoom p, previousSnapPoint, nextSnapPoint =>
      p.DetermineActualApplicableZone s_equalityEpsilon previousSnapPoint nextSnapPoint

/-- Method `SnapPointBase::ApplicableRange`. -/
def ApplicableRange : SnapPointBase → Dbl
  | scroll p => p.m_specifiedApplicableRange
  | repeatedScroll p => p.m_specifiedApplicableRange
  | zoom p => p.m_specifiedApplicableRange
  | repeatedZoom p => p.m_specifiedApplicableRange

/-- Method `SnapPointBase::ApplicableRangeType`. -/
def ApplicableRangeType : SnapPointBase → SnapPointApplicableRangeType
  | scroll p => p.m_applicableRangeType
  | repeatedScroll p => p.m_applicableRangeType
  | zoom p => p.m_applicableRangeType
  | repeatedZoom p => p.m_applicableRangeType

end SnapPointBase

/-! ## Combine -/

/-- Value of the C++ type `int` (32 bits, two's complement) that the integer `x` is stored as:
`x` reduced modulo `2 ^ 32` into the interval from `-2 ^ 31` to `2 ^ 31 - 1`.  `INT_MAX + 1` is
`INT_MIN`, which is what the compiled increment produces. -/
def int_wrap (x : Int) : Int :=
  (x + 2 ^ 31) % 2 ^ 32 - 2 ^ 31

/-- Outcome of a `Combine` call: the receiver and the `int& combinationCount` argument as the
call leaves them, and the exception thrown, if any. -/
structure CombineResult (α : Type) where
  snapPoint : α
  combinationCount : Int
  thrown : Option hresult_error
deriving DecidableEq

namespace ScrollSnapPoint

/-- Method `ScrollSnapPoint::Combine`; `try_as<winrt::ScrollSnapPoint>` succeeds exactly on a
`ScrollSnapPoint`. -/
def Combine (p : ScrollSnapPoint) (combinationCount : Int) (snapPoint : SnapPointBase) :
    CombineResult ScrollSnapPoint :=
  match snapPoint with
  | SnapPointBase.scroll snapPointAsIrregular =>
      { snapPoint :=
          { p with
            m_specifiedApplicableRange :=
              Dbl.std_max snapPointAsIrregular.m_specifiedApplicableRange
                p.m_specifiedApplicableRange }
        combinationCount := int_wrap (combinationCount + 1)
        thrown := none }
  | _ =>
      { snapPoint := p
        combinationCount := combinationCount
        thrown := some hresult_error.E_INVALIDARG }

end ScrollSnapPoint

namespace ZoomSnapPoint

/-- Method `ZoomSnapPoint::Combine`; `try_as<winrt::ZoomSnapPoint>` succeeds exactly on a
`ZoomSnapPoint`. -/
def Combine (p : ZoomSnapPoint) (combinationCount : Int) (snapPoint : SnapPointBase) :
    CombineResult ZoomSnapPoint :=
  match snapPoint with
  | SnapPointBase.zoom snapPointAsIrregular =>
      { snapPoint :=
          { p with
            m_specifiedApplicableRange :=
              Dbl.std_max snapPointAsIrregular.m_specifiedApplicableRange
                p.m_specifiedApplicableRange }
        combinationCount := int_wrap (combinationCount + 1)
        thrown := none }
  | _ =>
      { snapPoint := p
        combinationCount := combinationCount
        thrown := some hresult_error.E_INVALIDARG }

end ZoomSnapPoint

namespace RepeatedScrollSnapPoint

/-- Method `RepeatedScrollSnapPoint::Combine`: always throws. -/
def Combine (p : RepeatedScrollSnapPoint) (combinationCount : Int) (_snapPoint : SnapPointBase) :
    CombineResult RepeatedScrollSnapPoint :=
  { snapPoint := p
    combinationCount := combinationCount
    thrown := some hresult_error.E_INVALIDARG }

end RepeatedScrollSnapPoint

namespace RepeatedZoomSnapPoint

/-- Method `RepeatedZoomSnapPoint::Combine`: always throws. -/
def Combine (p : RepeatedZoomSnapPoint) (combinationCount : Int) (_snapPoint : SnapPointBase) :
    CombineResult RepeatedZoomSnapPoint :=
  { snapPoint := p
    combinationCount := combinationCount
    thrown := some hresult_error.E_INVALIDARG }

end RepeatedZoomSnapPoint

namespace SnapPointBase

/-- Virtual method `SnapPointBase::Combine`. -/
def Combine (self : SnapPointBase) (combinationCount : Int) (snapPoint : SnapPointBase) :
    CombineResult SnapPointBase :=
  match self with
  | scroll p =>
      let r := p.Combine combinationCount snapPoint
      { snapPoint := scroll r.snapPoint, combinationCount := r.combinationCount,
        thrown := r.thrown }
  | repeatedScroll p =>
      let r := p.Combine combinationCount snapPoint
      { snapPoint := repeatedScroll r.snapPoint, combinationCount := r.combinationCount,
        thrown := r.thrown }
  | zoom p =>
      let r := p.Combine combinationCount snapPoint
      { snapPoint := zoom r.snapPoint, combinationCount := r.combinationCount,
        thrown := r.thrown }
  | repeatedZoom p =>
      let r := p.Combine combinationCount snapPoint
      { snapPoint := repeatedZoom r.snapPoint, combinationCount := r.combinationCount,
        thrown := r.thrown }

end SnapPointBase

/-! ## SnapPointWrapper -/

/-- State of a `SnapPointWrapper<T>`; the wrapped point is a `SnapPointBase` for both
instantiations of `T`. -/
structure SnapPointWrapper where
  m_snapPoint : SnapPointBase
  m_actualApplicableZone : Dbl × Dbl
  m_actualImpulseApplicableZone : Dbl × Dbl
  m_combinationCount : Int
  m_ignoredValue : Dbl
deriving DecidableEq

namespace SnapPointWrapper

/-- Method `SnapPointWrapper<T>::SnapPoint`. -/
def SnapPoint (w : SnapPointWrapper) : SnapPointBase :=
  w.m_snapPoint

/-- Method `SnapPointWrapper<T>::ActualApplicableZone`. -/
def ActualApplicableZone (w : SnapPointWrapper) : Dbl × Dbl :=
  w.m_actualApplicableZone

/-- Method `SnapPointWrapper<T>::CombinationCount`. -/
def CombinationCount (w : SnapPointWrapper) : Int :=
  w.m_combinationCount

/-- Method `SnapPointWrapper<T>::Combine`: the wrapper after the call and the exception thrown,
if any. -/
def Combine (w : SnapPointWrapper) (snapPointWrapper : SnapPointWrapper) :
    SnapPointWrapper × Option hresult_error :=
  let r := w.m_snapPoint.Combine w.m_combinationCount snapPointWrapper.SnapPoint
  ({ w with m_snapPoint := r.snapPoint, m_combinationCount := r.combinationCount }, r.thrown)

/-- Method `SnapPointWrapper<T>::Evaluate`. -/
def Evaluate (w : SnapPointWrapper) (value : Dbl) : Dbl :=
  w.m_snapPoint.Evaluate w.m_actualApplicableZone value

end SnapPointWrapper

/-! ## ImpulseInfluence and the impulse zone resolver -/

namespace ScrollSnapPoint

/-- Method `ScrollSnapPoint::ImpulseInfluence`. -/
def ImpulseInfluence (p : ScrollSnapPoint) (edgeOfMidpoint ignoredValue : Dbl) : Dbl :=
  let actualValue := p.ActualValue
  let midPoint := (actualValue + edgeOfMidpoint) / Dbl.fin 2
  if ignoredValue.isnan then
    midPoint
  else
    if actualValue ≤ edgeOfMidpoint then
      Dbl.std_min actualValue midPoint
    else
      Dbl.std_max actualValue midPoint

end ScrollSnapPoint

namespace ZoomSnapPoint

/-- Method `ZoomSnapPoint::ImpulseInfluence`. -/
def ImpulseInfluence (p : ZoomSnapPoint) (edgeOfMidpoint ignoredValue : Dbl) : Dbl :=
  let midPoint := (p.m_value + edgeOfMidpoint) / Dbl.fin 2
  if ignoredValue.isnan then
    midPoint
  else
    if p.m_value ≤ edgeOfMidpoint then
      Dbl.std_min p.m_value midPoint
    else
      Dbl.std_max p.m_value midPoint

end ZoomSnapPoint

namespace RepeatedScrollSnapPoint

/-- Method `RepeatedScrollSnapPoint::ActualImpulseIgnoredValue`. -/
def ActualImpulseIgnoredValue (p : RepeatedScrollSnapPoint) (impulseIgnoredValue : Dbl) : Dbl :=
  impulseIgnoredValue + p.m_alignmentAdjustment

/-- Method `RepeatedScrollSnapPoint::ImpulseInfluence`.  The last branch is
`MUX_ASSERT(false); return 0.0;`: the value is the one a build without assertions returns. -/
def ImpulseInfluence (p : RepeatedScrollSnapPoint) (edgeOfMidpoint ignoredValue : Dbl) : Dbl :=
  if edgeOfMidpoint ≤ p.ActualStart then
    if Dbl.beq ignoredValue p.DetermineFirstRepeatedSnapPointValue then
      ignoredValue
    else
      p.ActualStart
  else if edgeOfMidpoint ≥ p.ActualEnd then
    if Dbl.beq ignoredValue p.DetermineLastRepeatedSnapPointValue then
      ignoredValue
    else
      p.ActualEnd
  else
    Dbl.fin 0

end RepeatedScrollSnapPoint

namespace RepeatedZoomSnapPoint

/-- Method `RepeatedZoomSnapPoint::ImpulseInfluence`.  The last branch is
`MUX_ASSERT(false); return 0.0;`. -/
def ImpulseInfluence (p : RepeatedZoomSnapPoint) (edgeOfMidpoint ignoredValue : Dbl) : Dbl :=
  if edgeOfMidpoint ≤ p.m_start then
    if Dbl.beq ignoredValue p.DetermineFirstRepeatedSnapPointValue then
      ignoredValue
    else
      p.m_start
  else if edgeOfMidpoint ≥ p.m_end then
    if Dbl.beq ignoredValue p.DetermineLastRepeatedSnapPointValue then
      ignoredValue
    else
      p.m_end
  else
    Dbl.fin 0

end RepeatedZoomSnapPoint

namespace SnapPointBase

/-- Virtual method `SnapPointBase::ImpulseInfluence`. -/
def ImpulseInfluence : SnapPointBase → Dbl → Dbl → Dbl
  | scroll p, edgeOfMidpoint, ignoredValue => p.ImpulseInfluence edgeOfMidpoint ignoredValue
  | repeatedScroll p, edgeOfMidpoint, ignoredValue =>
      p.ImpulseInfluence edgeOfMidpoint ignoredValue
  | zoom p, edgeOfMidpoint, ignoredValue => p.ImpulseInfluence edgeOfMidpoint ignoredValue
  | repeatedZoom p, edgeOfMidpoint, ignoredValue =>
      p.ImpulseInfluence edgeOfMidpoint ignoredValue

end SnapPointBase

namespace ScrollSnapPoint

/-- Method `ScrollSnapPoint::DetermineMinActualImpulseApplicableZone`. -/
def DetermineMinActualImpulseApplicableZone (p : ScrollSnapPoint)
    (previousSnapPoint : Option SnapPointBase) (currentIgnoredValue previousIgnoredValue : Dbl) :
    Dbl :=
  match previousSnapPoint with
  | none => -Dbl.INFINITY
  | some previousSnapPoint =>
      let previousMaxInfluence :=
        previousSnapPoint.ImpulseInfluence p.ActualValue previousIgnoredValue
      if currentIgnoredValue.isnan then
        previousMaxInfluence
      else
        Dbl.std_max previousMaxInfluence p.ActualValue

/-- Method `ScrollSnapPoint::DetermineMaxActualImpulseApplicableZone`. -/
def DetermineMaxActualImpulseApplicableZone (p : ScrollSnapPoint)
    (nextSnapPoint : Option SnapPointBase) (currentIgnoredValue nextIgnoredValue : Dbl) : Dbl :=
  match nextSnapPoint with
  | none => Dbl.INFINITY
  | some nextSnapPoint =>
      let nextMinInfluence := nextSnapPoint.ImpulseInfluence p.ActualValue nextIgnoredValue
      if currentIgnoredValue.isnan then
        nextMinInfluence
      else
        Dbl.std_min p.ActualValue nextMinInfluence

/-- Method `ScrollSnapPoint::DetermineActualImpulseApplicableZone`. -/
def DetermineActualImpulseApplicableZone (p : ScrollSnapPoint)
    (previousSnapPoint nextSnapPoint : Option SnapPointBase)
    (currentIgnoredValue previousIgnoredValue nextIgnoredValue : Dbl) : Dbl × Dbl :=
  (p.DetermineMinActualImpulseApplicableZone previousSnapPoint currentIgnoredValue
      previousIgnoredValue,
    p.DetermineMaxActualImpulseApplicableZone nextSnapPoint currentIgnoredValue nextIgnoredValue)

end ScrollSnapPoint

namespace ZoomSnapPoint

/-- Method `ZoomSnapPoint::DetermineMinActualImpulseApplicableZone`. -/
def DetermineMinActualImpulseApplicableZone (p : ZoomSnapPoint)
    (previousSnapPoint : Option SnapPointBase) (currentIgnoredValue previousIgnoredValue : Dbl) :
    Dbl :=
  match previousSnapPoint with
  | none => -Dbl.INFINITY
  | some previousSnapPoint =>
      let previousMaxInfluence := previousSnapPoint.ImpulseInfluence p.m_value previousIgnoredValue
      if currentIgnoredValue.isnan then
        previousMaxInfluence
      else
        Dbl.std_max previousMaxInfluence p.m_value

/-- Method `ZoomSnapPoint::DetermineMaxActualImpulseApplicableZone`. -/
def DetermineMaxActualImpulseApplicableZone (p : ZoomSnapPoint)
    (nextSnapPoint : Option SnapPointBase) (currentIgnoredValue nextIgnoredValue : Dbl) : Dbl :=
  match nextSnapPoint with
  | none => Dbl.INFINITY
  | some nextSnapPoint =>
      let nextMinInfluence := nextSnapPoint.ImpulseInfluence p.m_value nextIgnoredValue
      if currentIgnoredValue.isnan then
        nextMinInfluence
      else
        Dbl.std_min p.m_value nextMinInfluence

/-- Method `ZoomSnapPoint::DetermineActualImpulseApplicableZone`. -/
def DetermineActualImpulseApplicableZone (p : ZoomSnapPoint)
    (previousSnapPoint nextSnapPoint : Option SnapPointBase)
    (currentIgnoredValue previousIgnoredValue nextIgnoredValue : Dbl) : Dbl × Dbl :=
  (p.DetermineMinActualImpulseApplicableZone previousSnapPoint currentIgnoredValue
      previousIgnoredValue,
    p.DetermineMaxActualImpulseApplicableZone nextSnapPoint currentIgnoredValue nextIgnoredValue)

end ZoomSnapPoint

namespace RepeatedScrollSnapPoint

/-- Method `RepeatedScrollSnapPoint::DetermineMinActualImpulseApplicableZone`. -/
def DetermineMinActualImpulseApplicableZone (p : RepeatedScrollSnapPoint)
    (previousSnapPoint : Option SnapPointBase) (currentIgnoredValue previousIgnoredValue : Dbl) :
    Dbl :=
  match previousSnapPoint with
  | some previousSnapPoint =>
      if Dbl.beq currentIgnoredValue p.DetermineFirstRepeatedSnapPointValue then
        currentIgnoredValue
      else if !previousIgnoredValue.isnan then
        previousSnapPoint.ImpulseInfluence p.ActualStart previousIgnoredValue
      else
        p.ActualStart
  | none => p.ActualStart

/-- Method `RepeatedScrollSnapPoint::DetermineMaxActualImpulseApplicableZone`. -/
def DetermineMaxActualImpulseApplicableZone (p : RepeatedScrollSnapPoint)
    (nextSnapPoint : Option SnapPointBase) (currentIgnoredValue nextIgnoredValue : Dbl) : Dbl :=
  match nextSnapPoint with
  | some nextSnapPoint =>
      if Dbl.beq currentIgnoredValue p.DetermineLastRepeatedSnapPointValue then
        currentIgnoredValue
      else if !nextIgnoredValue.isnan then
        nextSnapPoint.ImpulseInfluence p.ActualEnd nextIgnoredValue
      else
        p.ActualEnd
  | none => p.ActualEnd

/-- Method `RepeatedScrollSnapPoint::DetermineActualImpulseApplicableZone`. -/
def DetermineActualImpulseApplicableZone (p : RepeatedScrollSnapPoint)
    (previousSnapPoint nextSnapPoint : Option SnapPointBase)
    (currentIgnoredValue previousIgnoredValue nextIgnoredValue : Dbl) : Dbl × Dbl :=
  (p.DetermineMinActualImpulseApplicableZone previousSnapPoint currentIgnoredValue
      previousIgnoredValue,
    p.DetermineMaxActualImpulseApplicableZone nextSnapPoint currentIgnoredValue nextIgnoredValue)

end RepeatedScrollSnapPoint

namespace RepeatedZoomSnapPoint

/-- Method `RepeatedZoomSnapPoint::DetermineMinActualImpulseApplicableZone`. -/
def DetermineMinActualImpulseApplicableZone (p : RepeatedZoomSnapPoint)
    (previousSnapPoint : Option SnapPointBase) (currentIgnoredValue previousIgnoredValue : Dbl) :
    Dbl :=
  match previousSnapPoint with
  | some previousSnapPoint =>
      if Dbl.beq currentIgnoredValue p.DetermineFirstRepeatedSnapPointValue then
        currentIgnoredValue
      else if !previousIgnoredValue.isnan then
        previousSnapPoint.ImpulseInfluence p.m_start previousIgnoredValue
      else
        p.m_start
  | none => p.m_start

/-- Method `RepeatedZoomSnapPoint::DetermineMaxActualImpulseApplicableZone`. -/
def DetermineMaxActualImpulseApplicableZone (p : RepeatedZoomSnapPoint)
    (nextSnapPoint : Option SnapPointBase) (currentIgnoredValue nextIgnoredValue : Dbl) : Dbl :=
  match nextSnapPoint with
  | some nextSnapPoint =>
      if Dbl.beq currentIgnoredValue p.DetermineLastRepeatedSnapPointValue then
        currentIgnoredValue
      else if !nextIgnoredValue.isnan then
        nextSnapPoint.ImpulseInfluence p.m_end nextIgnoredValue
      else
        p.m_end
  | none => p.m_end

/-- Method `RepeatedZoomSnapPoint::DetermineActualImpulseApplicableZone`. -/
def DetermineActualImpulseApplicableZone (p : RepeatedZoomSnapPoint)
    (previousSnapPoint nextSnapPoint : Option SnapPointBase)
    (currentIgnoredValue previousIgnoredValue nextIgnoredValue : Dbl) : Dbl × Dbl :=
  (p.DetermineMinActualImpulseApplicableZone previousSnapPoint currentIgnoredValue
      previousIgnoredValue,
    p.DetermineMaxActualImpulseApplicableZone nextSnapPoint currentIgnoredValue nextIgnoredValue)

end RepeatedZoomSnapPoint

namespace SnapPointBase

/-- Virtual method `SnapPointBase::DetermineActualImpulseApplicableZone`. -/
def DetermineActualImpulseApplicableZone :
    SnapPointBase → Option SnapPointBase → Option SnapPointBase → Dbl → Dbl → Dbl → Dbl × Dbl
  | scroll p, previousSnapPoint, nextSnapPoint, currentIgnoredValue, previousIgnoredValue,
      nextIgnoredValue =>
      p.DetermineActualImpulseApplicableZone previousSnapPoint nextSnapPoint currentIgnoredValue
        previousIgnoredValue nextIgnoredValue
  | repeatedScroll p, previousSnapPoint, nextSnapPoint, currentIgnoredValue,
      previousIgnoredValue, nextIgnoredValue =>
      p.DetermineActualImpulseApplicableZone previousSnapPoint nextSnapPoint currentIgnoredValue
        previousIgnoredValue nextIgnoredValue
  | zoom p, previousSnapPoint, nextSnapPoint, currentIgnoredValue, previousIgnoredValue,
      nextIgnoredValue =>
      p.DetermineActualImpulseApplicableZone previousSnapPoint nextSnapPoint currentIgnoredValue
        previousIgnoredValue nextIgnoredValue
  | repeatedZoom p, previousSnapPoint, nextSnapPoint, currentIgnoredValue,
      previousIgnoredValue, nextIgnoredValue =>
      p.DetermineActualImpulseApplicableZone previousSnapPoint nextSnapPoint currentIgnoredValue
        previousIgnoredValue nextIgnoredValue

end SnapPointBase

/-! ## OnUpdateViewport -/

namespace ScrollSnapPointBase

/-- Method `ScrollSnapPointBase::OnUpdateViewport`, on the two members it touches: the new
`m_alignmentAdjustment` and the value returned.  `MUX_ASSERT(m_alignmentAdjustment == 0.0)` of
the `Near` case has no effect in a build without assertions. -/
def OnUpdateViewport (m_alignment : ScrollSnapPointsAlignment) (m_alignmentAdjustment : Dbl)
    (newViewport : Dbl) : Dbl × Bool :=
  match m_alignment with
  | ScrollSnapPointsAlignment.Near => (m_alignmentAdjustment, false)
  | ScrollSnapPointsAlignment.Center => (-newViewport / Dbl.fin 2, true)
  | ScrollSnapPointsAlignment.Far => (-newViewport, true)

end ScrollSnapPointBase

namespace ZoomSnapPointBase

/-- Method `ZoomSnapPointBase::OnUpdateViewport`. -/
def OnUpdateViewport (_newViewport : Dbl) : Bool :=
  false

end ZoomSnapPointBase

namespace SnapPointBase

/-- Virtual method `SnapPointBase::OnUpdateViewport`: the point after the call and the value
returned. -/
def OnUpdateViewport : SnapPointBase → Dbl → SnapPointBase × Bool
  | scroll p, newViewport =>
      let r := ScrollSnapPointBase.OnUpdateViewport p.m_alignment p.m_alignmentAdjustment
        newViewport
      (scroll { p with m_alignmentAdjustment := r.1 }, r.2)
  | repeatedScroll p, newViewport =>
      let r := ScrollSnapPointBase.OnUpdateViewport p.m_alignment p.m_alignmentAdjustment
        newViewport
      (repeatedScroll { p with m_alignmentAdjustment := r.1 }, r.2)
  | zoom p, newViewport => (zoom p, ZoomSnapPointBase.OnUpdateViewport newViewport)
  | repeatedZoom p, newViewport =>
      (repeatedZoom p, ZoomSnapPointBase.OnUpdateViewport newViewport)

end SnapPointBase

/-! ## Constructors -/

namespace SnapPointBase

/-- Modelled from the spec: the member initialisers of `SnapPointBase` (class declaration
`ScrollerSnapPoint.h`) are missing from the sources. The applicable range is infinite by default
("mandatory"); `Combine` asserts `m_specifiedApplicableRange == INFINITY` for such a point. -/
def initial_specifiedApplicableRange : Dbl :=
  Dbl.INFINITY

/-- Modelled from the spec: the initial range type of a point, "mandatory"; the constructors
with an applicable range overwrite it with `Optional` (declaration missing from the sources). -/
def initial_applicableRangeType : SnapPointApplicableRangeType :=
  SnapPointApplicableRangeType.Mandatory

/-- Modelled from the spec: the initial alignment adjustment (declaration missing from the
sources), `0` until the viewport size is known; `OnUpdateViewport` asserts it for `Near`. -/
def initial_alignmentAdjustment : Dbl :=
  Dbl.fin 0

end SnapPointBase

namespace RepeatedScrollSnapPoint

/-- Method `RepeatedScrollSnapPoint::ValidateConstructorParameters`. -/
def ValidateConstructorParameters (applicableRangeToo : Bool)
    (applicableRange offset interval start end_ : Dbl) : Except hresult_error Unit :=
  if end_ ≤ start then
    Except.error (hresult_invalid_argument "'end' must be greater than 'start'.")
  else if offset < start then
    Except.error
      (hresult_invalid_argument "'offset' must be greater than or equal to 'start'.")
  else if offset > end_ then
    Except.error (hresult_invalid_argument "'offset' must be smaller than or equal to 'end'.")
  else if interval ≤ Dbl.fin 0 then
    Except.error (hresult_invalid_argument "'interval' must be strictly positive.")
  else if applicableRangeToo = true ∧ applicableRange ≤ Dbl.fin 0 then
    Except.error (hresult_invalid_argument "'applicableRange' must be strictly positive.")
  else
    Except.ok ()

/-- Constructor `RepeatedScrollSnapPoint::RepeatedScrollSnapPoint(offset, interval, start, end,
alignment)`, named `ctor` here since the class name denotes the structure; the `throw` of the
validation is the `Except.error` result, and no point exists then. -/
def ctor (offset interval start end_ : Dbl)
    (alignment : ScrollSnapPointsAlignment) : Except hresult_error RepeatedScrollSnapPoint :=
  match ValidateConstructorParameters false (Dbl.fin 0) offset interval start end_ with
  | Except.error err => Except.error err
  | Except.ok _ =>
      Except.ok
        { m_offset := offset
          m_interval := interval
          m_start := start
          m_end := end_
          m_alignment := alignment
          m_alignmentAdjustment := SnapPointBase.initial_alignmentAdjustment
          m_specifiedApplicableRange := SnapPointBase.initial_specifiedApplicableRange
          m_applicableRangeType := SnapPointBase.initial_applicableRangeType }

/-- Constructor `RepeatedScrollSnapPoint::RepeatedScrollSnapPoint(offset, interval, start, end,
applicableRange, alignment)`. -/
def ctor_applicableRange (offset interval start end_ applicableRange : Dbl)
    (alignment : ScrollSnapPointsAlignment) : Except hresult_error RepeatedScrollSnapPoint :=
  match ValidateConstructorParameters true applicableRange offset interval start end_ with
  | Except.error err => Except.error err
  | Except.ok _ =>
      Except.ok
        { m_offset := offset
          m_interval := interval
          m_start := start
          m_end := end_
          m_alignment := alignment
          m_alignmentAdjustment := SnapPointBase.initial_alignmentAdjustment
          m_specifiedApplicableRange := applicableRange
          m_applicableRangeType := SnapPointApplicableRangeType.Optional }

end RepeatedScrollSnapPoint

namespace RepeatedZoomSnapPoint

/-- Method `RepeatedZoomSnapPoint::ValidateConstructorParameters`. -/
def ValidateConstructorParameters (applicableRangeToo : Bool)
    (applicableRange offset interval start end_ : Dbl) : Except hresult_error Unit :=
  if end_ ≤ start then
    Except.error (hresult_invalid_argument "'end' must be greater than 'start'.")
  else if offset < start then
    Except.error
      (hresult_invalid_argument "'offset' must be greater than or equal to 'start'.")
  else if offset > end_ then
    Except.error (hresult_invalid_argument "'offset' must be smaller than or equal to 'end'.")
  else if interval ≤ Dbl.fin 0 then
    Except.error (hresult_invalid_argument "'interval' must be strictly positive.")
  else if applicableRangeToo = true ∧ applicableRange ≤ Dbl.fin 0 then
    Except.error (hresult_invalid_argument "'applicableRange' must be strictly positive.")
  else
    Except.ok ()

/-- Constructor `RepeatedZoomSnapPoint::RepeatedZoomSnapPoint(offset, interval, start, end)`,
named `ctor` here since the class name denotes the structure. -/
def ctor (offset interval start end_ : Dbl) :
    Except hresult_error RepeatedZoomSnapPoint :=
  match ValidateConstructorParameters false (Dbl.fin 0) offset interval start end_ with
  | Except.error err => Except.error err
  | Except.ok _ =>
      Except.ok
        { m_offset := offset
          m_interval := interval
          m_start := start
          m_end := end_
          m_specifiedApplicableRange := SnapPointBase.initial_specifiedApplicableRange
          m_applicableRangeType := SnapPointBase.initial_applicableRangeType }

/-- Constructor `RepeatedZoomSnapPoint::RepeatedZoomSnapPoint(offset, interval, start, end,
applicableRange)`. -/
def ctor_applicableRange (offset interval start end_ applicableRange : Dbl) :
    Except hresult_error RepeatedZoomSnapPoint :=
  match ValidateConstructorParameters true applicableRange offset interval start end_ with
  | Except.error err => Except.error err
  | Except.ok _ =>
      Except.ok
        { m_offset := offset
          m_interval := interval
          m_start := start
          m_end := end_
          m_specifiedApplicableRange := applicableRange
          m_applicableRangeType := SnapPointApplicableRangeType.Optional }

end RepeatedZoomSnapPoint

/-! ## SnapPointWrapper: zone recomputation -/

namespace SnapPointWrapper

/-- Function `SnapPointWrapper<T>::GetSnapPointFromWrapper`: `nullptr` for a null wrapper. -/
def GetSnapPointFromWrapper (snapPointWrapper : Option SnapPointWrapper) :
    Option SnapPointBase :=
  match snapPointWrapper with
  | some w => some w.SnapPoint
  | none => none

/-- Method `SnapPointWrapper<T>::DetermineActualApplicableZone`: the wrapper after the call, or
the exception the regular resolver throws; the throw precedes every assignment, so the wrapper
is then as it was. -/
def DetermineActualApplicableZone (s_equalityEpsilon : Dbl) (w : SnapPointWrapper)
    (previousSnapPointWrapper nextSnapPointWrapper : Option SnapPointWrapper)
    (forImpulseOnly : Bool) : Except hresult_error SnapPointWrapper :=
  let snapPoint := w.SnapPoint
  let previousSnapPoint := GetSnapPointFromWrapper previousSnapPointWrapper
  let nextSnapPoint := GetSnapPointFromWrapper nextSnapPointWrapper
  let previousIgnoredValue :=
    match previousSnapPointWrapper with
    | some pw => pw.m_ignoredValue
    | none => Dbl.NAN
  let nextIgnoredValue :=
    match nextSnapPointWrapper with
    | some nw => nw.m_ignoredValue
    | none => Dbl.NAN
  let regular : Except hresult_error SnapPointWrapper :=
    if !forImpulseOnly then
      match snapPoint.DetermineActualApplicableZone s_equalityEpsilon previousSnapPoint
          nextSnapPoint with
      | Except.error err => Except.error err
      | Except.ok zone => Except.ok { w with m_actualApplicableZone := zone }
    else
      Except.ok w
  match regular with
  | Except.error err => Except.error err
  | Except.ok w1 =>
      Except.ok
        { w1 with
          m_actualImpulseApplicableZone :=
            snapPoint.DetermineActualImpulseApplicableZone previousSnapPoint nextSnapPoint
              w.m_ignoredValue previousIgnoredValue nextIgnoredValue }

end SnapPointWrapper

/-! ## SnapPointWrapper: the ignored value -/

namespace SnapPointWrapper

/-- Method `SnapPointWrapper<T>::ResetIgnoredValue`: the wrapper after the call and the value
returned. -/
def ResetIgnoredValue (w : SnapPointWrapper) : SnapPointWrapper × Bool :=
  if !w.m_ignoredValue.isnan then
    ({ w with m_ignoredValue := Dbl.NAN }, true)
  else
    (w, false)

/-- Method `SnapPointWrapper<T>::SetIgnoredValue`: the wrapper after the call.
`MUX_ASSERT(!isnan(ignoredValue))` has no effect. -/
def SetIgnoredValue (w : SnapPointWrapper) (ignoredValue : Dbl) : SnapPointWrapper :=
  { w with m_ignoredValue := ignoredValue }

end SnapPointWrapper

/-! ## SnapPointWrapper: zone recomputation on wrappers held by address

The method receives its neighbours as pointers.  Here the wrappers live in a store indexed by
address; the call reads the neighbours at their addresses and assigns the receiver in place. -/

namespace SnapPointWrapper

/-- The call `this->DetermineActualApplicableZone(previous, next, forImpulseOnly)` on a store
of wrappers, `this`, `previous` and `next` being addresses (`none` for `nullptr`): the store
after the call and the exception thrown, if any.  The method assigns members of `*this` only;
a throw of the regular resolver precedes every assignment. -/
def DetermineActualApplicableZone_inPlace (s_equalityEpsilon : Dbl)
    (store : Nat → SnapPointWrapper) (this : Nat) (previousSnapPointWrapper : Option Nat)
    (nextSnapPointWrapper : Option Nat) (forImpulseOnly : Bool) :
    (Nat → SnapPointWrapper) × Option hresult_error :=
  match (store this).DetermineActualApplicableZone s_equalityEpsilon
      (previousSnapPointWrapper.map store) (nextSnapPointWrapper.map store) forImpulseOnly with
  | Except.error err => (store, some err)
  | Except.ok w => (Function.update store this w, none)

end SnapPointWrapper

/-! ## ImpulseInfluence and the impulse zone resolver with the assertion visible

The functions of the impulse zone resolver once more, with the branch `MUX_ASSERT(false)` of
the repeated kinds' `ImpulseInfluence` as the result `none`; every other step is the one of the
function without the suffix. -/

namespace RepeatedScrollSnapPoint

/-- Method `RepeatedScrollSnapPoint::ImpulseInfluence`; `none` when the call reaches
`MUX_ASSERT(false)`. -/
def ImpulseInfluence_withAssert (p : RepeatedScrollSnapPoint)
    (edgeOfMidpoint ignoredValue : Dbl) : Option Dbl :=
  if edgeOfMidpoint ≤ p.ActualStart then
    if Dbl.beq ignoredValue p.DetermineFirstRepeatedSnapPointValue then
      some ignoredValue
    else
      some p.ActualStart
  else if edgeOfMidpoint ≥ p.ActualEnd then
    if Dbl.beq ignoredValue p.DetermineLastRepeatedSnapPointValue then
      some ignoredValue
    else
      some p.ActualEnd
  else
    none

end RepeatedScrollSnapPoint

namespace RepeatedZoomSnapPoint

/-- Method `RepeatedZoomSnapPoint::ImpulseInfluence`; `none` when the call reaches
`MUX_ASSERT(false)`. -/
def ImpulseInfluence_withAssert (p : RepeatedZoomSnapPoint)
    (edgeOfMidpoint ignoredValue : Dbl) : Option Dbl :=
  if edgeOfMidpoint ≤ p.m_start then
    if Dbl.beq ignoredValue p.DetermineFirstRepeatedSnapPointValue then
      some ignoredValue
    else
      some p.m_start
  else if edgeOfMidpoint ≥ p.m_end then
    if Dbl.beq ignoredValue p.DetermineLastRepeatedSnapPointValue then
      some ignoredValue
    else
      some p.m_end
  else
    none

end RepeatedZoomSnapPoint

namespace SnapPointBase

/-- Virtual method `SnapPointBase::ImpulseInfluence`; `none` when the call reaches
`MUX_ASSERT(false)`, which only the repeated kinds have. -/
def ImpulseInfluence_withAssert : SnapPointBase → Dbl → Dbl → Option Dbl
  | scroll p, edgeOfMidpoint, ignoredValue => some (p.ImpulseInfluence edgeOfMidpoint ignoredValue)
  | repeatedScroll p, edgeOfMidpoint, ignoredValue =>
      p.ImpulseInfluence_withAssert edgeOfMidpoint ignoredValue
  | zoom p, edgeOfMidpoint, ignoredValue => some (p.ImpulseInfluence edgeOfMidpoint ignoredValue)
  | repeatedZoom p, edgeOfMidpoint, ignoredValue =>
      p.ImpulseInfluence_withAssert edgeOfMidpoint ignoredValue

end SnapPointBase

namespace ScrollSnapPoint

/-- Method `ScrollSnapPoint::DetermineMinActualImpulseApplicableZone`; `none` when a call of
`ImpulseInfluence` reaches `MUX_ASSERT(false)`. -/
def DetermineMinActualImpulseApplicableZone_withAssert (p : ScrollSnapPoint)
    (previousSnapPoint : Option SnapPointBase) (currentIgnoredValue previousIgnoredValue : Dbl) :
    Option Dbl :=
  match previousSnapPoint with
  | none => some (-Dbl.INFINITY)
  | some previousSnapPoint =>
      match previousSnapPoint.ImpulseInfluence_withAssert p.ActualValue previousIgnoredValue with
      | none => none
      | some previousMaxInfluence =>
          if currentIgnoredValue.isnan then
            some previousMaxInfluence
          else
            some (Dbl.std_max previousMaxInfluence p.ActualValue)

/-- Method `ScrollSnapPoint::DetermineMaxActualImpulseApplicableZone`; `none` when a call of
`ImpulseInfluence` reaches `MUX_ASSERT(false)`. -/
def DetermineMaxActualImpulseApplicableZone_withAssert (p : ScrollSnapPoint)
    (nextSnapPoint : Option SnapPointBase) (currentIgnoredValue nextIgnoredValue : Dbl) :
    Option Dbl :=
  match nextSnapPoint with
  | none => some Dbl.INFINITY
  | some nextSnapPoint =>
      match nextSnapPoint.ImpulseInfluence_withAssert p.ActualValue nextIgnoredValue with
      | none => none
      | some nextMinInfluence =>
          if currentIgnoredValue.isnan then
            some nextMinInfluence
          else
            some (Dbl.std_min p.ActualValue nextMinInfluence)

/-- Method `ScrollSnapPoint::DetermineActualImpulseApplicableZone`; `none` when a call of
`ImpulseInfluence` reaches `MUX_ASSERT(false)`. -/
def DetermineActualImpulseApplicableZone_withAssert (p : ScrollSnapPoint)
    (previousSnapPoint nextSnapPoint : Option SnapPointBase)
    (currentIgnoredValue previousIgnoredValue nextIgnoredValue : Dbl) : Option (Dbl × Dbl) :=
  match p.DetermineMinActualImpulseApplicableZone_withAssert previousSnapPoint currentIgnoredValue
      previousIgnoredValue with
  | none => none
  | some min =>
      match p.DetermineMaxActualImpulseApplicableZone_withAssert nextSnapPoint
          currentIgnoredValue nextIgnoredValue with
      | none => none
      | some max => some (min, max)

end ScrollSnapPoint

namespace ZoomSnapPoint

/-- Method `ZoomSnapPoint::DetermineMinActualImpulseApplicableZone`; `none` when a call of
`ImpulseInfluence` reaches `MUX_ASSERT(false)`. -/
def DetermineMinActualImpulseApplicableZone_withAssert (p : ZoomSnapPoint)
    (previousSnapPoint : Option SnapPointBase) (currentIgnoredValue previousIgnoredValue : Dbl) :
    Option Dbl :=
  match previousSnapPoint with
  | none => some (-Dbl.INFINITY)
  | some previousSnapPoint =>
      match previousSnapPoint.ImpulseInfluence_withAssert p.m_value previousIgnoredValue with
      | none => none
      | some previousMaxInfluence =>
          if currentIgnoredValue.isnan then
            some previousMaxInfluence
          else
            some (Dbl.std_max previousMaxInfluence p.m_value)

/-- Method `ZoomSnapPoint::DetermineMaxActualImpulseApplicableZone`; `none` when a call of
`ImpulseInfluence` reaches `MUX_ASSERT(false)`. -/
def DetermineMaxActualImpulseApplicableZone_withAssert (p : ZoomSnapPoint)
    (nextSnapPoint : Option SnapPointBase) (currentIgnoredValue nextIgnoredValue : Dbl) :
    Option Dbl :=
  match nextSnapPoint with
  | none => some Dbl.INFINITY
  | some nextSnapPoint =>
      match nextSnapPoint.ImpulseInfluence_withAssert p.m_value nextIgnoredValue with
      | none => none
      | some nextMinInfluence =>
          if currentIgnoredValue.isnan then
            some nextMinInfluence
          else
            some (Dbl.std_min p.m_value nextMinInfluence)

/-- Method `ZoomSnapPoint::DetermineActualImpulseApplicableZone`; `none` when a call of
`ImpulseInfluence` reaches `MUX_ASSERT(false)`. -/
def DetermineActualImpulseApplicableZone_withAssert (p : ZoomSnapPoint)
    (previousSnapPoint nextSnapPoint : Option SnapPointBase)
    (currentIgnoredValue previousIgnoredValue nextIgnoredValue : Dbl) : Option (Dbl × Dbl) :=
  match p.DetermineMinActualImpulseApplicableZone_withAssert previousSnapPoint currentIgnoredValue
      previousIgnoredValue with
  | none => none
  | some min =>
      match p.DetermineMaxActualImpulseApplicableZone_withAssert nextSnapPoint
          currentIgnoredValue nextIgnoredValue with
      | none => none
      | some max => some (min, max)

end ZoomSnapPoint

namespace RepeatedScrollSnapPoint

/-- Method `RepeatedScrollSnapPoint::DetermineMinActualImpulseApplicableZone`; `none` when a
call of `ImpulseInfluence` reaches `MUX_ASSERT(false)`. -/
def DetermineMinActualImpulseApplicableZone_withAssert (p : RepeatedScrollSnapPoint)
    (previousSnapPoint : Option SnapPointBase) (currentIgnoredValue previousIgnoredValue : Dbl) :
    Option Dbl :=
  match previousSnapPoint with
  | some previousSnapPoint =>
      if Dbl.beq currentIgnoredValue p.DetermineFirstRepeatedSnapPointValue then
        some currentIgnoredValue
      else if !previousIgnoredValue.isnan then
        previousSnapPoint.ImpulseInfluence_withAssert p.ActualStart previousIgnoredValue
      else
        some p.ActualStart
  | none => some p.ActualStart

/-- Method `RepeatedScrollSnapPoint::DetermineMaxActualImpulseApplicableZone`; `none` when a
call of `ImpulseInfluence` reaches `MUX_ASSERT(false)`. -/
def DetermineMaxActualImpulseApplicableZone_withAssert (p : RepeatedScrollSnapPoint)
    (nextSnapPoint : Option SnapPointBase) (currentIgnoredValue nextIgnoredValue : Dbl) :
    Option Dbl :=
  match nextSnapPoint with
  | some nextSnapPoint =>
      if Dbl.beq currentIgnoredValue p.DetermineLastRepeatedSnapPointValue then
        some currentIgnoredValue
      else if !nextIgnoredValue.isnan then
        nextSnapPoint.ImpulseInfluence_withAssert p.ActualEnd nextIgnoredValue
      else
        some p.ActualEnd
  | none => some p.ActualEnd

/-- Method `RepeatedScrollSnapPoint::DetermineActualImpulseApplicableZone`; `none` when a call
of `ImpulseInfluence` reaches `MUX_ASSERT(false)`. -/
def DetermineActualImpulseApplicableZone_withAssert (p : RepeatedScrollSnapPoint)
    (previousSnapPoint nextSnapPoint : Option SnapPointBase)
    (currentIgnoredValue previousIgnoredValue nextIgnoredValue : Dbl) : Option (Dbl × Dbl) :=
  match p.DetermineMinActualImpulseApplicableZone_withAssert previousSnapPoint currentIgnoredValue
      previousIgnoredValue with
  | none => none
  | some min =>
      match p.DetermineMaxActualImpulseApplicableZone_withAssert nextSnapPoint
          currentIgnoredValue nextIgnoredValue with
      | none => none
      | some max => some (min, max)

end RepeatedScrollSnapPoint

namespace RepeatedZoomSnapPoint

/-- Method `RepeatedZoomSnapPoint::DetermineMinActualImpulseApplicableZone`; `none` when a call
of `ImpulseInfluence` reaches `MUX_ASSERT(false)`. -/
def DetermineMinActualImpulseApplicableZone_withAssert (p : RepeatedZoomSnapPoint)
    (previousSnapPoint : Option SnapPointBase) (currentIgnoredValue previousIgnoredValue : Dbl) :
    Option Dbl :=
  match previousSnapPoint with
  | some previousSnapPoint =>
      if Dbl.beq currentIgnoredValue p.DetermineFirstRepeatedSnapPointValue then
        some currentIgnoredValue
      else if !previousIgnoredValue.isnan then
        previousSnapPoint.ImpulseInfluence_withAssert p.m_start previousIgnoredValue
      else
        some p.m_start
  | none => some p.m_start

/-- Method `RepeatedZoomSnapPoint::DetermineMaxActualImpulseApplicableZone`; `none` when a call
of `ImpulseInfluence` reaches `MUX_ASSERT(false)`. -/
def DetermineMaxActualImpulseApplicableZone_withAssert (p : RepeatedZoomSnapPoint)
    (nextSnapPoint : Option SnapPointBase) (currentIgnoredValue nextIgnoredValue : Dbl) :
    Option Dbl :=
  match nextSnapPoint with
  | some nextSnapPoint =>
      if Dbl.beq currentIgnoredValue p.DetermineLastRepeatedSnapPointValue then
        some currentIgnoredValue
      else if !nextIgnoredValue.isnan then
        nextSnapPoint.ImpulseInfluence_withAssert p.m_end nextIgnoredValue
      else
        some p.m_end
  | none => some p.m_end

/-- Method `RepeatedZoomSnapPoint::DetermineActualImpulseApplicableZone`; `none` when a call of
`ImpulseInfluence` reaches `MUX_ASSERT(false)`. -/
def DetermineActualImpulseApplicableZone_withAssert (p : RepeatedZoomSnapPoint)
    (previousSnapPoint nextSnapPoint : Option SnapPointBase)
    (currentIgnoredValue previousIgnoredValue nextIgnoredValue : Dbl) : Option (Dbl × Dbl) :=
  match p.DetermineMinActualImpulseApplicableZone_withAssert previousSnapPoint currentIgnoredValue
      previousIgnoredValue with
  | none => none
  | some min =>
      match p.DetermineMaxActualImpulseApplicableZone_withAssert nextSnapPoint
          currentIgnoredValue nextIgnoredValue with
      | none => none
      | some max => some (min, max)

end RepeatedZoomSnapPoint

namespace SnapPointBase

/-- Virtual method `SnapPointBase::DetermineActualImpulseApplicableZone`; `none` when a call of
`ImpulseInfluence` reaches `MUX_ASSERT(false)`. -/
def DetermineActualImpulseApplicableZone_withAssert :
    SnapPointBase → Option SnapPointBase → Option SnapPointBase → Dbl → Dbl → Dbl →
      Option (Dbl × Dbl)
  | scroll p, previousSnapPoint, nextSnapPoint, currentIgnoredValue, previousIgnoredValue,
      nextIgnoredValue =>
      p.DetermineActualImpulseApplicableZone_withAssert previousSnapPoint nextSnapPoint
        currentIgnoredValue previousIgnoredValue nextIgnoredValue
  | repeatedScroll p, previousSnapPoint, nextSnapPoint, currentIgnoredValue,
      previousIgnoredValue, nextIgnoredValue =>
      p.DetermineActualImpulseApplicableZone_withAssert previousSnapPoint nextSnapPoint
        currentIgnoredValue previousIgnoredValue nextIgnoredValue
  | zoom p, previousSnapPoint, nextSnapPoint, currentIgnoredValue, previousIgnoredValue,
      nextIgnoredValue =>
      p.DetermineActualImpulseApplicableZone_withAssert previousSnapPoint nextSnapPoint
        currentIgnoredValue previousIgnoredValue nextIgnoredValue
  | repeatedZoom p, previousSnapPoint, nextSnapPoint, currentIgnoredValue,
      previousIgnoredValue, nextIgnoredValue =>
      p.DetermineActualImpulseApplicableZone_withAssert previousSnapPoint nextSnapPoint
        currentIgnoredValue previousIgnoredValue nextIgnoredValue

end SnapPointBase

/-! ## The resting-point expression of the repeated kinds

`CreateRestingPointExpression` hands a formula, as text, and the values of its named scalar
parameters to the animation system, which evaluates it on the interaction tracker's current
target and scale.  The animation is embedded as the function the animation system computes:
the formula read from the text, with `Abs`, `Floor`, `Ceil`, the comparisons and `?:` taken as
the operations of the same names on doubles. -/

namespace Dbl

/-- Function `Ceil` of the expression language. -/
def ceil : Dbl → Dbl
  | fin a => fin (⌈a⌉ : ℤ)
  | x => x

end Dbl

namespace RepeatedScrollSnapPoint

/-- The formula of `RepeatedScrollSnapPoint::CreateRestingPointExpression`, with the scalar
parameters `itv`, `end`, `fst`, `iEnd`, `iIgn` and the tracker properties `it.<target>`,
`it.Scale`, `it.IsInertiaFromImpulse` as arguments.  The text spells out `prevSnap`, `nextSnap`
and the effective end at every use; they are named once here. -/
def restingPointExpression (itv end_ fst iEnd iIgn : Dbl) (it_target it_Scale : Dbl)
    (it_IsInertiaFromImpulse : Bool) : Dbl :=
  let prevSnap := (Dbl.floor ((it_target / it_Scale - fst) / itv) * itv) + fst
  let nextSnap := (Dbl.ceil ((it_target / it_Scale - fst) / itv) * itv) + fst
  let effectiveEnd := if it_IsInertiaFromImpulse then iEnd else end_
  if Dbl.abs (it_target / it_Scale - prevSnap) ≥ Dbl.abs (it_target / it_Scale - nextSnap)
      ∧ nextSnap ≤ effectiveEnd then
    if it_IsInertiaFromImpulse then
      if Dbl.beq nextSnap iIgn then
        if Dbl.beq iIgn fst then fst * it_Scale else (iIgn - itv) * it_Scale
      else
        nextSnap * it_Scale
    else
      nextSnap * it_Scale
  else
    if it_IsInertiaFromImpulse then
      if Dbl.beq prevSnap iIgn then
        if iIgn + itv ≤ effectiveEnd then (iIgn + itv) * it_Scale else iIgn * it_Scale
      else
        prevSnap * it_Scale
    else
      prevSnap * it_Scale

/-- Method `RepeatedScrollSnapPoint::CreateRestingPointExpression` together with
`UpdateRestingPointExpressionAnimationForImpulse`: the animation, as the function of the
tracker's target, scale and impulse flag that it computes once its scalar parameters are set.
The parameters are set through `static_cast<float>`, the parameter `static_cast_float`. -/
def CreateRestingPointExpression (static_cast_float : Dbl → Dbl) (p : RepeatedScrollSnapPoint)
    (ignoredValue : Dbl) (actualImpulseApplicableZone : Dbl × Dbl)
    (it_target it_Scale : Dbl) (it_IsInertiaFromImpulse : Bool) : Dbl :=
  let itv := static_cast_float p.m_interval
  let end_ := static_cast_float p.ActualEnd
  let fst := static_cast_float p.DetermineFirstRepeatedSnapPointValue
  let iEnd := static_cast_float actualImpulseApplicableZone.2
  let iIgn := static_cast_float (p.ActualImpulseIgnoredValue ignoredValue)
  restingPointExpression itv end_ fst iEnd iIgn it_target it_Scale it_IsInertiaFromImpulse

end RepeatedScrollSnapPoint

namespace RepeatedZoomSnapPoint

/-- The formula of `RepeatedZoomSnapPoint::CreateRestingPointExpression` (no scale: "for zoom
snap points scale == 1.0"), with the scalar parameters `itv`, `end`, `fst`, `iEnd`, `iIgn` and
the tracker properties `it.<target>`, `it.IsInertiaFromImpulse` as arguments. -/
def restingPointExpression (itv end_ fst iEnd iIgn : Dbl) (it_target : Dbl)
    (it_IsInertiaFromImpulse : Bool) : Dbl :=
  let prevSnap := (Dbl.floor ((it_target - fst) / itv) * itv) + fst
  let nextSnap := (Dbl.ceil ((it_target - fst) / itv) * itv) + fst
  let effectiveEnd := if it_IsInertiaFromImpulse then iEnd else end_
  if Dbl.abs (it_target - prevSnap) ≥ Dbl.abs (it_target - nextSnap)
      ∧ nextSnap ≤ effectiveEnd then
    if it_IsInertiaFromImpulse then
      if Dbl.beq nextSnap iIgn then
        if Dbl.beq iIgn fst then fst else iIgn - itv
      else
        nextSnap
    else
      nextSnap
  else
    if it_IsInertiaFromImpulse then
      if Dbl.beq prevSnap iIgn then
        if iIgn + itv ≤ effectiveEnd then iIgn + itv else iIgn
      else
        prevSnap
    else
      prevSnap

/-- Method `RepeatedZoomSnapPoint::CreateRestingPointExpression` together with
`UpdateRestingPointExpressionAnimationForImpulse`: the animation, as the function of the
tracker's target and impulse flag that it computes once its scalar parameters are set. -/
def CreateRestingPointExpression (static_cast_float : Dbl → Dbl) (p : RepeatedZoomSnapPoint)
    (ignoredValue : Dbl) (actualImpulseApplicableZone : Dbl × Dbl)
    (it_target : Dbl) (it_IsInertiaFromImpulse : Bool) : Dbl :=
  let itv := static_cast_float p.m_interval
  let end_ := static_cast_float p.m_end
  let fst := static_cast_float p.DetermineFirstRepeatedSnapPointValue
  let iEnd := static_cast_float actualImpulseApplicableZone.2
  let iIgn := static_cast_float ignoredValue
  restingPointExpression itv end_ fst iEnd iIgn it_target it_IsInertiaFromImpulse

end RepeatedZoomSnapPoint

/-! ## Vocabulary used to state the properties -/

namespace SnapPointBase

/-- The actual value of a single (irregular) point: `ActualValue()` of a `ScrollSnapPoint`,
`m_value` of a `ZoomSnapPoint`; `none` for the repeated kinds. -/
def singleValue : SnapPointBase → Option Dbl
  | scroll p => some p.ActualValue
  | zoom p => some p.m_value
  | repeatedScroll _ => none
  | repeatedZoom _ => none

/-- The actual bounds of a repeated point: `(ActualStart(), ActualEnd())` of a
`RepeatedScrollSnapPoint`, `(m_start, m_end)` of a `RepeatedZoomSnapPoint`; `none` for the
single kinds. -/
def repeatedBounds : SnapPointBase → Option (Dbl × Dbl)
  | scroll _ => none
  | zoom _ => none
  | repeatedScroll p => some (p.ActualStart, p.ActualEnd)
  | repeatedZoom p => some (p.m_start, p.m_end)

end SnapPointBase

namespace ScrollerSnapPointSortPredicate

/-- Neither `primary` nor `secondary` is `nan`. -/
def noNaN (k : ScrollerSnapPointSortPredicate) : Bool :=
  !k.primary.isnan && !k.secondary.isnan

/-- The lexicographic order on sort keys `(primary, secondary, tertiary)`. -/
def lexLt (a b : ScrollerSnapPointSortPredicate) : Prop :=
  a.primary < b.primary ∨
    (a.primary = b.primary ∧
      (a.secondary < b.secondary ∨ (a.secondary = b.secondary ∧ a.tertiary < b.tertiary)))

end ScrollerSnapPointSortPredicate

namespace Dbl

/-- A finite number: neither `nan` nor an infinity. -/
def isFinite : Dbl → Bool
  | fin _ => true
  | _ => false

end Dbl

namespace ScrollerSnapPointSortPredicate

/-- Both `primary` and `secondary` are finite numbers. -/
def isFinite (k : ScrollerSnapPointSortPredicate) : Bool :=
  k.primary.isFinite && k.secondary.isFinite

end ScrollerSnapPointSortPredicate

namespace SnapPointBase

/-- For a repeated point: offset, interval, start, end (and the alignment adjustment of the
scroll kind) are finite numbers and the interval is positive.  Always true for a single
point. -/
def repeatedFinite : SnapPointBase → Bool
  | scroll _ => true
  | zoom _ => true
  | repeatedScroll p =>
      p.m_offset.isFinite && p.m_interval.isFinite && p.m_start.isFinite && p.m_end.isFinite
        && p.m_alignmentAdjustment.isFinite && decide (Dbl.fin 0 < p.m_interval)
  | repeatedZoom p =>
      p.m_offset.isFinite && p.m_interval.isFinite && p.m_start.isFinite && p.m_end.isFinite
        && decide (Dbl.fin 0 < p.m_interval)

end SnapPointBase

namespace SnapPointBase

/-- The alignment of a scroll point (`m_alignment`); `none` for the zoom kinds, which have no
alignment. -/
def alignment : SnapPointBase → Option ScrollSnapPointsAlignment
  | scroll p => some p.m_alignment
  | repeatedScroll p => some p.m_alignment
  | zoom _ => none
  | repeatedZoom _ => none

/-- The alignment adjustment of a scroll point (`m_alignmentAdjustment`); `none` for the zoom
kinds. -/
def alignmentAdjustment : SnapPointBase → Option Dbl
  | scroll p => some p.m_alignmentAdjustment
  | repeatedScroll p => some p.m_alignmentAdjustment
  | zoom _ => none
  | repeatedZoom _ => none

/-- The same point with another alignment adjustment; a zoom point is left as it is. -/
def setAlignmentAdjustment : SnapPointBase → Dbl → SnapPointBase
  | scroll p, adjustment => scroll { p with m_alignmentAdjustment := adjustment }
  | repeatedScroll p, adjustment =>
      repeatedScroll { p with m_alignmentAdjustment := adjustment }
  | zoom p, _ => zoom p
  | repeatedZoom p, _ => repeatedZoom p

/-- The point after a sequence of `OnUpdateViewport` calls, one per viewport size of the list,
in order. -/
def afterViewports (sp : SnapPointBase) (sizes : List Dbl) : SnapPointBase :=
  sizes.foldl (fun q size => (q.OnUpdateViewport size).1) sp

/-- The invariants of a repeated point: `end > start`, `start ≤ offset ≤ end` and
`interval > 0`.  Always true for a single point. -/
def repeatedValid : SnapPointBase → Bool
  | scroll _ => true
  | zoom _ => true
  | repeatedScroll p =>
      decide (p.m_end > p.m_start) && decide (p.m_start ≤ p.m_offset)
        && decide (p.m_offset ≤ p.m_end) && decide (p.m_interval > Dbl.fin 0)
  | repeatedZoom p =>
      decide (p.m_end > p.m_start) && decide (p.m_start ≤ p.m_offset)
        && decide (p.m_offset ≤ p.m_end) && decide (p.m_interval > Dbl.fin 0)

/-- The first and the last repeated position of a repeated point
(`DetermineFirstRepeatedSnapPointValue()`, `DetermineLastRepeatedSnapPointValue()`); `none` for
the single kinds. -/
def repeatedFirstLast : SnapPointBase → Option (Dbl × Dbl)
  | scroll _ => none
  | zoom _ => none
  | repeatedScroll p =>
      some (p.DetermineFirstRepeatedSnapPointValue, p.DetermineLastRepeatedSnapPointValue)
  | repeatedZoom p =>
      some (p.DetermineFirstRepeatedSnapPointValue, p.DetermineLastRepeatedSnapPointValue)

end SnapPointBase

namespace SnapPointWrapper

/-- What a zone recomputation may read of a neighbour: whether it is present, its snap point
and its ignored value; not its zones nor its combination count. -/
def neighbourState (neighbour : Option SnapPointWrapper) : Option (SnapPointBase × Dbl) :=
  match neighbour with
  | some w => some (w.m_snapPoint, w.m_ignoredValue)
  | none => none

end SnapPointWrapper

namespace SnapPointBase

/-- The actual offset and the interval of a repeated point: `(ActualOffset(), m_interval)` of a
`RepeatedScrollSnapPoint`, `(m_offset, m_interval)` of a `RepeatedZoomSnapPoint`; `none` for
the single kinds. -/
def repeatedOffsetInterval : SnapPointBase → Option (Dbl × Dbl)
  | scroll _ => none
  | zoom _ => none
  | repeatedScroll p => some (p.ActualOffset, p.m_interval)
  | repeatedZoom p => some (p.m_offset, p.m_interval)

end SnapPointBase

/-! ## Concrete points used in the scenarios -/

namespace Scenario

/-- A mandatory `ScrollSnapPoint` at `value` with `Near` alignment, as the two-argument
constructor leaves it: the adjustment keeps its initial `0` (asserted by `OnUpdateViewport`)
and the range its initial `INFINITY` (asserted by `Combine`). -/
def mandatoryScroll (value : ℚ) : ScrollSnapPoint :=
  { m_value := Dbl.fin value
    m_alignment := ScrollSnapPointsAlignment.Near
    m_alignmentAdjustment := Dbl.fin 0
    m_specifiedApplicableRange := Dbl.INFINITY
    m_applicableRangeType := SnapPointApplicableRangeType.Mandatory }

/-- An optional `ScrollSnapPoint` at `value` with applicable range `range`. -/
def optionalScroll (value range : ℚ) : ScrollSnapPoint :=
  { m_value := Dbl.fin value
    m_alignment := ScrollSnapPointsAlignment.Near
    m_alignmentAdjustment := Dbl.fin 0
    m_specifiedApplicableRange := Dbl.fin range
    m_applicableRangeType := SnapPointApplicableRangeType.Optional }

/-- The mandatory `RepeatedScrollSnapPoint` with `offset = 0`, `interval = 10`, `start = 0`,
`end = 100`. -/
def mandatoryRepeated : RepeatedScrollSnapPoint :=
  { m_offset := Dbl.fin 0
    m_interval := Dbl.fin 10
    m_start := Dbl.fin 0
    m_end := Dbl.fin 100
    m_alignment := ScrollSnapPointsAlignment.Near
    m_alignmentAdjustment := Dbl.fin 0
    m_specifiedApplicableRange := Dbl.INFINITY
    m_applicableRangeType := SnapPointApplicableRangeType.Mandatory }

/-- The optional `RepeatedScrollSnapPoint` with `offset = 0`, `interval = 10`, `start = 0`,
`end = 100` and `applicableRange = 3`. -/
def optionalRepeated : RepeatedScrollSnapPoint :=
  { m_offset := Dbl.fin 0
    m_interval := Dbl.fin 10
    m_start := Dbl.fin 0
    m_end := Dbl.fin 100
    m_alignment := ScrollSnapPointsAlignment.Near
    m_alignmentAdjustment := Dbl.fin 0
    m_specifiedApplicableRange := Dbl.fin 3
    m_applicableRangeType := SnapPointApplicableRangeType.Optional }

/-- A `RepeatedScrollSnapPoint` value with `start = end = 0`.  The constructor rejects it
(`end` must be greater than `start`); it only serves to exhibit a tie of primary and secondary
sort keys between a single and a repeated point. -/
def degenerateRepeated : RepeatedScrollSnapPoint :=
  { m_offset := Dbl.fin 0
    m_interval := Dbl.fin 10
    m_start := Dbl.fin 0
    m_end := Dbl.fin 0
    m_alignment := ScrollSnapPointsAlignment.Near
    m_alignmentAdjustment := Dbl.fin 0
    m_specifiedApplicableRange := Dbl.INFINITY
    m_applicableRangeType := SnapPointApplicableRangeType.Mandatory }

/-- The mandatory `RepeatedScrollSnapPoint` with `offset = 0`, `interval = 10`, `start = 0`,
`end = 96`: its last position inside the bounds is `90`. -/
def repeatedEnd96 : RepeatedScrollSnapPoint :=
  { m_offset := Dbl.fin 0
    m_interval := Dbl.fin 10
    m_start := Dbl.fin 0
    m_end := Dbl.fin 96
    m_alignment := ScrollSnapPointsAlignment.Near
    m_alignmentAdjustment := Dbl.fin 0
    m_specifiedApplicableRange := Dbl.INFINITY
    m_applicableRangeType := SnapPointApplicableRangeType.Mandatory }

/-- The mandatory `RepeatedScrollSnapPoint` with `offset = 6`, `interval = 10`, `start = 0`,
`end = 100`: its first position inside the bounds is `6`. -/
def repeatedOffset6 : RepeatedScrollSnapPoint :=
  { m_offset := Dbl.fin 6
    m_interval := Dbl.fin 10
    m_start := Dbl.fin 0
    m_end := Dbl.fin 100
    m_alignment := ScrollSnapPointsAlignment.Near
    m_alignmentAdjustment := Dbl.fin 0
    m_specifiedApplicableRange := Dbl.INFINITY
    m_applicableRangeType := SnapPointApplicableRangeType.Mandatory }

/-- Modelled from the spec: the member initialisers of `SnapPointWrapper<T>` (class declaration
`SnapPointWrapper.h`) are missing from the sources. A freshly wrapped point counts for one
declared point (combining two points yields combination count `2`), has no ignored value
(`NaN` = none) and zones that are not resolved yet (unbounded). -/
def freshWrapper (snapPoint : SnapPointBase) : SnapPointWrapper :=
  { m_snapPoint := snapPoint
    m_actualApplicableZone := (Dbl.ninf, Dbl.pinf)
    m_actualImpulseApplicableZone := (Dbl.ninf, Dbl.pinf)
    m_combinationCount := 1
    m_ignoredValue := Dbl.NAN }

end Scenario

/-! ## Definitions that follow the words of the specification -/

namespace Spec

/-- Specification of `Evaluate` for a repeated point and a value inside its zone, in the words of
the specification: `prev = first + k * interval` is the sequence position at or below `value`,
`next = prev + interval`; the result is `prev` when `value - prev <= next - value` and `prev`
is within `applicableRange` of `value`, `next` when `next` is strictly nearer and within
`applicableRange` of `value`, and `value` otherwise. -/
def repeatedEvaluate (first interval : ℚ) (applicableRange : Dbl) (k : ℤ) (value : ℚ) : Dbl :=
  let prev := first + k * interval
  let next := prev + interval
  if value - prev ≤ next - value then
    if Dbl.fin (value - prev) ≤ applicableRange then Dbl.fin prev else Dbl.fin value
  else
    if Dbl.fin (next - value) ≤ applicableRange then Dbl.fin next else Dbl.fin value

/-- Specification of `Influence` for a single point at `v`: the midpoint `(v + e) / 2` for a
mandatory point; for an optional point with range `r` the midpoint clamped towards `v`:
`min(v + r, midpoint)` when `v <= e`, `max(v - r, midpoint)` otherwise. -/
def singleInfluence (rangeType : SnapPointApplicableRangeType) (v r e : Dbl) : Dbl :=
  match rangeType with
  | SnapPointApplicableRangeType.Mandatory => (v + e) / Dbl.fin 2
  | SnapPointApplicableRangeType.Optional =>
      if v ≤ e then Dbl.std_min (v + r) ((v + e) / Dbl.fin 2)
      else Dbl.std_max (v - r) ((v + e) / Dbl.fin 2)

/-- Specification of the zone `min` of a single point at `v`.  No previous neighbour:
`-infinity` (mandatory) or `v - applicableRange` (optional).  Previous neighbour present:
`previous.Influence(v)` (mandatory) or `max(previous.Influence(v), v - applicableRange)`
(optional). -/
def singleZoneMin (rangeType : SnapPointApplicableRangeType) (v applicableRange : Dbl)
    (previous : Option SnapPointBase) : Except hresult_error Dbl :=
  match previous with
  | none =>
      match rangeType with
      | SnapPointApplicableRangeType.Mandatory => Except.ok Dbl.ninf
      | SnapPointApplicableRangeType.Optional => Except.ok (v - applicableRange)
  | some previous =>
      match previous.Influence v with
      | Except.error err => Except.error err
      | Except.ok influence =>
          match rangeType with
          | SnapPointApplicableRangeType.Mandatory => Except.ok influence
          | SnapPointApplicableRangeType.Optional =>
              Except.ok (Dbl.std_max influence (v - applicableRange))

/-- Specification of the zone `max` of a single point at `v`.  No next neighbour: `+infinity`
(mandatory) or `v + applicableRange` (optional).  Next neighbour present: `next.Influence(v)`
(mandatory) or `min(v + applicableRange, next.Influence(v))` (optional). -/
def singleZoneMax (rangeType : SnapPointApplicableRangeType) (v applicableRange : Dbl)
    (next : Option SnapPointBase) : Except hresult_error Dbl :=
  match next with
  | none =>
      match rangeType with
      | SnapPointApplicableRangeType.Mandatory => Except.ok Dbl.pinf
      | SnapPointApplicableRangeType.Optional => Except.ok (v + applicableRange)
  | some next =>
      match next.Influence v with
      | Except.error err => Except.error err
      | Except.ok influence =>
          match rangeType with
          | SnapPointApplicableRangeType.Mandatory => Except.ok influence
          | SnapPointApplicableRangeType.Optional =>
              Except.ok (Dbl.std_min (v + applicableRange) influence)

/-- Specification of the zone of a single point: `min` and `max` are resolved independently, an
error of either side is the error of the whole. -/
def singleZone (rangeType : SnapPointApplicableRangeType) (v applicableRange : Dbl)
    (previous next : Option SnapPointBase) : Except hresult_error (Dbl × Dbl) :=
  match singleZoneMin rangeType v applicableRange previous with
  | Except.error err => Except.error err
  | Except.ok min =>
      match singleZoneMax rangeType v applicableRange next with
      | Except.error err => Except.error err
      | Except.ok max => Except.ok (min, max)

/-- Specification of the zone of a repeated point with actual bounds `(start, end)`: the zone is
`(start, end)`; the neighbours' `Influence` is called only to validate that the bounds are not
invaded (its error is the error of the whole), and a next neighbour equal to the point raises
an error. -/
def repeatedZone (s_equalityEpsilon : Dbl) (self : SnapPointBase) (start end_ : Dbl)
    (previous next : Option SnapPointBase) : Except hresult_error (Dbl × Dbl) :=
  match previous.map (fun p => p.Influence start) with
  | some (Except.error err) => Except.error err
  | _ =>
      match next with
      | none => Except.ok (start, end_)
      | some nx =>
          match nx.Influence end_ with
          | Except.error err => Except.error err
          | Except.ok _ =>
              if self.operator_eq s_equalityEpsilon nx then
                Except.error hresult_error.E_INVALIDARG
              else
                Except.ok (start, end_)

end Spec

namespace Spec

/-- The alignment adjustment in the words of the specification: `Near → 0`,
`Center → -size/2`, `Far → -size`. -/
def alignmentAdjustment (alignment : ScrollSnapPointsAlignment) (size : Dbl) : Dbl :=
  match alignment with
  | ScrollSnapPointsAlignment.Near => Dbl.fin 0
  | ScrollSnapPointsAlignment.Center => -size / Dbl.fin 2
  | ScrollSnapPointsAlignment.Far => -size

/-- Whether a point "cares about future viewport changes" in the words of the specification:
`Near` does not, `Center` and `Far` do. -/
def caresAboutViewport (alignment : ScrollSnapPointsAlignment) : Bool :=
  match alignment with
  | ScrollSnapPointsAlignment.Near => false
  | ScrollSnapPointsAlignment.Center => true
  | ScrollSnapPointsAlignment.Far => true

end Spec

/-! ## Rounding: the arithmetic of `double` and the narrowing to `float` -/

namespace Dbl

/-- Rounding of a rational to the nearest integer, a tie going to the even integer. -/
def roundHalfEven (x : ℚ) : ℤ :=
  let f := ⌊x⌋
  if x - f < 1 / 2 then f
  else if 1 / 2 < x - f then f + 1
  else if f % 2 = 0 then f else f + 1

/-- Rounding of an exact result to the binary floating-point format with `p` significand bits
and the exponents `emin .. emax` (IEEE 754, round to nearest, ties to even).  The exponent of
`x` is `⌊log2 |x|⌋`, not below `emin` (subnormal numbers share the exponent `emin`); the result
is the multiple of `2 ^ (exponent - (p - 1))` nearest to `x`, and an infinity when that multiple
reaches `2 ^ (emax + 1)`. -/
def roundTo (p : ℕ) (emin emax : ℤ) (x : ℚ) : Dbl :=
  if x = 0 then fin 0
  else
    let e := max (Int.log 2 |x|) emin
    let quantum : ℚ := 2 ^ (e - ((p : ℤ) - 1))
    let y : ℚ := (roundHalfEven (x / quantum) : ℚ) * quantum
    if (2 : ℚ) ^ (emax + 1) ≤ |y| then infOfSign (decide (0 < x)) else fin y

/-- Rounding to `double` (binary64: 53 significand bits, exponents `-1022 .. 1023`), which the
processor applies to the exact result of every `+`, `-`, `*` and `/`. -/
def round64 : Dbl → Dbl
  | fin x => roundTo 53 (-1022) 1023 x
  | x => x

/-- Conversion `static_cast<float>(x)` of a double (binary32: 24 significand bits, exponents
`-126 .. 127`); the result is read as a double again, which changes nothing. -/
def static_cast_float : Dbl → Dbl
  | fin x => roundTo 24 (-126) 127 x
  | x => x

/-- The values a variable of type `double` can hold: the special values and the rationals that
rounding to binary64 leaves unchanged. -/
def isDouble (x : Dbl) : Bool :=
  decide (round64 x = x)

end Dbl

/-! ## The arithmetic methods in binary64

The definitions of this section repeat the methods that compute with `+`, `-`, `*` and `/`,
with every result rounded to `double` as the program does.  They have the names of the methods,
in the namespace `Binary64`; comparisons, `std::floor`, `std::abs`, `std::min` and `std::max`
are exact on doubles and are the functions of the section `double`. -/

namespace Binary64

/-- Operator `+` of `double`: the exact sum, rounded. -/
def add (a b : Dbl) : Dbl := Dbl.round64 (a + b)

/-- Operator `-` of `double`: the exact difference, rounded. -/
def sub (a b : Dbl) : Dbl := Dbl.round64 (a - b)

/-- Operator `*` of `double`: the exact product, rounded. -/
def mul (a b : Dbl) : Dbl := Dbl.round64 (a * b)

/-- Operator `/` of `double`: the exact quotient, rounded. -/
def div (a b : Dbl) : Dbl := Dbl.round64 (a / b)

namespace ScrollSnapPoint

/-- Method `ScrollSnapPoint::ActualValue`. -/
def ActualValue (p : ScrollSnapPoint) : Dbl :=
  add p.m_value p.m_alignmentAdjustment

/-- Method `ScrollSnapPoint::SortPredicate`. -/
def SortPredicate (p : ScrollSnapPoint) : ScrollerSnapPointSortPredicate :=
  let actualValue := ActualValue p
  { primary := actualValue, secondary := actualValue, tertiary := 0 }

/-- Method `ScrollSnapPoint::Influence`. -/
def Influence (p : ScrollSnapPoint) (edgeOfMidpoint : Dbl) : Dbl :=
  let actualValue := ActualValue p
  let midPoint := div (add actualValue edgeOfMidpoint) (Dbl.fin 2)
  match p.m_applicableRangeType with
  | SnapPointApplicableRangeType.Optional =>
      if actualValue ≤ edgeOfMidpoint then
        Dbl.std_min (add actualValue p.m_specifiedApplicableRange) midPoint
      else
        Dbl.std_max (sub actualValue p.m_specifiedApplicableRange) midPoint
  | SnapPointApplicableRangeType.Mandatory => midPoint

/-- Method `ScrollSnapPoint::ImpulseInfluence`. -/
def ImpulseInfluence (p : ScrollSnapPoint) (edgeOfMidpoint ignoredValue : Dbl) : Dbl :=
  let actualValue := ActualValue p
  let midPoint := div (add actualValue edgeOfMidpoint) (Dbl.fin 2)
  if ignoredValue.isnan then
    midPoint
  else
    if actualValue ≤ edgeOfMidpoint then
      Dbl.std_min actualValue midPoint
    else
      Dbl.std_max actualValue midPoint

/-- Method `ScrollSnapPoint::Evaluate`. -/
def Evaluate (p : ScrollSnapPoint) (actualApplicableZone : Dbl × Dbl) (value : Dbl) : Dbl :=
  if value ≥ actualApplicableZone.1 ∧ value ≤ actualApplicableZone.2 then
    ActualValue p
  else
    value

end ScrollSnapPoint

namespace ZoomSnapPoint

/-- Method `ZoomSnapPoint::Influence`. -/
def Influence (p : ZoomSnapPoint) (edgeOfMidpoint : Dbl) : Dbl :=
  let midPoint := div (add p.m_value edgeOfMidpoint) (Dbl.fin 2)
  match p.m_applicableRangeType with
  | SnapPointApplicableRangeType.Optional =>
      if p.m_value ≤ edgeOfMidpoint then
        Dbl.std_min (add p.m_value p.m_specifiedApplicableRange) midPoint
      else
        Dbl.std_max (sub p.m_value p.m_specifiedApplicableRange) midPoint
  | SnapPointApplicableRangeType.Mandatory => midPoint

/-- Method `ZoomSnapPoint::ImpulseInfluence`. -/
def ImpulseInfluence (p : ZoomSnapPoint) (edgeOfMidpoint ignoredValue : Dbl) : Dbl :=
  let midPoint := div (add p.m_value edgeOfMidpoint) (Dbl.fin 2)
  if ignoredValue.isnan then
    midPoint
  else
    if p.m_value ≤ edgeOfMidpoint then
      Dbl.std_min p.m_value midPoint
    else
      Dbl.std_max p.m_value midPoint

end ZoomSnapPoint

namespace RepeatedScrollSnapPoint

/-- Method `RepeatedScrollSnapPoint::ActualOffset`. -/
def ActualOffset (p : RepeatedScrollSnapPoint) : Dbl :=
  add p.m_offset p.m_alignmentAdjustment

/-- Method `RepeatedScrollSnapPoint::ActualStart`. -/
def ActualStart (p : RepeatedScrollSnapPoint) : Dbl :=
  add p.m_start p.m_alignmentAdjustment

/-- Method `RepeatedScrollSnapPoint::ActualEnd`. -/
def ActualEnd (p : RepeatedScrollSnapPoint) : Dbl :=
  add p.m_end p.m_alignmentAdjustment

/-- Method `RepeatedScrollSnapPoint::SortPredicate`. -/
def SortPredicate (p : RepeatedScrollSnapPoint) : ScrollerSnapPointSortPredicate :=
  { primary := ActualStart p, secondary := ActualEnd p, tertiary := 1 }

/-- Method `RepeatedScrollSnapPoint::Influence`; the `throw` is the `Except.error` result. -/
def Influence (p : RepeatedScrollSnapPoint) (edgeOfMidpoint : Dbl) : Except hresult_error Dbl :=
  let actualStart := ActualStart p
  let actualEnd := ActualEnd p
  if edgeOfMidpoint ≤ actualStart then
    Except.ok actualStart
  else if edgeOfMidpoint ≥ actualEnd then
    Except.ok actualEnd
  else
    Except.error hresult_error.E_INVALIDARG

/-- Method `RepeatedScrollSnapPoint::DetermineFirstRepeatedSnapPointValue`. -/
def DetermineFirstRepeatedSnapPointValue (p : RepeatedScrollSnapPoint) : Dbl :=
  let actualOffset := ActualOffset p
  let actualStart := ActualStart p
  sub actualOffset (mul (Dbl.floor (div (sub actualOffset actualStart) p.m_interval)) p.m_interval)

/-- Method `RepeatedScrollSnapPoint::DetermineLastRepeatedSnapPointValue`. -/
def DetermineLastRepeatedSnapPointValue (p : RepeatedScrollSnapPoint) : Dbl :=
  let actualOffset := ActualOffset p
  let actualEnd := ActualEnd p
  add actualOffset (mul (Dbl.floor (div (sub actualEnd actualOffset) p.m_interval)) p.m_interval)

/-- Method `RepeatedScrollSnapPoint::ImpulseInfluence`.  The last branch is
`MUX_ASSERT(false); return 0.0;`. -/
def ImpulseInfluence (p : RepeatedScrollSnapPoint) (edgeOfMidpoint ignoredValue : Dbl) : Dbl :=
  if edgeOfMidpoint ≤ ActualStart p then
    if Dbl.beq ignoredValue (DetermineFirstRepeatedSnapPointValue p) then
      ignoredValue
    else
      ActualStart p
  else if edgeOfMidpoint ≥ ActualEnd p then
    if Dbl.beq ignoredValue (DetermineLastRepeatedSnapPointValue p) then
      ignoredValue
    else
      ActualEnd p
  else
    Dbl.fin 0

/-- Method `RepeatedScrollSnapPoint::Evaluate`.  The zone argument is not read. -/
def Evaluate (p : RepeatedScrollSnapPoint) (_actualApplicableZone : Dbl × Dbl) (value : Dbl) :
    Dbl :=
  if value ≥ ActualStart p ∧ value ≤ ActualEnd p then
    let firstSnapPointValue := DetermineFirstRepeatedSnapPointValue p
    let passedSnapPoints := Dbl.floor (div (sub value firstSnapPointValue) p.m_interval)
    let previousSnapPointValue := add (mul passedSnapPoints p.m_interval) firstSnapPointValue
    let nextSnapPointValue := add previousSnapPointValue p.m_interval
    if (sub value previousSnapPointValue) ≤ (sub nextSnapPointValue value) then
      if add previousSnapPointValue p.m_specifiedApplicableRange ≥ value then
        previousSnapPointValue
      else
        value
    else
      if sub nextSnapPointValue p.m_specifiedApplicableRange ≤ value then
        nextSnapPointValue
      else
        value
  else
    value

end RepeatedScrollSnapPoint

namespace RepeatedZoomSnapPoint

/-- Method `RepeatedZoomSnapPoint::DetermineFirstRepeatedSnapPointValue`. -/
def DetermineFirstRepeatedSnapPointValue (p : RepeatedZoomSnapPoint) : Dbl :=
  sub p.m_offset (mul (Dbl.floor (div (sub p.m_offset p.m_start) p.m_interval)) p.m_interval)

/-- Method `RepeatedZoomSnapPoint::DetermineLastRepeatedSnapPointValue`. -/
def DetermineLastRepeatedSnapPointValue (p : RepeatedZoomSnapPoint) : Dbl :=
  add p.m_offset (mul (Dbl.floor (div (sub p.m_end p.m_offset) p.m_interval)) p.m_interval)

/-- Method `RepeatedZoomSnapPoint::ImpulseInfluence`.  The last branch is
`MUX_ASSERT(false); return 0.0;`. -/
def ImpulseInfluence (p : RepeatedZoomSnapPoint) (edgeOfMidpoint ignoredValue : Dbl) : Dbl :=
  if edgeOfMidpoint ≤ p.m_start then
    if Dbl.beq ignoredValue (DetermineFirstRepeatedSnapPointValue p) then
      ignoredValue
    else
      p.m_start
  else if edgeOfMidpoint ≥ p.m_end then
    if Dbl.beq ignoredValue (DetermineLastRepeatedSnapPointValue p) then
      ignoredValue
    else
      p.m_end
  else
    Dbl.fin 0

/-- Method `RepeatedZoomSnapPoint::Evaluate`.  The zone argument is not read. -/
def Evaluate (p : RepeatedZoomSnapPoint) (_actualApplicableZone : Dbl × Dbl) (value : Dbl) :
    Dbl :=
  if value ≥ p.m_start ∧ value ≤ p.m_end then
    let firstSnapPointValue := DetermineFirstRepeatedSnapPointValue p
    let passedSnapPoints := Dbl.floor (div (sub value firstSnapPointValue) p.m_interval)
    let previousSnapPointValue := add (mul passedSnapPoints p.m_interval) firstSnapPointValue
    let nextSnapPointValue := add previousSnapPointValue p.m_interval
    if (sub value previousSnapPointValue) ≤ (sub nextSnapPointValue value) then
      if add previousSnapPointValue p.m_specifiedApplicableRange ≥ value then
        previousSnapPointValue
      else
        value
    else
      if sub nextSnapPointValue p.m_specifiedApplicableRange ≤ value then
        nextSnapPointValue
      else
        value
  else
    value

end RepeatedZoomSnapPoint

namespace SnapPointBase

/-- Virtual method `SnapPointBase::SortPredicate`.  The methods of the zoom kinds compute
nothing: they are the ones of the sections `ZoomSnapPoint` and `RepeatedZoomSnapPoint`. -/
def SortPredicate : SnapPointBase → ScrollerSnapPointSortPredicate
  | SnapPointBase.scroll p => ScrollSnapPoint.SortPredicate p
  | SnapPointBase.repeatedScroll p => RepeatedScrollSnapPoint.SortPredicate p
  | SnapPointBase.zoom p => p.SortPredicate
  | SnapPointBase.repeatedZoom p => p.SortPredicate

/-- Operator `SnapPointBase::operator<`. -/
def operator_lt (self snapPoint : SnapPointBase) : Bool :=
  let mySortPredicate := SortPredicate self
  let theirSortPredicate := SortPredicate snapPoint
  if mySortPredicate.primary < theirSortPredicate.primary then true
  else if theirSortPredicate.primary < mySortPredicate.primary then false
  else if mySortPredicate.secondary < theirSortPredicate.secondary then true
  else if theirSortPredicate.secondary < mySortPredicate.secondary then false
  else if mySortPredicate.tertiary < theirSortPredicate.tertiary then true
  else false

/-- Operator `SnapPointBase::operator==`. -/
def operator_eq (s_equalityEpsilon : Dbl) (self snapPoint : SnapPointBase) : Bool :=
  let mySortPredicate := SortPredicate self
  let theirSortPredicate := SortPredicate snapPoint
  if Dbl.abs (sub mySortPredicate.primary theirSortPredicate.primary) < s_equalityEpsilon
      ∧ Dbl.abs (sub mySortPredicate.secondary theirSortPredicate.secondary) < s_equalityEpsilon
      ∧ mySortPredicate.tertiary = theirSortPredicate.tertiary then
    true
  else
    false

/-- Virtual method `SnapPointBase::Influence`.  `RepeatedZoomSnapPoint::Influence` computes
nothing. -/
def Influence : SnapPointBase → Dbl → Except hresult_error Dbl
  | SnapPointBase.scroll p, edgeOfMidpoint => Except.ok (ScrollSnapPoint.Influence p edgeOfMidpoint)
  | SnapPointBase.repeatedScroll p, edgeOfMidpoint =>
      RepeatedScrollSnapPoint.Influence p edgeOfMidpoint
  | SnapPointBase.zoom p, edgeOfMidpoint => Except.ok (ZoomSnapPoint.Influence p edgeOfMidpoint)
  | SnapPointBase.repeatedZoom p, edgeOfMidpoint => p.Influence edgeOfMidpoint

/-- Virtual method `SnapPointBase::ImpulseInfluence`. -/
def ImpulseInfluence : SnapPointBase → Dbl → Dbl → Dbl
  | SnapPointBase.scroll p, edgeOfMidpoint, ignoredValue =>
      ScrollSnapPoint.ImpulseInfluence p edgeOfMidpoint ignoredValue
  | SnapPointBase.repeatedScroll p, edgeOfMidpoint, ignoredValue =>
      RepeatedScrollSnapPoint.ImpulseInfluence p edgeOfMidpoint ignoredValue
  | SnapPointBase.zoom p, edgeOfMidpoint, ignoredValue =>
      ZoomSnapPoint.ImpulseInfluence p edgeOfMidpoint ignoredValue
  | SnapPointBase.repeatedZoom p, edgeOfMidpoint, ignoredValue =>
      RepeatedZoomSnapPoint.ImpulseInfluence p edgeOfMidpoint ignoredValue

/-- Virtual method `SnapPointBase::Evaluate`.  `ZoomSnapPoint::Evaluate` computes nothing: it is
the method of the section `ZoomSnapPoint`. -/
def Evaluate : SnapPointBase → Dbl × Dbl → Dbl → Dbl
  | SnapPointBase.scroll p, actualApplicableZone, value =>
      ScrollSnapPoint.Evaluate p actualApplicableZone value
  | SnapPointBase.repeatedScroll p, actualApplicableZone, value =>
      RepeatedScrollSnapPoint.Evaluate p actualApplicableZone value
  | SnapPointBase.zoom p, actualApplicableZone, value => p.Evaluate actualApplicableZone value
  | SnapPointBase.repeatedZoom p, actualApplicableZone, value =>
      RepeatedZoomSnapPoint.Evaluate p actualApplicableZone value

/-- Method `SnapPointBase::SnapsAt`.  The tolerance `s_equalityEpsilon` of the class declaration
is a parameter. -/
def SnapsAt (s_equalityEpsilon : Dbl) (self : SnapPointBase)
    (actualApplicableZone : Dbl × Dbl) (value : Dbl) : Bool :=
  if actualApplicableZone.1 ≤ value ∧ actualApplicableZone.2 ≥ value then
    let snappedValue := Evaluate self actualApplicableZone (Dbl.static_cast_float value)
    decide (Dbl.abs (sub value snappedValue) < s_equalityEpsilon)
  else
    false

end SnapPointBase

namespace SnapPointWrapper

/-- Method `SnapPointWrapper<T>::SnapsAt`. -/
def SnapsAt (s_equalityEpsilon : Dbl) (w : SnapPointWrapper) (value : Dbl) : Bool :=
  SnapPointBase.SnapsAt s_equalityEpsilon w.m_snapPoint w.m_actualApplicableZone value

end SnapPointWrapper

namespace ScrollSnapPoint

/-- Method `ScrollSnapPoint::DetermineMinActualApplicableZone`. -/
def DetermineMinActualApplicableZone (p : ScrollSnapPoint)
    (previousSnapPoint : Option SnapPointBase) : Except hresult_error Dbl :=
  match previousSnapPoint with
  | none =>
      if p.m_applicableRangeType ≠ SnapPointApplicableRangeType.Optional then
        Except.ok (-Dbl.INFINITY)
      else
        Except.ok (sub (ActualValue p) p.m_specifiedApplicableRange)
  | some previousSnapPoint => do
      let previousMaxInfluence ← SnapPointBase.Influence previousSnapPoint (ActualValue p)
      match p.m_applicableRangeType with
      | SnapPointApplicableRangeType.Optional =>
          Except.ok
            (Dbl.std_max previousMaxInfluence (sub (ActualValue p) p.m_specifiedApplicableRange))
      | SnapPointApplicableRangeType.Mandatory => Except.ok previousMaxInfluence

/-- Method `ScrollSnapPoint::DetermineMaxActualApplicableZone`. -/
def DetermineMaxActualApplicableZone (p : ScrollSnapPoint)
    (nextSnapPoint : Option SnapPointBase) : Except hresult_error Dbl :=
  match nextSnapPoint with
  | none =>
      if p.m_applicableRangeType ≠ SnapPointApplicableRangeType.Optional then
        Except.ok Dbl.INFINITY
      else
        Except.ok (add (ActualValue p) p.m_specifiedApplicableRange)
  | some nextSnapPoint => do
      let nextMinInfluence ← SnapPointBase.Influence nextSnapPoint (ActualValue p)
      match p.m_applicableRangeType with
      | SnapPointApplicableRangeType.Optional =>
          Except.ok
            (Dbl.std_min (add (ActualValue p) p.m_specifiedApplicableRange) nextMinInfluence)
      | SnapPointApplicableRangeType.Mandatory => Except.ok nextMinInfluence

/-- Method `ScrollSnapPoint::DetermineActualApplicableZone`. -/
def DetermineActualApplicableZone (p : ScrollSnapPoint)
    (previousSnapPoint nextSnapPoint : Option SnapPointBase) : Except hresult_error (Dbl × Dbl) := do
  let min ← DetermineMinActualApplicableZone p previousSnapPoint
  let max ← DetermineMaxActualApplicableZone p nextSnapPoint
  Except.ok (min, max)

/-- Method `ScrollSnapPoint::DetermineMinActualImpulseApplicableZone`. -/
def DetermineMinActualImpulseApplicableZone (p : ScrollSnapPoint)
    (previousSnapPoint : Option SnapPointBase) (currentIgnoredValue previousIgnoredValue : Dbl) :
    Dbl :=
  match previousSnapPoint with
  | none => -Dbl.INFINITY
  | some previousSnapPoint =>
      let previousMaxInfluence :=
        SnapPointBase.ImpulseInfluence previousSnapPoint (ActualValue p) previousIgnoredValue
      if currentIgnoredValue.isnan then
        previousMaxInfluence
      else
        Dbl.std_max previousMaxInfluence (ActualValue p)

/-- Method `ScrollSnapPoint::DetermineMaxActualImpulseApplicableZone`. -/
def DetermineMaxActualImpulseApplicableZone (p : ScrollSnapPoint)
    (nextSnapPoint : Option SnapPointBase) (currentIgnoredValue nextIgnoredValue : Dbl) : Dbl :=
  match nextSnapPoint with
  | none => Dbl.INFINITY
  | some nextSnapPoint =>
      let nextMinInfluence :=
        SnapPointBase.ImpulseInfluence nextSnapPoint (ActualValue p) nextIgnoredValue
      if currentIgnoredValue.isnan then
        nextMinInfluence
      else
        Dbl.std_min (ActualValue p) nextMinInfluence

/-- Method `ScrollSnapPoint::DetermineActualImpulseApplicableZone`. -/
def DetermineActualImpulseApplicableZone (p : ScrollSnapPoint)
    (previousSnapPoint nextSnapPoint : Option SnapPointBase)
    (currentIgnoredValue previousIgnoredValue nextIgnoredValue : Dbl) : Dbl × Dbl :=
  (DetermineMinActualImpulseApplicableZone p previousSnapPoint currentIgnoredValue
      previousIgnoredValue,
    DetermineMaxActualImpulseApplicableZone p nextSnapPoint currentIgnoredValue nextIgnoredValue)

end ScrollSnapPoint

namespace ZoomSnapPoint

/-- Method `ZoomSnapPoint::DetermineMinActualApplicableZone`. -/
def DetermineMinActualApplicableZone (p : ZoomSnapPoint)
    (previousSnapPoint : Option SnapPointBase) : Except hresult_error Dbl :=
  match previousSnapPoint with
  | none =>
      if p.m_applicableRangeType ≠ SnapPointApplicableRangeType.Optional then
        Except.ok (-Dbl.INFINITY)
      else
        Except.ok (sub p.m_value p.m_specifiedApplicableRange)
  | some previousSnapPoint => do
      let previousMaxInfluence ← SnapPointBase.Influence previousSnapPoint p.m_value
      match p.m_applicableRangeType with
      | SnapPointApplicableRangeType.Optional =>
          Except.ok (Dbl.std_max previousMaxInfluence (sub p.m_value p.m_specifiedApplicableRange))
      | SnapPointApplicableRangeType.Mandatory => Except.ok previousMaxInfluence

/-- Method `ZoomSnapPoint::DetermineMaxActualApplicableZone`. -/
def DetermineMaxActualApplicableZone (p : ZoomSnapPoint)
    (nextSnapPoint : Option SnapPointBase) : Except hresult_error Dbl :=
  match nextSnapPoint with
  | none =>
      if p.m_applicableRangeType ≠ SnapPointApplicableRangeType.Optional then
        Except.ok Dbl.INFINITY
      else
        Except.ok (add p.m_value p.m_specifiedApplicableRange)
  | some nextSnapPoint => do
      let nextMinInfluence ← SnapPointBase.Influence nextSnapPoint p.m_value
      match p.m_applicableRangeType with
      | SnapPointApplicableRangeType.Optional =>
          Except.ok (Dbl.std_min (add p.m_value p.m_specifiedApplicableRange) nextMinInfluence)
      | SnapPointApplicableRangeType.Mandatory => Except.ok nextMinInfluence

/-- Method `ZoomSnapPoint::DetermineActualApplicableZone`. -/
def DetermineActualApplicableZone (p : ZoomSnapPoint)
    (previousSnapPoint nextSnapPoint : Option SnapPointBase) : Except hresult_error (Dbl × Dbl) := do
  let min ← DetermineMinActualApplicableZone p previousSnapPoint
  let max ← DetermineMaxActualApplicableZone p nextSnapPoint
  Except.ok (min, max)

/-- Method `ZoomSnapPoint::DetermineMinActualImpulseApplicableZone`. -/
def DetermineMinActualImpulseApplicableZone (p : ZoomSnapPoint)
    (previousSnapPoint : Option SnapPointBase) (currentIgnoredValue previousIgnoredValue : Dbl) :
    Dbl :=
  match previousSnapPoint with
  | none => -Dbl.INFINITY
  | some previousSnapPoint =>
      let previousMaxInfluence :=
        SnapPointBase.ImpulseInfluence previousSnapPoint p.m_value previousIgnoredValue
      if currentIgnoredValue.isnan then
        previousMaxInfluence
      else
        Dbl.std_max previousMaxInfluence p.m_value

/-- Method `ZoomSnapPoint::DetermineMaxActualImpulseApplicableZone`. -/
def DetermineMaxActualImpulseApplicableZone (p : ZoomSnapPoint)
    (nextSnapPoint : Option SnapPointBase) (currentIgnoredValue nextIgnoredValue : Dbl) : Dbl :=
  match nextSnapPoint with
  | none => Dbl.INFINITY
  | some nextSnapPoint =>
      let nextMinInfluence :=
        SnapPointBase.ImpulseInfluence nextSnapPoint p.m_value nextIgnoredValue
      if currentIgnoredValue.isnan then
        nextMinInfluence
      else
        Dbl.std_min p.m_value nextMinInfluence

/-- Method `ZoomSnapPoint::DetermineActualImpulseApplicableZone`. -/
def DetermineActualImpulseApplicableZone (p : ZoomSnapPoint)
    (previousSnapPoint nextSnapPoint : Option SnapPointBase)
    (currentIgnoredValue previousIgnoredValue nextIgnoredValue : Dbl) : Dbl × Dbl :=
  (DetermineMinActualImpulseApplicableZone p previousSnapPoint currentIgnoredValue
      previousIgnoredValue,
    DetermineMaxActualImpulseApplicableZone p nextSnapPoint currentIgnoredValue nextIgnoredValue)

end ZoomSnapPoint

namespace RepeatedScrollSnapPoint

/-- Method `RepeatedScrollSnapPoint::DetermineMinActualApplicableZone`. -/
def DetermineMinActualApplicableZone (p : RepeatedScrollSnapPoint)
    (previousSnapPoint : Option SnapPointBase) : Except hresult_error Dbl :=
  let actualStart := ActualStart p
  match previousSnapPoint with
  | some previousSnapPoint => do
      let _ ← SnapPointBase.Influence previousSnapPoint actualStart
      Except.ok actualStart
  | none => Except.ok actualStart

/-- Method `RepeatedScrollSnapPoint::DetermineMaxActualApplicableZone`. -/
def DetermineMaxActualApplicableZone (p : RepeatedScrollSnapPoint)
    (nextSnapPoint : Option SnapPointBase) : Except hresult_error Dbl :=
  let actualEnd := ActualEnd p
  match nextSnapPoint with
  | some nextSnapPoint => do
      let _ ← SnapPointBase.Influence nextSnapPoint actualEnd
      Except.ok actualEnd
  | none => Except.ok actualEnd

/-- Method `RepeatedScrollSnapPoint::DetermineActualApplicableZone`. -/
def DetermineActualApplicableZone (s_equalityEpsilon : Dbl) (p : RepeatedScrollSnapPoint)
    (previousSnapPoint nextSnapPoint : Option SnapPointBase) : Except hresult_error (Dbl × Dbl) := do
  let min ← DetermineMinActualApplicableZone p previousSnapPoint
  let max ← DetermineMaxActualApplicableZone p nextSnapPoint
  let actualApplicableZoneReturned := (min, max)
  match nextSnapPoint with
  | some next =>
      if SnapPointBase.operator_eq s_equalityEpsilon (SnapPointBase.repeatedScroll p) next then
        Except.error hresult_error.E_INVALIDARG
      else
        Except.ok actualApplicableZoneReturned
  | none => Except.ok actualApplicableZoneReturned

/-- Method `RepeatedScrollSnapPoint::DetermineMinActualImpulseApplicableZone`. -/
def DetermineMinActualImpulseApplicableZone (p : RepeatedScrollSnapPoint)
    (previousSnapPoint : Option SnapPointBase) (currentIgnoredValue previousIgnoredValue : Dbl) :
    Dbl :=
  match previousSnapPoint with
  | some previousSnapPoint =>
      if Dbl.beq currentIgnoredValue (DetermineFirstRepeatedSnapPointValue p) then
        currentIgnoredValue
      else if !previousIgnoredValue.isnan then
        SnapPointBase.ImpulseInfluence previousSnapPoint (ActualStart p) previousIgnoredValue
      else
        ActualStart p
  | none => ActualStart p

/-- Method `RepeatedScrollSnapPoint::DetermineMaxActualImpulseApplicableZone`. -/
def DetermineMaxActualImpulseApplicableZone (p : RepeatedScrollSnapPoint)
    (nextSnapPoint : Option SnapPointBase) (currentIgnoredValue nextIgnoredValue : Dbl) : Dbl :=
  match nextSnapPoint with
  | some nextSnapPoint =>
      if Dbl.beq currentIgnoredValue (DetermineLastRepeatedSnapPointValue p) then
        currentIgnoredValue
      else if !nextIgnoredValue.isnan then
        SnapPointBase.ImpulseInfluence nextSnapPoint (ActualEnd p) nextIgnoredValue
      else
        ActualEnd p
  | none => ActualEnd p

/-- Method `RepeatedScrollSnapPoint::DetermineActualImpulseApplicableZone`. -/
def DetermineActualImpulseApplicableZone (p : RepeatedScrollSnapPoint)
    (previousSnapPoint nextSnapPoint : Option SnapPointBase)
    (currentIgnoredValue previousIgnoredValue nextIgnoredValue : Dbl) : Dbl × Dbl :=
  (DetermineMinActualImpulseApplicableZone p previousSnapPoint currentIgnoredValue
      previousIgnoredValue,
    DetermineMaxActualImpulseApplicableZone p nextSnapPoint currentIgnoredValue nextIgnoredValue)

end RepeatedScrollSnapPoint

namespace RepeatedZoomSnapPoint

/-- Method `RepeatedZoomSnapPoint::DetermineMinActualApplicableZone`. -/
def DetermineMinActualApplicableZone (p : RepeatedZoomSnapPoint)
    (previousSnapPoint : Option SnapPointBase) : Except hresult_error Dbl :=
  match previousSnapPoint with
  | some previousSnapPoint => do
      let _ ← SnapPointBase.Influence previousSnapPoint p.m_start
      Except.ok p.m_start
  | none => Except.ok p.m_start

/-- Method `RepeatedZoomSnapPoint::DetermineMaxActualApplicableZone`. -/
def DetermineMaxActualApplicableZone (p : RepeatedZoomSnapPoint)
    (nextSnapPoint : Option SnapPointBase) : Except hresult_error Dbl :=
  match nextSnapPoint with
  | some nextSnapPoint => do
      let _ ← SnapPointBase.Influence nextSnapPoint p.m_end
      Except.ok p.m_end
  | none => Except.ok p.m_end

/-- Method `RepeatedZoomSnapPoint::DetermineActualApplicableZone`. -/
def DetermineActualApplicableZone (s_equalityEpsilon : Dbl) (p : RepeatedZoomSnapPoint)
    (previousSnapPoint nextSnapPoint : Option SnapPointBase) : Except hresult_error (Dbl × Dbl) := do
  let min ← DetermineMinActualApplicableZone p previousSnapPoint
  let max ← DetermineMaxActualApplicableZone p nextSnapPoint
  let actualApplicableZoneReturned := (min, max)
  match nextSnapPoint with
  | some next =>
      if SnapPointBase.operator_eq s_equalityEpsilon (SnapPointBase.repeatedZoom p) next then
        Except.error hresult_error.E_INVALIDARG
      else
        Except.ok actualApplicableZoneReturned
  | none => Except.ok actualApplicableZoneReturned

/-- Method `RepeatedZoomSnapPoint::DetermineMinActualImpulseApplicableZone`. -/
def DetermineMinActualImpulseApplicableZone (p : RepeatedZoomSnapPoint)
    (previousSnapPoint : Option SnapPointBase) (currentIgnoredValue previousIgnoredValue : Dbl) :
    Dbl :=
  match previousSnapPoint with
  | some previousSnapPoint =>
      if Dbl.beq currentIgnoredValue (DetermineFirstRepeatedSnapPointValue p) then
        currentIgnoredValue
      else if !previousIgnoredValue.isnan then
        SnapPointBase.ImpulseInfluence previousSnapPoint p.m_start previousIgnoredValue
      else
        p.m_start
  | none => p.m_start

/-- Method `RepeatedZoomSnapPoint::DetermineMaxActualImpulseApplicableZone`. -/
def DetermineMaxActualImpulseApplicableZone (p : RepeatedZoomSnapPoint)
    (nextSnapPoint : Option SnapPointBase) (currentIgnoredValue nextIgnoredValue : Dbl) : Dbl :=
  match nextSnapPoint with
  | some nextSnapPoint =>
      if Dbl.beq currentIgnoredValue (DetermineLastRepeatedSnapPointValue p) then
        currentIgnoredValue
      else if !nextIgnoredValue.isnan then
        SnapPointBase.ImpulseInfluence nextSnapPoint p.m_end nextIgnoredValue
      else
        p.m_end
  | none => p.m_end

/-- Method `RepeatedZoomSnapPoint::DetermineActualImpulseApplicableZone`. -/
def DetermineActualImpulseApplicableZone (p : RepeatedZoomSnapPoint)
    (previousSnapPoint nextSnapPoint : Option SnapPointBase)
    (currentIgnoredValue previousIgnoredValue nextIgnoredValue : Dbl) : Dbl × Dbl :=
  (DetermineMinActualImpulseApplicableZone p previousSnapPoint currentIgnoredValue
      previousIgnoredValue,
    DetermineMaxActualImpulseApplicableZone p nextSnapPoint currentIgnoredValue nextIgnoredValue)

end RepeatedZoomSnapPoint

namespace SnapPointBase

/-- Virtual method `SnapPointBase::DetermineActualApplicableZone`. -/
def DetermineActualApplicableZone (s_equalityEpsilon : Dbl) :
    SnapPointBase → Option SnapPointBase → Option SnapPointBase → Except hresult_error (Dbl × Dbl)
  | SnapPointBase.scroll p, previousSnapPoint, nextSnapPoint =>
      ScrollSnapPoint.DetermineActualApplicableZone p previousSnapPoint nextSnapPoint
  | SnapPointBase.repeatedScroll p, previousSnapPoint, nextSnapPoint =>
      RepeatedScrollSnapPoint.DetermineActualApplicableZone s_equalityEpsilon p previousSnapPoint
        nextSnapPoint
  | SnapPointBase.zoom p, previousSnapPoint, nextSnapPoint =>
      ZoomSnapPoint.DetermineActualApplicableZone p previousSnapPoint nextSnapPoint
  | SnapPointBase.repeatedZoom p, previousSnapPoint, nextSnapPoint =>
      RepeatedZoomSnapPoint.DetermineActualApplicableZone s_equalityEpsilon p previousSnapPoint
        nextSnapPoint

/-- Virtual method `SnapPointBase::DetermineActualImpulseApplicableZone`. -/
def DetermineActualImpulseApplicableZone :
    SnapPointBase → Option SnapPointBase → Option SnapPointBase → Dbl → Dbl → Dbl → Dbl × Dbl
  | SnapPointBase.scroll p, previousSnapPoint, nextSnapPoint, currentIgnoredValue,
      previousIgnoredValue, nextIgnoredValue =>
      ScrollSnapPoint.DetermineActualImpulseApplicableZone p previousSnapPoint nextSnapPoint
        currentIgnoredValue previousIgnoredValue nextIgnoredValue
  | SnapPointBase.repeatedScroll p, previousSnapPoint, nextSnapPoint, currentIgnoredValue,
      previousIgnoredValue, nextIgnoredValue =>
      RepeatedScrollSnapPoint.DetermineActualImpulseApplicableZone p previousSnapPoint
        nextSnapPoint currentIgnoredValue previousIgnoredValue nextIgnoredValue
  | SnapPointBase.zoom p, previousSnapPoint, nextSnapPoint, currentIgnoredValue,
      previousIgnoredValue, nextIgnoredValue =>
      ZoomSnapPoint.DetermineActualImpulseApplicableZone p previousSnapPoint nextSnapPoint
        currentIgnoredValue previousIgnoredValue nextIgnoredValue
  | SnapPointBase.repeatedZoom p, previousSnapPoint, nextSnapPoint, currentIgnoredValue,
      previousIgnoredValue, nextIgnoredValue =>
      RepeatedZoomSnapPoint.DetermineActualImpulseApplicableZone p previousSnapPoint
        nextSnapPoint currentIgnoredValue previousIgnoredValue nextIgnoredValue

end SnapPointBase

end Binary64

/-! ## Vocabulary of the binary64 methods -/

namespace Dbl

/-- A double that holds an integer of magnitude at most `2 ^ 48`. -/
def isInteger48 : Dbl → Bool
  | fin q => decide (q.den = 1 ∧ |q.num| ≤ 2 ^ 48)
  | _ => false

end Dbl

namespace Binary64

namespace SnapPointBase

/-- The actual value of a single point as the program computes it: `ActualValue()` of a
`ScrollSnapPoint`, `m_value` of a `ZoomSnapPoint`; `none` for the repeated kinds. -/
def singleValue : SnapPointBase → Option Dbl
  | SnapPointBase.scroll p => some (ScrollSnapPoint.ActualValue p)
  | SnapPointBase.zoom p => some p.m_value
  | SnapPointBase.repeatedScroll _ => none
  | SnapPointBase.repeatedZoom _ => none

/-- The actual bounds of a repeated point as the program computes them; `none` for the single
kinds. -/
def repeatedBounds : SnapPointBase → Option (Dbl × Dbl)
  | SnapPointBase.scroll _ => none
  | SnapPointBase.zoom _ => none
  | SnapPointBase.repeatedScroll p =>
      some (RepeatedScrollSnapPoint.ActualStart p, RepeatedScrollSnapPoint.ActualEnd p)
  | SnapPointBase.repeatedZoom p => some (p.m_start, p.m_end)

/-- The actual offset and the interval of a repeated point as the program computes them; `none`
for the single kinds. -/
def repeatedOffsetInterval : SnapPointBase → Option (Dbl × Dbl)
  | SnapPointBase.scroll _ => none
  | SnapPointBase.zoom _ => none
  | SnapPointBase.repeatedScroll p => some (RepeatedScrollSnapPoint.ActualOffset p, p.m_interval)
  | SnapPointBase.repeatedZoom p => some (p.m_offset, p.m_interval)

/-- The first and the last repeated position of a repeated point as the program computes them;
`none` for the single kinds. -/
def repeatedFirstLast : SnapPointBase → Option (Dbl × Dbl)
  | SnapPointBase.scroll _ => none
  | SnapPointBase.zoom _ => none
  | SnapPointBase.repeatedScroll p =>
      some (RepeatedScrollSnapPoint.DetermineFirstRepeatedSnapPointValue p,
        RepeatedScrollSnapPoint.DetermineLastRepeatedSnapPointValue p)
  | SnapPointBase.repeatedZoom p =>
      some (RepeatedZoomSnapPoint.DetermineFirstRepeatedSnapPointValue p,
        RepeatedZoomSnapPoint.DetermineLastRepeatedSnapPointValue p)

end SnapPointBase

end Binary64

namespace SnapPointBase

/-- The numbers a point stores are integers of magnitude at most `2 ^ 48`: value and alignment
adjustment of a single point; offset, interval, start, end and alignment adjustment of a
repeated point, whose applicable range is such an integer or `INFINITY`.  On these numbers, and
on integer values, no operation of the methods rounds. -/
def integerFields : SnapPointBase → Bool
  | scroll p => p.m_value.isInteger48 && p.m_alignmentAdjustment.isInteger48
  | zoom p => p.m_value.isInteger48
  | repeatedScroll p =>
      p.m_offset.isInteger48 && p.m_interval.isInteger48 && p.m_start.isInteger48
        && p.m_end.isInteger48 && p.m_alignmentAdjustment.isInteger48
        && (p.m_specifiedApplicableRange == Dbl.pinf || p.m_specifiedApplicableRange.isInteger48)
  | repeatedZoom p =>
      p.m_offset.isInteger48 && p.m_interval.isInteger48 && p.m_start.isInteger48
        && p.m_end.isInteger48
        && (p.m_specifiedApplicableRange == Dbl.pinf || p.m_specifiedApplicableRange.isInteger48)

end SnapPointBase

namespace Binary64

namespace SnapPointBase

/-- A point made of numbers as the constructors accept them: an optional point has a positive
applicable range, a single point has a finite computed actual value, a repeated point satisfies
`end > start`, `start ≤ offset ≤ end` and `interval > 0`. -/
def wellFormed (sp : SnapPointBase) : Bool :=
  (sp.ApplicableRangeType != SnapPointApplicableRangeType.Optional
      || decide (Dbl.fin 0 < sp.ApplicableRange))
    && (match singleValue sp with
        | some value => value.isFinite
        | none => true)
    && sp.repeatedValid

end SnapPointBase

end Binary64

/-! ## Concrete points with fields that are not integers -/

namespace Scenario

/-- The mandatory `RepeatedScrollSnapPoint` with `offset = 0`, `interval = 0.1`, `start = 0`,
`end = 1000`: the interval is the double nearest to `0.1`. -/
def roundingTenths : RepeatedScrollSnapPoint :=
  { m_offset := Dbl.fin 0
    m_interval := Dbl.fin (3602879701896397 / 2 ^ 55)
    m_start := Dbl.fin 0
    m_end := Dbl.fin 1000
    m_alignment := ScrollSnapPointsAlignment.Near
    m_alignmentAdjustment := Dbl.fin 0
    m_specifiedApplicableRange := Dbl.INFINITY
    m_applicableRangeType := SnapPointApplicableRangeType.Mandatory }

/-- The mandatory `RepeatedScrollSnapPoint` with `offset = 41.23`, `interval = 0.14`,
`start = 5.4`, `end = 99.4`: each field is the double nearest to the decimal. -/
def roundingIdempotence : RepeatedScrollSnapPoint :=
  { m_offset := Dbl.fin (5802606644890173 / 2 ^ 47)
    m_interval := Dbl.fin (1261007895663739 / 2 ^ 53)
    m_start := Dbl.fin (3039929748475085 / 2 ^ 49)
    m_end := Dbl.fin (3497326585629901 / 2 ^ 45)
    m_alignment := ScrollSnapPointsAlignment.Near
    m_alignmentAdjustment := Dbl.fin 0
    m_specifiedApplicableRange := Dbl.INFINITY
    m_applicableRangeType := SnapPointApplicableRangeType.Mandatory }

/-- The mandatory `RepeatedScrollSnapPoint` with `offset = 64.05`, `interval = 3.76`,
`start = 7.3`, `end = 85.8` (the doubles nearest to the decimals) and `Far` alignment, after
`OnUpdateViewport` with the viewport `465.4`: the alignment adjustment is the double nearest to
`-465.4`. -/
def roundingTranslation : RepeatedScrollSnapPoint :=
  { m_offset := Dbl.fin (4507118064579379 / 2 ^ 46)
    m_interval := Dbl.fin (2116691824864133 / 2 ^ 49)
    m_start := Dbl.fin (8219069319951155 / 2 ^ 50)
    m_end := Dbl.fin (6037638250443571 / 2 ^ 46)
    m_alignment := ScrollSnapPointsAlignment.Far
    m_alignmentAdjustment := Dbl.fin (-4093701692535603 / 2 ^ 43)
    m_specifiedApplicableRange := Dbl.INFINITY
    m_applicableRangeType := SnapPointApplicableRangeType.Mandatory }

/-- The mandatory `RepeatedScrollSnapPoint` with `offset = 0.5`, `interval = 0.4`,
`start = 0.1`, `end = 100`: interval and start are the doubles nearest to the decimals. -/
def roundingFirstBelow : RepeatedScrollSnapPoint :=
  { m_offset := Dbl.fin (1 / 2 ^ 1)
    m_interval := Dbl.fin (3602879701896397 / 2 ^ 53)
    m_start := Dbl.fin (3602879701896397 / 2 ^ 55)
    m_end := Dbl.fin 100
    m_alignment := ScrollSnapPointsAlignment.Near
    m_alignmentAdjustment := Dbl.fin 0
    m_specifiedApplicableRange := Dbl.INFINITY
    m_applicableRangeType := SnapPointApplicableRangeType.Mandatory }

/-- The mandatory `RepeatedScrollSnapPoint` with `offset = 1.19`, `interval = 0.01`,
`start = 0`, `end = 100`: offset and interval are the doubles nearest to the decimals. -/
def roundingFirstAbove : RepeatedScrollSnapPoint :=
  { m_offset := Dbl.fin (2679641778285445 / 2 ^ 51)
    m_interval := Dbl.fin (5764607523034235 / 2 ^ 59)
    m_start := Dbl.fin 0
    m_end := Dbl.fin 100
    m_alignment := ScrollSnapPointsAlignment.Near
    m_alignmentAdjustment := Dbl.fin 0
    m_specifiedApplicableRange := Dbl.INFINITY
    m_applicableRangeType := SnapPointApplicableRangeType.Mandatory }

/-- The mandatory `RepeatedScrollSnapPoint` with `offset = 56.16`, `interval = 0.31`,
`start = 2.3`, `end = 80.5`: each field is the double nearest to the decimal. -/
def roundingDistance : RepeatedScrollSnapPoint :=
  { m_offset := Dbl.fin (1975954336508805 / 2 ^ 45)
    m_interval := Dbl.fin (5584463537939415 / 2 ^ 54)
    m_start := Dbl.fin (2589569785738035 / 2 ^ 50)
    m_end := Dbl.fin (161 / 2 ^ 1)
    m_alignment := ScrollSnapPointsAlignment.Near
    m_alignmentAdjustment := Dbl.fin 0
    m_specifiedApplicableRange := Dbl.INFINITY
    m_applicableRangeType := SnapPointApplicableRangeType.Mandatory }

/-- The mandatory `RepeatedScrollSnapPoint` with `offset = 0`, `interval = 10`, `start = 0`,
`end = +inf`, which the constructor accepts. -/
def unboundedEnd : RepeatedScrollSnapPoint :=
  { m_offset := Dbl.fin 0
    m_interval := Dbl.fin 10
    m_start := Dbl.fin 0
    m_end := Dbl.pinf
    m_alignment := ScrollSnapPointsAlignment.Near
    m_alignmentAdjustment := Dbl.fin 0
    m_specifiedApplicableRange := Dbl.INFINITY
    m_applicableRangeType := SnapPointApplicableRangeType.Mandatory }

/-- The mandatory `RepeatedScrollSnapPoint` with `offset = 0`, `interval = 10`,
`start = -inf`, `end = 100`, which the constructor accepts. -/
def unboundedStart : RepeatedScrollSnapPoint :=
  { m_offset := Dbl.fin 0
    m_interval := Dbl.fin 10
    m_start := Dbl.ninf
    m_end := Dbl.fin 100
    m_alignment := ScrollSnapPointsAlignment.Near
    m_alignmentAdjustment := Dbl.fin 0
    m_specifiedApplicableRange := Dbl.INFINITY
    m_applicableRangeType := SnapPointApplicableRangeType.Mandatory }

end Scenario

/-! ## Arithmetic and comparison of doubles: evaluation lemmas -/

namespace Dbl

theorem lt_iff (a b : Dbl) : a < b ↔ blt a b = true := Iff.rfl
theorem le_iff (a b : Dbl) : a ≤ b ↔ ble a b = true := Iff.rfl
theorem add_def (a b : Dbl) : a + b = add a b := rfl
theorem sub_def (a b : Dbl) : a - b = add a (neg b) := rfl
theorem mul_def (a b : Dbl) : a * b = mul a b := rfl
theorem div_def (a b : Dbl) : a / b = div a b := rfl
theorem neg_def (a : Dbl) : -a = neg a := rfl

@[simp] theorem fin_add_fin (a b : ℚ) : fin a + fin b = fin (a + b) := rfl
@[simp] theorem fin_sub_fin (a b : ℚ) : fin a - fin b = fin (a - b) := by
  simp [sub_def, add, neg, sub_eq_add_neg]
@[simp] theorem fin_mul_fin (a b : ℚ) : fin a * fin b = fin (a * b) := rfl
theorem fin_div_fin (a b : ℚ) (hb : b ≠ 0) : fin a / fin b = fin (a / b) := by
  simp [div_def, div, hb]
@[simp] theorem fin_div_two (a : ℚ) : fin a / fin 2 = fin (a / 2) := by
  simp [div_def, div]
@[simp] theorem floor_fin (a : ℚ) : floor (fin a) = fin (⌊a⌋ : ℤ) := rfl
@[simp] theorem abs_fin (a : ℚ) : abs (fin a) = fin |a| := rfl
@[simp] theorem neg_pinf : -pinf = ninf := rfl
@[simp] theorem neg_ninf : -ninf = pinf := rfl
@[simp] theorem neg_fin (a : ℚ) : -fin a = fin (-a) := rfl

@[simp] theorem fin_add_pinf (a : ℚ) : fin a + pinf = pinf := rfl
@[simp] theorem fin_add_ninf (a : ℚ) : fin a + ninf = ninf := rfl
@[simp] theorem pinf_add_fin (a : ℚ) : pinf + fin a = pinf := rfl
@[simp] theorem ninf_add_fin (a : ℚ) : ninf + fin a = ninf := rfl
@[simp] theorem fin_sub_pinf (a : ℚ) : fin a - pinf = ninf := rfl
@[simp] theorem fin_sub_ninf (a : ℚ) : fin a - ninf = pinf := rfl
@[simp] theorem pinf_sub_fin (a : ℚ) : pinf - fin a = pinf := rfl
@[simp] theorem ninf_sub_fin (a : ℚ) : ninf - fin a = ninf := rfl
@[simp] theorem pinf_div_two : pinf / fin 2 = pinf := by simp [div_def, div, infOfSign]
@[simp] theorem ninf_div_two : ninf / fin 2 = ninf := by simp [div_def, div, infOfSign]
@[simp] theorem nan_div (a : Dbl) : nan / a = nan := by cases a <;> rfl
@[simp] theorem nan_add (a : Dbl) : nan + a = nan := by cases a <;> rfl
@[simp] theorem add_nan (a : Dbl) : a + nan = nan := by cases a <;> rfl
@[simp] theorem nan_sub (a : Dbl) : nan - a = nan := by cases a <;> rfl
@[simp] theorem sub_nan (a : Dbl) : a - nan = nan := by cases a <;> rfl

@[simp] theorem fin_le_fin (a b : ℚ) : fin a ≤ fin b ↔ a ≤ b := by simp [le_iff, ble]
@[simp] theorem fin_lt_fin (a b : ℚ) : fin a < fin b ↔ a < b := by simp [lt_iff, blt]
@[simp] theorem fin_le_pinf (a : ℚ) : fin a ≤ pinf := by simp [le_iff, ble]
@[simp] theorem fin_lt_pinf (a : ℚ) : fin a < pinf := by simp [lt_iff, blt]
@[simp] theorem ninf_le_fin (a : ℚ) : ninf ≤ fin a := by simp [le_iff, ble]
@[simp] theorem ninf_lt_fin (a : ℚ) : ninf < fin a := by simp [lt_iff, blt]
@[simp] theorem ninf_le_pinf : ninf ≤ pinf := by simp [le_iff, ble]
@[simp] theorem ninf_lt_pinf : ninf < pinf := by simp [lt_iff, blt]
@[simp] theorem pinf_le_pinf : pinf ≤ pinf := by simp [le_iff, ble]
@[simp] theorem ninf_le_ninf : ninf ≤ ninf := by simp [le_iff, ble]
@[simp] theorem not_pinf_le_fin (a : ℚ) : ¬ pinf ≤ fin a := by simp [le_iff, ble]
@[simp] theorem not_pinf_lt (a : Dbl) : ¬ pinf < a := by cases a <;> simp [lt_iff, blt]
@[simp] theorem not_lt_ninf (a : Dbl) : ¬ a < ninf := by cases a <;> simp [lt_iff, blt]
@[simp] theorem not_fin_le_ninf (a : ℚ) : ¬ fin a ≤ ninf := by simp [le_iff, ble]
@[simp] theorem not_pinf_le_ninf : ¬ pinf ≤ ninf := by simp [le_iff, ble]
@[simp] theorem not_nan_le (a : Dbl) : ¬ nan ≤ a := by simp [le_iff, ble]
@[simp] theorem not_le_nan (a : Dbl) : ¬ a ≤ nan := by cases a <;> simp [le_iff, ble]
@[simp] theorem not_nan_lt (a : Dbl) : ¬ nan < a := by simp [lt_iff, blt]
@[simp] theorem not_lt_nan (a : Dbl) : ¬ a < nan := by cases a <;> simp [lt_iff, blt]

/-- A strict comparison excludes the reverse weak comparison. -/
theorem not_le_of_lt {a b : Dbl} (h : a < b) : ¬ b ≤ a := by
  cases a <;> cases b <;> simp_all

/-- On doubles that are not `nan` the order is total: a failed `<=` is the reverse `<`. -/
theorem lt_of_not_le {a b : Dbl} (ha : a ≠ nan) (hb : b ≠ nan) (h : ¬ a ≤ b) : b < a := by
  cases a <;> cases b <;> simp_all

/-- A strict comparison gives the weak one. -/
theorem le_of_lt {a b : Dbl} (h : a < b) : a ≤ b := by
  cases a <;> cases b <;> simp_all [LT.lt.le]

@[simp] theorem abs_pinf : abs pinf = pinf := rfl
@[simp] theorem abs_ninf : abs ninf = pinf := rfl
@[simp] theorem pinf_add_pinf : pinf + pinf = pinf := rfl
@[simp] theorem ninf_add_ninf : ninf + ninf = ninf := rfl
@[simp] theorem pinf_sub_ninf : pinf - ninf = pinf := rfl
@[simp] theorem ninf_sub_pinf : ninf - pinf = ninf := rfl
@[simp] theorem pinf_add_ninf : pinf + ninf = nan := rfl
@[simp] theorem ninf_add_pinf : ninf + pinf = nan := rfl
@[simp] theorem pinf_sub_pinf : pinf - pinf = nan := rfl
@[simp] theorem ninf_sub_ninf : ninf - ninf = nan := rfl
@[simp] theorem abs_nan : abs nan = nan := rfl

/-- A positive double is a positive rational or `+inf`. -/
theorem pos_cases {r : Dbl} (h : fin 0 < r) : r = pinf ∨ ∃ q : ℚ, 0 < q ∧ r = fin q := by
  cases r with
  | nan => simp at h
  | ninf => simp at h
  | pinf => exact Or.inl rfl
  | fin q => exact Or.inr ⟨q, by simpa using h, rfl⟩

end Dbl

/-! ## Evaluate -/

/-- C1 (amended). `Evaluate` is the identity outside the bounds it reads.  For a single point
(scroll or zoom) these are the zone argument: for every zone `(min, max)` and every `value`
with `value < min` or `value > max`, `Evaluate(zone, value) = value`.  For a repeated point they
are its own `(actual start, actual end)`, the zone `DetermineActualApplicableZone` resolves for
it: for every `value < actual start` or `value > actual end`, `Evaluate(zone, value) = value`,
whatever the zone argument is. -/
theorem C1_Evaluate_outside_zone (sp : SnapPointBase) (zone : Dbl × Dbl) (value : Dbl)
    (h : value < (sp.repeatedBounds.getD zone).1 ∨ (sp.repeatedBounds.getD zone).2 < value) :
    sp.Evaluate zone value = value := by
  have hout : ¬ (value ≥ (sp.repeatedBounds.getD zone).1 ∧
      value ≤ (sp.repeatedBounds.getD zone).2) := by
    rintro ⟨h1, h2⟩
    rcases h with h | h
    · exact Dbl.not_le_of_lt h h1
    · exact Dbl.not_le_of_lt h h2
  cases sp with
  | scroll p =>
      simp only [SnapPointBase.repeatedBounds, Option.getD_none] at hout
      simp only [SnapPointBase.Evaluate, ScrollSnapPoint.Evaluate, if_neg hout]
  | zoom p =>
      simp only [SnapPointBase.repeatedBounds, Option.getD_none] at hout
      simp only [SnapPointBase.Evaluate, ZoomSnapPoint.Evaluate, if_neg hout]
  | repeatedScroll p =>
      simp only [SnapPointBase.repeatedBounds, Option.getD_some] at hout
      simp only [SnapPointBase.Evaluate, RepeatedScrollSnapPoint.Evaluate, if_neg hout]
  | repeatedZoom p =>
      simp only [SnapPointBase.repeatedBounds, Option.getD_some] at hout
      simp only [SnapPointBase.Evaluate, RepeatedZoomSnapPoint.Evaluate, if_neg hout]

/-- C1 witness: the repeated scenario point (`start = 0`, `end = 100`) leaves `105` alone, and
the single point at `0` with zone `(-inf, 50)` leaves `60` alone. -/
theorem C1_Evaluate_outside_zone_witness :
    (SnapPointBase.repeatedScroll Scenario.mandatoryRepeated).Evaluate
      (Dbl.fin 0, Dbl.fin 100) (Dbl.fin 105) = Dbl.fin 105 ∧
    (SnapPointBase.scroll (Scenario.mandatoryScroll 0)).Evaluate
      (Dbl.ninf, Dbl.fin 50) (Dbl.fin 60) = Dbl.fin 60 :=
  ⟨C1_Evaluate_outside_zone (SnapPointBase.repeatedScroll Scenario.mandatoryRepeated)
      (Dbl.fin 0, Dbl.fin 100) (Dbl.fin 105)
      (Or.inr (by
        norm_num [SnapPointBase.repeatedBounds, Scenario.mandatoryRepeated,
          RepeatedScrollSnapPoint.ActualEnd])),
    C1_Evaluate_outside_zone (SnapPointBase.scroll (Scenario.mandatoryScroll 0))
      (Dbl.ninf, Dbl.fin 50) (Dbl.fin 60)
      (Or.inr (by norm_num [SnapPointBase.repeatedBounds]))⟩

/-- C1 counterexample: for the repeated point `offset 0, interval 10, start 0, end 100` the value
`9` lies outside the zone `(0, 5)` (`9 > 5`), yet `Evaluate` moves it to `10`. -/
theorem C1_counterexample :
    Dbl.fin 5 < Dbl.fin 9 ∧
    (SnapPointBase.repeatedScroll Scenario.mandatoryRepeated).Evaluate
      (Dbl.fin 0, Dbl.fin 5) (Dbl.fin 9) = Dbl.fin 10 ∧
    (SnapPointBase.repeatedScroll Scenario.mandatoryRepeated).Evaluate
      (Dbl.fin 0, Dbl.fin 5) (Dbl.fin 9) ≠ Dbl.fin 9 := by
  have h : (SnapPointBase.repeatedScroll Scenario.mandatoryRepeated).Evaluate
      (Dbl.fin 0, Dbl.fin 5) (Dbl.fin 9) = Dbl.fin 10 := by
    norm_num [SnapPointBase.Evaluate, RepeatedScrollSnapPoint.Evaluate, Scenario.mandatoryRepeated,
      RepeatedScrollSnapPoint.ActualStart, RepeatedScrollSnapPoint.ActualEnd,
      RepeatedScrollSnapPoint.DetermineFirstRepeatedSnapPointValue,
      RepeatedScrollSnapPoint.ActualOffset, Dbl.fin_div_fin, Dbl.INFINITY]
  refine ⟨by norm_num, h, ?_⟩
  rw [h]
  norm_num

/-- The body of `Evaluate` of a repeated point on finite numbers: with `k` the floor of
`(value - first) / interval`, the code computes the specified result. -/
theorem Dbl.repeatedEvaluate_core (first interval value : ℚ) (range : Dbl) (hi : 0 < interval) :
    let k : ℤ := ⌊(value - first) / interval⌋
    first + k * interval ≤ value ∧ value < first + k * interval + interval ∧
    (let passedSnapPoints := Dbl.floor ((Dbl.fin value - Dbl.fin first) / Dbl.fin interval)
     let previousSnapPointValue := (passedSnapPoints * Dbl.fin interval) + Dbl.fin first
     let nextSnapPointValue := previousSnapPointValue + Dbl.fin interval
     if (Dbl.fin value - previousSnapPointValue) ≤ (nextSnapPointValue - Dbl.fin value) then
       if previousSnapPointValue + range ≥ Dbl.fin value then previousSnapPointValue
       else Dbl.fin value
     else
       if nextSnapPointValue - range ≤ Dbl.fin value then nextSnapPointValue
       else Dbl.fin value)
      = Spec.repeatedEvaluate first interval range k value := by
  intro k
  have hne : interval ≠ 0 := ne_of_gt hi
  have hk1 : (k : ℚ) ≤ (value - first) / interval := Int.floor_le _
  have hk2 : (value - first) / interval < k + 1 := Int.lt_floor_add_one _
  have h1 : (k : ℚ) * interval ≤ value - first := (le_div_iff₀ hi).mp hk1
  have h2 : value - first < (k + 1) * interval := (div_lt_iff₀ hi).mp hk2
  refine ⟨by linarith, by linarith, ?_⟩
  simp only [Dbl.fin_sub_fin, Dbl.fin_div_fin _ _ hne, Dbl.floor_fin, Dbl.fin_mul_fin,
    Dbl.fin_add_fin, Dbl.fin_le_fin, Spec.repeatedEvaluate, ge_iff_le]
  have e1 : (k : ℚ) * interval + first = first + k * interval := by ring
  rw [e1]
  by_cases hc : value - (first + ↑k * interval) ≤ first + ↑k * interval + interval - value
  · rw [if_pos hc, if_pos hc]
    cases range with
    | nan => simp
    | ninf => simp
    | pinf => simp
    | fin r =>
        simp only [Dbl.fin_add_fin, Dbl.fin_le_fin]
        by_cases hr : value ≤ first + ↑k * interval + r
        · rw [if_pos hr, if_pos (by linarith)]
        · rw [if_neg hr, if_neg (by intro h; apply hr; linarith)]
  · rw [if_neg hc, if_neg hc]
    cases range with
    | nan => simp
    | ninf => simp
    | pinf => simp
    | fin r =>
        simp only [Dbl.fin_sub_fin, Dbl.fin_le_fin]
        by_cases hr : first + ↑k * interval + interval - r ≤ value
        · rw [if_pos hr, if_pos (by linarith)]
        · rw [if_neg hr, if_neg (by intro h; apply hr; linarith)]

/-- In exact arithmetic (no rounding).  `Evaluate` of a repeated point on a value inside `[actual
start, actual end]` (all numbers finite, `interval > 0`): there is an integer `k` such that `prev =
first + k * interval` is the greatest sequence position `<= value` (`prev <= value < prev +
interval`, `first` being `DetermineFirstRepeatedSnapPointValue`), and `Evaluate` returns `prev` when
`value - prev <= next - value` and `value - prev` is within the applicable range, `next` when `next`
is strictly nearer and `next - value` is within the applicable range, and `value` otherwise.  The
first conjunct is the scroll kind, the second the zoom kind (no adjustment). -/
theorem exact_Evaluate_repeated_inside (offset interval start end_ adj value : ℚ) (range : Dbl)
    (alignment : ScrollSnapPointsAlignment) (rangeType : SnapPointApplicableRangeType)
    (zone : Dbl × Dbl)
    (hi : 0 < interval) (hlo : start + adj ≤ value) (hhi : value ≤ end_ + adj) :
    (∃ (first : ℚ) (k : ℤ),
      RepeatedScrollSnapPoint.DetermineFirstRepeatedSnapPointValue
        ⟨Dbl.fin offset, Dbl.fin interval, Dbl.fin start, Dbl.fin end_, alignment, Dbl.fin adj,
          range, rangeType⟩ = Dbl.fin first ∧
      first + k * interval ≤ value ∧ value < first + k * interval + interval ∧
      (SnapPointBase.repeatedScroll
        ⟨Dbl.fin offset, Dbl.fin interval, Dbl.fin start, Dbl.fin end_, alignment, Dbl.fin adj,
          range, rangeType⟩).Evaluate zone (Dbl.fin value)
        = Spec.repeatedEvaluate first interval range k value) ∧
    (adj = 0 → ∃ (first : ℚ) (k : ℤ),
      RepeatedZoomSnapPoint.DetermineFirstRepeatedSnapPointValue
        ⟨Dbl.fin offset, Dbl.fin interval, Dbl.fin start, Dbl.fin end_, range, rangeType⟩
        = Dbl.fin first ∧
      first + k * interval ≤ value ∧ value < first + k * interval + interval ∧
      (SnapPointBase.repeatedZoom
        ⟨Dbl.fin offset, Dbl.fin interval, Dbl.fin start, Dbl.fin end_, range, rangeType⟩).Evaluate
          zone (Dbl.fin value)
        = Spec.repeatedEvaluate first interval range k value) := by
  have hne : interval ≠ 0 := ne_of_gt hi
  constructor
  · have hfirst : RepeatedScrollSnapPoint.DetermineFirstRepeatedSnapPointValue
        ⟨Dbl.fin offset, Dbl.fin interval, Dbl.fin start, Dbl.fin end_, alignment, Dbl.fin adj,
          range, rangeType⟩
        = Dbl.fin (offset + adj - ((⌊(offset + adj - (start + adj)) / interval⌋ : ℤ) : ℚ) * interval) := by
      simp only [RepeatedScrollSnapPoint.DetermineFirstRepeatedSnapPointValue,
        RepeatedScrollSnapPoint.ActualOffset, RepeatedScrollSnapPoint.ActualStart,
        Dbl.fin_add_fin, Dbl.fin_sub_fin, Dbl.fin_div_fin _ _ hne, Dbl.floor_fin, Dbl.fin_mul_fin]
    obtain ⟨c1, c2, c3⟩ := Dbl.repeatedEvaluate_core
      (offset + adj - ((⌊(offset + adj - (start + adj)) / interval⌋ : ℤ) : ℚ) * interval)
      interval value range hi
    refine ⟨_, _, hfirst, c1, c2, ?_⟩
    rw [← c3]
    have hin : Dbl.fin value ≥ Dbl.fin (start + adj) ∧ Dbl.fin value ≤ Dbl.fin (end_ + adj) := by
      simp [hlo, hhi]
    simp only [SnapPointBase.Evaluate, RepeatedScrollSnapPoint.Evaluate, hfirst,
      RepeatedScrollSnapPoint.ActualStart, RepeatedScrollSnapPoint.ActualEnd, Dbl.fin_add_fin,
      if_pos hin]
  · intro hadj
    subst hadj
    have hfirst : RepeatedZoomSnapPoint.DetermineFirstRepeatedSnapPointValue
        ⟨Dbl.fin offset, Dbl.fin interval, Dbl.fin start, Dbl.fin end_, range, rangeType⟩
        = Dbl.fin (offset - ((⌊(offset - start) / interval⌋ : ℤ) : ℚ) * interval) := by
      simp only [RepeatedZoomSnapPoint.DetermineFirstRepeatedSnapPointValue,
        Dbl.fin_sub_fin, Dbl.fin_div_fin _ _ hne, Dbl.floor_fin, Dbl.fin_mul_fin]
    obtain ⟨c1, c2, c3⟩ := Dbl.repeatedEvaluate_core
      (offset - ((⌊(offset - start) / interval⌋ : ℤ) : ℚ) * interval) interval value range hi
    refine ⟨_, _, hfirst, c1, c2, ?_⟩
    rw [← c3]
    have hin : Dbl.fin value ≥ Dbl.fin start ∧ Dbl.fin value ≤ Dbl.fin end_ := by
      simp only [add_zero] at hlo hhi
      simp [hlo, hhi]
    simp only [SnapPointBase.Evaluate, RepeatedZoomSnapPoint.Evaluate, hfirst, if_pos hin]

/-! ## Influence and the zone resolver -/

/-- `Influence` of a single point never throws and is the specified clamped midpoint. -/
theorem SnapPointBase.Influence_single (sp : SnapPointBase) (v : Dbl)
    (hv : sp.singleValue = some v) (e : Dbl) :
    sp.Influence e = Except.ok (Spec.singleInfluence sp.ApplicableRangeType v sp.ApplicableRange e) := by
  cases sp with
  | scroll p =>
      obtain rfl : p.ActualValue = v := Option.some.inj hv
      cases ht : p.m_applicableRangeType <;>
        simp [SnapPointBase.Influence, ScrollSnapPoint.Influence, Spec.singleInfluence,
          SnapPointBase.ApplicableRangeType, SnapPointBase.ApplicableRange, ht]
  | zoom p =>
      obtain rfl : p.m_value = v := Option.some.inj hv
      cases ht : p.m_applicableRangeType <;>
        simp [SnapPointBase.Influence, ZoomSnapPoint.Influence, Spec.singleInfluence,
          SnapPointBase.ApplicableRangeType, SnapPointBase.ApplicableRange, ht]
  | repeatedScroll p => simp [SnapPointBase.singleValue] at hv
  | repeatedZoom p => simp [SnapPointBase.singleValue] at hv

/-- `Influence` of a repeated point with actual bounds `(s, e)`. -/
theorem SnapPointBase.Influence_repeated (sp : SnapPointBase) (s e : Dbl)
    (hb : sp.repeatedBounds = some (s, e)) (edge : Dbl) :
    sp.Influence edge =
      if edge ≤ s then Except.ok s
      else if e ≤ edge then Except.ok e
      else Except.error hresult_error.E_INVALIDARG := by
  cases sp with
  | scroll p => simp [SnapPointBase.repeatedBounds] at hb
  | zoom p => simp [SnapPointBase.repeatedBounds] at hb
  | repeatedScroll p =>
      simp only [SnapPointBase.repeatedBounds, Option.some.injEq, Prod.mk.injEq] at hb
      obtain ⟨rfl, rfl⟩ := hb
      simp only [SnapPointBase.Influence, RepeatedScrollSnapPoint.Influence, ge_iff_le]
  | repeatedZoom p =>
      simp only [SnapPointBase.repeatedBounds, Option.some.injEq, Prod.mk.injEq] at hb
      obtain ⟨rfl, rfl⟩ := hb
      simp only [SnapPointBase.Influence, RepeatedZoomSnapPoint.Influence, ge_iff_le]

/-- Every error thrown by `Influence` is `hresult_error(E_INVALIDARG)`. -/
theorem SnapPointBase.Influence_error (sp : SnapPointBase) (edge : Dbl) (err : hresult_error)
    (h : sp.Influence edge = Except.error err) : err = hresult_error.E_INVALIDARG := by
  cases sp with
  | scroll p => simp [SnapPointBase.Influence] at h
  | zoom p => simp [SnapPointBase.Influence] at h
  | repeatedScroll p =>
      simp only [SnapPointBase.Influence, RepeatedScrollSnapPoint.Influence] at h
      split_ifs at h
      exact (Except.error.inj h).symm
  | repeatedZoom p =>
      simp only [SnapPointBase.Influence, RepeatedZoomSnapPoint.Influence] at h
      split_ifs at h
      exact (Except.error.inj h).symm

/-- The `min` side of the zone resolver of a `ScrollSnapPoint` is the specified one. -/
theorem ScrollSnapPoint.DetermineMinActualApplicableZone_scroll_eq (p : ScrollSnapPoint)
    (previous : Option SnapPointBase) :
    p.DetermineMinActualApplicableZone previous =
      Spec.singleZoneMin p.m_applicableRangeType p.ActualValue p.m_specifiedApplicableRange
        previous := by
  cases previous with
  | none =>
      cases ht : p.m_applicableRangeType <;>
        simp [ScrollSnapPoint.DetermineMinActualApplicableZone, Spec.singleZoneMin, ht,
          Dbl.INFINITY]
  | some pr =>
      cases ht : p.m_applicableRangeType <;> cases hi : pr.Influence p.ActualValue <;>
        simp [ScrollSnapPoint.DetermineMinActualApplicableZone, Spec.singleZoneMin, ht, hi,
          bind, Except.bind]

/-- The `max` side of the zone resolver of a `ScrollSnapPoint` is the specified one. -/
theorem ScrollSnapPoint.DetermineMaxActualApplicableZone_scroll_eq (p : ScrollSnapPoint)
    (next : Option SnapPointBase) :
    p.DetermineMaxActualApplicableZone next =
      Spec.singleZoneMax p.m_applicableRangeType p.ActualValue p.m_specifiedApplicableRange
        next := by
  cases next with
  | none =>
      cases ht : p.m_applicableRangeType <;>
        simp [ScrollSnapPoint.DetermineMaxActualApplicableZone, Spec.singleZoneMax, ht,
          Dbl.INFINITY]
  | some nx =>
      cases ht : p.m_applicableRangeType <;> cases hi : nx.Influence p.ActualValue <;>
        simp [ScrollSnapPoint.DetermineMaxActualApplicableZone, Spec.singleZoneMax, ht, hi,
          bind, Except.bind]

/-- The `min` side of the zone resolver of a `ZoomSnapPoint` is the specified one. -/
theorem ZoomSnapPoint.DetermineMinActualApplicableZone_zoom_eq (p : ZoomSnapPoint)
    (previous : Option SnapPointBase) :
    p.DetermineMinActualApplicableZone previous =
      Spec.singleZoneMin p.m_applicableRangeType p.m_value p.m_specifiedApplicableRange
        previous := by
  cases previous with
  | none =>
      cases ht : p.m_applicableRangeType <;>
        simp [ZoomSnapPoint.DetermineMinActualApplicableZone, Spec.singleZoneMin, ht,
          Dbl.INFINITY]
  | some pr =>
      cases ht : p.m_applicableRangeType <;> cases hi : pr.Influence p.m_value <;>
        simp [ZoomSnapPoint.DetermineMinActualApplicableZone, Spec.singleZoneMin, ht, hi,
          bind, Except.bind]

/-- The `max` side of the zone resolver of a `ZoomSnapPoint` is the specified one. -/
theorem ZoomSnapPoint.DetermineMaxActualApplicableZone_zoom_eq (p : ZoomSnapPoint)
    (next : Option SnapPointBase) :
    p.DetermineMaxActualApplicableZone next =
      Spec.singleZoneMax p.m_applicableRangeType p.m_value p.m_specifiedApplicableRange
        next := by
  cases next with
  | none =>
      cases ht : p.m_applicableRangeType <;>
        simp [ZoomSnapPoint.DetermineMaxActualApplicableZone, Spec.singleZoneMax, ht,
          Dbl.INFINITY]
  | some nx =>
      cases ht : p.m_applicableRangeType <;> cases hi : nx.Influence p.m_value <;>
        simp [ZoomSnapPoint.DetermineMaxActualApplicableZone, Spec.singleZoneMax, ht, hi,
          bind, Except.bind]

/-- The zone resolver of a single point computes the specified zone. -/
theorem SnapPointBase.DetermineActualApplicableZone_single (s_equalityEpsilon : Dbl)
    (sp : SnapPointBase) (v : Dbl) (hv : sp.singleValue = some v)
    (previous next : Option SnapPointBase) :
    sp.DetermineActualApplicableZone s_equalityEpsilon previous next =
      Spec.singleZone sp.ApplicableRangeType v sp.ApplicableRange previous next := by
  cases sp with
  | scroll p =>
      obtain rfl : p.ActualValue = v := Option.some.inj hv
      simp only [SnapPointBase.DetermineActualApplicableZone,
        ScrollSnapPoint.DetermineActualApplicableZone,
        ScrollSnapPoint.DetermineMinActualApplicableZone_scroll_eq,
        ScrollSnapPoint.DetermineMaxActualApplicableZone_scroll_eq, Spec.singleZone,
        SnapPointBase.ApplicableRangeType, SnapPointBase.ApplicableRange]
      cases Spec.singleZoneMin p.m_applicableRangeType p.ActualValue
          p.m_specifiedApplicableRange previous <;>
        cases Spec.singleZoneMax p.m_applicableRangeType p.ActualValue
          p.m_specifiedApplicableRange next <;>
        simp [bind, Except.bind]
  | zoom p =>
      obtain rfl : p.m_value = v := Option.some.inj hv
      simp only [SnapPointBase.DetermineActualApplicableZone,
        ZoomSnapPoint.DetermineActualApplicableZone,
        ZoomSnapPoint.DetermineMinActualApplicableZone_zoom_eq,
        ZoomSnapPoint.DetermineMaxActualApplicableZone_zoom_eq, Spec.singleZone,
        SnapPointBase.ApplicableRangeType, SnapPointBase.ApplicableRange]
      cases Spec.singleZoneMin p.m_applicableRangeType p.m_value
          p.m_specifiedApplicableRange previous <;>
        cases Spec.singleZoneMax p.m_applicableRangeType p.m_value
          p.m_specifiedApplicableRange next <;>
        simp [bind, Except.bind]
  | repeatedScroll p => simp [SnapPointBase.singleValue] at hv
  | repeatedZoom p => simp [SnapPointBase.singleValue] at hv

/-- A resolved single zone has its two sides resolved. -/
theorem Spec.singleZone_ok (rangeType : SnapPointApplicableRangeType) (v r : Dbl)
    (previous next : Option SnapPointBase) (zone : Dbl × Dbl)
    (h : Spec.singleZone rangeType v r previous next = Except.ok zone) :
    Spec.singleZoneMin rangeType v r previous = Except.ok zone.1 ∧
    Spec.singleZoneMax rangeType v r next = Except.ok zone.2 := by
  simp only [Spec.singleZone] at h
  cases hmin : Spec.singleZoneMin rangeType v r previous with
  | error err => simp [hmin] at h
  | ok m =>
      cases hmax : Spec.singleZoneMax rangeType v r next with
      | error err => simp [hmin, hmax] at h
      | ok M =>
          simp only [hmin, hmax] at h
          rw [← Except.ok.inj h]
          exact ⟨rfl, rfl⟩

/-- The arithmetic heart of zone separation: with `pv <= qv`, the upper bound the lower point
derives from the upper point's influence does not exceed the lower bound the upper point
derives from the lower point's influence. -/
theorem Spec.single_zones_separated (pt qt : SnapPointApplicableRangeType) (pv qv : ℚ)
    (pr qr : Dbl) (hpr : pt = SnapPointApplicableRangeType.Optional → Dbl.fin 0 < pr)
    (hqr : qt = SnapPointApplicableRangeType.Optional → Dbl.fin 0 < qr) (hle : pv ≤ qv)
    (zmax zmin : Dbl)
    (hmax : zmax = match pt with
      | SnapPointApplicableRangeType.Mandatory =>
          Spec.singleInfluence qt (Dbl.fin qv) qr (Dbl.fin pv)
      | SnapPointApplicableRangeType.Optional =>
          Dbl.std_min (Dbl.fin pv + pr) (Spec.singleInfluence qt (Dbl.fin qv) qr (Dbl.fin pv)))
    (hmin : zmin = match qt with
      | SnapPointApplicableRangeType.Mandatory =>
          Spec.singleInfluence pt (Dbl.fin pv) pr (Dbl.fin qv)
      | SnapPointApplicableRangeType.Optional =>
          Dbl.std_max (Spec.singleInfluence pt (Dbl.fin pv) pr (Dbl.fin qv)) (Dbl.fin qv - qr)) :
    zmax ≤ zmin := by
  subst hmax hmin
  cases pt <;> cases qt
  · simp [Spec.singleInfluence]
    linarith
  · rcases Dbl.pos_cases (hqr rfl) with hR | ⟨r, hr0, hR⟩ <;> subst hR <;>
      simp only [Spec.singleInfluence, Dbl.fin_le_fin, Dbl.fin_add_fin, Dbl.fin_div_two,
        Dbl.std_min, Dbl.std_max, Dbl.fin_lt_fin, Dbl.fin_sub_fin, Dbl.fin_add_pinf,
        Dbl.fin_sub_pinf, Dbl.not_pinf_lt, Dbl.not_lt_ninf, Dbl.fin_lt_pinf, Dbl.ninf_lt_fin,
        if_true, if_false] <;>
      split_ifs <;>
      simp only [Dbl.fin_le_fin, Dbl.fin_lt_fin, Dbl.fin_lt_pinf, Dbl.not_pinf_lt,
        Dbl.not_lt_ninf, Dbl.ninf_lt_fin, not_true_eq_false, not_false_eq_true, not_lt,
        not_le] at * <;>
      linarith
  · rcases Dbl.pos_cases (hpr rfl) with hR | ⟨r, hr0, hR⟩ <;> subst hR <;>
      simp only [Spec.singleInfluence, Dbl.fin_le_fin, Dbl.fin_add_fin, Dbl.fin_div_two,
        Dbl.std_min, Dbl.std_max, Dbl.fin_lt_fin, Dbl.fin_sub_fin, Dbl.fin_add_pinf,
        Dbl.fin_sub_pinf, Dbl.not_pinf_lt, Dbl.not_lt_ninf, Dbl.fin_lt_pinf, Dbl.ninf_lt_fin,
        if_true, if_false] <;>
      split_ifs <;>
      simp only [Dbl.fin_le_fin, Dbl.fin_lt_fin, Dbl.fin_lt_pinf, Dbl.not_pinf_lt,
        Dbl.not_lt_ninf, Dbl.ninf_lt_fin, not_true_eq_false, not_false_eq_true, not_lt,
        not_le] at * <;>
      linarith
  · rcases Dbl.pos_cases (hpr rfl) with hR | ⟨r, hr0, hR⟩ <;>
      rcases Dbl.pos_cases (hqr rfl) with hR2 | ⟨r2, hr20, hR2⟩ <;> subst hR <;> subst hR2 <;>
      simp only [Spec.singleInfluence, Dbl.fin_le_fin, Dbl.fin_add_fin, Dbl.fin_div_two,
        Dbl.std_min, Dbl.std_max, Dbl.fin_lt_fin, Dbl.fin_sub_fin, Dbl.fin_add_pinf,
        Dbl.fin_sub_pinf, Dbl.not_pinf_lt, Dbl.not_lt_ninf, Dbl.fin_lt_pinf, Dbl.ninf_lt_fin,
        if_true, if_false] <;>
      split_ifs <;>
      simp only [Dbl.fin_le_fin, Dbl.fin_lt_fin, Dbl.fin_lt_pinf, Dbl.not_pinf_lt,
        Dbl.not_lt_ninf, Dbl.ninf_lt_fin, not_true_eq_false, not_false_eq_true, not_lt,
        not_le] at * <;>
      linarith

/-- C4. Two adjacent single points `p` and `q` with finite actual values `pv <= qv` (each
mandatory, or optional with a positive range; any mix of scroll and zoom): whenever both zones
resolve, the `max` of the zone of `p` (resolved with `q` as next neighbour) is `<=` the `min`
of the zone of `q` (resolved with `p` as previous neighbour). -/
theorem C4_adjacent_single_zones (s_equalityEpsilon : Dbl) (p q : SnapPointBase) (pv qv : ℚ)
    (hp : p.singleValue = some (Dbl.fin pv)) (hq : q.singleValue = some (Dbl.fin qv))
    (hpr : p.ApplicableRangeType = SnapPointApplicableRangeType.Optional →
      Dbl.fin 0 < p.ApplicableRange)
    (hqr : q.ApplicableRangeType = SnapPointApplicableRangeType.Optional →
      Dbl.fin 0 < q.ApplicableRange)
    (hle : pv ≤ qv) (previous next : Option SnapPointBase) (zp zq : Dbl × Dbl)
    (hzp : p.DetermineActualApplicableZone s_equalityEpsilon previous (some q) = Except.ok zp)
    (hzq : q.DetermineActualApplicableZone s_equalityEpsilon (some p) next = Except.ok zq) :
    zp.2 ≤ zq.1 := by
  rw [SnapPointBase.DetermineActualApplicableZone_single s_equalityEpsilon p _ hp] at hzp
  rw [SnapPointBase.DetermineActualApplicableZone_single s_equalityEpsilon q _ hq] at hzq
  have hmax := (Spec.singleZone_ok _ _ _ _ _ _ hzp).2
  have hmin := (Spec.singleZone_ok _ _ _ _ _ _ hzq).1
  simp only [Spec.singleZoneMax, SnapPointBase.Influence_single q _ hq] at hmax
  simp only [Spec.singleZoneMin, SnapPointBase.Influence_single p _ hp] at hmin
  revert hmax hmin hpr hqr
  generalize p.ApplicableRangeType = pt
  generalize q.ApplicableRangeType = qt
  generalize p.ApplicableRange = pr
  generalize q.ApplicableRange = qr
  intro hpr hqr hmax hmin
  cases pt <;> cases qt <;>
    exact Spec.single_zones_separated _ _ pv qv pr qr hpr hqr hle zp.2 zq.1
      (Except.ok.inj hmax).symm (Except.ok.inj hmin).symm

/-- C4 witness: the optional point at `0` with range `8` and the mandatory point at `100`, each
the only neighbour of the other: the zones are `(-8, 8)` and `(8, +inf)`, and `8 <= 8`. -/
theorem C4_adjacent_single_zones_witness :
    (SnapPointBase.scroll (Scenario.optionalScroll 0 8)).DetermineActualApplicableZone
      (Dbl.fin (1 / 100000)) none (some (SnapPointBase.scroll (Scenario.mandatoryScroll 100)))
      = Except.ok (Dbl.fin (-8), Dbl.fin 8) ∧
    (SnapPointBase.scroll (Scenario.mandatoryScroll 100)).DetermineActualApplicableZone
      (Dbl.fin (1 / 100000)) (some (SnapPointBase.scroll (Scenario.optionalScroll 0 8))) none
      = Except.ok (Dbl.fin 8, Dbl.pinf) ∧
    (Dbl.fin (-8), Dbl.fin 8).2 ≤ (Dbl.fin 8, Dbl.pinf).1 := by
  have h1 : (SnapPointBase.scroll (Scenario.optionalScroll 0 8)).DetermineActualApplicableZone
      (Dbl.fin (1 / 100000)) none (some (SnapPointBase.scroll (Scenario.mandatoryScroll 100)))
      = Except.ok (Dbl.fin (-8), Dbl.fin 8) := by
    norm_num [SnapPointBase.DetermineActualApplicableZone,
      ScrollSnapPoint.DetermineActualApplicableZone,
      ScrollSnapPoint.DetermineMinActualApplicableZone,
      ScrollSnapPoint.DetermineMaxActualApplicableZone, SnapPointBase.Influence,
      ScrollSnapPoint.Influence, ScrollSnapPoint.ActualValue, Scenario.mandatoryScroll,
      Scenario.optionalScroll, Dbl.std_min, bind, Except.bind]
  have h2 : (SnapPointBase.scroll (Scenario.mandatoryScroll 100)).DetermineActualApplicableZone
      (Dbl.fin (1 / 100000)) (some (SnapPointBase.scroll (Scenario.optionalScroll 0 8))) none
      = Except.ok (Dbl.fin 8, Dbl.pinf) := by
    norm_num [SnapPointBase.DetermineActualApplicableZone,
      ScrollSnapPoint.DetermineActualApplicableZone,
      ScrollSnapPoint.DetermineMinActualApplicableZone,
      ScrollSnapPoint.DetermineMaxActualApplicableZone, SnapPointBase.Influence,
      ScrollSnapPoint.Influence, ScrollSnapPoint.ActualValue, Scenario.mandatoryScroll,
      Scenario.optionalScroll, Dbl.std_min, Dbl.INFINITY, bind, Except.bind]
  exact ⟨h1, h2,
    C4_adjacent_single_zones (Dbl.fin (1 / 100000))
      (SnapPointBase.scroll (Scenario.optionalScroll 0 8))
      (SnapPointBase.scroll (Scenario.mandatoryScroll 100)) 0 100
      (by norm_num [SnapPointBase.singleValue, Scenario.optionalScroll,
        ScrollSnapPoint.ActualValue])
      (by norm_num [SnapPointBase.singleValue, Scenario.mandatoryScroll,
        ScrollSnapPoint.ActualValue])
      (by intro _; norm_num [SnapPointBase.ApplicableRange, Scenario.optionalScroll])
      (by intro h; simp [SnapPointBase.ApplicableRangeType, Scenario.mandatoryScroll] at h)
      (by norm_num) none none _ _ h1 h2⟩

/-- C7. Whenever `DetermineActualApplicableZone` of a repeated point returns (does not throw),
the zone returned is exactly `(actual start, actual end)`, whatever the neighbours are. -/
theorem C7_repeated_zone_is_start_end (s_equalityEpsilon : Dbl) (sp : SnapPointBase)
    (bounds : Dbl × Dbl) (hb : sp.repeatedBounds = some bounds)
    (previous next : Option SnapPointBase) (zone : Dbl × Dbl)
    (h : sp.DetermineActualApplicableZone s_equalityEpsilon previous next = Except.ok zone) :
    zone = bounds := by
  cases sp with
  | scroll p => simp [SnapPointBase.repeatedBounds] at hb
  | zoom p => simp [SnapPointBase.repeatedBounds] at hb
  | repeatedScroll p =>
      obtain rfl : (p.ActualStart, p.ActualEnd) = bounds := Option.some.inj hb
      simp only [SnapPointBase.DetermineActualApplicableZone,
        RepeatedScrollSnapPoint.DetermineActualApplicableZone,
        RepeatedScrollSnapPoint.DetermineMinActualApplicableZone,
        RepeatedScrollSnapPoint.DetermineMaxActualApplicableZone] at h
      cases previous with
      | none =>
          cases next with
          | none =>
              simp only [bind, Except.bind] at h
              exact (Except.ok.inj h).symm
          | some nx =>
              cases hn : nx.Influence p.ActualEnd <;> simp only [bind, Except.bind, hn] at h
              · exact absurd h (by simp)
              · split_ifs at h
                exact (Except.ok.inj h).symm
      | some pr =>
          cases hp : pr.Influence p.ActualStart with
          | error err => simp [bind, Except.bind, hp] at h
          | ok infl =>
              cases next with
              | none =>
                  simp only [bind, Except.bind, hp] at h
                  exact (Except.ok.inj h).symm
              | some nx =>
                  cases hn : nx.Influence p.ActualEnd <;>
                    simp only [bind, Except.bind, hp, hn] at h
                  · exact absurd h (by simp)
                  · split_ifs at h
                    exact (Except.ok.inj h).symm
  | repeatedZoom p =>
      obtain rfl : (p.m_start, p.m_end) = bounds := Option.some.inj hb
      simp only [SnapPointBase.DetermineActualApplicableZone,
        RepeatedZoomSnapPoint.DetermineActualApplicableZone,
        RepeatedZoomSnapPoint.DetermineMinActualApplicableZone,
        RepeatedZoomSnapPoint.DetermineMaxActualApplicableZone] at h
      cases previous with
      | none =>
          cases next with
          | none =>
              simp only [bind, Except.bind] at h
              exact (Except.ok.inj h).symm
          | some nx =>
              cases hn : nx.Influence p.m_end <;> simp only [bind, Except.bind, hn] at h
              · exact absurd h (by simp)
              · split_ifs at h
                exact (Except.ok.inj h).symm
      | some pr =>
          cases hp : pr.Influence p.m_start with
          | error err => simp [bind, Except.bind, hp] at h
          | ok infl =>
              cases next with
              | none =>
                  simp only [bind, Except.bind, hp] at h
                  exact (Except.ok.inj h).symm
              | some nx =>
                  cases hn : nx.Influence p.m_end <;>
                    simp only [bind, Except.bind, hp, hn] at h
                  · exact absurd h (by simp)
                  · split_ifs at h
                    exact (Except.ok.inj h).symm

/-- C7 witness: the repeated scenario point between single points at `-20` and `120` resolves
to the zone `(0, 100)`. -/
theorem C7_repeated_zone_is_start_end_witness :
    ∃ zone : Dbl × Dbl,
      (SnapPointBase.repeatedScroll Scenario.mandatoryRepeated).DetermineActualApplicableZone
        (Dbl.fin (1 / 100000))
        (some (SnapPointBase.scroll (Scenario.mandatoryScroll (-20))))
        (some (SnapPointBase.scroll (Scenario.mandatoryScroll 120))) = Except.ok zone ∧
      zone = (Dbl.fin 0, Dbl.fin 100) := by
  have heval :
      (SnapPointBase.repeatedScroll Scenario.mandatoryRepeated).DetermineActualApplicableZone
        (Dbl.fin (1 / 100000))
        (some (SnapPointBase.scroll (Scenario.mandatoryScroll (-20))))
        (some (SnapPointBase.scroll (Scenario.mandatoryScroll 120)))
        = Except.ok (Dbl.fin 0, Dbl.fin 100) := by
    norm_num [SnapPointBase.DetermineActualApplicableZone,
      RepeatedScrollSnapPoint.DetermineActualApplicableZone,
      RepeatedScrollSnapPoint.DetermineMinActualApplicableZone,
      RepeatedScrollSnapPoint.DetermineMaxActualApplicableZone,
      RepeatedScrollSnapPoint.ActualStart, RepeatedScrollSnapPoint.ActualEnd,
      SnapPointBase.Influence, SnapPointBase.operator_eq, SnapPointBase.SortPredicate,
      RepeatedScrollSnapPoint.SortPredicate, ScrollSnapPoint.SortPredicate,
      Scenario.mandatoryRepeated, Scenario.mandatoryScroll, bind, Except.bind]
  exact ⟨(Dbl.fin 0, Dbl.fin 100), heval,
    C7_repeated_zone_is_start_end (Dbl.fin (1 / 100000))
      (SnapPointBase.repeatedScroll Scenario.mandatoryRepeated) (Dbl.fin 0, Dbl.fin 100)
      (by norm_num [SnapPointBase.repeatedBounds, Scenario.mandatoryRepeated,
        RepeatedScrollSnapPoint.ActualStart, RepeatedScrollSnapPoint.ActualEnd])
      _ _ _ heval⟩

/-- C8. For a repeated point with actual bounds `start < end` and every `edgeOfMidpoint` that is
a number (not `nan`): `Influence` throws if and only if `start < edge < end`; it returns
`start` when `edge <= start` and `end` when `edge >= end`. -/
theorem C8_repeated_Influence (sp : SnapPointBase) (s e : Dbl)
    (hb : sp.repeatedBounds = some (s, e)) (hse : s < e) (edge : Dbl) (hedge : edge ≠ Dbl.nan) :
    ((∃ err, sp.Influence edge = Except.error err) ↔ (s < edge ∧ edge < e)) ∧
    (edge ≤ s → sp.Influence edge = Except.ok s) ∧
    (e ≤ edge → sp.Influence edge = Except.ok e) := by
  rw [SnapPointBase.Influence_repeated sp s e hb edge]
  have hs : s ≠ Dbl.nan := by rintro rfl; simp at hse
  have he : e ≠ Dbl.nan := by rintro rfl; simp at hse
  refine ⟨?_, ?_, ?_⟩
  · constructor
    · rintro ⟨err, h⟩
      split_ifs at h with h1 h2
      exact ⟨Dbl.lt_of_not_le hedge hs h1, Dbl.lt_of_not_le he hedge h2⟩
    · rintro ⟨h1, h2⟩
      rw [if_neg (Dbl.not_le_of_lt h1), if_neg (Dbl.not_le_of_lt h2)]
      exact ⟨_, rfl⟩
  · intro h
    rw [if_pos h]
  · intro h
    have h1 : ¬ edge ≤ s := by
      intro h1
      cases s <;> cases e <;> cases edge <;> simp_all
      linarith
    rw [if_neg h1, if_pos h]

/-- C8 witness: for the repeated scenario point (`start = 0`, `end = 100`), `Influence(50)`
throws, `Influence(-5) = 0` and `Influence(100) = 100`. -/
theorem C8_repeated_Influence_witness :
    (∃ err, (SnapPointBase.repeatedScroll Scenario.mandatoryRepeated).Influence (Dbl.fin 50)
      = Except.error err) ∧
    (SnapPointBase.repeatedScroll Scenario.mandatoryRepeated).Influence (Dbl.fin (-5))
      = Except.ok (Dbl.fin 0) ∧
    (SnapPointBase.repeatedScroll Scenario.mandatoryRepeated).Influence (Dbl.fin 100)
      = Except.ok (Dbl.fin 100) := by
  have hb : (SnapPointBase.repeatedScroll Scenario.mandatoryRepeated).repeatedBounds
      = some (Dbl.fin 0, Dbl.fin 100) := by
    norm_num [SnapPointBase.repeatedBounds, Scenario.mandatoryRepeated,
      RepeatedScrollSnapPoint.ActualStart, RepeatedScrollSnapPoint.ActualEnd]
  refine ⟨?_, ?_, ?_⟩
  · exact (C8_repeated_Influence _ _ _ hb (by norm_num) (Dbl.fin 50) (by simp)).1.mpr
      ⟨by norm_num, by norm_num⟩
  · exact (C8_repeated_Influence _ _ _ hb (by norm_num) (Dbl.fin (-5)) (by simp)).2.1
      (by norm_num)
  · exact (C8_repeated_Influence _ _ _ hb (by norm_num) (Dbl.fin 100) (by simp)).2.2
      (by norm_num)

/-- C10. A single point `p` whose actual value lies strictly inside the bounds of a repeated
neighbour `q` (`q.start < p.value < q.end`) gets no zone: `DetermineActualApplicableZone`
throws, whether `q` is passed as previous or as next neighbour and whatever the other
neighbour is. -/
theorem C10_single_inside_repeated_throws (s_equalityEpsilon : Dbl) (p q : SnapPointBase)
    (v s e : Dbl) (hp : p.singleValue = some v) (hq : q.repeatedBounds = some (s, e))
    (hsv : s < v) (hve : v < e) (other : Option SnapPointBase) :
    p.DetermineActualApplicableZone s_equalityEpsilon (some q) other
      = Except.error hresult_error.E_INVALIDARG ∧
    p.DetermineActualApplicableZone s_equalityEpsilon other (some q)
      = Except.error hresult_error.E_INVALIDARG := by
  have hthrow : q.Influence v = Except.error hresult_error.E_INVALIDARG := by
    rw [SnapPointBase.Influence_repeated q s e hq v, if_neg (Dbl.not_le_of_lt hsv),
      if_neg (Dbl.not_le_of_lt hve)]
  rw [SnapPointBase.DetermineActualApplicableZone_single s_equalityEpsilon p v hp,
    SnapPointBase.DetermineActualApplicableZone_single s_equalityEpsilon p v hp]
  constructor
  · simp [Spec.singleZone, Spec.singleZoneMin, hthrow]
  · simp only [Spec.singleZone, Spec.singleZoneMax, hthrow]
    cases hmin : Spec.singleZoneMin p.ApplicableRangeType v p.ApplicableRange other with
    | ok m => rfl
    | error err =>
        cases other with
        | none =>
            cases ht : p.ApplicableRangeType <;> simp [Spec.singleZoneMin, ht] at hmin
        | some o =>
            cases ho : o.Influence v with
            | ok infl =>
                cases ht : p.ApplicableRangeType <;> simp [Spec.singleZoneMin, ho, ht] at hmin
            | error err2 =>
                have h2 := SnapPointBase.Influence_error o v err2 ho
                simp only [Spec.singleZoneMin, ho] at hmin
                rw [← Except.error.inj hmin, h2]

/-- C10 witness: a single point at `50` next to the repeated scenario point (`start = 0`,
`end = 100`), on either side. -/
theorem C10_single_inside_repeated_throws_witness :
    (SnapPointBase.scroll (Scenario.mandatoryScroll 50)).DetermineActualApplicableZone
      (Dbl.fin (1 / 100000)) (some (SnapPointBase.repeatedScroll Scenario.mandatoryRepeated)) none
      = Except.error hresult_error.E_INVALIDARG ∧
    (SnapPointBase.scroll (Scenario.mandatoryScroll 50)).DetermineActualApplicableZone
      (Dbl.fin (1 / 100000)) none (some (SnapPointBase.repeatedScroll Scenario.mandatoryRepeated))
      = Except.error hresult_error.E_INVALIDARG :=
  C10_single_inside_repeated_throws (Dbl.fin (1 / 100000))
    (SnapPointBase.scroll (Scenario.mandatoryScroll 50))
    (SnapPointBase.repeatedScroll Scenario.mandatoryRepeated) (Dbl.fin 50) (Dbl.fin 0)
    (Dbl.fin 100)
    (by norm_num [SnapPointBase.singleValue, Scenario.mandatoryScroll,
      ScrollSnapPoint.ActualValue])
    (by norm_num [SnapPointBase.repeatedBounds, Scenario.mandatoryRepeated,
      RepeatedScrollSnapPoint.ActualStart, RepeatedScrollSnapPoint.ActualEnd])
    (by norm_num) (by norm_num) none

namespace Dbl

/-- No double is below itself. -/
theorem lt_irrefl_dbl (a : Dbl) : ¬ a < a := by
  cases a <;> simp

/-- The strict comparison of doubles is transitive. -/
theorem lt_trans_dbl {a b c : Dbl} (hab : a < b) (hbc : b < c) : a < c := by
  cases a <;> cases b <;> cases c <;> simp_all
  exact lt_trans hab hbc

/-- The strict comparison of doubles is asymmetric. -/
theorem lt_asymm_dbl {a b : Dbl} (hab : a < b) : ¬ b < a := by
  cases a <;> cases b <;> simp_all
  exact hab.le

/-- Doubles that are not `nan` are comparable. -/
theorem lt_trichotomy_dbl {a b : Dbl} (ha : a ≠ nan) (hb : b ≠ nan) : a < b ∨ a = b ∨ b < a := by
  cases a <;> cases b <;> simp_all
  exact lt_trichotomy _ _

/-- A double is not `nan` exactly when `isnan` answers `false`. -/
theorem isnan_eq_false_iff (a : Dbl) : a.isnan = false ↔ a ≠ nan := by
  cases a <;> simp [isnan]

end Dbl

/-- Both keys of a `noNaN` sort key are numbers. -/
theorem ScrollerSnapPointSortPredicate.noNaN_iff (k : ScrollerSnapPointSortPredicate) :
    k.noNaN = true ↔ k.primary ≠ Dbl.nan ∧ k.secondary ≠ Dbl.nan := by
  simp [ScrollerSnapPointSortPredicate.noNaN, Dbl.isnan_eq_false_iff]

/-- On sort keys without `nan`, `operator<` is the lexicographic comparison of the keys. -/
theorem SnapPointBase.operator_lt_iff_lexLt (a b : SnapPointBase)
    (ha : a.SortPredicate.noNaN = true) (hb : b.SortPredicate.noNaN = true) :
    a.operator_lt b = true ↔ a.SortPredicate.lexLt b.SortPredicate := by
  rw [ScrollerSnapPointSortPredicate.noNaN_iff] at ha hb
  obtain ⟨hap, has⟩ := ha
  obtain ⟨hbp, hbs⟩ := hb
  simp only [SnapPointBase.operator_lt, ScrollerSnapPointSortPredicate.lexLt]
  by_cases h1 : a.SortPredicate.primary < b.SortPredicate.primary
  · simp [h1]
  · by_cases h2 : b.SortPredicate.primary < a.SortPredicate.primary
    · have hne : a.SortPredicate.primary ≠ b.SortPredicate.primary := by
        intro h
        rw [h] at h2
        exact Dbl.lt_irrefl_dbl _ h2
      simp [h1, h2, hne]
    · have heq : a.SortPredicate.primary = b.SortPredicate.primary := by
        rcases Dbl.lt_trichotomy_dbl hap hbp with h | h | h
        · exact absurd h h1
        · exact h
        · exact absurd h h2
      by_cases h3 : a.SortPredicate.secondary < b.SortPredicate.secondary
      · simp [h1, h2, h3, heq]
      · by_cases h4 : b.SortPredicate.secondary < a.SortPredicate.secondary
        · have hne : a.SortPredicate.secondary ≠ b.SortPredicate.secondary := by
            intro h
            rw [h] at h4
            exact Dbl.lt_irrefl_dbl _ h4
          simp [h1, h2, h3, h4, heq, hne]
        · have heq2 : a.SortPredicate.secondary = b.SortPredicate.secondary := by
            rcases Dbl.lt_trichotomy_dbl has hbs with h | h | h
            · exact absurd h h3
            · exact h
            · exact absurd h h4
          simp [heq, heq2, Dbl.lt_irrefl_dbl]

/-- The lexicographic order on sort keys is irreflexive. -/
theorem ScrollerSnapPointSortPredicate.lexLt_irrefl (a : ScrollerSnapPointSortPredicate) :
    ¬ a.lexLt a := by
  simp [ScrollerSnapPointSortPredicate.lexLt, Dbl.lt_irrefl_dbl]

/-- The lexicographic order on sort keys is transitive. -/
theorem ScrollerSnapPointSortPredicate.lexLt_trans {a b c : ScrollerSnapPointSortPredicate}
    (hab : a.lexLt b) (hbc : b.lexLt c) : a.lexLt c := by
  simp only [ScrollerSnapPointSortPredicate.lexLt] at *
  rcases hab with h1 | ⟨e1, h1 | ⟨e1', h1⟩⟩ <;> rcases hbc with h2 | ⟨e2, h2 | ⟨e2', h2⟩⟩
  · exact Or.inl (Dbl.lt_trans_dbl h1 h2)
  · exact Or.inl (e2 ▸ h1)
  · exact Or.inl (e2 ▸ h1)
  · exact Or.inl (e1 ▸ h2)
  · exact Or.inr ⟨e1.trans e2, Or.inl (Dbl.lt_trans_dbl h1 h2)⟩
  · exact Or.inr ⟨e1.trans e2, Or.inl (e2' ▸ h1)⟩
  · exact Or.inl (e1 ▸ h2)
  · exact Or.inr ⟨e1.trans e2, Or.inl (e1' ▸ h2)⟩
  · exact Or.inr ⟨e1.trans e2, Or.inr ⟨e1'.trans e2', lt_trans h1 h2⟩⟩

/-- The lexicographic order on sort keys is asymmetric. -/
theorem ScrollerSnapPointSortPredicate.lexLt_asymm {a b : ScrollerSnapPointSortPredicate}
    (hab : a.lexLt b) : ¬ b.lexLt a := fun hba =>
  ScrollerSnapPointSortPredicate.lexLt_irrefl a (ScrollerSnapPointSortPredicate.lexLt_trans hab hba)

/-- Two different sort keys without `nan` are ordered one way or the other. -/
theorem ScrollerSnapPointSortPredicate.lexLt_total {a b : ScrollerSnapPointSortPredicate}
    (ha : a.noNaN = true) (hb : b.noNaN = true) (hne : a ≠ b) : a.lexLt b ∨ b.lexLt a := by
  rw [ScrollerSnapPointSortPredicate.noNaN_iff] at ha hb
  obtain ⟨ap, as, at_⟩ := a
  obtain ⟨bp, bs, bt⟩ := b
  simp only [ScrollerSnapPointSortPredicate.lexLt]
  simp only at ha hb
  rcases Dbl.lt_trichotomy_dbl ha.1 hb.1 with h | h | h
  · exact Or.inl (Or.inl h)
  · rcases Dbl.lt_trichotomy_dbl ha.2 hb.2 with h' | h' | h'
    · exact Or.inl (Or.inr ⟨h, Or.inl h'⟩)
    · rcases lt_trichotomy at_ bt with h'' | h'' | h''
      · exact Or.inl (Or.inr ⟨h, Or.inr ⟨h', h''⟩⟩)
      · exact absurd (by rw [h, h', h'']) hne
      · exact Or.inr (Or.inr ⟨h.symm, Or.inr ⟨h'.symm, h''⟩⟩)
    · exact Or.inr (Or.inr ⟨h.symm, Or.inl h'⟩)
  · exact Or.inr (Or.inl h)

/-! ## Topology errors of repeated points -/

/-- The zone resolver of a repeated point computes the specified zone. -/
theorem SnapPointBase.DetermineActualApplicableZone_repeated (s_equalityEpsilon : Dbl)
    (sp : SnapPointBase) (s e : Dbl) (hb : sp.repeatedBounds = some (s, e))
    (previous next : Option SnapPointBase) :
    sp.DetermineActualApplicableZone s_equalityEpsilon previous next =
      Spec.repeatedZone s_equalityEpsilon sp s e previous next := by
  cases sp with
  | scroll p => simp [SnapPointBase.repeatedBounds] at hb
  | zoom p => simp [SnapPointBase.repeatedBounds] at hb
  | repeatedScroll p =>
      simp only [SnapPointBase.repeatedBounds, Option.some.injEq, Prod.mk.injEq] at hb
      obtain ⟨rfl, rfl⟩ := hb
      simp only [SnapPointBase.DetermineActualApplicableZone,
        RepeatedScrollSnapPoint.DetermineActualApplicableZone,
        RepeatedScrollSnapPoint.DetermineMinActualApplicableZone,
        RepeatedScrollSnapPoint.DetermineMaxActualApplicableZone, Spec.repeatedZone]
      cases previous with
      | none =>
          cases next with
          | none => simp [bind, Except.bind]
          | some nx => cases hn : nx.Influence p.ActualEnd <;> simp [bind, Except.bind, hn]
      | some pr =>
          cases hp : pr.Influence p.ActualStart with
          | error err => simp [bind, Except.bind, hp]
          | ok infl =>
              cases next with
              | none => simp [bind, Except.bind, hp]
              | some nx =>
                  cases hn : nx.Influence p.ActualEnd <;> simp [bind, Except.bind, hp, hn]
  | repeatedZoom p =>
      simp only [SnapPointBase.repeatedBounds, Option.some.injEq, Prod.mk.injEq] at hb
      obtain ⟨rfl, rfl⟩ := hb
      simp only [SnapPointBase.DetermineActualApplicableZone,
        RepeatedZoomSnapPoint.DetermineActualApplicableZone,
        RepeatedZoomSnapPoint.DetermineMinActualApplicableZone,
        RepeatedZoomSnapPoint.DetermineMaxActualApplicableZone, Spec.repeatedZone]
      cases previous with
      | none =>
          cases next with
          | none => simp [bind, Except.bind]
          | some nx => cases hn : nx.Influence p.m_end <;> simp [bind, Except.bind, hn]
      | some pr =>
          cases hp : pr.Influence p.m_start with
          | error err => simp [bind, Except.bind, hp]
          | ok infl =>
              cases next with
              | none => simp [bind, Except.bind, hp]
              | some nx =>
                  cases hn : nx.Influence p.m_end <;> simp [bind, Except.bind, hp, hn]

/-- A previous neighbour whose `Influence` throws makes the specified repeated zone an error. -/
theorem Spec.repeatedZone_previous_throws (s_equalityEpsilon : Dbl) (self pr : SnapPointBase)
    (s e : Dbl) (next : Option SnapPointBase) (err : hresult_error)
    (h : pr.Influence s = Except.error err) :
    Spec.repeatedZone s_equalityEpsilon self s e (some pr) next
      = Except.error hresult_error.E_INVALIDARG := by
  have herr := SnapPointBase.Influence_error pr s err h
  simp [Spec.repeatedZone, h, herr]

/-- A next neighbour whose `Influence` throws makes the specified repeated zone an error. -/
theorem Spec.repeatedZone_next_throws (s_equalityEpsilon : Dbl) (self nx : SnapPointBase)
    (s e : Dbl) (previous : Option SnapPointBase) (err : hresult_error)
    (h : nx.Influence e = Except.error err) :
    Spec.repeatedZone s_equalityEpsilon self s e previous (some nx)
      = Except.error hresult_error.E_INVALIDARG := by
  have herr := SnapPointBase.Influence_error nx e err h
  cases previous with
  | none => simp [Spec.repeatedZone, h, herr]
  | some pr =>
      cases hp : pr.Influence s with
      | error err2 =>
          have herr2 := SnapPointBase.Influence_error pr s err2 hp
          simp [Spec.repeatedZone, hp, herr2]
      | ok infl => simp [Spec.repeatedZone, hp, h, herr]

/-- A next neighbour equal to the point makes the specified repeated zone an error. -/
theorem Spec.repeatedZone_next_equal (s_equalityEpsilon : Dbl) (self nx : SnapPointBase)
    (s e : Dbl) (previous : Option SnapPointBase)
    (h : self.operator_eq s_equalityEpsilon nx = true) :
    Spec.repeatedZone s_equalityEpsilon self s e previous (some nx)
      = Except.error hresult_error.E_INVALIDARG := by
  cases hn : nx.Influence e with
  | error err => exact Spec.repeatedZone_next_throws s_equalityEpsilon self nx s e previous err hn
  | ok infl =>
      cases previous with
      | none => simp [Spec.repeatedZone, hn, h]
      | some pr =>
          cases hp : pr.Influence s with
          | error err2 =>
              have herr2 := SnapPointBase.Influence_error pr s err2 hp
              simp [Spec.repeatedZone, hp, herr2]
          | ok infl2 => simp [Spec.repeatedZone, hp, hn, h]

/-- C11. A repeated point `p` whose next neighbour `q` is equal to it under `operator==` gets no
zone: `DetermineActualApplicableZone(previous, q)` throws, for every previous neighbour. -/
theorem C11_equal_next_neighbour_throws (s_equalityEpsilon : Dbl) (p q : SnapPointBase)
    (bounds : Dbl × Dbl) (hp : p.repeatedBounds = some bounds)
    (heq : p.operator_eq s_equalityEpsilon q = true) (previous : Option SnapPointBase) :
    p.DetermineActualApplicableZone s_equalityEpsilon previous (some q)
      = Except.error hresult_error.E_INVALIDARG := by
  rw [SnapPointBase.DetermineActualApplicableZone_repeated s_equalityEpsilon p bounds.1 bounds.2
    hp]
  exact Spec.repeatedZone_next_equal s_equalityEpsilon p q _ _ previous heq

/-- C11 witness: the mandatory repeated scenario point followed by the optional one, which has
the same bounds `(0, 100)`, with tolerance `1/100000` and a single point at `-20` before it. -/
theorem C11_equal_next_neighbour_throws_witness :
    (SnapPointBase.repeatedScroll Scenario.mandatoryRepeated).DetermineActualApplicableZone
      (Dbl.fin (1 / 100000)) (some (SnapPointBase.scroll (Scenario.mandatoryScroll (-20))))
      (some (SnapPointBase.repeatedScroll Scenario.optionalRepeated))
      = Except.error hresult_error.E_INVALIDARG :=
  C11_equal_next_neighbour_throws (Dbl.fin (1 / 100000))
    (SnapPointBase.repeatedScroll Scenario.mandatoryRepeated)
    (SnapPointBase.repeatedScroll Scenario.optionalRepeated) (Dbl.fin 0, Dbl.fin 100)
    (by norm_num [SnapPointBase.repeatedBounds, Scenario.mandatoryRepeated,
      RepeatedScrollSnapPoint.ActualStart, RepeatedScrollSnapPoint.ActualEnd])
    (by norm_num [SnapPointBase.operator_eq, SnapPointBase.SortPredicate,
      RepeatedScrollSnapPoint.SortPredicate, RepeatedScrollSnapPoint.ActualStart,
      RepeatedScrollSnapPoint.ActualEnd, Scenario.mandatoryRepeated,
      Scenario.optionalRepeated])
    (some (SnapPointBase.scroll (Scenario.mandatoryScroll (-20))))

/-- The sort key of a repeated point is `(actual start, actual end, 1)`. -/
theorem SnapPointBase.SortPredicate_repeated (sp : SnapPointBase) (s e : Dbl)
    (hb : sp.repeatedBounds = some (s, e)) :
    sp.SortPredicate = { primary := s, secondary := e, tertiary := 1 } := by
  cases sp with
  | scroll p => simp [SnapPointBase.repeatedBounds] at hb
  | zoom p => simp [SnapPointBase.repeatedBounds] at hb
  | repeatedScroll p =>
      simp only [SnapPointBase.repeatedBounds, Option.some.injEq, Prod.mk.injEq] at hb
      obtain ⟨rfl, rfl⟩ := hb
      rfl
  | repeatedZoom p =>
      simp only [SnapPointBase.repeatedBounds, Option.some.injEq, Prod.mk.injEq] at hb
      obtain ⟨rfl, rfl⟩ := hb
      rfl

/-- C12 (amended). Two repeated points `p` and `q` with finite bounds, `p` not after `q` in sort
order (`q < p` is false), whose intervals overlap in more than one value (`q.actualStart <
p.actualEnd`), and a positive tolerance: resolving `p` with `q` as next neighbour or resolving `q`
with `p` as previous neighbour throws, whatever the outer neighbours are. -/
theorem C12_overlapping_repeated_detected (s_equalityEpsilon : Dbl) (p q : SnapPointBase)
    (ps pe qs qe : ℚ) (hpos : Dbl.fin 0 < s_equalityEpsilon)
    (hp : p.repeatedBounds = some (Dbl.fin ps, Dbl.fin pe))
    (hq : q.repeatedBounds = some (Dbl.fin qs, Dbl.fin qe))
    (hord : q.operator_lt p = false) (hov : qs < pe)
    (previous next : Option SnapPointBase) :
    p.DetermineActualApplicableZone s_equalityEpsilon previous (some q)
      = Except.error hresult_error.E_INVALIDARG ∨
    q.DetermineActualApplicableZone s_equalityEpsilon (some p) next
      = Except.error hresult_error.E_INVALIDARG := by
  have hpk := SnapPointBase.SortPredicate_repeated p _ _ hp
  have hqk := SnapPointBase.SortPredicate_repeated q _ _ hq
  rw [SnapPointBase.DetermineActualApplicableZone_repeated s_equalityEpsilon p _ _ hp,
    SnapPointBase.DetermineActualApplicableZone_repeated s_equalityEpsilon q _ _ hq]
  have hnot : ¬ q.SortPredicate.lexLt p.SortPredicate := by
    rw [← SnapPointBase.operator_lt_iff_lexLt q p
      (by simp [hqk, ScrollerSnapPointSortPredicate.noNaN, Dbl.isnan])
      (by simp [hpk, ScrollerSnapPointSortPredicate.noNaN, Dbl.isnan]), hord]
    simp
  simp only [ScrollerSnapPointSortPredicate.lexLt, hpk, hqk, Dbl.fin_lt_fin, Dbl.fin.injEq,
    lt_self_iff_false, and_false, or_false, not_or, not_and, not_lt] at hnot
  obtain ⟨h1, h2⟩ := hnot
  rcases lt_or_eq_of_le h1 with hlt | heq
  · right
    refine Spec.repeatedZone_previous_throws s_equalityEpsilon q p _ _ next
      hresult_error.E_INVALIDARG ?_
    rw [SnapPointBase.Influence_repeated p _ _ hp]
    simp only [Dbl.fin_le_fin]
    rw [if_neg (not_le.mpr hlt), if_neg (not_le.mpr hov)]
  · left
    have h3 := h2 heq.symm
    rcases lt_or_eq_of_le h3 with hlt2 | heq2
    · refine Spec.repeatedZone_next_throws s_equalityEpsilon p q _ _ previous
        hresult_error.E_INVALIDARG ?_
      rw [SnapPointBase.Influence_repeated q _ _ hq]
      simp only [Dbl.fin_le_fin]
      rw [if_neg (not_le.mpr hov), if_neg (not_le.mpr hlt2)]
    · refine Spec.repeatedZone_next_equal s_equalityEpsilon p q _ _ previous ?_
      simp only [SnapPointBase.operator_eq, hpk, hqk, heq, heq2, Dbl.fin_sub_fin, sub_self,
        Dbl.abs_fin, abs_zero, hpos, and_self, if_true]

/-- C12 witness: the repeated scenario point `(0, 100)` followed by a repeated point with the
same bounds; here the call on the first point throws. -/
theorem C12_overlapping_repeated_detected_witness :
    (SnapPointBase.repeatedScroll Scenario.mandatoryRepeated).DetermineActualApplicableZone
      (Dbl.fin (1 / 100000)) none (some (SnapPointBase.repeatedScroll Scenario.optionalRepeated))
      = Except.error hresult_error.E_INVALIDARG ∨
    (SnapPointBase.repeatedScroll Scenario.optionalRepeated).DetermineActualApplicableZone
      (Dbl.fin (1 / 100000)) (some (SnapPointBase.repeatedScroll Scenario.mandatoryRepeated)) none
      = Except.error hresult_error.E_INVALIDARG :=
  C12_overlapping_repeated_detected (Dbl.fin (1 / 100000))
    (SnapPointBase.repeatedScroll Scenario.mandatoryRepeated)
    (SnapPointBase.repeatedScroll Scenario.optionalRepeated) 0 100 0 100 (by norm_num)
    (by norm_num [SnapPointBase.repeatedBounds, Scenario.mandatoryRepeated,
      RepeatedScrollSnapPoint.ActualStart, RepeatedScrollSnapPoint.ActualEnd])
    (by norm_num [SnapPointBase.repeatedBounds, Scenario.optionalRepeated,
      RepeatedScrollSnapPoint.ActualStart, RepeatedScrollSnapPoint.ActualEnd])
    (by norm_num [SnapPointBase.operator_lt, SnapPointBase.SortPredicate,
      RepeatedScrollSnapPoint.SortPredicate, RepeatedScrollSnapPoint.ActualStart,
      RepeatedScrollSnapPoint.ActualEnd, Scenario.mandatoryRepeated,
      Scenario.optionalRepeated])
    (by norm_num) none none

/-- C12 counterexample: two copies of the repeated point `offset = 0, interval = 10, start = 0,
end = +inf`, which the constructor accepts (`end > start`, `start <= offset <= end`,
`interval > 0`).  The second is not before the first, the intervals overlap
(`q.actualStart = 0 < p.actualEnd = +inf`), and neither call throws: each neighbour's
`Influence` returns a bound, and `operator==` is false because `|inf - inf|` is `nan`. -/
theorem C12_counterexample :
    RepeatedScrollSnapPoint.ctor (Dbl.fin 0) (Dbl.fin 10) (Dbl.fin 0) Dbl.pinf
        ScrollSnapPointsAlignment.Near
      = Except.ok
        { m_offset := Dbl.fin 0, m_interval := Dbl.fin 10, m_start := Dbl.fin 0,
          m_end := Dbl.pinf, m_alignment := ScrollSnapPointsAlignment.Near,
          m_alignmentAdjustment := Dbl.fin 0, m_specifiedApplicableRange := Dbl.INFINITY,
          m_applicableRangeType := SnapPointApplicableRangeType.Mandatory } ∧
    (SnapPointBase.repeatedScroll
        { m_offset := Dbl.fin 0, m_interval := Dbl.fin 10, m_start := Dbl.fin 0,
          m_end := Dbl.pinf, m_alignment := ScrollSnapPointsAlignment.Near,
          m_alignmentAdjustment := Dbl.fin 0, m_specifiedApplicableRange := Dbl.INFINITY,
          m_applicableRangeType := SnapPointApplicableRangeType.Mandatory }).operator_lt
      (SnapPointBase.repeatedScroll
        { m_offset := Dbl.fin 0, m_interval := Dbl.fin 10, m_start := Dbl.fin 0,
          m_end := Dbl.pinf, m_alignment := ScrollSnapPointsAlignment.Near,
          m_alignmentAdjustment := Dbl.fin 0, m_specifiedApplicableRange := Dbl.INFINITY,
          m_applicableRangeType := SnapPointApplicableRangeType.Mandatory }) = false ∧
    (SnapPointBase.repeatedScroll
        { m_offset := Dbl.fin 0, m_interval := Dbl.fin 10, m_start := Dbl.fin 0,
          m_end := Dbl.pinf, m_alignment := ScrollSnapPointsAlignment.Near,
          m_alignmentAdjustment := Dbl.fin 0, m_specifiedApplicableRange := Dbl.INFINITY,
          m_applicableRangeType := SnapPointApplicableRangeType.Mandatory }).repeatedBounds
      = some (Dbl.fin 0, Dbl.pinf) ∧
    Dbl.fin 0 < Dbl.pinf ∧
    (SnapPointBase.repeatedScroll
        { m_offset := Dbl.fin 0, m_interval := Dbl.fin 10, m_start := Dbl.fin 0,
          m_end := Dbl.pinf, m_alignment := ScrollSnapPointsAlignment.Near,
          m_alignmentAdjustment := Dbl.fin 0, m_specifiedApplicableRange := Dbl.INFINITY,
          m_applicableRangeType := SnapPointApplicableRangeType.Mandatory
          }).DetermineActualApplicableZone (Dbl.fin (1 / 100000)) none
      (some (SnapPointBase.repeatedScroll
        { m_offset := Dbl.fin 0, m_interval := Dbl.fin 10, m_start := Dbl.fin 0,
          m_end := Dbl.pinf, m_alignment := ScrollSnapPointsAlignment.Near,
          m_alignmentAdjustment := Dbl.fin 0, m_specifiedApplicableRange := Dbl.INFINITY,
          m_applicableRangeType := SnapPointApplicableRangeType.Mandatory }))
      = Except.ok (Dbl.fin 0, Dbl.pinf) ∧
    (SnapPointBase.repeatedScroll
        { m_offset := Dbl.fin 0, m_interval := Dbl.fin 10, m_start := Dbl.fin 0,
          m_end := Dbl.pinf, m_alignment := ScrollSnapPointsAlignment.Near,
          m_alignmentAdjustment := Dbl.fin 0, m_specifiedApplicableRange := Dbl.INFINITY,
          m_applicableRangeType := SnapPointApplicableRangeType.Mandatory
          }).DetermineActualApplicableZone (Dbl.fin (1 / 100000))
      (some (SnapPointBase.repeatedScroll
        { m_offset := Dbl.fin 0, m_interval := Dbl.fin 10, m_start := Dbl.fin 0,
          m_end := Dbl.pinf, m_alignment := ScrollSnapPointsAlignment.Near,
          m_alignmentAdjustment := Dbl.fin 0, m_specifiedApplicableRange := Dbl.INFINITY,
          m_applicableRangeType := SnapPointApplicableRangeType.Mandatory })) none
      = Except.ok (Dbl.fin 0, Dbl.pinf) := by
  refine ⟨?_, ?_, ?_, by simp, ?_, ?_⟩
  · norm_num [RepeatedScrollSnapPoint.ctor, RepeatedScrollSnapPoint.ValidateConstructorParameters,
      bind, Except.bind, SnapPointBase.initial_alignmentAdjustment,
      SnapPointBase.initial_specifiedApplicableRange, SnapPointBase.initial_applicableRangeType]
  · simp [SnapPointBase.operator_lt, SnapPointBase.SortPredicate,
      RepeatedScrollSnapPoint.SortPredicate, RepeatedScrollSnapPoint.ActualStart,
      RepeatedScrollSnapPoint.ActualEnd]
  · simp [SnapPointBase.repeatedBounds, RepeatedScrollSnapPoint.ActualStart,
      RepeatedScrollSnapPoint.ActualEnd]
  · simp [SnapPointBase.DetermineActualApplicableZone,
      RepeatedScrollSnapPoint.DetermineActualApplicableZone,
      RepeatedScrollSnapPoint.DetermineMinActualApplicableZone,
      RepeatedScrollSnapPoint.DetermineMaxActualApplicableZone, SnapPointBase.Influence,
      RepeatedScrollSnapPoint.Influence, SnapPointBase.operator_eq, SnapPointBase.SortPredicate,
      RepeatedScrollSnapPoint.SortPredicate, RepeatedScrollSnapPoint.ActualStart,
      RepeatedScrollSnapPoint.ActualEnd, bind, Except.bind]
  · simp [SnapPointBase.DetermineActualApplicableZone,
      RepeatedScrollSnapPoint.DetermineActualApplicableZone,
      RepeatedScrollSnapPoint.DetermineMinActualApplicableZone,
      RepeatedScrollSnapPoint.DetermineMaxActualApplicableZone, SnapPointBase.Influence,
      RepeatedScrollSnapPoint.Influence, RepeatedScrollSnapPoint.ActualStart,
      RepeatedScrollSnapPoint.ActualEnd, bind, Except.bind]

/-! ## Ordering and equality -/

/-- C13. On snap points whose sort keys hold no `nan`, `operator<` is the lexicographic
comparison of the keys `(primary, secondary, tertiary)` and a strict total order on them:
irreflexive, transitive, asymmetric, and total on different keys. -/
theorem C13_operator_lt_strict_total_order (a b c : SnapPointBase)
    (ha : a.SortPredicate.noNaN = true) (hb : b.SortPredicate.noNaN = true)
    (hc : c.SortPredicate.noNaN = true) :
    (a.operator_lt b = true ↔ a.SortPredicate.lexLt b.SortPredicate) ∧
    a.operator_lt a = false ∧
    (a.operator_lt b = true → b.operator_lt c = true → a.operator_lt c = true) ∧
    (a.operator_lt b = true → b.operator_lt a = false) ∧
    (a.SortPredicate ≠ b.SortPredicate → a.operator_lt b = true ∨ b.operator_lt a = true) := by
  refine ⟨SnapPointBase.operator_lt_iff_lexLt a b ha hb, ?_, ?_, ?_, ?_⟩
  · rw [← Bool.not_eq_true, SnapPointBase.operator_lt_iff_lexLt a a ha ha]
    exact ScrollerSnapPointSortPredicate.lexLt_irrefl _
  · rw [SnapPointBase.operator_lt_iff_lexLt a b ha hb, SnapPointBase.operator_lt_iff_lexLt b c hb hc,
      SnapPointBase.operator_lt_iff_lexLt a c ha hc]
    exact ScrollerSnapPointSortPredicate.lexLt_trans
  · rw [← Bool.not_eq_true, SnapPointBase.operator_lt_iff_lexLt a b ha hb,
      SnapPointBase.operator_lt_iff_lexLt b a hb ha]
    exact ScrollerSnapPointSortPredicate.lexLt_asymm
  · rw [SnapPointBase.operator_lt_iff_lexLt a b ha hb, SnapPointBase.operator_lt_iff_lexLt b a hb ha]
    exact ScrollerSnapPointSortPredicate.lexLt_total ha hb

/-- C13 witness: the single point at `0`, the repeated scenario point (keys `(0, 100, 1)`) and
the single point at `50` are in increasing order, and transitivity gives `0 < 50`. -/
theorem C13_operator_lt_strict_total_order_witness :
    (SnapPointBase.scroll (Scenario.mandatoryScroll 0)).operator_lt
      (SnapPointBase.repeatedScroll Scenario.mandatoryRepeated) = true ∧
    (SnapPointBase.repeatedScroll Scenario.mandatoryRepeated).operator_lt
      (SnapPointBase.scroll (Scenario.mandatoryScroll 50)) = true ∧
    (SnapPointBase.scroll (Scenario.mandatoryScroll 0)).operator_lt
      (SnapPointBase.scroll (Scenario.mandatoryScroll 50)) = true ∧
    (SnapPointBase.repeatedScroll Scenario.mandatoryRepeated).operator_lt
      (SnapPointBase.scroll (Scenario.mandatoryScroll 0)) = false := by
  have h := C13_operator_lt_strict_total_order
    (SnapPointBase.scroll (Scenario.mandatoryScroll 0))
    (SnapPointBase.repeatedScroll Scenario.mandatoryRepeated)
    (SnapPointBase.scroll (Scenario.mandatoryScroll 50))
    (by simp [ScrollerSnapPointSortPredicate.noNaN, SnapPointBase.SortPredicate,
      ScrollSnapPoint.SortPredicate, ScrollSnapPoint.ActualValue, Scenario.mandatoryScroll,
      Dbl.isnan])
    (by simp [ScrollerSnapPointSortPredicate.noNaN, SnapPointBase.SortPredicate,
      RepeatedScrollSnapPoint.SortPredicate, RepeatedScrollSnapPoint.ActualStart,
      RepeatedScrollSnapPoint.ActualEnd, Scenario.mandatoryRepeated, Dbl.isnan])
    (by simp [ScrollerSnapPointSortPredicate.noNaN, SnapPointBase.SortPredicate,
      ScrollSnapPoint.SortPredicate, ScrollSnapPoint.ActualValue, Scenario.mandatoryScroll,
      Dbl.isnan])
  have hab : (SnapPointBase.scroll (Scenario.mandatoryScroll 0)).operator_lt
      (SnapPointBase.repeatedScroll Scenario.mandatoryRepeated) = true := by
    norm_num [SnapPointBase.operator_lt, SnapPointBase.SortPredicate,
      ScrollSnapPoint.SortPredicate, ScrollSnapPoint.ActualValue, Scenario.mandatoryScroll,
      RepeatedScrollSnapPoint.SortPredicate, RepeatedScrollSnapPoint.ActualStart,
      RepeatedScrollSnapPoint.ActualEnd, Scenario.mandatoryRepeated]
  have hbc : (SnapPointBase.repeatedScroll Scenario.mandatoryRepeated).operator_lt
      (SnapPointBase.scroll (Scenario.mandatoryScroll 50)) = true := by
    norm_num [SnapPointBase.operator_lt, SnapPointBase.SortPredicate,
      ScrollSnapPoint.SortPredicate, ScrollSnapPoint.ActualValue, Scenario.mandatoryScroll,
      RepeatedScrollSnapPoint.SortPredicate, RepeatedScrollSnapPoint.ActualStart,
      RepeatedScrollSnapPoint.ActualEnd, Scenario.mandatoryRepeated]
  exact ⟨hab, hbc, h.2.2.1 hab hbc, h.2.2.2.1 hab⟩

/-- A finite double is not `nan`. -/
theorem Dbl.ne_nan_of_isFinite {a : Dbl} (h : a.isFinite = true) : a ≠ Dbl.nan := by
  cases a <;> simp [Dbl.isFinite] at h ⊢

/-- A finite sort key holds no `nan`. -/
theorem ScrollerSnapPointSortPredicate.noNaN_of_isFinite (k : ScrollerSnapPointSortPredicate)
    (h : k.isFinite = true) : k.noNaN = true := by
  simp only [ScrollerSnapPointSortPredicate.isFinite, Bool.and_eq_true] at h
  rw [ScrollerSnapPointSortPredicate.noNaN_iff]
  exact ⟨Dbl.ne_nan_of_isFinite h.1, Dbl.ne_nan_of_isFinite h.2⟩

/-- With a positive tolerance, a finite double is within the tolerance of itself. -/
theorem Dbl.abs_sub_self_lt {a s_equalityEpsilon : Dbl} (h : a.isFinite = true)
    (hpos : Dbl.fin 0 < s_equalityEpsilon) : Dbl.abs (a - a) < s_equalityEpsilon := by
  cases a <;> simp [Dbl.isFinite] at h
  simpa using hpos

/-- C14 (amended). For two snap points with finite sort keys and a positive tolerance: at least
one of `a < b`, `b < a`, `a == b` holds; `a < b` and `b < a` never hold together; neither
`a < b` nor `b < a` holds exactly when the sort keys are identical, and then `a == b` holds.
Exclusiveness of `a == b` with `a < b` is not part of the statement: it fails for keys that
differ by less than the tolerance. -/
theorem C14_order_and_equality (s_equalityEpsilon : Dbl) (a b : SnapPointBase)
    (hpos : Dbl.fin 0 < s_equalityEpsilon)
    (ha : a.SortPredicate.isFinite = true) (hb : b.SortPredicate.isFinite = true) :
    (a.operator_lt b = true ∨ b.operator_lt a = true ∨
      a.operator_eq s_equalityEpsilon b = true) ∧
    ¬ (a.operator_lt b = true ∧ b.operator_lt a = true) ∧
    ((a.operator_lt b = false ∧ b.operator_lt a = false) ↔ a.SortPredicate = b.SortPredicate) ∧
    (a.SortPredicate = b.SortPredicate → a.operator_eq s_equalityEpsilon b = true) := by
  have ha' := ScrollerSnapPointSortPredicate.noNaN_of_isFinite _ ha
  have hb' := ScrollerSnapPointSortPredicate.noNaN_of_isFinite _ hb
  have heq : a.SortPredicate = b.SortPredicate → a.operator_eq s_equalityEpsilon b = true := by
    intro h
    simp only [ScrollerSnapPointSortPredicate.isFinite, Bool.and_eq_true] at hb
    simp only [SnapPointBase.operator_eq, h, Dbl.abs_sub_self_lt hb.1 hpos,
      Dbl.abs_sub_self_lt hb.2 hpos, and_self, if_true]
  have hiff : (a.operator_lt b = false ∧ b.operator_lt a = false) ↔
      a.SortPredicate = b.SortPredicate := by
    rw [← Bool.not_eq_true, ← Bool.not_eq_true, SnapPointBase.operator_lt_iff_lexLt a b ha' hb',
      SnapPointBase.operator_lt_iff_lexLt b a hb' ha']
    constructor
    · rintro ⟨h1, h2⟩
      by_contra hne
      rcases ScrollerSnapPointSortPredicate.lexLt_total ha' hb' hne with h | h
      · exact h1 h
      · exact h2 h
    · intro h
      rw [h]
      exact ⟨ScrollerSnapPointSortPredicate.lexLt_irrefl _,
        ScrollerSnapPointSortPredicate.lexLt_irrefl _⟩
  refine ⟨?_, ?_, hiff, heq⟩
  · by_cases h1 : a.operator_lt b = true
    · exact Or.inl h1
    · by_cases h2 : b.operator_lt a = true
      · exact Or.inr (Or.inl h2)
      · exact Or.inr (Or.inr (heq (hiff.mp ⟨by simpa using h1, by simpa using h2⟩)))
  · rintro ⟨h1, h2⟩
    rw [SnapPointBase.operator_lt_iff_lexLt a b ha' hb'] at h1
    rw [SnapPointBase.operator_lt_iff_lexLt b a hb' ha'] at h2
    exact ScrollerSnapPointSortPredicate.lexLt_asymm h1 h2

/-- C14 witness: with tolerance `1/100000`, the single points at `0` and at `50` satisfy
`a < b` only, and the point at `0` compared with itself satisfies `a == a` only. -/
theorem C14_order_and_equality_witness :
    (SnapPointBase.scroll (Scenario.mandatoryScroll 0)).operator_lt
      (SnapPointBase.scroll (Scenario.mandatoryScroll 50)) = true ∧
    (SnapPointBase.scroll (Scenario.mandatoryScroll 50)).operator_lt
      (SnapPointBase.scroll (Scenario.mandatoryScroll 0)) = false ∧
    (SnapPointBase.scroll (Scenario.mandatoryScroll 0)).operator_eq (Dbl.fin (1 / 100000))
      (SnapPointBase.scroll (Scenario.mandatoryScroll 0)) = true := by
  have hfin : ∀ v : ℚ,
      (SnapPointBase.scroll (Scenario.mandatoryScroll v)).SortPredicate.isFinite = true := by
    intro v
    simp [ScrollerSnapPointSortPredicate.isFinite, SnapPointBase.SortPredicate,
      ScrollSnapPoint.SortPredicate, ScrollSnapPoint.ActualValue, Scenario.mandatoryScroll,
      Dbl.isFinite]
  have h := C14_order_and_equality (Dbl.fin (1 / 100000))
    (SnapPointBase.scroll (Scenario.mandatoryScroll 0))
    (SnapPointBase.scroll (Scenario.mandatoryScroll 50)) (by norm_num) (hfin 0) (hfin 50)
  have h0 := C14_order_and_equality (Dbl.fin (1 / 100000))
    (SnapPointBase.scroll (Scenario.mandatoryScroll 0))
    (SnapPointBase.scroll (Scenario.mandatoryScroll 0)) (by norm_num) (hfin 0) (hfin 0)
  have hab : (SnapPointBase.scroll (Scenario.mandatoryScroll 0)).operator_lt
      (SnapPointBase.scroll (Scenario.mandatoryScroll 50)) = true := by
    norm_num [SnapPointBase.operator_lt, SnapPointBase.SortPredicate,
      ScrollSnapPoint.SortPredicate, ScrollSnapPoint.ActualValue, Scenario.mandatoryScroll]
  refine ⟨hab, ?_, h0.2.2.2 rfl⟩
  by_contra hba
  exact h.2.1 ⟨hab, by simpa using hba⟩

/-- C14 counterexample: with tolerance `1/100000`, the single points at `0` and at `1/200000`
have sort keys without `nan` and satisfy `a < b` and `a == b` together. -/
theorem C14_counterexample :
    (SnapPointBase.scroll (Scenario.mandatoryScroll 0)).SortPredicate.noNaN = true ∧
    (SnapPointBase.scroll (Scenario.mandatoryScroll (1 / 200000))).SortPredicate.noNaN = true ∧
    (SnapPointBase.scroll (Scenario.mandatoryScroll 0)).operator_lt
      (SnapPointBase.scroll (Scenario.mandatoryScroll (1 / 200000))) = true ∧
    (SnapPointBase.scroll (Scenario.mandatoryScroll 0)).operator_eq (Dbl.fin (1 / 100000))
      (SnapPointBase.scroll (Scenario.mandatoryScroll (1 / 200000))) = true := by
  refine ⟨?_, ?_, ?_, ?_⟩
  · simp [ScrollerSnapPointSortPredicate.noNaN, SnapPointBase.SortPredicate,
      ScrollSnapPoint.SortPredicate, ScrollSnapPoint.ActualValue, Scenario.mandatoryScroll,
      Dbl.isnan]
  · simp [ScrollerSnapPointSortPredicate.noNaN, SnapPointBase.SortPredicate,
      ScrollSnapPoint.SortPredicate, ScrollSnapPoint.ActualValue, Scenario.mandatoryScroll,
      Dbl.isnan]
  · norm_num [SnapPointBase.operator_lt, SnapPointBase.SortPredicate,
      ScrollSnapPoint.SortPredicate, ScrollSnapPoint.ActualValue, Scenario.mandatoryScroll]
  · norm_num [SnapPointBase.operator_eq, SnapPointBase.SortPredicate,
      ScrollSnapPoint.SortPredicate, ScrollSnapPoint.ActualValue, Scenario.mandatoryScroll,
      abs_of_pos]

/-- C15. `SortPredicate` is `(actual value, actual value, 0)` for a single point and
`(actual start, actual end, 1)` for a repeated point, the alignment adjustment being added for
the scroll kinds; and a single point `s` and a repeated point `r` whose primary keys are equal
and whose secondary keys are equal satisfy `s < r` and not `r < s`. -/
theorem C15_SortPredicate_and_tertiary (s r : SnapPointBase) (v start end_ : Dbl)
    (hs : s.singleValue = some v) (hr : r.repeatedBounds = some (start, end_)) :
    s.SortPredicate = { primary := v, secondary := v, tertiary := 0 } ∧
    r.SortPredicate = { primary := start, secondary := end_, tertiary := 1 } ∧
    (∀ p : ScrollSnapPoint, (SnapPointBase.scroll p).singleValue
      = some (p.m_value + p.m_alignmentAdjustment)) ∧
    (∀ p : ZoomSnapPoint, (SnapPointBase.zoom p).singleValue = some p.m_value) ∧
    (∀ p : RepeatedScrollSnapPoint, (SnapPointBase.repeatedScroll p).repeatedBounds
      = some (p.m_start + p.m_alignmentAdjustment, p.m_end + p.m_alignmentAdjustment)) ∧
    (∀ p : RepeatedZoomSnapPoint, (SnapPointBase.repeatedZoom p).repeatedBounds
      = some (p.m_start, p.m_end)) ∧
    (s.SortPredicate.primary = r.SortPredicate.primary →
      s.SortPredicate.secondary = r.SortPredicate.secondary →
      s.operator_lt r = true ∧ r.operator_lt s = false) := by
  have hsk : s.SortPredicate = { primary := v, secondary := v, tertiary := 0 } := by
    cases s with
    | scroll p =>
        obtain rfl : p.ActualValue = v := Option.some.inj hs
        rfl
    | zoom p =>
        obtain rfl : p.m_value = v := Option.some.inj hs
        rfl
    | repeatedScroll p => simp [SnapPointBase.singleValue] at hs
    | repeatedZoom p => simp [SnapPointBase.singleValue] at hs
  have hrk : r.SortPredicate = { primary := start, secondary := end_, tertiary := 1 } := by
    cases r with
    | scroll p => simp [SnapPointBase.repeatedBounds] at hr
    | zoom p => simp [SnapPointBase.repeatedBounds] at hr
    | repeatedScroll p =>
        simp only [SnapPointBase.repeatedBounds, Option.some.injEq, Prod.mk.injEq] at hr
        obtain ⟨rfl, rfl⟩ := hr
        rfl
    | repeatedZoom p =>
        simp only [SnapPointBase.repeatedBounds, Option.some.injEq, Prod.mk.injEq] at hr
        obtain ⟨rfl, rfl⟩ := hr
        rfl
  refine ⟨hsk, hrk, fun _ => rfl, fun _ => rfl, fun _ => rfl, fun _ => rfl, ?_⟩
  intro hp hsec
  simp only [SnapPointBase.operator_lt, hp, hsec, Dbl.lt_irrefl_dbl, if_false]
  rw [hsk, hrk]
  simp

/-- C15 witness: the keys of the single point at `0` and of the repeated scenario point are
`(0, 0, 0)` and `(0, 100, 1)`; the single point at `0` ties on both keys with the degenerate
repeated value `start = end = 0` and sorts before it. -/
theorem C15_SortPredicate_and_tertiary_witness :
    (SnapPointBase.scroll (Scenario.mandatoryScroll 0)).SortPredicate
      = { primary := Dbl.fin 0, secondary := Dbl.fin 0, tertiary := 0 } ∧
    (SnapPointBase.repeatedScroll Scenario.mandatoryRepeated).SortPredicate
      = { primary := Dbl.fin 0, secondary := Dbl.fin 100, tertiary := 1 } ∧
    (SnapPointBase.scroll (Scenario.mandatoryScroll 0)).operator_lt
      (SnapPointBase.repeatedScroll Scenario.degenerateRepeated) = true ∧
    (SnapPointBase.repeatedScroll Scenario.degenerateRepeated).operator_lt
      (SnapPointBase.scroll (Scenario.mandatoryScroll 0)) = false := by
  have hs : (SnapPointBase.scroll (Scenario.mandatoryScroll 0)).singleValue
      = some (Dbl.fin 0) := by
    norm_num [SnapPointBase.singleValue, Scenario.mandatoryScroll, ScrollSnapPoint.ActualValue]
  have h1 := C15_SortPredicate_and_tertiary (SnapPointBase.scroll (Scenario.mandatoryScroll 0))
    (SnapPointBase.repeatedScroll Scenario.mandatoryRepeated) (Dbl.fin 0) (Dbl.fin 0)
    (Dbl.fin 100) hs
    (by norm_num [SnapPointBase.repeatedBounds, Scenario.mandatoryRepeated,
      RepeatedScrollSnapPoint.ActualStart, RepeatedScrollSnapPoint.ActualEnd])
  have h2 := C15_SortPredicate_and_tertiary (SnapPointBase.scroll (Scenario.mandatoryScroll 0))
    (SnapPointBase.repeatedScroll Scenario.degenerateRepeated) (Dbl.fin 0) (Dbl.fin 0)
    (Dbl.fin 0) hs
    (by norm_num [SnapPointBase.repeatedBounds, Scenario.degenerateRepeated,
      RepeatedScrollSnapPoint.ActualStart, RepeatedScrollSnapPoint.ActualEnd])
  have h3 := h2.2.2.2.2.2.2 (by rw [h2.1, h2.2.1]) (by rw [h2.1, h2.2.1])
  exact ⟨h1.1, h1.2.1, h3.1, h3.2⟩

/-! ## Evaluate of a repeated point on finite numbers -/

/-- The three possible results of the specified `Evaluate` of a repeated point. -/
theorem Spec.repeatedEvaluate_cases (first interval : ℚ) (range : Dbl) (k : ℤ) (value : ℚ) :
    (Spec.repeatedEvaluate first interval range k value = Dbl.fin (first + k * interval) ∧
      value - (first + k * interval) ≤ first + k * interval + interval - value) ∨
    (Spec.repeatedEvaluate first interval range k value
        = Dbl.fin (first + k * interval + interval) ∧
      first + k * interval + interval - value < value - (first + k * interval)) ∨
    (Spec.repeatedEvaluate first interval range k value = Dbl.fin value ∧ range ≠ Dbl.pinf) := by
  simp only [Spec.repeatedEvaluate]
  by_cases hc : value - (first + k * interval) ≤ first + k * interval + interval - value
  · rw [if_pos hc]
    by_cases hr : Dbl.fin (value - (first + k * interval)) ≤ range
    · rw [if_pos hr]
      exact Or.inl ⟨rfl, hc⟩
    · rw [if_neg hr]
      refine Or.inr (Or.inr ⟨rfl, ?_⟩)
      rintro rfl
      exact hr (Dbl.fin_le_pinf _)
  · rw [if_neg hc]
    by_cases hr : Dbl.fin (first + k * interval + interval - value) ≤ range
    · rw [if_pos hr]
      exact Or.inr (Or.inl ⟨rfl, not_le.mp hc⟩)
    · rw [if_neg hr]
      refine Or.inr (Or.inr ⟨rfl, ?_⟩)
      rintro rfl
      exact hr (Dbl.fin_le_pinf _)

/-- `Evaluate` of a `RepeatedScrollSnapPoint` with finite fields on a value inside its bounds:
`first` and the index `k` of the position at or below the value are explicit. -/
theorem RepeatedScrollSnapPoint.Evaluate_finite (offset interval start end_ adj value : ℚ)
    (range : Dbl) (alignment : ScrollSnapPointsAlignment)
    (rangeType : SnapPointApplicableRangeType) (zone : Dbl × Dbl)
    (hi : 0 < interval) (hlo : start + adj ≤ value) (hhi : value ≤ end_ + adj) :
    RepeatedScrollSnapPoint.DetermineFirstRepeatedSnapPointValue
        ⟨Dbl.fin offset, Dbl.fin interval, Dbl.fin start, Dbl.fin end_, alignment, Dbl.fin adj,
          range, rangeType⟩
      = Dbl.fin (offset + adj - ((⌊(offset + adj - (start + adj)) / interval⌋ : ℤ) : ℚ) * interval) ∧
    RepeatedScrollSnapPoint.Evaluate
        ⟨Dbl.fin offset, Dbl.fin interval, Dbl.fin start, Dbl.fin end_, alignment, Dbl.fin adj,
          range, rangeType⟩ zone (Dbl.fin value)
      = Spec.repeatedEvaluate
          (offset + adj - ((⌊(offset + adj - (start + adj)) / interval⌋ : ℤ) : ℚ) * interval)
          interval range
          ⌊(value - (offset + adj
            - ((⌊(offset + adj - (start + adj)) / interval⌋ : ℤ) : ℚ) * interval)) / interval⌋
          value := by
  have hne : interval ≠ 0 := ne_of_gt hi
  have hfirst : RepeatedScrollSnapPoint.DetermineFirstRepeatedSnapPointValue
      ⟨Dbl.fin offset, Dbl.fin interval, Dbl.fin start, Dbl.fin end_, alignment, Dbl.fin adj,
        range, rangeType⟩
      = Dbl.fin (offset + adj - ((⌊(offset + adj - (start + adj)) / interval⌋ : ℤ) : ℚ) * interval) := by
    simp only [RepeatedScrollSnapPoint.DetermineFirstRepeatedSnapPointValue,
      RepeatedScrollSnapPoint.ActualOffset, RepeatedScrollSnapPoint.ActualStart,
      Dbl.fin_add_fin, Dbl.fin_sub_fin, Dbl.fin_div_fin _ _ hne, Dbl.floor_fin, Dbl.fin_mul_fin]
  refine ⟨hfirst, ?_⟩
  obtain ⟨_, _, c3⟩ := Dbl.repeatedEvaluate_core
    (offset + adj - ((⌊(offset + adj - (start + adj)) / interval⌋ : ℤ) : ℚ) * interval)
    interval value range hi
  rw [← c3]
  have hin : Dbl.fin value ≥ Dbl.fin (start + adj) ∧ Dbl.fin value ≤ Dbl.fin (end_ + adj) := by
    simp [hlo, hhi]
  simp only [RepeatedScrollSnapPoint.Evaluate, hfirst, RepeatedScrollSnapPoint.ActualStart,
    RepeatedScrollSnapPoint.ActualEnd, Dbl.fin_add_fin, if_pos hin]

/-- `Evaluate` of a `RepeatedZoomSnapPoint` with finite fields on a value inside its bounds. -/
theorem RepeatedZoomSnapPoint.Evaluate_finite_zoom (offset interval start end_ value : ℚ)
    (range : Dbl) (rangeType : SnapPointApplicableRangeType) (zone : Dbl × Dbl)
    (hi : 0 < interval) (hlo : start ≤ value) (hhi : value ≤ end_) :
    RepeatedZoomSnapPoint.DetermineFirstRepeatedSnapPointValue
        ⟨Dbl.fin offset, Dbl.fin interval, Dbl.fin start, Dbl.fin end_, range, rangeType⟩
      = Dbl.fin (offset - ((⌊(offset - start) / interval⌋ : ℤ) : ℚ) * interval) ∧
    RepeatedZoomSnapPoint.Evaluate
        ⟨Dbl.fin offset, Dbl.fin interval, Dbl.fin start, Dbl.fin end_, range, rangeType⟩ zone
        (Dbl.fin value)
      = Spec.repeatedEvaluate (offset - ((⌊(offset - start) / interval⌋ : ℤ) : ℚ) * interval)
          interval range
          ⌊(value - (offset - ((⌊(offset - start) / interval⌋ : ℤ) : ℚ) * interval)) / interval⌋
          value := by
  have hne : interval ≠ 0 := ne_of_gt hi
  have hfirst : RepeatedZoomSnapPoint.DetermineFirstRepeatedSnapPointValue
      ⟨Dbl.fin offset, Dbl.fin interval, Dbl.fin start, Dbl.fin end_, range, rangeType⟩
      = Dbl.fin (offset - ((⌊(offset - start) / interval⌋ : ℤ) : ℚ) * interval) := by
    simp only [RepeatedZoomSnapPoint.DetermineFirstRepeatedSnapPointValue,
      Dbl.fin_sub_fin, Dbl.fin_div_fin _ _ hne, Dbl.floor_fin, Dbl.fin_mul_fin]
  refine ⟨hfirst, ?_⟩
  obtain ⟨_, _, c3⟩ := Dbl.repeatedEvaluate_core
    (offset - ((⌊(offset - start) / interval⌋ : ℤ) : ℚ) * interval) interval value range hi
  rw [← c3]
  have hin : Dbl.fin value ≥ Dbl.fin start ∧ Dbl.fin value ≤ Dbl.fin end_ := by
    simp [hlo, hhi]
  simp only [RepeatedZoomSnapPoint.Evaluate, hfirst, if_pos hin]

/-- A double between two finite doubles is finite. -/
theorem Dbl.finite_of_between {a b : ℚ} {x : Dbl} (h1 : Dbl.fin a ≤ x) (h2 : x ≤ Dbl.fin b) :
    ∃ v : ℚ, x = Dbl.fin v ∧ a ≤ v ∧ v ≤ b := by
  cases x with
  | nan => simp at h1
  | ninf => simp at h1
  | pinf => simp at h2
  | fin v => exact ⟨v, rfl, by simpa using h1, by simpa using h2⟩

/-- A double with `isFinite` is a rational. -/
theorem Dbl.eq_fin_of_isFinite {x : Dbl} (h : x.isFinite = true) : ∃ v : ℚ, x = Dbl.fin v := by
  cases x <;> simp [Dbl.isFinite] at h
  exact ⟨_, rfl⟩

/-- The specified `Evaluate` of a repeated point returns the value or a position
`first + j * interval` that is at least `value - interval / 2`. -/
theorem Spec.repeatedEvaluate_value_or_position (first interval : ℚ) (range : Dbl) (k : ℤ)
    (value : ℚ) (hk : value < first + k * interval + interval) :
    Spec.repeatedEvaluate first interval range k value = Dbl.fin value ∨
    ∃ j : ℤ, Spec.repeatedEvaluate first interval range k value = Dbl.fin (first + j * interval) ∧
      value - interval / 2 ≤ first + j * interval := by
  rcases Spec.repeatedEvaluate_cases first interval range k value
    with ⟨hr, hc⟩ | ⟨hr, hc⟩ | ⟨hr, _⟩
  · exact Or.inr ⟨k, hr, by linarith⟩
  · refine Or.inr ⟨k + 1, ?_, ?_⟩
    · rw [hr]
      congr 1
      push_cast
      ring
    · push_cast
      linarith
  · exact Or.inl hr

/-- In exact arithmetic (no rounding).  For a repeated point with finite fields and a positive
interval, and every value, `Evaluate(zone, value)` is either `value` itself or a sequence position
`offset + k * interval` (`k` an integer, the alignment adjustment added for the scroll kind) with
`position >= actual start - interval / 2`.  The first conjunct is the scroll kind, the second the
zoom kind (no adjustment). -/
theorem exact_Evaluate_value_or_position (offset interval start end_ adj : ℚ) (range : Dbl)
    (alignment : ScrollSnapPointsAlignment) (rangeType : SnapPointApplicableRangeType)
    (zone : Dbl × Dbl) (value : Dbl) (hi : 0 < interval) :
    ((SnapPointBase.repeatedScroll
        ⟨Dbl.fin offset, Dbl.fin interval, Dbl.fin start, Dbl.fin end_, alignment, Dbl.fin adj,
          range, rangeType⟩).Evaluate zone value = value ∨
      ∃ k : ℤ,
        (SnapPointBase.repeatedScroll
          ⟨Dbl.fin offset, Dbl.fin interval, Dbl.fin start, Dbl.fin end_, alignment,
            Dbl.fin adj, range, rangeType⟩).Evaluate zone value
          = Dbl.fin (offset + adj + k * interval) ∧
        start + adj - interval / 2 ≤ offset + adj + k * interval) ∧
    (adj = 0 →
      ((SnapPointBase.repeatedZoom
          ⟨Dbl.fin offset, Dbl.fin interval, Dbl.fin start, Dbl.fin end_, range,
            rangeType⟩).Evaluate zone value = value ∨
        ∃ k : ℤ,
          (SnapPointBase.repeatedZoom
            ⟨Dbl.fin offset, Dbl.fin interval, Dbl.fin start, Dbl.fin end_, range,
              rangeType⟩).Evaluate zone value
            = Dbl.fin (offset + k * interval) ∧
          start - interval / 2 ≤ offset + k * interval)) := by
  constructor
  · by_cases hin : Dbl.fin (start + adj) ≤ value ∧ value ≤ Dbl.fin (end_ + adj)
    · obtain ⟨v, rfl, hlo, hhi⟩ := Dbl.finite_of_between hin.1 hin.2
      obtain ⟨_, heval⟩ := RepeatedScrollSnapPoint.Evaluate_finite offset interval start end_
        adj v range alignment rangeType zone hi hlo hhi
      obtain ⟨_, hk, _⟩ := Dbl.repeatedEvaluate_core
        (offset + adj - ((⌊(offset + adj - (start + adj)) / interval⌋ : ℤ) : ℚ) * interval)
        interval v range hi
      simp only [SnapPointBase.Evaluate, heval]
      rcases Spec.repeatedEvaluate_value_or_position _ interval range _ v hk
        with h | ⟨j, h, hj⟩
      · exact Or.inl h
      · refine Or.inr ⟨j - ⌊(offset + adj - (start + adj)) / interval⌋, ?_, ?_⟩
        · rw [h]
          congr 1
          push_cast
          ring
        · push_cast
          linarith
    · left
      simp only [SnapPointBase.Evaluate, RepeatedScrollSnapPoint.Evaluate,
        RepeatedScrollSnapPoint.ActualStart, RepeatedScrollSnapPoint.ActualEnd, Dbl.fin_add_fin,
        ge_iff_le, if_neg hin]
  · rintro rfl
    by_cases hin : Dbl.fin start ≤ value ∧ value ≤ Dbl.fin end_
    · obtain ⟨v, rfl, hlo, hhi⟩ := Dbl.finite_of_between hin.1 hin.2
      obtain ⟨_, heval⟩ := RepeatedZoomSnapPoint.Evaluate_finite_zoom offset interval start end_
        v range rangeType zone hi hlo hhi
      obtain ⟨_, hk, _⟩ := Dbl.repeatedEvaluate_core
        (offset - ((⌊(offset - start) / interval⌋ : ℤ) : ℚ) * interval) interval v range hi
      simp only [SnapPointBase.Evaluate, heval]
      rcases Spec.repeatedEvaluate_value_or_position _ interval range _ v hk
        with h | ⟨j, h, hj⟩
      · exact Or.inl h
      · refine Or.inr ⟨j - ⌊(offset - start) / interval⌋, ?_, ?_⟩
        · rw [h]
          congr 1
          push_cast
          ring
        · push_cast
          linarith
    · left
      simp only [SnapPointBase.Evaluate, RepeatedZoomSnapPoint.Evaluate, ge_iff_le, if_neg hin]

/-! ## Combine -/

/-- On doubles that are not `nan`, `std::max` does not depend on the order of its arguments. -/
theorem Dbl.std_max_comm {a b : Dbl} (ha : a ≠ Dbl.nan) (hb : b ≠ Dbl.nan) :
    Dbl.std_max a b = Dbl.std_max b a := by
  cases a <;> cases b <;> simp_all [Dbl.std_max]
  rename_i x y
  rcases lt_trichotomy x y with h | h | h
  · simp [h, not_lt.mpr h.le]
  · simp [h]
  · simp [h, not_lt.mpr h.le]

/-- C20. `Combine` of a repeated point (scroll or zoom) throws `hresult_error(E_INVALIDARG)` for
every combination count and every incoming snap point, and leaves the combination count and the
point as they were; so does the wrapper that holds a repeated point. -/
theorem C20_Combine_repeated_throws (combinationCount : Int) (snapPoint : SnapPointBase)
    (p : RepeatedScrollSnapPoint) (pz : RepeatedZoomSnapPoint) (w incoming : SnapPointWrapper) :
    p.Combine combinationCount snapPoint =
      { snapPoint := p, combinationCount := combinationCount,
        thrown := some hresult_error.E_INVALIDARG } ∧
    pz.Combine combinationCount snapPoint =
      { snapPoint := pz, combinationCount := combinationCount,
        thrown := some hresult_error.E_INVALIDARG } ∧
    (SnapPointBase.repeatedScroll p).Combine combinationCount snapPoint =
      { snapPoint := SnapPointBase.repeatedScroll p, combinationCount := combinationCount,
        thrown := some hresult_error.E_INVALIDARG } ∧
    (SnapPointBase.repeatedZoom pz).Combine combinationCount snapPoint =
      { snapPoint := SnapPointBase.repeatedZoom pz, combinationCount := combinationCount,
        thrown := some hresult_error.E_INVALIDARG } ∧
    (w.m_snapPoint.repeatedBounds.isSome = true →
      w.Combine incoming = (w, some hresult_error.E_INVALIDARG)) := by
  refine ⟨rfl, rfl, rfl, rfl, ?_⟩
  intro hw
  obtain ⟨sp, z, iz, c, ig⟩ := w
  cases sp with
  | scroll p => simp [SnapPointBase.repeatedBounds] at hw
  | zoom p => simp [SnapPointBase.repeatedBounds] at hw
  | repeatedScroll p => rfl
  | repeatedZoom p => rfl

/-- C20 witness: combining anything into the wrapped repeated scenario point throws and leaves
the wrapper, combination count `1` included, unchanged. -/
theorem C20_Combine_repeated_throws_witness :
    (Scenario.freshWrapper (SnapPointBase.repeatedScroll Scenario.mandatoryRepeated)).Combine
      (Scenario.freshWrapper (SnapPointBase.repeatedScroll Scenario.optionalRepeated))
      = (Scenario.freshWrapper (SnapPointBase.repeatedScroll Scenario.mandatoryRepeated),
          some hresult_error.E_INVALIDARG) :=
  (C20_Combine_repeated_throws 1 (SnapPointBase.repeatedScroll Scenario.optionalRepeated)
    Scenario.mandatoryRepeated
    ⟨Dbl.fin 0, Dbl.fin 1, Dbl.fin 0, Dbl.fin 1, Dbl.INFINITY,
      SnapPointApplicableRangeType.Mandatory⟩
    (Scenario.freshWrapper (SnapPointBase.repeatedScroll Scenario.mandatoryRepeated))
    (Scenario.freshWrapper (SnapPointBase.repeatedScroll Scenario.optionalRepeated))).2.2.2.2 rfl

/-! ## Combine of a single point with a point of another kind -/

/-- C21. `Combine` of a single point (scroll or zoom) with an incoming point that is not a
single point of the same kind throws `hresult_error(E_INVALIDARG)`; the receiver, its
applicable range included, and the combination count are what they were before the call, also
in the wrapper that holds the point. -/
theorem C21_Combine_single_other_kind_throws (combinationCount : Int)
    (snapPoint : SnapPointBase) (p : ScrollSnapPoint) (pz : ZoomSnapPoint)
    (w incoming : SnapPointWrapper) :
    ((∀ q : ScrollSnapPoint, snapPoint ≠ SnapPointBase.scroll q) →
      p.Combine combinationCount snapPoint =
        { snapPoint := p, combinationCount := combinationCount,
          thrown := some hresult_error.E_INVALIDARG } ∧
      (SnapPointBase.scroll p).Combine combinationCount snapPoint =
        { snapPoint := SnapPointBase.scroll p, combinationCount := combinationCount,
          thrown := some hresult_error.E_INVALIDARG } ∧
      ((SnapPointBase.scroll p).Combine combinationCount snapPoint).snapPoint.ApplicableRange
        = p.m_specifiedApplicableRange) ∧
    ((∀ qz : ZoomSnapPoint, snapPoint ≠ SnapPointBase.zoom qz) →
      pz.Combine combinationCount snapPoint =
        { snapPoint := pz, combinationCount := combinationCount,
          thrown := some hresult_error.E_INVALIDARG } ∧
      (SnapPointBase.zoom pz).Combine combinationCount snapPoint =
        { snapPoint := SnapPointBase.zoom pz, combinationCount := combinationCount,
          thrown := some hresult_error.E_INVALIDARG } ∧
      ((SnapPointBase.zoom pz).Combine combinationCount snapPoint).snapPoint.ApplicableRange
        = pz.m_specifiedApplicableRange) ∧
    (w.m_snapPoint = SnapPointBase.scroll p →
      (∀ q : ScrollSnapPoint, incoming.m_snapPoint ≠ SnapPointBase.scroll q) →
      w.Combine incoming = (w, some hresult_error.E_INVALIDARG)) ∧
    (w.m_snapPoint = SnapPointBase.zoom pz →
      (∀ qz : ZoomSnapPoint, incoming.m_snapPoint ≠ SnapPointBase.zoom qz) →
      w.Combine incoming = (w, some hresult_error.E_INVALIDARG)) := by
  refine ⟨?_, ?_, ?_, ?_⟩
  · intro h
    cases snapPoint with
    | scroll q => exact absurd rfl (h q)
    | repeatedScroll q => exact ⟨rfl, rfl, rfl⟩
    | zoom q => exact ⟨rfl, rfl, rfl⟩
    | repeatedZoom q => exact ⟨rfl, rfl, rfl⟩
  · intro h
    cases snapPoint with
    | zoom q => exact absurd rfl (h q)
    | repeatedScroll q => exact ⟨rfl, rfl, rfl⟩
    | scroll q => exact ⟨rfl, rfl, rfl⟩
    | repeatedZoom q => exact ⟨rfl, rfl, rfl⟩
  · intro hw h
    obtain ⟨sp, z, iz, c, ig⟩ := w
    obtain ⟨isp, iz2, iiz, ic, iig⟩ := incoming
    simp only at hw h
    subst hw
    cases isp with
    | scroll q => exact absurd rfl (h q)
    | repeatedScroll q => rfl
    | zoom q => rfl
    | repeatedZoom q => rfl
  · intro hw h
    obtain ⟨sp, z, iz, c, ig⟩ := w
    obtain ⟨isp, iz2, iiz, ic, iig⟩ := incoming
    simp only at hw h
    subst hw
    cases isp with
    | zoom q => exact absurd rfl (h q)
    | repeatedScroll q => rfl
    | scroll q => rfl
    | repeatedZoom q => rfl

/-- C21 witness: combining the repeated scenario point into a wrapped single point with range
`5` throws and leaves the wrapper, range `5` and combination count `1` included, unchanged. -/
theorem C21_Combine_single_other_kind_throws_witness :
    (Scenario.freshWrapper (SnapPointBase.scroll (Scenario.optionalScroll 0 5))).Combine
      (Scenario.freshWrapper (SnapPointBase.repeatedScroll Scenario.mandatoryRepeated))
      = (Scenario.freshWrapper (SnapPointBase.scroll (Scenario.optionalScroll 0 5)),
          some hresult_error.E_INVALIDARG) :=
  (C21_Combine_single_other_kind_throws 1
    (SnapPointBase.repeatedScroll Scenario.mandatoryRepeated)
    (Scenario.optionalScroll 0 5)
    ⟨Dbl.fin 1, Dbl.fin 1, SnapPointApplicableRangeType.Mandatory⟩
    (Scenario.freshWrapper (SnapPointBase.scroll (Scenario.optionalScroll 0 5)))
    (Scenario.freshWrapper (SnapPointBase.repeatedScroll Scenario.mandatoryRepeated))).2.2.1 rfl
    (fun q h => by
      simp [Scenario.freshWrapper] at h)

/-! ## Construction of repeated points -/

namespace Dbl

/-- A weak comparison excludes the reverse strict comparison. -/
theorem not_lt_of_le_dbl {a b : Dbl} (h : a ≤ b) : ¬ b < a := by
  cases a <;> cases b <;> simp_all

/-- On doubles that are not `nan`, a failed `<` is the reverse `<=`. -/
theorem le_of_not_lt_dbl {a b : Dbl} (ha : a ≠ nan) (hb : b ≠ nan) (h : ¬ a < b) : b ≤ a := by
  cases a <;> cases b <;> simp_all

end Dbl

/-- The validations of the two repeated kinds are the same function. -/
theorem RepeatedZoomSnapPoint.ValidateConstructorParameters_eq_scroll :
    RepeatedZoomSnapPoint.ValidateConstructorParameters
      = RepeatedScrollSnapPoint.ValidateConstructorParameters := rfl

/-- The validation passes when the five conditions hold. -/
theorem RepeatedScrollSnapPoint.ValidateConstructorParameters_ok (applicableRangeToo : Bool)
    (applicableRange offset interval start end_ : Dbl)
    (hse : end_ > start) (hso : start ≤ offset) (hoe : offset ≤ end_)
    (hi : interval > Dbl.fin 0)
    (hr : applicableRangeToo = true → applicableRange > Dbl.fin 0) :
    RepeatedScrollSnapPoint.ValidateConstructorParameters applicableRangeToo applicableRange
      offset interval start end_ = Except.ok () := by
  unfold RepeatedScrollSnapPoint.ValidateConstructorParameters
  rw [if_neg (Dbl.not_le_of_lt hse), if_neg (Dbl.not_lt_of_le_dbl hso),
    if_neg (Dbl.not_lt_of_le_dbl hoe), if_neg (Dbl.not_le_of_lt hi),
    if_neg (fun h => Dbl.not_le_of_lt (hr h.1) h.2)]

/-- The validation throws `hresult_invalid_argument` when one of the five conditions fails on
numbers; whatever the arguments, it throws nothing else. -/
theorem RepeatedScrollSnapPoint.ValidateConstructorParameters_error (applicableRangeToo : Bool)
    (applicableRange offset interval start end_ : Dbl) :
    (RepeatedScrollSnapPoint.ValidateConstructorParameters applicableRangeToo applicableRange
        offset interval start end_ = Except.ok () ∨
      ∃ message : String,
        RepeatedScrollSnapPoint.ValidateConstructorParameters applicableRangeToo applicableRange
          offset interval start end_ = Except.error (hresult_invalid_argument message)) ∧
    (offset ≠ Dbl.nan → interval ≠ Dbl.nan → start ≠ Dbl.nan → end_ ≠ Dbl.nan →
      (applicableRangeToo = true → applicableRange ≠ Dbl.nan) →
      ¬ (end_ > start ∧ start ≤ offset ∧ offset ≤ end_ ∧ interval > Dbl.fin 0 ∧
          (applicableRangeToo = true → applicableRange > Dbl.fin 0)) →
      ∃ message : String,
        RepeatedScrollSnapPoint.ValidateConstructorParameters applicableRangeToo applicableRange
          offset interval start end_ = Except.error (hresult_invalid_argument message)) := by
  unfold RepeatedScrollSnapPoint.ValidateConstructorParameters
  by_cases h1 : end_ ≤ start
  · rw [if_pos h1]
    exact ⟨Or.inr ⟨_, rfl⟩, fun _ _ _ _ _ _ => ⟨_, rfl⟩⟩
  rw [if_neg h1]
  by_cases h2 : offset < start
  · rw [if_pos h2]
    exact ⟨Or.inr ⟨_, rfl⟩, fun _ _ _ _ _ _ => ⟨_, rfl⟩⟩
  rw [if_neg h2]
  by_cases h3 : offset > end_
  · rw [if_pos h3]
    exact ⟨Or.inr ⟨_, rfl⟩, fun _ _ _ _ _ _ => ⟨_, rfl⟩⟩
  rw [if_neg h3]
  by_cases h4 : interval ≤ Dbl.fin 0
  · rw [if_pos h4]
    exact ⟨Or.inr ⟨_, rfl⟩, fun _ _ _ _ _ _ => ⟨_, rfl⟩⟩
  rw [if_neg h4]
  by_cases h5 : applicableRangeToo = true ∧ applicableRange ≤ Dbl.fin 0
  · rw [if_pos h5]
    exact ⟨Or.inr ⟨_, rfl⟩, fun _ _ _ _ _ _ => ⟨_, rfl⟩⟩
  rw [if_neg h5]
  refine ⟨Or.inl rfl, fun ho hi hs he hr hnot => absurd ?_ hnot⟩
  refine ⟨Dbl.lt_of_not_le he hs h1, Dbl.le_of_not_lt_dbl ho hs h2,
    Dbl.le_of_not_lt_dbl he ho h3, Dbl.lt_of_not_le hi (by simp) h4, fun ht => ?_⟩
  exact Dbl.lt_of_not_le (hr ht) (by simp) (fun hle => h5 ⟨ht, hle⟩)

/-- C22 (amended). Construction of a repeated snap point (scroll or zoom, without or with an
applicable range): if `end > start`, `start <= offset <= end`, `interval > 0` and, when a range is
given, `applicableRange > 0`, the constructor returns the point that stores exactly those arguments
(with the default mandatory range and adjustment `0`, or the given range marked optional); every
point a constructor returns stores exactly its arguments; whatever the arguments, a constructor that
returns no point throws `hresult_invalid_argument`; and for arguments that are numbers (not NaN) it
does so whenever one of the conditions fails. -/
theorem C22_repeated_constructor (offset interval start end_ applicableRange : Dbl)
    (alignment : ScrollSnapPointsAlignment) :
    ((end_ > start ∧ start ≤ offset ∧ offset ≤ end_ ∧ interval > Dbl.fin 0) →
      RepeatedScrollSnapPoint.ctor offset interval start end_ alignment =
        Except.ok
          { m_offset := offset, m_interval := interval, m_start := start, m_end := end_,
            m_alignment := alignment, m_alignmentAdjustment := Dbl.fin 0,
            m_specifiedApplicableRange := Dbl.INFINITY,
            m_applicableRangeType := SnapPointApplicableRangeType.Mandatory } ∧
      RepeatedZoomSnapPoint.ctor offset interval start end_ =
        Except.ok
          { m_offset := offset, m_interval := interval, m_start := start, m_end := end_,
            m_specifiedApplicableRange := Dbl.INFINITY,
            m_applicableRangeType := SnapPointApplicableRangeType.Mandatory }) ∧
    ((end_ > start ∧ start ≤ offset ∧ offset ≤ end_ ∧ interval > Dbl.fin 0 ∧
        applicableRange > Dbl.fin 0) →
      RepeatedScrollSnapPoint.ctor_applicableRange offset interval start end_ applicableRange
          alignment =
        Except.ok
          { m_offset := offset, m_interval := interval, m_start := start, m_end := end_,
            m_alignment := alignment, m_alignmentAdjustment := Dbl.fin 0,
            m_specifiedApplicableRange := applicableRange,
            m_applicableRangeType := SnapPointApplicableRangeType.Optional } ∧
      RepeatedZoomSnapPoint.ctor_applicableRange offset interval start end_ applicableRange =
        Except.ok
          { m_offset := offset, m_interval := interval, m_start := start, m_end := end_,
            m_specifiedApplicableRange := applicableRange,
            m_applicableRangeType := SnapPointApplicableRangeType.Optional }) ∧
    (∀ p : RepeatedScrollSnapPoint,
      (RepeatedScrollSnapPoint.ctor offset interval start end_ alignment = Except.ok p →
        p.m_offset = offset ∧ p.m_interval = interval ∧ p.m_start = start ∧ p.m_end = end_ ∧
          p.m_alignment = alignment) ∧
      (RepeatedScrollSnapPoint.ctor_applicableRange offset interval start end_ applicableRange
          alignment = Except.ok p →
        p.m_offset = offset ∧ p.m_interval = interval ∧ p.m_start = start ∧ p.m_end = end_ ∧
          p.m_alignment = alignment ∧ p.m_specifiedApplicableRange = applicableRange)) ∧
    (∀ p : RepeatedZoomSnapPoint,
      (RepeatedZoomSnapPoint.ctor offset interval start end_ = Except.ok p →
        p.m_offset = offset ∧ p.m_interval = interval ∧ p.m_start = start ∧ p.m_end = end_) ∧
      (RepeatedZoomSnapPoint.ctor_applicableRange offset interval start end_ applicableRange
          = Except.ok p →
        p.m_offset = offset ∧ p.m_interval = interval ∧ p.m_start = start ∧ p.m_end = end_ ∧
          p.m_specifiedApplicableRange = applicableRange)) ∧
    (∀ err : hresult_error,
      (RepeatedScrollSnapPoint.ctor offset interval start end_ alignment = Except.error err ∨
        RepeatedScrollSnapPoint.ctor_applicableRange offset interval start end_ applicableRange
          alignment = Except.error err ∨
        RepeatedZoomSnapPoint.ctor offset interval start end_ = Except.error err ∨
        RepeatedZoomSnapPoint.ctor_applicableRange offset interval start end_ applicableRange
          = Except.error err) →
      ∃ message : String, err = hresult_invalid_argument message) ∧
    (offset ≠ Dbl.nan → interval ≠ Dbl.nan → start ≠ Dbl.nan → end_ ≠ Dbl.nan →
      ¬ (end_ > start ∧ start ≤ offset ∧ offset ≤ end_ ∧ interval > Dbl.fin 0) →
      (∃ message : String,
        RepeatedScrollSnapPoint.ctor offset interval start end_ alignment
          = Except.error (hresult_invalid_argument message)) ∧
      (∃ message : String,
        RepeatedZoomSnapPoint.ctor offset interval start end_
          = Except.error (hresult_invalid_argument message))) ∧
    (offset ≠ Dbl.nan → interval ≠ Dbl.nan → start ≠ Dbl.nan → end_ ≠ Dbl.nan →
      applicableRange ≠ Dbl.nan →
      ¬ (end_ > start ∧ start ≤ offset ∧ offset ≤ end_ ∧ interval > Dbl.fin 0 ∧
          applicableRange > Dbl.fin 0) →
      (∃ message : String,
        RepeatedScrollSnapPoint.ctor_applicableRange offset interval start end_ applicableRange
          alignment = Except.error (hresult_invalid_argument message)) ∧
      (∃ message : String,
        RepeatedZoomSnapPoint.ctor_applicableRange offset interval start end_ applicableRange
          = Except.error (hresult_invalid_argument message))) := by
  have hFalse := RepeatedScrollSnapPoint.ValidateConstructorParameters_error false (Dbl.fin 0)
    offset interval start end_
  have hTrue := RepeatedScrollSnapPoint.ValidateConstructorParameters_error true applicableRange
    offset interval start end_
  refine ⟨?_, ?_, ?_, ?_, ?_, ?_, ?_⟩
  · rintro ⟨hse, hso, hoe, hi⟩
    have hv := RepeatedScrollSnapPoint.ValidateConstructorParameters_ok false (Dbl.fin 0) offset
      interval start end_ hse hso hoe hi (by simp)
    simp only [RepeatedScrollSnapPoint.ctor, RepeatedZoomSnapPoint.ctor,
      RepeatedZoomSnapPoint.ValidateConstructorParameters_eq_scroll, hv]
    exact ⟨rfl, rfl⟩
  · rintro ⟨hse, hso, hoe, hi, hr⟩
    have hv := RepeatedScrollSnapPoint.ValidateConstructorParameters_ok true applicableRange
      offset interval start end_ hse hso hoe hi (fun _ => hr)
    simp only [RepeatedScrollSnapPoint.ctor_applicableRange,
      RepeatedZoomSnapPoint.ctor_applicableRange,
      RepeatedZoomSnapPoint.ValidateConstructorParameters_eq_scroll, hv]
    exact ⟨rfl, trivial⟩
  · intro p
    simp only [RepeatedScrollSnapPoint.ctor, RepeatedScrollSnapPoint.ctor_applicableRange]
    constructor
    · rcases hFalse.1 with h | ⟨m, h⟩ <;> rw [h] <;> intro hp
      · cases hp
        exact ⟨rfl, rfl, rfl, rfl, rfl⟩
      · cases hp
    · rcases hTrue.1 with h | ⟨m, h⟩ <;> rw [h] <;> intro hp
      · cases hp
        exact ⟨rfl, rfl, rfl, rfl, rfl, rfl⟩
      · cases hp
  · intro p
    simp only [RepeatedZoomSnapPoint.ctor, RepeatedZoomSnapPoint.ctor_applicableRange,
      RepeatedZoomSnapPoint.ValidateConstructorParameters_eq_scroll]
    constructor
    · rcases hFalse.1 with h | ⟨m, h⟩ <;> rw [h] <;> intro hp
      · cases hp
        exact ⟨rfl, rfl, rfl, rfl⟩
      · cases hp
    · rcases hTrue.1 with h | ⟨m, h⟩ <;> rw [h] <;> intro hp
      · cases hp
        exact ⟨rfl, rfl, rfl, rfl, rfl⟩
      · cases hp
  · intro err
    simp only [RepeatedScrollSnapPoint.ctor, RepeatedScrollSnapPoint.ctor_applicableRange,
      RepeatedZoomSnapPoint.ctor, RepeatedZoomSnapPoint.ctor_applicableRange,
      RepeatedZoomSnapPoint.ValidateConstructorParameters_eq_scroll]
    rcases hFalse.1 with h | ⟨m, h⟩ <;> rcases hTrue.1 with h2 | ⟨m2, h2⟩ <;> rw [h, h2] <;>
      intro hp
    · rcases hp with hp | hp | hp | hp <;> cases hp
    · rcases hp with hp | hp | hp | hp <;> cases hp <;> exact ⟨_, rfl⟩
    · rcases hp with hp | hp | hp | hp <;> cases hp <;> exact ⟨_, rfl⟩
    · rcases hp with hp | hp | hp | hp <;> cases hp <;> exact ⟨_, rfl⟩
  · intro ho hi hs he hnot
    obtain ⟨m, h⟩ := hFalse.2 ho hi hs he (by simp)
      (fun hc => hnot ⟨hc.1, hc.2.1, hc.2.2.1, hc.2.2.2.1⟩)
    simp only [RepeatedScrollSnapPoint.ctor, RepeatedZoomSnapPoint.ctor,
      RepeatedZoomSnapPoint.ValidateConstructorParameters_eq_scroll, h]
    exact ⟨⟨m, rfl⟩, ⟨m, rfl⟩⟩
  · intro ho hi hs he hr hnot
    obtain ⟨m, h⟩ := hTrue.2 ho hi hs he (fun _ => hr)
      (fun hc => hnot ⟨hc.1, hc.2.1, hc.2.2.1, hc.2.2.2.1, hc.2.2.2.2 rfl⟩)
    simp only [RepeatedScrollSnapPoint.ctor_applicableRange,
      RepeatedZoomSnapPoint.ctor_applicableRange,
      RepeatedZoomSnapPoint.ValidateConstructorParameters_eq_scroll, h]
    exact ⟨⟨m, rfl⟩, ⟨m, rfl⟩⟩

/-- C22 witness: `Repeated{offset=0, interval=10, start=0, end=100}` is constructed and stores
its arguments; it is the mandatory repeated point of the scenarios. -/
theorem C22_repeated_constructor_witness :
    (Dbl.fin 100 > Dbl.fin 0 ∧ Dbl.fin 0 ≤ Dbl.fin 0 ∧ Dbl.fin 0 ≤ Dbl.fin 100 ∧
      Dbl.fin 10 > Dbl.fin 0) ∧
    RepeatedScrollSnapPoint.ctor (Dbl.fin 0) (Dbl.fin 10) (Dbl.fin 0) (Dbl.fin 100)
      ScrollSnapPointsAlignment.Near = Except.ok Scenario.mandatoryRepeated :=
  ⟨by simp [GT.gt],
    ((C22_repeated_constructor (Dbl.fin 0) (Dbl.fin 10) (Dbl.fin 0) (Dbl.fin 100) (Dbl.fin 3)
      ScrollSnapPointsAlignment.Near).1 (by simp [GT.gt])).1⟩

/-- C22 counterexample: the constructors accept a NaN offset and a NaN interval, since every
comparison with NaN is false and each validation test is written as the failing comparison
(`end <= start`, `offset < start`, `offset > end`, `interval <= 0`): with `offset = NaN`,
`interval = 10`, `start = 0`, `end = 100` the point is created although `start <= offset` does
not hold, and with `offset = 0`, `interval = NaN` it is created although `interval > 0` does not
hold. -/
theorem C22_counterexample :
    RepeatedScrollSnapPoint.ctor Dbl.nan (Dbl.fin 10) (Dbl.fin 0) (Dbl.fin 100)
        ScrollSnapPointsAlignment.Near
      = Except.ok
        { m_offset := Dbl.nan, m_interval := Dbl.fin 10, m_start := Dbl.fin 0,
          m_end := Dbl.fin 100, m_alignment := ScrollSnapPointsAlignment.Near,
          m_alignmentAdjustment := Dbl.fin 0, m_specifiedApplicableRange := Dbl.INFINITY,
          m_applicableRangeType := SnapPointApplicableRangeType.Mandatory } ∧
    ¬ (Dbl.fin 0 ≤ Dbl.nan) ∧
    RepeatedZoomSnapPoint.ctor (Dbl.fin 0) Dbl.nan (Dbl.fin 0) (Dbl.fin 100)
      = Except.ok
        { m_offset := Dbl.fin 0, m_interval := Dbl.nan, m_start := Dbl.fin 0,
          m_end := Dbl.fin 100, m_specifiedApplicableRange := Dbl.INFINITY,
          m_applicableRangeType := SnapPointApplicableRangeType.Mandatory } ∧
    ¬ (Dbl.nan > Dbl.fin 0) := by
  refine ⟨?_, by simp, ?_, by simp⟩
  · norm_num [RepeatedScrollSnapPoint.ctor, RepeatedScrollSnapPoint.ValidateConstructorParameters,
      bind, Except.bind, SnapPointBase.initial_alignmentAdjustment,
      SnapPointBase.initial_specifiedApplicableRange, SnapPointBase.initial_applicableRangeType]
  · norm_num [RepeatedZoomSnapPoint.ctor, RepeatedZoomSnapPoint.ValidateConstructorParameters,
      bind, Except.bind, SnapPointBase.initial_specifiedApplicableRange,
      SnapPointBase.initial_applicableRangeType]

/-- C23. For all arguments with `end > start` and `offset < start`, whatever the interval, the
applicable range and the alignment, each constructor of a repeated snap point throws
`hresult_invalid_argument` with the message
"'offset' must be greater than or equal to 'start'.". -/
theorem C23_offset_below_start_rejected (offset interval start end_ applicableRange : Dbl)
    (alignment : ScrollSnapPointsAlignment) (hse : end_ > start) (hos : offset < start) :
    RepeatedScrollSnapPoint.ctor offset interval start end_ alignment =
      Except.error
        (hresult_invalid_argument "'offset' must be greater than or equal to 'start'.") ∧
    RepeatedScrollSnapPoint.ctor_applicableRange offset interval start end_ applicableRange
        alignment =
      Except.error
        (hresult_invalid_argument "'offset' must be greater than or equal to 'start'.") ∧
    RepeatedZoomSnapPoint.ctor offset interval start end_ =
      Except.error
        (hresult_invalid_argument "'offset' must be greater than or equal to 'start'.") ∧
    RepeatedZoomSnapPoint.ctor_applicableRange offset interval start end_ applicableRange =
      Except.error
        (hresult_invalid_argument "'offset' must be greater than or equal to 'start'.") := by
  have hv : ∀ (too : Bool) (range : Dbl),
      RepeatedScrollSnapPoint.ValidateConstructorParameters too range offset interval start end_
        = Except.error
            (hresult_invalid_argument "'offset' must be greater than or equal to 'start'.") := by
    intro too range
    unfold RepeatedScrollSnapPoint.ValidateConstructorParameters
    rw [if_neg (Dbl.not_le_of_lt hse), if_pos hos]
  simp only [RepeatedScrollSnapPoint.ctor, RepeatedScrollSnapPoint.ctor_applicableRange,
    RepeatedZoomSnapPoint.ctor, RepeatedZoomSnapPoint.ctor_applicableRange,
    RepeatedZoomSnapPoint.ValidateConstructorParameters_eq_scroll, hv]
  refine ⟨?_, ?_, ?_, ?_⟩ <;> first | rfl | trivial

/-- C23 witness, the scenario of the specification: constructing
`Repeated{offset=-1, interval=10, start=0, end=100}` throws the error whose message says that
the offset must be greater than or equal to the start. -/
theorem C23_offset_below_start_rejected_witness :
    RepeatedScrollSnapPoint.ctor (Dbl.fin (-1)) (Dbl.fin 10) (Dbl.fin 0) (Dbl.fin 100)
        ScrollSnapPointsAlignment.Near =
      Except.error
        (hresult_invalid_argument "'offset' must be greater than or equal to 'start'.") ∧
    RepeatedZoomSnapPoint.ctor (Dbl.fin (-1)) (Dbl.fin 10) (Dbl.fin 0) (Dbl.fin 100) =
      Except.error
        (hresult_invalid_argument "'offset' must be greater than or equal to 'start'.") :=
  have h := C23_offset_below_start_rejected (Dbl.fin (-1)) (Dbl.fin 10) (Dbl.fin 0)
    (Dbl.fin 100) (Dbl.fin 1) ScrollSnapPointsAlignment.Near (by simp [GT.gt]) (by simp)
  ⟨h.1, h.2.2.1⟩

/-! ## OnUpdateViewport and the alignment adjustment -/

/-- A call of `OnUpdateViewport` forgets the calls made before it. -/
theorem SnapPointBase.OnUpdateViewport_twice (sp : SnapPointBase) (t s : Dbl) :
    (sp.OnUpdateViewport t).1.OnUpdateViewport s = sp.OnUpdateViewport s := by
  cases sp with
  | scroll p =>
      cases hal : p.m_alignment <;>
        simp [SnapPointBase.OnUpdateViewport, ScrollSnapPointBase.OnUpdateViewport, hal]
  | repeatedScroll p =>
      cases hal : p.m_alignment <;>
        simp [SnapPointBase.OnUpdateViewport, ScrollSnapPointBase.OnUpdateViewport, hal]
  | zoom p => rfl
  | repeatedZoom p => rfl

/-- A call of `OnUpdateViewport` after any sequence of earlier calls gives what it gives on the
point before them. -/
theorem SnapPointBase.OnUpdateViewport_afterViewports (sizes : List Dbl) :
    ∀ (sp : SnapPointBase) (s : Dbl),
      (sp.afterViewports sizes).OnUpdateViewport s = sp.OnUpdateViewport s := by
  induction sizes with
  | nil => intro sp s; rfl
  | cons t ts ih =>
      intro sp s
      have h : sp.afterViewports (t :: ts) = (sp.OnUpdateViewport t).1.afterViewports ts := rfl
      rw [h, ih, SnapPointBase.OnUpdateViewport_twice]

/-- C24. For a scroll snap point whose adjustment is `0` when its alignment is `Near` (as a
constructor leaves it and as `OnUpdateViewport` asserts) and every viewport size `s`:
`OnUpdateViewport(s)` leaves a `Near` point as it is, adjustment `0`, and returns false; sets
the adjustment of a `Center` point to `-s / 2` and of a `Far` point to `-s`, changes nothing
else, and returns true.  The outcome is the same after any sequence of earlier calls: the
adjustment depends only on `s` and the alignment.  For a zoom point the call returns false and
changes nothing. -/
theorem C24_OnUpdateViewport (sp : SnapPointBase) (s : Dbl) (earlier : List Dbl)
    (hinv : sp.alignment = some ScrollSnapPointsAlignment.Near →
      sp.alignmentAdjustment = some (Dbl.fin 0)) :
    (sp.alignment = some ScrollSnapPointsAlignment.Near →
      sp.OnUpdateViewport s = (sp, false) ∧
      (sp.OnUpdateViewport s).1.alignmentAdjustment = some (Dbl.fin 0)) ∧
    (sp.alignment = some ScrollSnapPointsAlignment.Center →
      sp.OnUpdateViewport s = (sp.setAlignmentAdjustment (-s / Dbl.fin 2), true) ∧
      (sp.OnUpdateViewport s).1.alignmentAdjustment = some (-s / Dbl.fin 2)) ∧
    (sp.alignment = some ScrollSnapPointsAlignment.Far →
      sp.OnUpdateViewport s = (sp.setAlignmentAdjustment (-s), true) ∧
      (sp.OnUpdateViewport s).1.alignmentAdjustment = some (-s)) ∧
    (sp.alignment = none → sp.OnUpdateViewport s = (sp, false)) ∧
    (∀ alignment : ScrollSnapPointsAlignment, sp.alignment = some alignment →
      ((sp.afterViewports earlier).OnUpdateViewport s).1.alignmentAdjustment
        = some (Spec.alignmentAdjustment alignment s) ∧
      ((sp.afterViewports earlier).OnUpdateViewport s).2
        = Spec.caresAboutViewport alignment) ∧
    (sp.afterViewports earlier).OnUpdateViewport s = sp.OnUpdateViewport s := by
  refine ⟨?_, ?_, ?_, ?_, ?_, SnapPointBase.OnUpdateViewport_afterViewports earlier sp s⟩
  · intro hal
    have h0 := hinv hal
    cases sp with
    | scroll p =>
        obtain ⟨v, al, adj, r, rt⟩ := p
        simp only [SnapPointBase.alignment, Option.some.injEq] at hal
        simp only [SnapPointBase.alignmentAdjustment, Option.some.injEq] at h0
        subst hal h0
        exact ⟨rfl, rfl⟩
    | repeatedScroll p =>
        obtain ⟨o, i, st, en, al, adj, r, rt⟩ := p
        simp only [SnapPointBase.alignment, Option.some.injEq] at hal
        simp only [SnapPointBase.alignmentAdjustment, Option.some.injEq] at h0
        subst hal h0
        exact ⟨rfl, rfl⟩
    | zoom p => simp [SnapPointBase.alignment] at hal
    | repeatedZoom p => simp [SnapPointBase.alignment] at hal
  · intro hal
    cases sp with
    | scroll p =>
        simp only [SnapPointBase.alignment, Option.some.injEq] at hal
        simp [SnapPointBase.OnUpdateViewport, ScrollSnapPointBase.OnUpdateViewport, hal,
          SnapPointBase.alignmentAdjustment, SnapPointBase.setAlignmentAdjustment]
    | repeatedScroll p =>
        simp only [SnapPointBase.alignment, Option.some.injEq] at hal
        simp [SnapPointBase.OnUpdateViewport, ScrollSnapPointBase.OnUpdateViewport, hal,
          SnapPointBase.alignmentAdjustment, SnapPointBase.setAlignmentAdjustment]
    | zoom p => simp [SnapPointBase.alignment] at hal
    | repeatedZoom p => simp [SnapPointBase.alignment] at hal
  · intro hal
    cases sp with
    | scroll p =>
        simp only [SnapPointBase.alignment, Option.some.injEq] at hal
        simp [SnapPointBase.OnUpdateViewport, ScrollSnapPointBase.OnUpdateViewport, hal,
          SnapPointBase.alignmentAdjustment, SnapPointBase.setAlignmentAdjustment]
    | repeatedScroll p =>
        simp only [SnapPointBase.alignment, Option.some.injEq] at hal
        simp [SnapPointBase.OnUpdateViewport, ScrollSnapPointBase.OnUpdateViewport, hal,
          SnapPointBase.alignmentAdjustment, SnapPointBase.setAlignmentAdjustment]
    | zoom p => simp [SnapPointBase.alignment] at hal
    | repeatedZoom p => simp [SnapPointBase.alignment] at hal
  · intro hal
    cases sp with
    | scroll p => simp [SnapPointBase.alignment] at hal
    | repeatedScroll p => simp [SnapPointBase.alignment] at hal
    | zoom p => rfl
    | repeatedZoom p => rfl
  · intro al hal
    rw [SnapPointBase.OnUpdateViewport_afterViewports]
    cases sp with
    | scroll p =>
        simp only [SnapPointBase.alignment, Option.some.injEq] at hal hinv
        simp only [SnapPointBase.alignmentAdjustment, Option.some.injEq] at hinv
        cases al <;>
          simp_all [SnapPointBase.OnUpdateViewport, ScrollSnapPointBase.OnUpdateViewport,
            SnapPointBase.alignmentAdjustment, Spec.alignmentAdjustment,
            Spec.caresAboutViewport]
    | repeatedScroll p =>
        simp only [SnapPointBase.alignment, Option.some.injEq] at hal hinv
        simp only [SnapPointBase.alignmentAdjustment, Option.some.injEq] at hinv
        cases al <;>
          simp_all [SnapPointBase.OnUpdateViewport, ScrollSnapPointBase.OnUpdateViewport,
            SnapPointBase.alignmentAdjustment, Spec.alignmentAdjustment,
            Spec.caresAboutViewport]
    | zoom p => simp [SnapPointBase.alignment] at hal
    | repeatedZoom p => simp [SnapPointBase.alignment] at hal

/-- C24 witness: a `Center` point at `100`, after earlier viewport sizes `250` and `80`, gets
the adjustment `-200` from the viewport size `400`, and the call returns true. -/
theorem C24_OnUpdateViewport_witness :
    (((SnapPointBase.scroll
          { Scenario.mandatoryScroll 100 with
            m_alignment := ScrollSnapPointsAlignment.Center }).afterViewports
        [Dbl.fin 250, Dbl.fin 80]).OnUpdateViewport (Dbl.fin 400)).1.alignmentAdjustment
      = some (Dbl.fin (-200)) ∧
    (((SnapPointBase.scroll
          { Scenario.mandatoryScroll 100 with
            m_alignment := ScrollSnapPointsAlignment.Center }).afterViewports
        [Dbl.fin 250, Dbl.fin 80]).OnUpdateViewport (Dbl.fin 400)).2 = true := by
  have h := (C24_OnUpdateViewport
    (SnapPointBase.scroll
      { Scenario.mandatoryScroll 100 with m_alignment := ScrollSnapPointsAlignment.Center })
    (Dbl.fin 400) [Dbl.fin 250, Dbl.fin 80]
    (fun hal => by simp [SnapPointBase.alignment] at hal)).2.2.2.2.1
    ScrollSnapPointsAlignment.Center rfl
  rw [h.1, h.2]
  norm_num [Spec.alignmentAdjustment, Spec.caresAboutViewport]

/-! ## The alignment adjustment as a translation -/

namespace Dbl

/-- Adding zero changes no double. -/
theorem add_fin_zero (x : Dbl) : x + fin 0 = x := by
  cases x <;> simp

/-- Adding a finite number commutes. -/
theorem fin_add_comm (a : ℚ) (x : Dbl) : fin a + x = x + fin a := by
  cases x <;> simp [add_comm]

/-- Adding the same finite number on both sides keeps `<=`. -/
theorem add_fin_le_add_fin (x y : Dbl) (a : ℚ) : x + fin a ≤ y + fin a ↔ x ≤ y := by
  cases x <;> cases y <;> simp

end Dbl

/-- The specified `Evaluate` of a repeated point commutes with a translation of the sequence
and of the value. -/
theorem Spec.repeatedEvaluate_translate (first interval : ℚ) (range : Dbl) (k : ℤ)
    (value a : ℚ) :
    Spec.repeatedEvaluate (first + a) interval range k (value + a)
      = Dbl.fin a + Spec.repeatedEvaluate first interval range k value := by
  have e1 : value + a - (first + a + k * interval) = value - (first + k * interval) := by ring
  have e2 : first + a + k * interval + interval - (value + a)
      = first + k * interval + interval - value := by ring
  simp only [Spec.repeatedEvaluate, e1, e2]
  split_ifs <;> simp only [Dbl.fin_add_fin, Dbl.fin.injEq] <;> ring

/-- `Evaluate` of a repeated scroll point with finite fields commutes with the alignment
adjustment: the adjusted point on the translated value gives the translated result of the
point with adjustment `0`. -/
theorem RepeatedScrollSnapPoint.Evaluate_translate (offset interval start end_ a : ℚ)
    (range : Dbl) (alignment : ScrollSnapPointsAlignment)
    (rangeType : SnapPointApplicableRangeType) (zone zone0 : Dbl × Dbl) (v : Dbl)
    (hi : 0 < interval) :
    RepeatedScrollSnapPoint.Evaluate
        ⟨Dbl.fin offset, Dbl.fin interval, Dbl.fin start, Dbl.fin end_, alignment, Dbl.fin a,
          range, rangeType⟩ zone (v + Dbl.fin a)
      = Dbl.fin a + RepeatedScrollSnapPoint.Evaluate
        ⟨Dbl.fin offset, Dbl.fin interval, Dbl.fin start, Dbl.fin end_, alignment, Dbl.fin 0,
          range, rangeType⟩ zone0 v := by
  have hout : ∀ x : Dbl, ¬ (x ≥ Dbl.fin start ∧ x ≤ Dbl.fin end_) →
      RepeatedScrollSnapPoint.Evaluate
        ⟨Dbl.fin offset, Dbl.fin interval, Dbl.fin start, Dbl.fin end_, alignment, Dbl.fin a,
          range, rangeType⟩ zone (x + Dbl.fin a)
      = Dbl.fin a + RepeatedScrollSnapPoint.Evaluate
        ⟨Dbl.fin offset, Dbl.fin interval, Dbl.fin start, Dbl.fin end_, alignment, Dbl.fin 0,
          range, rangeType⟩ zone0 x := by
    intro x hx
    have hx0 : ¬ (x ≥ Dbl.fin start + Dbl.fin 0 ∧ x ≤ Dbl.fin end_ + Dbl.fin 0) := by
      simpa [Dbl.add_fin_zero] using hx
    have hxa : ¬ (x + Dbl.fin a ≥ Dbl.fin start + Dbl.fin a ∧
        x + Dbl.fin a ≤ Dbl.fin end_ + Dbl.fin a) := by
      simpa only [ge_iff_le, Dbl.add_fin_le_add_fin] using hx
    simp only [RepeatedScrollSnapPoint.Evaluate, RepeatedScrollSnapPoint.ActualStart,
      RepeatedScrollSnapPoint.ActualEnd, if_neg hx0, if_neg hxa]
    exact (Dbl.fin_add_comm _ _).symm
  cases v with
  | nan => exact hout Dbl.nan (by simp)
  | ninf => exact hout Dbl.ninf (by simp)
  | pinf => exact hout Dbl.pinf (by simp)
  | fin x =>
      by_cases hin : Dbl.fin x ≥ Dbl.fin start ∧ Dbl.fin x ≤ Dbl.fin end_
      · simp only [ge_iff_le, Dbl.fin_le_fin] at hin
        obtain ⟨_, h1⟩ := RepeatedScrollSnapPoint.Evaluate_finite offset interval start end_ a
          (x + a) range alignment rangeType zone hi (by linarith [hin.1]) (by linarith [hin.2])
        obtain ⟨_, h0⟩ := RepeatedScrollSnapPoint.Evaluate_finite offset interval start end_ 0
          x range alignment rangeType zone0 hi (by linarith [hin.1]) (by linarith [hin.2])
        rw [Dbl.fin_add_fin, h1, h0, ← Spec.repeatedEvaluate_translate]
        have e1 : (offset + a - (start + a)) / interval = (offset + 0 - (start + 0)) / interval := by
          ring
        have e2 : offset + a - ((⌊(offset + 0 - (start + 0)) / interval⌋ : ℤ) : ℚ) * interval
            = offset + 0 - ((⌊(offset + 0 - (start + 0)) / interval⌋ : ℤ) : ℚ) * interval + a := by
          ring
        rw [e1, e2]
        have e3 : (x + a - (offset + 0
              - ((⌊(offset + 0 - (start + 0)) / interval⌋ : ℤ) : ℚ) * interval + a)) / interval
            = (x - (offset + 0
              - ((⌊(offset + 0 - (start + 0)) / interval⌋ : ℤ) : ℚ) * interval)) / interval := by
          ring
        rw [e3]
      · exact hout (Dbl.fin x) hin

/-- In exact arithmetic (no rounding).  The alignment adjustment translates every position of a
scroll snap point: for a scroll snap point (single, or repeated with finite fields and a positive
interval) with the finite alignment adjustment `a`, every zone `(min, max)` and every value `v`,
`Evaluate` of the point on the zone `(min + a, max + a)` and the value `v + a` equals `a` plus
`Evaluate` of the same point with adjustment `0` on `(min, max)` and `v`; the actual value of a
single point, the first and last repeated positions and both sort-key bounds are those of the point
with adjustment `0` plus `a`. -/
theorem exact_alignment_adjustment_translates (sp : SnapPointBase) (a : ℚ) (min max v : Dbl)
    (hadj : sp.alignmentAdjustment = some (Dbl.fin a))
    (hfin : sp.repeatedFinite = true) :
    sp.Evaluate (min + Dbl.fin a, max + Dbl.fin a) (v + Dbl.fin a)
      = Dbl.fin a + (sp.setAlignmentAdjustment (Dbl.fin 0)).Evaluate (min, max) v ∧
    sp.SortPredicate.primary
      = (sp.setAlignmentAdjustment (Dbl.fin 0)).SortPredicate.primary + Dbl.fin a ∧
    sp.SortPredicate.secondary
      = (sp.setAlignmentAdjustment (Dbl.fin 0)).SortPredicate.secondary + Dbl.fin a ∧
    (∀ value value0 : Dbl, sp.singleValue = some value →
      (sp.setAlignmentAdjustment (Dbl.fin 0)).singleValue = some value0 →
      value = value0 + Dbl.fin a) ∧
    (∀ first last first0 last0 : Dbl, sp.repeatedFirstLast = some (first, last) →
      (sp.setAlignmentAdjustment (Dbl.fin 0)).repeatedFirstLast = some (first0, last0) →
      first = first0 + Dbl.fin a ∧ last = last0 + Dbl.fin a) := by
  cases sp with
  | zoom p => simp [SnapPointBase.alignmentAdjustment] at hadj
  | repeatedZoom p => simp [SnapPointBase.alignmentAdjustment] at hadj
  | scroll p =>
      obtain ⟨pv, al, padj, r, rt⟩ := p
      simp only [SnapPointBase.alignmentAdjustment, Option.some.injEq] at hadj
      subst hadj
      refine ⟨?_, ?_, ?_, ?_, ?_⟩
      · simp only [SnapPointBase.Evaluate, SnapPointBase.setAlignmentAdjustment,
          ScrollSnapPoint.Evaluate, ScrollSnapPoint.ActualValue, ge_iff_le,
          Dbl.add_fin_le_add_fin, Dbl.add_fin_zero]
        split_ifs <;> exact (Dbl.fin_add_comm _ _).symm
      · simp [SnapPointBase.SortPredicate, SnapPointBase.setAlignmentAdjustment,
          ScrollSnapPoint.SortPredicate, ScrollSnapPoint.ActualValue, Dbl.add_fin_zero]
      · simp [SnapPointBase.SortPredicate, SnapPointBase.setAlignmentAdjustment,
          ScrollSnapPoint.SortPredicate, ScrollSnapPoint.ActualValue, Dbl.add_fin_zero]
      · intro value value0 h1 h0
        simp only [SnapPointBase.singleValue, SnapPointBase.setAlignmentAdjustment,
          ScrollSnapPoint.ActualValue, Option.some.injEq, Dbl.add_fin_zero] at h1 h0
        rw [← h1, ← h0]
      · intro first last first0 last0 h1
        simp [SnapPointBase.repeatedFirstLast] at h1
  | repeatedScroll p =>
      obtain ⟨po, pi, ps, pe, al, padj, r, rt⟩ := p
      simp only [SnapPointBase.alignmentAdjustment, Option.some.injEq] at hadj
      subst hadj
      simp only [SnapPointBase.repeatedFinite, Bool.and_eq_true, decide_eq_true_eq] at hfin
      obtain ⟨⟨⟨⟨⟨ho, hi⟩, hs⟩, he⟩, _⟩, hpos⟩ := hfin
      obtain ⟨o, rfl⟩ := Dbl.eq_fin_of_isFinite ho
      obtain ⟨i, rfl⟩ := Dbl.eq_fin_of_isFinite hi
      obtain ⟨s, rfl⟩ := Dbl.eq_fin_of_isFinite hs
      obtain ⟨en, rfl⟩ := Dbl.eq_fin_of_isFinite he
      rw [Dbl.fin_lt_fin] at hpos
      have hne : i ≠ 0 := ne_of_gt hpos
      have e1 : (o + a - (s + a)) / i = (o + 0 - (s + 0)) / i := by ring
      have e2 : (en + a - (o + a)) / i = (en + 0 - (o + 0)) / i := by ring
      refine ⟨?_, ?_, ?_, ?_, ?_⟩
      · exact RepeatedScrollSnapPoint.Evaluate_translate o i s en a r al rt
          (min + Dbl.fin a, max + Dbl.fin a) (min, max) v hpos
      · simp [SnapPointBase.SortPredicate, SnapPointBase.setAlignmentAdjustment,
          RepeatedScrollSnapPoint.SortPredicate, RepeatedScrollSnapPoint.ActualStart]
      · simp [SnapPointBase.SortPredicate, SnapPointBase.setAlignmentAdjustment,
          RepeatedScrollSnapPoint.SortPredicate, RepeatedScrollSnapPoint.ActualEnd]
      · intro value value0 h1
        simp [SnapPointBase.singleValue] at h1
      · intro first last first0 last0 h1 h0
        simp only [SnapPointBase.repeatedFirstLast, SnapPointBase.setAlignmentAdjustment,
          RepeatedScrollSnapPoint.DetermineFirstRepeatedSnapPointValue,
          RepeatedScrollSnapPoint.DetermineLastRepeatedSnapPointValue,
          RepeatedScrollSnapPoint.ActualOffset, RepeatedScrollSnapPoint.ActualStart,
          RepeatedScrollSnapPoint.ActualEnd, Dbl.fin_add_fin, Dbl.fin_sub_fin,
          Dbl.fin_div_fin _ _ hne, Dbl.floor_fin, Dbl.fin_mul_fin, Option.some.injEq,
          Prod.mk.injEq] at h1 h0
        obtain ⟨rfl, rfl⟩ := h1
        obtain ⟨rfl, rfl⟩ := h0
        rw [e1, e2]
        simp only [Dbl.fin_add_fin, Dbl.fin.injEq]
        constructor <;> ring

/-! ## ImpulseInfluence of a repeated point -/

/-- The weak comparison of doubles is transitive. -/
theorem Dbl.le_trans_dbl {a b c : Dbl} (hab : a ≤ b) (hbc : b ≤ c) : a ≤ c := by
  cases a <;> cases b <;> cases c <;> simp_all
  exact le_trans hab hbc

/-- The first and the last position of the sequence `offset + k * interval` inside
`[start, end]`, for `start ≤ offset ≤ end` and a positive interval, lie on either side of the
offset inside the bounds. -/
theorem Dbl.first_last_within (offset interval start end_ : ℚ) (hi : 0 < interval)
    (hso : start ≤ offset) (hoe : offset ≤ end_) :
    start ≤ offset - ((⌊(offset - start) / interval⌋ : ℤ) : ℚ) * interval ∧
    offset - ((⌊(offset - start) / interval⌋ : ℤ) : ℚ) * interval ≤ offset ∧
    offset ≤ offset + ((⌊(end_ - offset) / interval⌋ : ℤ) : ℚ) * interval ∧
    offset + ((⌊(end_ - offset) / interval⌋ : ℤ) : ℚ) * interval ≤ end_ := by
  have h1 : ((⌊(offset - start) / interval⌋ : ℤ) : ℚ) ≤ (offset - start) / interval :=
    Int.floor_le _
  have h2 : (0 : ℚ) ≤ ((⌊(offset - start) / interval⌋ : ℤ) : ℚ) := by
    have : (0 : ℤ) ≤ ⌊(offset - start) / interval⌋ :=
      Int.floor_nonneg.mpr (div_nonneg (by linarith) hi.le)
    exact_mod_cast this
  have h3 : ((⌊(end_ - offset) / interval⌋ : ℤ) : ℚ) ≤ (end_ - offset) / interval :=
    Int.floor_le _
  have h4 : (0 : ℚ) ≤ ((⌊(end_ - offset) / interval⌋ : ℤ) : ℚ) := by
    have : (0 : ℤ) ≤ ⌊(end_ - offset) / interval⌋ :=
      Int.floor_nonneg.mpr (div_nonneg (by linarith) hi.le)
    exact_mod_cast this
  have h5 : ((⌊(offset - start) / interval⌋ : ℤ) : ℚ) * interval ≤ offset - start := by
    have := mul_le_mul_of_nonneg_right h1 hi.le
    rwa [div_mul_cancel₀ _ (ne_of_gt hi)] at this
  have h6 : ((⌊(end_ - offset) / interval⌋ : ℤ) : ℚ) * interval ≤ end_ - offset := by
    have := mul_le_mul_of_nonneg_right h3 hi.le
    rwa [div_mul_cancel₀ _ (ne_of_gt hi)] at this
  have h7 := mul_nonneg h2 hi.le
  have h8 := mul_nonneg h4 hi.le
  refine ⟨by linarith, by linarith, by linarith, by linarith⟩

/-- When nothing is ignored, `ImpulseInfluence` of a mandatory point is the value of its
`Influence`, whenever `Influence` returns. -/
theorem SnapPointBase.ImpulseInfluence_of_Influence (q : SnapPointBase) (x r : Dbl)
    (hq : q.ApplicableRangeType = SnapPointApplicableRangeType.Mandatory)
    (h : q.Influence x = Except.ok r) : q.ImpulseInfluence x Dbl.NAN = r := by
  cases q with
  | scroll p =>
      simp only [SnapPointBase.ApplicableRangeType] at hq
      simp only [SnapPointBase.Influence, ScrollSnapPoint.Influence, hq,
        Except.ok.injEq] at h
      simp [SnapPointBase.ImpulseInfluence, ScrollSnapPoint.ImpulseInfluence, Dbl.NAN,
        Dbl.isnan, h]
  | zoom p =>
      simp only [SnapPointBase.ApplicableRangeType] at hq
      simp only [SnapPointBase.Influence, ZoomSnapPoint.Influence, hq, Except.ok.injEq] at h
      simp [SnapPointBase.ImpulseInfluence, ZoomSnapPoint.ImpulseInfluence, Dbl.NAN,
        Dbl.isnan, h]
  | repeatedScroll p =>
      simp only [SnapPointBase.Influence, RepeatedScrollSnapPoint.Influence] at h
      simp only [SnapPointBase.ImpulseInfluence, RepeatedScrollSnapPoint.ImpulseInfluence,
        Dbl.NAN]
      by_cases h1 : x ≤ p.ActualStart
      · rw [if_pos h1] at h
        rw [if_pos h1]
        simpa [Dbl.beq] using h
      · rw [if_neg h1] at h
        rw [if_neg h1]
        by_cases h2 : x ≥ p.ActualEnd
        · rw [if_pos h2] at h
          rw [if_pos h2]
          simpa [Dbl.beq] using h
        · rw [if_neg h2] at h
          cases h
  | repeatedZoom p =>
      simp only [SnapPointBase.Influence, RepeatedZoomSnapPoint.Influence] at h
      simp only [SnapPointBase.ImpulseInfluence, RepeatedZoomSnapPoint.ImpulseInfluence,
        Dbl.NAN]
      by_cases h1 : x ≤ p.m_start
      · rw [if_pos h1] at h
        rw [if_pos h1]
        simpa [Dbl.beq] using h
      · rw [if_neg h1] at h
        rw [if_neg h1]
        by_cases h2 : x ≥ p.m_end
        · rw [if_pos h2] at h
          rw [if_pos h2]
          simpa [Dbl.beq] using h
        · rw [if_neg h2] at h
          cases h

/-- The min side of the impulse zone of a mandatory single scroll point with nothing ignored is
the min side of its regular zone. -/
theorem ScrollSnapPoint.impulse_min_of_min (p : ScrollSnapPoint)
    (previousSnapPoint : Option SnapPointBase) (a : Dbl)
    (hp : p.m_applicableRangeType = SnapPointApplicableRangeType.Mandatory)
    (hprev : ∀ q, previousSnapPoint = some q →
      q.ApplicableRangeType = SnapPointApplicableRangeType.Mandatory)
    (h : p.DetermineMinActualApplicableZone previousSnapPoint = Except.ok a) :
    p.DetermineMinActualImpulseApplicableZone previousSnapPoint Dbl.NAN Dbl.NAN = a := by
  cases previousSnapPoint with
  | none =>
      simpa [ScrollSnapPoint.DetermineMinActualApplicableZone,
        ScrollSnapPoint.DetermineMinActualImpulseApplicableZone, hp] using h
  | some q =>
      simp only [ScrollSnapPoint.DetermineMinActualApplicableZone, hp] at h
      cases hi : q.Influence p.ActualValue with
      | error err => rw [hi] at h; cases h
      | ok r =>
          rw [hi] at h
          have hr : r = a := by simpa [bind, Except.bind] using h
          subst hr
          have hq := SnapPointBase.ImpulseInfluence_of_Influence q _ r (hprev q rfl) hi
          simp only [ScrollSnapPoint.DetermineMinActualImpulseApplicableZone,
            show Dbl.isnan Dbl.NAN = true from rfl, if_true]
          exact hq

/-- The max side of the impulse zone of a mandatory single scroll point with nothing ignored is
the max side of its regular zone. -/
theorem ScrollSnapPoint.impulse_max_of_max (p : ScrollSnapPoint)
    (nextSnapPoint : Option SnapPointBase) (a : Dbl)
    (hp : p.m_applicableRangeType = SnapPointApplicableRangeType.Mandatory)
    (hnext : ∀ q, nextSnapPoint = some q →
      q.ApplicableRangeType = SnapPointApplicableRangeType.Mandatory)
    (h : p.DetermineMaxActualApplicableZone nextSnapPoint = Except.ok a) :
    p.DetermineMaxActualImpulseApplicableZone nextSnapPoint Dbl.NAN Dbl.NAN = a := by
  cases nextSnapPoint with
  | none =>
      simpa [ScrollSnapPoint.DetermineMaxActualApplicableZone,
        ScrollSnapPoint.DetermineMaxActualImpulseApplicableZone, hp] using h
  | some q =>
      simp only [ScrollSnapPoint.DetermineMaxActualApplicableZone, hp] at h
      cases hi : q.Influence p.ActualValue with
      | error err => rw [hi] at h; cases h
      | ok r =>
          rw [hi] at h
          have hr : r = a := by simpa [bind, Except.bind] using h
          subst hr
          have hq := SnapPointBase.ImpulseInfluence_of_Influence q _ r (hnext q rfl) hi
          simp only [ScrollSnapPoint.DetermineMaxActualImpulseApplicableZone,
            show Dbl.isnan Dbl.NAN = true from rfl, if_true]
          exact hq

/-- The min side of the impulse zone of a mandatory single zoom point with nothing ignored is
the min side of its regular zone. -/
theorem ZoomSnapPoint.impulse_min_of_min_zoom (p : ZoomSnapPoint)
    (previousSnapPoint : Option SnapPointBase) (a : Dbl)
    (hp : p.m_applicableRangeType = SnapPointApplicableRangeType.Mandatory)
    (hprev : ∀ q, previousSnapPoint = some q →
      q.ApplicableRangeType = SnapPointApplicableRangeType.Mandatory)
    (h : p.DetermineMinActualApplicableZone previousSnapPoint = Except.ok a) :
    p.DetermineMinActualImpulseApplicableZone previousSnapPoint Dbl.NAN Dbl.NAN = a := by
  cases previousSnapPoint with
  | none =>
      simpa [ZoomSnapPoint.DetermineMinActualApplicableZone,
        ZoomSnapPoint.DetermineMinActualImpulseApplicableZone, hp] using h
  | some q =>
      simp only [ZoomSnapPoint.DetermineMinActualApplicableZone, hp] at h
      cases hi : q.Influence p.m_value with
      | error err => rw [hi] at h; cases h
      | ok r =>
          rw [hi] at h
          have hr : r = a := by simpa [bind, Except.bind] using h
          subst hr
          have hq := SnapPointBase.ImpulseInfluence_of_Influence q _ r (hprev q rfl) hi
          simp only [ZoomSnapPoint.DetermineMinActualImpulseApplicableZone,
            show Dbl.isnan Dbl.NAN = true from rfl, if_true]
          exact hq

/-- The max side of the impulse zone of a mandatory single zoom point with nothing ignored is
the max side of its regular zone. -/
theorem ZoomSnapPoint.impulse_max_of_max_zoom (p : ZoomSnapPoint)
    (nextSnapPoint : Option SnapPointBase) (a : Dbl)
    (hp : p.m_applicableRangeType = SnapPointApplicableRangeType.Mandatory)
    (hnext : ∀ q, nextSnapPoint = some q →
      q.ApplicableRangeType = SnapPointApplicableRangeType.Mandatory)
    (h : p.DetermineMaxActualApplicableZone nextSnapPoint = Except.ok a) :
    p.DetermineMaxActualImpulseApplicableZone nextSnapPoint Dbl.NAN Dbl.NAN = a := by
  cases nextSnapPoint with
  | none =>
      simpa [ZoomSnapPoint.DetermineMaxActualApplicableZone,
        ZoomSnapPoint.DetermineMaxActualImpulseApplicableZone, hp] using h
  | some q =>
      simp only [ZoomSnapPoint.DetermineMaxActualApplicableZone, hp] at h
      cases hi : q.Influence p.m_value with
      | error err => rw [hi] at h; cases h
      | ok r =>
          rw [hi] at h
          have hr : r = a := by simpa [bind, Except.bind] using h
          subst hr
          have hq := SnapPointBase.ImpulseInfluence_of_Influence q _ r (hnext q rfl) hi
          simp only [ZoomSnapPoint.DetermineMaxActualImpulseApplicableZone,
            show Dbl.isnan Dbl.NAN = true from rfl, if_true]
          exact hq

/-- With nothing ignored the impulse zone of a repeated scroll point is its own
`(ActualStart(), ActualEnd())`. -/
theorem RepeatedScrollSnapPoint.impulse_zone_nothing_ignored (p : RepeatedScrollSnapPoint)
    (previousSnapPoint nextSnapPoint : Option SnapPointBase) :
    p.DetermineActualImpulseApplicableZone previousSnapPoint nextSnapPoint Dbl.NAN Dbl.NAN
      Dbl.NAN = (p.ActualStart, p.ActualEnd) := by
  cases previousSnapPoint <;> cases nextSnapPoint <;>
    simp [RepeatedScrollSnapPoint.DetermineActualImpulseApplicableZone,
      RepeatedScrollSnapPoint.DetermineMinActualImpulseApplicableZone,
      RepeatedScrollSnapPoint.DetermineMaxActualImpulseApplicableZone, Dbl.NAN, Dbl.beq,
      Dbl.isnan]

/-- With nothing ignored the impulse zone of a repeated zoom point is its own
`(m_start, m_end)`. -/
theorem RepeatedZoomSnapPoint.impulse_zone_nothing_ignored_zoom (p : RepeatedZoomSnapPoint)
    (previousSnapPoint nextSnapPoint : Option SnapPointBase) :
    p.DetermineActualImpulseApplicableZone previousSnapPoint nextSnapPoint Dbl.NAN Dbl.NAN
      Dbl.NAN = (p.m_start, p.m_end) := by
  cases previousSnapPoint <;> cases nextSnapPoint <;>
    simp [RepeatedZoomSnapPoint.DetermineActualImpulseApplicableZone,
      RepeatedZoomSnapPoint.DetermineMinActualImpulseApplicableZone,
      RepeatedZoomSnapPoint.DetermineMaxActualImpulseApplicableZone, Dbl.NAN, Dbl.beq,
      Dbl.isnan]

/-- A zone that the resolver of a repeated point returns is the point's own bounds. -/
theorem Spec.repeatedZone_ok (s_equalityEpsilon : Dbl) (self : SnapPointBase)
    (start end_ : Dbl) (previous next : Option SnapPointBase) (zone : Dbl × Dbl)
    (h : Spec.repeatedZone s_equalityEpsilon self start end_ previous next = Except.ok zone) :
    zone = (start, end_) := by
  unfold Spec.repeatedZone at h
  split at h
  · cases h
  · split at h
    · exact (Except.ok.inj h).symm
    · split at h
      · cases h
      · split at h
        · cases h
        · exact (Except.ok.inj h).symm

/-- C29. With nothing ignored the impulse zone mirrors the regular zone: for a mandatory snap
point of any kind and mandatory neighbours (absent, single or repeated), if
`DetermineActualApplicableZone(previous, next)` returns a zone without throwing, then
`DetermineActualImpulseApplicableZone(previous, next, NaN, NaN, NaN)` returns the same
`(min, max)`. -/
theorem C29_impulse_zone_mirrors_zone (s_equalityEpsilon : Dbl) (sp : SnapPointBase)
    (previousSnapPoint nextSnapPoint : Option SnapPointBase) (zone : Dbl × Dbl)
    (hsp : sp.ApplicableRangeType = SnapPointApplicableRangeType.Mandatory)
    (hprev : ∀ q, previousSnapPoint = some q →
      q.ApplicableRangeType = SnapPointApplicableRangeType.Mandatory)
    (hnext : ∀ q, nextSnapPoint = some q →
      q.ApplicableRangeType = SnapPointApplicableRangeType.Mandatory)
    (hzone : sp.DetermineActualApplicableZone s_equalityEpsilon previousSnapPoint
      nextSnapPoint = Except.ok zone) :
    sp.DetermineActualImpulseApplicableZone previousSnapPoint nextSnapPoint Dbl.NAN Dbl.NAN
      Dbl.NAN = zone := by
  cases sp with
  | scroll p =>
      simp only [SnapPointBase.ApplicableRangeType] at hsp
      simp only [SnapPointBase.DetermineActualApplicableZone,
        ScrollSnapPoint.DetermineActualApplicableZone] at hzone
      cases hmin : p.DetermineMinActualApplicableZone previousSnapPoint with
      | error err => rw [hmin] at hzone; cases hzone
      | ok a =>
          cases hmax : p.DetermineMaxActualApplicableZone nextSnapPoint with
          | error err => rw [hmin, hmax] at hzone; cases hzone
          | ok b =>
              rw [hmin, hmax] at hzone
              have hz : (a, b) = zone := by simpa [bind, Except.bind] using hzone
              rw [← hz]
              simp only [SnapPointBase.DetermineActualImpulseApplicableZone,
                ScrollSnapPoint.DetermineActualImpulseApplicableZone,
                ScrollSnapPoint.impulse_min_of_min p previousSnapPoint a hsp hprev hmin,
                ScrollSnapPoint.impulse_max_of_max p nextSnapPoint b hsp hnext hmax]
  | zoom p =>
      simp only [SnapPointBase.ApplicableRangeType] at hsp
      simp only [SnapPointBase.DetermineActualApplicableZone,
        ZoomSnapPoint.DetermineActualApplicableZone] at hzone
      cases hmin : p.DetermineMinActualApplicableZone previousSnapPoint with
      | error err => rw [hmin] at hzone; cases hzone
      | ok a =>
          cases hmax : p.DetermineMaxActualApplicableZone nextSnapPoint with
          | error err => rw [hmin, hmax] at hzone; cases hzone
          | ok b =>
              rw [hmin, hmax] at hzone
              have hz : (a, b) = zone := by simpa [bind, Except.bind] using hzone
              rw [← hz]
              simp only [SnapPointBase.DetermineActualImpulseApplicableZone,
                ZoomSnapPoint.DetermineActualImpulseApplicableZone,
                ZoomSnapPoint.impulse_min_of_min_zoom p previousSnapPoint a hsp hprev hmin,
                ZoomSnapPoint.impulse_max_of_max_zoom p nextSnapPoint b hsp hnext hmax]
  | repeatedScroll p =>
      rw [SnapPointBase.DetermineActualApplicableZone_repeated s_equalityEpsilon
        (SnapPointBase.repeatedScroll p) p.ActualStart p.ActualEnd rfl] at hzone
      simp only [SnapPointBase.DetermineActualImpulseApplicableZone,
        RepeatedScrollSnapPoint.impulse_zone_nothing_ignored]
      exact (Spec.repeatedZone_ok _ _ _ _ _ _ _ hzone).symm
  | repeatedZoom p =>
      rw [SnapPointBase.DetermineActualApplicableZone_repeated s_equalityEpsilon
        (SnapPointBase.repeatedZoom p) p.m_start p.m_end rfl] at hzone
      simp only [SnapPointBase.DetermineActualImpulseApplicableZone,
        RepeatedZoomSnapPoint.impulse_zone_nothing_ignored_zoom]
      exact (Spec.repeatedZone_ok _ _ _ _ _ _ _ hzone).symm

/-- C29 witness: the mandatory point at `10` between mandatory points at `0` and `30` has the
regular zone `(5, 20)`, and with nothing ignored the same impulse zone. -/
theorem C29_impulse_zone_mirrors_zone_witness :
    (SnapPointBase.scroll (Scenario.mandatoryScroll 10)).DetermineActualApplicableZone
        (Dbl.fin 0) (some (SnapPointBase.scroll (Scenario.mandatoryScroll 0)))
        (some (SnapPointBase.scroll (Scenario.mandatoryScroll 30)))
      = Except.ok (Dbl.fin 5, Dbl.fin 20) ∧
    (SnapPointBase.scroll (Scenario.mandatoryScroll 10)).DetermineActualImpulseApplicableZone
        (some (SnapPointBase.scroll (Scenario.mandatoryScroll 0)))
        (some (SnapPointBase.scroll (Scenario.mandatoryScroll 30))) Dbl.NAN Dbl.NAN Dbl.NAN
      = (Dbl.fin 5, Dbl.fin 20) := by
  have hzone :
      (SnapPointBase.scroll (Scenario.mandatoryScroll 10)).DetermineActualApplicableZone
        (Dbl.fin 0) (some (SnapPointBase.scroll (Scenario.mandatoryScroll 0)))
        (some (SnapPointBase.scroll (Scenario.mandatoryScroll 30)))
      = Except.ok (Dbl.fin 5, Dbl.fin 20) := by
    norm_num [SnapPointBase.DetermineActualApplicableZone,
      ScrollSnapPoint.DetermineActualApplicableZone,
      ScrollSnapPoint.DetermineMinActualApplicableZone,
      ScrollSnapPoint.DetermineMaxActualApplicableZone, SnapPointBase.Influence,
      ScrollSnapPoint.Influence, ScrollSnapPoint.ActualValue, Scenario.mandatoryScroll, bind,
      Except.bind]
  exact ⟨hzone,
    C29_impulse_zone_mirrors_zone (Dbl.fin 0) (SnapPointBase.scroll (Scenario.mandatoryScroll 10))
      (some (SnapPointBase.scroll (Scenario.mandatoryScroll 0)))
      (some (SnapPointBase.scroll (Scenario.mandatoryScroll 30))) (Dbl.fin 5, Dbl.fin 20) rfl
      (fun q hq => by
        cases hq
        rfl)
      (fun q hq => by
        cases hq
        rfl) hzone⟩

/-! ## Zone recomputation in the wrapper -/

/-- The recomputation reads of a neighbour only what `neighbourState` keeps. -/
theorem SnapPointWrapper.DetermineActualApplicableZone_congr (s_equalityEpsilon : Dbl)
    (w : SnapPointWrapper) (previous previous2 next next2 : Option SnapPointWrapper)
    (forImpulseOnly : Bool)
    (hprev : SnapPointWrapper.neighbourState previous = SnapPointWrapper.neighbourState previous2)
    (hnext : SnapPointWrapper.neighbourState next = SnapPointWrapper.neighbourState next2) :
    w.DetermineActualApplicableZone s_equalityEpsilon previous next forImpulseOnly
      = w.DetermineActualApplicableZone s_equalityEpsilon previous2 next2 forImpulseOnly := by
  cases previous with
  | none =>
      cases previous2 with
      | some y => simp [SnapPointWrapper.neighbourState] at hprev
      | none =>
          cases next with
          | none =>
              cases next2 with
              | some y => simp [SnapPointWrapper.neighbourState] at hnext
              | none => rfl
          | some x =>
              cases next2 with
              | none => simp [SnapPointWrapper.neighbourState] at hnext
              | some y =>
                  simp only [SnapPointWrapper.neighbourState, Option.some.injEq,
                    Prod.mk.injEq] at hnext
                  simp only [SnapPointWrapper.DetermineActualApplicableZone,
                    SnapPointWrapper.GetSnapPointFromWrapper, SnapPointWrapper.SnapPoint,
                    hnext.1, hnext.2]
  | some u =>
      cases previous2 with
      | none => simp [SnapPointWrapper.neighbourState] at hprev
      | some v =>
          simp only [SnapPointWrapper.neighbourState, Option.some.injEq,
            Prod.mk.injEq] at hprev
          cases next with
          | none =>
              cases next2 with
              | some y => simp [SnapPointWrapper.neighbourState] at hnext
              | none =>
                  simp only [SnapPointWrapper.DetermineActualApplicableZone,
                    SnapPointWrapper.GetSnapPointFromWrapper, SnapPointWrapper.SnapPoint,
                    hprev.1, hprev.2]
          | some x =>
              cases next2 with
              | none => simp [SnapPointWrapper.neighbourState] at hnext
              | some y =>
                  simp only [SnapPointWrapper.neighbourState, Option.some.injEq,
                    Prod.mk.injEq] at hnext
                  simp only [SnapPointWrapper.DetermineActualApplicableZone,
                    SnapPointWrapper.GetSnapPointFromWrapper, SnapPointWrapper.SnapPoint,
                    hprev.1, hprev.2, hnext.1, hnext.2]

/-- A recomputation changes neither the snap point nor the ignored value nor the combination
count of the wrapper; it stores the two zones only. -/
theorem SnapPointWrapper.DetermineActualApplicableZone_frame (s_equalityEpsilon : Dbl)
    (w w2 : SnapPointWrapper) (previous next : Option SnapPointWrapper) (forImpulseOnly : Bool)
    (h : w.DetermineActualApplicableZone s_equalityEpsilon previous next forImpulseOnly
      = Except.ok w2) :
    w2.m_snapPoint = w.m_snapPoint ∧ w2.m_ignoredValue = w.m_ignoredValue ∧
      w2.m_combinationCount = w.m_combinationCount := by
  simp only [SnapPointWrapper.DetermineActualApplicableZone] at h
  cases forImpulseOnly with
  | true =>
      simp only [Bool.not_true, Bool.false_eq_true, if_false, Except.ok.injEq] at h
      subst h
      exact ⟨rfl, rfl, rfl⟩
  | false =>
      simp only [Bool.not_false, if_true] at h
      cases hz : w.SnapPoint.DetermineActualApplicableZone s_equalityEpsilon
          (SnapPointWrapper.GetSnapPointFromWrapper previous)
          (SnapPointWrapper.GetSnapPointFromWrapper next) with
      | error err => rw [hz] at h; cases h
      | ok zone =>
          rw [hz] at h
          simp only [Except.ok.injEq] at h
          subst h
          exact ⟨rfl, rfl, rfl⟩

/-- C30. Zone recomputation reads neighbour state but never neighbour zones: for every wrapper
`w` and two pairs of neighbour wrappers that agree on presence, snap point and ignored value
(and differ arbitrarily in stored zone, impulse zone and combination count),
`SnapPointWrapper::DetermineActualApplicableZone` leaves `w` in the same state, or throws the
same exception, in both runs.  A recomputation keeps the wrapper's snap point and ignored
value, so for adjacent wrappers `w` and `b` recomputing `w` first and then `b`, or `b` first and
then `w`, gives the same two wrappers. -/
theorem C30_recomputation_ignores_neighbour_zones (s_equalityEpsilon : Dbl)
    (w : SnapPointWrapper) (previous previous2 next next2 : Option SnapPointWrapper)
    (forImpulseOnly : Bool)
    (hprev : SnapPointWrapper.neighbourState previous = SnapPointWrapper.neighbourState previous2)
    (hnext : SnapPointWrapper.neighbourState next = SnapPointWrapper.neighbourState next2) :
    w.DetermineActualApplicableZone s_equalityEpsilon previous next forImpulseOnly
      = w.DetermineActualApplicableZone s_equalityEpsilon previous2 next2 forImpulseOnly ∧
    (∀ w2 : SnapPointWrapper,
      w.DetermineActualApplicableZone s_equalityEpsilon previous next forImpulseOnly
        = Except.ok w2 →
      SnapPointWrapper.neighbourState (some w2) = SnapPointWrapper.neighbourState (some w)) ∧
    (∀ (b w2 b2 : SnapPointWrapper) (afterB : Option SnapPointWrapper),
      w.DetermineActualApplicableZone s_equalityEpsilon previous (some b) forImpulseOnly
        = Except.ok w2 →
      b.DetermineActualApplicableZone s_equalityEpsilon (some w) afterB forImpulseOnly
        = Except.ok b2 →
      b.DetermineActualApplicableZone s_equalityEpsilon (some w2) afterB forImpulseOnly
          = Except.ok b2 ∧
        w.DetermineActualApplicableZone s_equalityEpsilon previous (some b2) forImpulseOnly
          = Except.ok w2) := by
  refine ⟨SnapPointWrapper.DetermineActualApplicableZone_congr s_equalityEpsilon w previous
    previous2 next next2 forImpulseOnly hprev hnext, ?_, ?_⟩
  · intro w2 h
    obtain ⟨h1, h2, _⟩ := SnapPointWrapper.DetermineActualApplicableZone_frame
      s_equalityEpsilon w w2 previous next forImpulseOnly h
    simp [SnapPointWrapper.neighbourState, h1, h2]
  · intro b w2 b2 afterB hw hb
    obtain ⟨h1, h2, _⟩ := SnapPointWrapper.DetermineActualApplicableZone_frame
      s_equalityEpsilon w w2 previous (some b) forImpulseOnly hw
    obtain ⟨h3, h4, _⟩ := SnapPointWrapper.DetermineActualApplicableZone_frame
      s_equalityEpsilon b b2 (some w) afterB forImpulseOnly hb
    constructor
    · rw [← hb]
      exact SnapPointWrapper.DetermineActualApplicableZone_congr s_equalityEpsilon b (some w2)
        (some w) afterB afterB forImpulseOnly
        (by simp [SnapPointWrapper.neighbourState, h1, h2]) rfl
    · rw [← hw]
      exact SnapPointWrapper.DetermineActualApplicableZone_congr s_equalityEpsilon w previous
        previous (some b2) (some b) forImpulseOnly rfl
        (by simp [SnapPointWrapper.neighbourState, h3, h4])

/-- C30 witness: the wrapped mandatory point at `10` after a wrapped point at `0`; a neighbour
wrapper that stores the zones `(1, 2)`, `(3, 4)` and combination count `7` gives the same
result as a fresh one. -/
theorem C30_recomputation_ignores_neighbour_zones_witness :
    (Scenario.freshWrapper
        (SnapPointBase.scroll (Scenario.mandatoryScroll 10))).DetermineActualApplicableZone
      (Dbl.fin 0)
      (some { Scenario.freshWrapper (SnapPointBase.scroll (Scenario.mandatoryScroll 0)) with
        m_actualApplicableZone := (Dbl.fin 1, Dbl.fin 2)
        m_actualImpulseApplicableZone := (Dbl.fin 3, Dbl.fin 4)
        m_combinationCount := 7 })
      none false
    = (Scenario.freshWrapper
        (SnapPointBase.scroll (Scenario.mandatoryScroll 10))).DetermineActualApplicableZone
      (Dbl.fin 0)
      (some (Scenario.freshWrapper (SnapPointBase.scroll (Scenario.mandatoryScroll 0))))
      none false :=
  (C30_recomputation_ignores_neighbour_zones (Dbl.fin 0)
    (Scenario.freshWrapper (SnapPointBase.scroll (Scenario.mandatoryScroll 10)))
    (some { Scenario.freshWrapper (SnapPointBase.scroll (Scenario.mandatoryScroll 0)) with
      m_actualApplicableZone := (Dbl.fin 1, Dbl.fin 2)
      m_actualImpulseApplicableZone := (Dbl.fin 3, Dbl.fin 4)
      m_combinationCount := 7 })
    (some (Scenario.freshWrapper (SnapPointBase.scroll (Scenario.mandatoryScroll 0))))
    none none false rfl rfl).1

/-! ## The frame of the zone recomputation -/

/-- C31. `SnapPointWrapper::DetermineActualApplicableZone`, called on the wrapper at address
`this` of a store with its neighbours given by address, changes only the two zone fields of the
receiver: the receiver's snap point, combination count and ignored value are unchanged, and so
is every wrapper at another address, the neighbours included, whether the call returns or
throws (then nothing changes at all).  With `forImpulseOnly` the call cannot throw, the
receiver's regular applicable zone is unchanged as well, and the impulse zone is replaced by
the one the impulse resolver computes. -/
theorem C31_zone_recomputation_frame (s_equalityEpsilon : Dbl)
    (store : Nat → SnapPointWrapper) (this : Nat) (previous next : Option Nat)
    (forImpulseOnly : Bool) :
    ((SnapPointWrapper.DetermineActualApplicableZone_inPlace s_equalityEpsilon store this previous
        next forImpulseOnly).1 this).m_snapPoint = (store this).m_snapPoint ∧
    ((SnapPointWrapper.DetermineActualApplicableZone_inPlace s_equalityEpsilon store this previous
        next forImpulseOnly).1 this).m_combinationCount = (store this).m_combinationCount ∧
    ((SnapPointWrapper.DetermineActualApplicableZone_inPlace s_equalityEpsilon store this previous
        next forImpulseOnly).1 this).m_ignoredValue = (store this).m_ignoredValue ∧
    (∀ address : Nat, address ≠ this →
      (SnapPointWrapper.DetermineActualApplicableZone_inPlace s_equalityEpsilon store this
        previous next forImpulseOnly).1 address = store address) ∧
    ((SnapPointWrapper.DetermineActualApplicableZone_inPlace s_equalityEpsilon store this previous
        next forImpulseOnly).2 ≠ none →
      (SnapPointWrapper.DetermineActualApplicableZone_inPlace s_equalityEpsilon store this
        previous next forImpulseOnly).1 = store) ∧
    (forImpulseOnly = true →
      SnapPointWrapper.DetermineActualApplicableZone_inPlace s_equalityEpsilon store this
          previous next forImpulseOnly =
        (Function.update store this
          { store this with
            m_actualImpulseApplicableZone :=
              (store this).m_snapPoint.DetermineActualImpulseApplicableZone
                (SnapPointWrapper.GetSnapPointFromWrapper (previous.map store))
                (SnapPointWrapper.GetSnapPointFromWrapper (next.map store))
                (store this).m_ignoredValue
                (match previous.map store with
                  | some pw => pw.m_ignoredValue
                  | none => Dbl.NAN)
                (match next.map store with
                  | some nw => nw.m_ignoredValue
                  | none => Dbl.NAN) }, none)) := by
  cases hr : (store this).DetermineActualApplicableZone s_equalityEpsilon (previous.map store)
      (next.map store) forImpulseOnly with
  | error err =>
      have hstep : SnapPointWrapper.DetermineActualApplicableZone_inPlace s_equalityEpsilon store
          this previous next forImpulseOnly = (store, some err) := by
        simp only [SnapPointWrapper.DetermineActualApplicableZone_inPlace, hr]
      rw [hstep]
      refine ⟨rfl, rfl, rfl, fun _ _ => rfl, fun _ => rfl, ?_⟩
      intro hf
      subst hf
      simp [SnapPointWrapper.DetermineActualApplicableZone] at hr
  | ok w =>
      have hstep : SnapPointWrapper.DetermineActualApplicableZone_inPlace s_equalityEpsilon store
          this previous next forImpulseOnly = (Function.update store this w, none) := by
        simp only [SnapPointWrapper.DetermineActualApplicableZone_inPlace, hr]
      obtain ⟨h1, h2, h3⟩ := SnapPointWrapper.DetermineActualApplicableZone_frame
        s_equalityEpsilon (store this) w (previous.map store) (next.map store) forImpulseOnly hr
      rw [hstep]
      refine ⟨?_, ?_, ?_, ?_, ?_, ?_⟩
      · simpa using h1
      · simpa using h3
      · simpa using h2
      · intro address hne
        simp [Function.update, hne]
      · intro hne
        exact absurd rfl hne
      · intro hf
        subst hf
        simp only [SnapPointWrapper.DetermineActualApplicableZone, Bool.not_true,
          Bool.false_eq_true, if_false, Except.ok.injEq] at hr
        rw [← hr]
        rfl

/-- C31 witness: a store with the mandatory points at `0`, `10` and `30` at the addresses `0`,
`1` and `2`, the wrapper at `1` holding the ignored value `10`; an impulse-only recomputation
of the wrapper at `1` keeps its regular zone and ignored value and leaves the wrappers at `0`
and `2` as they were. -/
theorem C31_zone_recomputation_frame_witness :
    ((SnapPointWrapper.DetermineActualApplicableZone_inPlace (Dbl.fin 0)
        (fun address =>
          if address = 0 then Scenario.freshWrapper (SnapPointBase.scroll (Scenario.mandatoryScroll 0))
          else if address = 1 then
            { Scenario.freshWrapper (SnapPointBase.scroll (Scenario.mandatoryScroll 10)) with
              m_ignoredValue := Dbl.fin 10 }
          else Scenario.freshWrapper (SnapPointBase.scroll (Scenario.mandatoryScroll 30)))
        1 (some 0) (some 2) true).1 0)
      = Scenario.freshWrapper (SnapPointBase.scroll (Scenario.mandatoryScroll 0)) ∧
    ((SnapPointWrapper.DetermineActualApplicableZone_inPlace (Dbl.fin 0)
        (fun address =>
          if address = 0 then Scenario.freshWrapper (SnapPointBase.scroll (Scenario.mandatoryScroll 0))
          else if address = 1 then
            { Scenario.freshWrapper (SnapPointBase.scroll (Scenario.mandatoryScroll 10)) with
              m_ignoredValue := Dbl.fin 10 }
          else Scenario.freshWrapper (SnapPointBase.scroll (Scenario.mandatoryScroll 30)))
        1 (some 0) (some 2) true).1 1).m_ignoredValue = Dbl.fin 10 :=
  ⟨(C31_zone_recomputation_frame (Dbl.fin 0) _ 1 (some 0) (some 2) true).2.2.2.1 0 (by decide),
    (C31_zone_recomputation_frame (Dbl.fin 0) _ 1 (some 0) (some 2) true).2.2.1⟩

/-! ## The resting-point expression and Evaluate -/

namespace Dbl

@[simp] theorem ceil_fin (a : ℚ) : ceil (fin a) = fin (⌈a⌉ : ℤ) := rfl

/-- Division by the scale `1`. -/
theorem div_fin_one (x : Dbl) : x / fin 1 = x := by
  cases x <;> simp [div_def, div, infOfSign]

/-- Multiplication by the scale `1`. -/
theorem mul_fin_one (x : Dbl) : x * fin 1 = x := by
  cases x <;> simp [mul_def, mul, infOfSign]

end Dbl

/-- C32 (failing input). The mandatory repeated point `offset = 0, interval = 10, start = 0,
end = 96` and the target `96`, which lies in `[start, end]` and is nearer to the position `100`
than to `90`: in regular mode with scale `1` the resting-point expression gives `90`, since
`nextSnap = 100` fails its test `nextSnap <= end`, while `Evaluate((0, 96), 96)` gives `100`,
a position above `end`; scroll and zoom kinds alike. -/
theorem C32_restingPoint_differs_from_Evaluate :
    RepeatedScrollSnapPoint.CreateRestingPointExpression (fun x => x) Scenario.repeatedEnd96
        Dbl.NAN (Dbl.fin 0, Dbl.fin 96) (Dbl.fin 96) (Dbl.fin 1) false = Dbl.fin 90 ∧
    Scenario.repeatedEnd96.Evaluate (Dbl.fin 0, Dbl.fin 96) (Dbl.fin 96) = Dbl.fin 100 ∧
    RepeatedZoomSnapPoint.CreateRestingPointExpression (fun x => x)
        ⟨Dbl.fin 0, Dbl.fin 10, Dbl.fin 0, Dbl.fin 96, Dbl.INFINITY,
          SnapPointApplicableRangeType.Mandatory⟩
        Dbl.NAN (Dbl.fin 0, Dbl.fin 96) (Dbl.fin 96) false = Dbl.fin 90 ∧
    RepeatedZoomSnapPoint.Evaluate
        ⟨Dbl.fin 0, Dbl.fin 10, Dbl.fin 0, Dbl.fin 96, Dbl.INFINITY,
          SnapPointApplicableRangeType.Mandatory⟩
        (Dbl.fin 0, Dbl.fin 96) (Dbl.fin 96) = Dbl.fin 100 := by
  have hfloor1 : ⌊((0 : ℚ) + 0 - (0 + 0)) / 10⌋ = 0 := by
    rw [Int.floor_eq_iff]
    norm_num
  have hfloor1z : ⌊((0 : ℚ) - 0) / 10⌋ = 0 := by
    rw [Int.floor_eq_iff]
    norm_num
  have hfloor2 : ⌊((96 : ℚ) - 0) / 10⌋ = 9 := by
    rw [Int.floor_eq_iff]
    norm_num
  have hfloor3 : ⌊((96 : ℚ) / 1 - 0) / 10⌋ = 9 := by
    rw [Int.floor_eq_iff]
    norm_num
  have hceil3 : ⌈(48 : ℚ) / 5⌉ = 10 := by
    rw [Int.ceil_eq_iff]
    norm_num
  refine ⟨?_, ?_, ?_, ?_⟩
  · norm_num [RepeatedScrollSnapPoint.CreateRestingPointExpression,
      RepeatedScrollSnapPoint.restingPointExpression, Scenario.repeatedEnd96,
      RepeatedScrollSnapPoint.DetermineFirstRepeatedSnapPointValue,
      RepeatedScrollSnapPoint.ActualOffset, RepeatedScrollSnapPoint.ActualStart,
      RepeatedScrollSnapPoint.ActualEnd, RepeatedScrollSnapPoint.ActualImpulseIgnoredValue,
      Dbl.fin_div_fin, hfloor1, hfloor3, hceil3, Dbl.INFINITY, Dbl.NAN]
  · norm_num [RepeatedScrollSnapPoint.Evaluate, Scenario.repeatedEnd96,
      RepeatedScrollSnapPoint.DetermineFirstRepeatedSnapPointValue,
      RepeatedScrollSnapPoint.ActualOffset, RepeatedScrollSnapPoint.ActualStart,
      RepeatedScrollSnapPoint.ActualEnd, Dbl.fin_div_fin, hfloor1, hfloor2, Dbl.INFINITY]
  · norm_num [RepeatedZoomSnapPoint.CreateRestingPointExpression,
      RepeatedZoomSnapPoint.restingPointExpression,
      RepeatedZoomSnapPoint.DetermineFirstRepeatedSnapPointValue,
      Dbl.fin_div_fin, hfloor1z, hfloor2, hceil3, Dbl.INFINITY, Dbl.NAN]
  · norm_num [RepeatedZoomSnapPoint.Evaluate,
      RepeatedZoomSnapPoint.DetermineFirstRepeatedSnapPointValue,
      Dbl.fin_div_fin, hfloor1z, hfloor2, Dbl.INFINITY]

/-- The formula of the resting-point expression in regular mode, on rational numbers, with
`prevSnap` and `nextSnap` computed: the zoom formula, and the scroll formula at scale `1`. -/
theorem Spec.restingPointExpression_regular (F i E x : ℚ) (iEnd iIgn : Dbl) (hi : 0 < i) :
    RepeatedZoomSnapPoint.restingPointExpression (Dbl.fin i) (Dbl.fin E) (Dbl.fin F) iEnd iIgn
        (Dbl.fin x) false
      = (if |x - ((⌊(x - F) / i⌋ : ℤ) * i + F)| ≥ |x - ((⌈(x - F) / i⌉ : ℤ) * i + F)|
            ∧ (⌈(x - F) / i⌉ : ℤ) * i + F ≤ E
          then Dbl.fin ((⌈(x - F) / i⌉ : ℤ) * i + F)
          else Dbl.fin ((⌊(x - F) / i⌋ : ℤ) * i + F)) ∧
    RepeatedScrollSnapPoint.restingPointExpression (Dbl.fin i) (Dbl.fin E) (Dbl.fin F) iEnd iIgn
        (Dbl.fin x) (Dbl.fin 1) false
      = (if |x - ((⌊(x - F) / i⌋ : ℤ) * i + F)| ≥ |x - ((⌈(x - F) / i⌉ : ℤ) * i + F)|
            ∧ (⌈(x - F) / i⌉ : ℤ) * i + F ≤ E
          then Dbl.fin ((⌈(x - F) / i⌉ : ℤ) * i + F)
          else Dbl.fin ((⌊(x - F) / i⌋ : ℤ) * i + F)) := by
  have hne : i ≠ 0 := ne_of_gt hi
  constructor
  · simp only [RepeatedZoomSnapPoint.restingPointExpression, Dbl.fin_sub_fin,
      Dbl.fin_div_fin _ _ hne, Dbl.floor_fin, Dbl.ceil_fin, Dbl.fin_mul_fin, Dbl.fin_add_fin,
      Dbl.abs_fin, ge_iff_le, Dbl.fin_le_fin, Bool.false_eq_true, if_false]
  · simp only [RepeatedScrollSnapPoint.restingPointExpression, Dbl.div_fin_one,
      Dbl.mul_fin_one, Dbl.fin_sub_fin, Dbl.fin_div_fin _ _ hne, Dbl.floor_fin, Dbl.ceil_fin,
      Dbl.fin_mul_fin, Dbl.fin_add_fin, Dbl.abs_fin, ge_iff_le, Dbl.fin_le_fin,
      Bool.false_eq_true, if_false]

/-- Where the guard `nextSnap <= end` of the resting-point expression does not decide, the
expression and the specified `Evaluate` of a mandatory point agree: for a target `x <= end`
that is not equidistant from the positions `prev` and `prev + interval` around it and whose
nearer position is not above `end`. -/
theorem Spec.restingPoint_eq_repeatedEvaluate (F i E x : ℚ) (hi : 0 < i) (hx : x ≤ E)
    (hne : x - (F + (⌊(x - F) / i⌋ : ℤ) * i) ≠ F + (⌊(x - F) / i⌋ : ℤ) * i + i - x)
    (hguard : F + (⌊(x - F) / i⌋ : ℤ) * i + i ≤ E ∨
      x - (F + (⌊(x - F) / i⌋ : ℤ) * i) < F + (⌊(x - F) / i⌋ : ℤ) * i + i - x) :
    (if |x - ((⌊(x - F) / i⌋ : ℤ) * i + F)| ≥ |x - ((⌈(x - F) / i⌉ : ℤ) * i + F)|
          ∧ (⌈(x - F) / i⌉ : ℤ) * i + F ≤ E
        then Dbl.fin ((⌈(x - F) / i⌉ : ℤ) * i + F)
        else Dbl.fin ((⌊(x - F) / i⌋ : ℤ) * i + F))
      = Spec.repeatedEvaluate F i Dbl.pinf ⌊(x - F) / i⌋ x := by
  have hk1 : ((⌊(x - F) / i⌋ : ℤ) : ℚ) ≤ (x - F) / i := Int.floor_le _
  have hk2 : (x - F) / i < ((⌊(x - F) / i⌋ : ℤ) : ℚ) + 1 := Int.lt_floor_add_one _
  have h1 : ((⌊(x - F) / i⌋ : ℤ) : ℚ) * i ≤ x - F := (le_div_iff₀ hi).mp hk1
  have h2 : x - F < (((⌊(x - F) / i⌋ : ℤ) : ℚ) + 1) * i := (div_lt_iff₀ hi).mp hk2
  simp only [Spec.repeatedEvaluate, Dbl.fin_le_pinf, if_true]
  rcases h1.lt_or_eq with hlt | heq
  · have hceil : ⌈(x - F) / i⌉ = ⌊(x - F) / i⌋ + 1 := by
      rw [Int.ceil_eq_iff]
      push_cast
      constructor
      · have : ((⌊(x - F) / i⌋ : ℤ) : ℚ) < (x - F) / i := (lt_div_iff₀ hi).mpr hlt
        linarith
      · exact hk2.le
    rw [hceil]
    push_cast
    have ha1 : |x - (((⌊(x - F) / i⌋ : ℤ) : ℚ) * i + F)|
        = x - (((⌊(x - F) / i⌋ : ℤ) : ℚ) * i + F) := abs_of_nonneg (by linarith)
    have ha2 : |x - ((((⌊(x - F) / i⌋ : ℤ) : ℚ) + 1) * i + F)|
        = (((⌊(x - F) / i⌋ : ℤ) : ℚ) + 1) * i + F - x := by
      rw [abs_sub_comm]
      exact abs_of_nonneg (by linarith)
    rw [ha1, ha2]
    by_cases hc : x - (F + ((⌊(x - F) / i⌋ : ℤ) : ℚ) * i)
        ≤ F + ((⌊(x - F) / i⌋ : ℤ) : ℚ) * i + i - x
    · have hstrict : x - (F + ((⌊(x - F) / i⌋ : ℤ) : ℚ) * i)
          < F + ((⌊(x - F) / i⌋ : ℤ) : ℚ) * i + i - x := lt_of_le_of_ne hc hne
      rw [if_pos hc, if_neg (fun h => by linarith [h.1])]
      congr 1
      ring
    · rcases hguard with hg | hg
      · rw [if_neg hc, if_pos ⟨by linarith [not_le.mp hc], by linarith⟩]
        congr 1
        ring
      · exact absurd hg.le hc
  · have hfrac : (x - F) / i = ((⌊(x - F) / i⌋ : ℤ) : ℚ) := by
      rw [div_eq_iff (ne_of_gt hi)]
      exact heq.symm
    have hceil : ⌈(x - F) / i⌉ = ⌊(x - F) / i⌋ := by
      conv_lhs => rw [hfrac]
      exact Int.ceil_intCast _
    rw [hceil]
    have hc : x - (F + ((⌊(x - F) / i⌋ : ℤ) : ℚ) * i)
        ≤ F + ((⌊(x - F) / i⌋ : ℤ) : ℚ) * i + i - x := by linarith
    rw [if_pos hc, if_pos ⟨le_refl _, by linarith⟩]
    congr 1
    ring

/-- Apart from the guard `nextSnap <= end`, the resting-point expression of a mandatory repeated
scroll point with finite fields finds the value of `Evaluate`, in regular mode with scale `1`
and exact parameters: for a target in `[start, end]` that is not equidistant from the two
positions around it and whose nearer position is not above `end`. -/
theorem RepeatedScrollSnapPoint.CreateRestingPointExpression_eq_Evaluate
    (offset interval start end_ adj x : ℚ) (alignment : ScrollSnapPointsAlignment)
    (rangeType : SnapPointApplicableRangeType) (ignoredValue : Dbl) (zone impulseZone : Dbl × Dbl)
    (hi : 0 < interval) (hlo : start + adj ≤ x) (hhi : x ≤ end_ + adj)
    (hne : ∀ prev : ℚ,
      prev = offset + adj - ((⌊(offset + adj - (start + adj)) / interval⌋ : ℤ) : ℚ) * interval
        + (⌊(x - (offset + adj
          - ((⌊(offset + adj - (start + adj)) / interval⌋ : ℤ) : ℚ) * interval)) / interval⌋ : ℤ)
          * interval →
      x - prev ≠ prev + interval - x ∧
      (prev + interval ≤ end_ + adj ∨ x - prev < prev + interval - x)) :
    RepeatedScrollSnapPoint.CreateRestingPointExpression (fun y => y)
        ⟨Dbl.fin offset, Dbl.fin interval, Dbl.fin start, Dbl.fin end_, alignment, Dbl.fin adj,
          Dbl.pinf, rangeType⟩ ignoredValue impulseZone (Dbl.fin x) (Dbl.fin 1) false
      = RepeatedScrollSnapPoint.Evaluate
        ⟨Dbl.fin offset, Dbl.fin interval, Dbl.fin start, Dbl.fin end_, alignment, Dbl.fin adj,
          Dbl.pinf, rangeType⟩ zone (Dbl.fin x) := by
  obtain ⟨hfirst, heval⟩ := RepeatedScrollSnapPoint.Evaluate_finite offset interval start end_
    adj x Dbl.pinf alignment rangeType zone hi hlo hhi
  obtain ⟨hne1, hg⟩ := hne _ rfl
  rw [heval]
  simp only [RepeatedScrollSnapPoint.CreateRestingPointExpression, hfirst,
    RepeatedScrollSnapPoint.ActualEnd, Dbl.fin_add_fin]
  rw [(Spec.restingPointExpression_regular _ interval (end_ + adj) x _ _ hi).2]
  exact Spec.restingPoint_eq_repeatedEvaluate _ interval (end_ + adj) x hi hhi hne1 hg

/-! ## Evaluate of a repeated point: idempotence and distance -/

/-- `Evaluate` of a repeated point (scroll or zoom) with finite fields and a positive interval,
in rational numbers: outside the bounds the value is returned, inside them the specified
result, with `first` the first repeated position. -/
theorem SnapPointBase.Evaluate_repeated (sp : SnapPointBase)
    (offset interval start end_ first last : Dbl)
    (hfin : sp.repeatedFinite = true)
    (hoi : sp.repeatedOffsetInterval = some (offset, interval))
    (hb : sp.repeatedBounds = some (start, end_))
    (hfl : sp.repeatedFirstLast = some (first, last)) :
    ∃ (F i S E : ℚ), 0 < i ∧ interval = Dbl.fin i ∧ start = Dbl.fin S ∧ end_ = Dbl.fin E ∧
      first = Dbl.fin F ∧
      (∀ (zone : Dbl × Dbl) (v : Dbl), ¬ (Dbl.fin S ≤ v ∧ v ≤ Dbl.fin E) →
        sp.Evaluate zone v = v) ∧
      (∀ (zone : Dbl × Dbl) (x : ℚ), S ≤ x → x ≤ E →
        sp.Evaluate zone (Dbl.fin x)
          = Spec.repeatedEvaluate F i sp.ApplicableRange ⌊(x - F) / i⌋ x) := by
  cases sp with
  | scroll p => simp [SnapPointBase.repeatedBounds] at hb
  | zoom p => simp [SnapPointBase.repeatedBounds] at hb
  | repeatedScroll p =>
      obtain ⟨po, pi, ps, pe, al, padj, r, rt⟩ := p
      simp only [SnapPointBase.repeatedFinite, Bool.and_eq_true, decide_eq_true_eq] at hfin
      obtain ⟨⟨⟨⟨⟨ho, hi⟩, hs⟩, he⟩, ha⟩, hpos⟩ := hfin
      obtain ⟨o, rfl⟩ := Dbl.eq_fin_of_isFinite ho
      obtain ⟨i, rfl⟩ := Dbl.eq_fin_of_isFinite hi
      obtain ⟨s, rfl⟩ := Dbl.eq_fin_of_isFinite hs
      obtain ⟨en, rfl⟩ := Dbl.eq_fin_of_isFinite he
      obtain ⟨adj, rfl⟩ := Dbl.eq_fin_of_isFinite ha
      rw [Dbl.fin_lt_fin] at hpos
      have hne : i ≠ 0 := ne_of_gt hpos
      simp only [SnapPointBase.repeatedOffsetInterval, Option.some.injEq, Prod.mk.injEq] at hoi
      obtain ⟨_, rfl⟩ := hoi
      simp only [SnapPointBase.repeatedBounds, RepeatedScrollSnapPoint.ActualStart,
        RepeatedScrollSnapPoint.ActualEnd, Dbl.fin_add_fin, Option.some.injEq,
        Prod.mk.injEq] at hb
      obtain ⟨rfl, rfl⟩ := hb
      simp only [SnapPointBase.repeatedFirstLast, Option.some.injEq, Prod.mk.injEq] at hfl
      obtain ⟨rfl, _⟩ := hfl
      refine ⟨o + adj - ((⌊(o + adj - (s + adj)) / i⌋ : ℤ) : ℚ) * i, i, s + adj, en + adj, hpos,
        rfl, rfl, rfl, ?_, ?_, ?_⟩
      · simp only [RepeatedScrollSnapPoint.DetermineFirstRepeatedSnapPointValue,
          RepeatedScrollSnapPoint.ActualOffset, RepeatedScrollSnapPoint.ActualStart,
          Dbl.fin_add_fin, Dbl.fin_sub_fin, Dbl.fin_div_fin _ _ hne, Dbl.floor_fin,
          Dbl.fin_mul_fin]
      · intro zone v hv
        simp only [SnapPointBase.Evaluate, RepeatedScrollSnapPoint.Evaluate,
          RepeatedScrollSnapPoint.ActualStart, RepeatedScrollSnapPoint.ActualEnd,
          Dbl.fin_add_fin, ge_iff_le, if_neg hv]
      · intro zone x hlo hhi
        exact (RepeatedScrollSnapPoint.Evaluate_finite o i s en adj x r al rt zone hpos hlo
          hhi).2
  | repeatedZoom p =>
      obtain ⟨po, pi, ps, pe, r, rt⟩ := p
      simp only [SnapPointBase.repeatedFinite, Bool.and_eq_true, decide_eq_true_eq] at hfin
      obtain ⟨⟨⟨⟨ho, hi⟩, hs⟩, he⟩, hpos⟩ := hfin
      obtain ⟨o, rfl⟩ := Dbl.eq_fin_of_isFinite ho
      obtain ⟨i, rfl⟩ := Dbl.eq_fin_of_isFinite hi
      obtain ⟨s, rfl⟩ := Dbl.eq_fin_of_isFinite hs
      obtain ⟨en, rfl⟩ := Dbl.eq_fin_of_isFinite he
      rw [Dbl.fin_lt_fin] at hpos
      have hne : i ≠ 0 := ne_of_gt hpos
      simp only [SnapPointBase.repeatedOffsetInterval, Option.some.injEq, Prod.mk.injEq] at hoi
      obtain ⟨_, rfl⟩ := hoi
      simp only [SnapPointBase.repeatedBounds, Option.some.injEq, Prod.mk.injEq] at hb
      obtain ⟨rfl, rfl⟩ := hb
      simp only [SnapPointBase.repeatedFirstLast, Option.some.injEq, Prod.mk.injEq] at hfl
      obtain ⟨rfl, _⟩ := hfl
      refine ⟨o - ((⌊(o - s) / i⌋ : ℤ) : ℚ) * i, i, s, en, hpos, rfl, rfl, rfl, ?_, ?_, ?_⟩
      · simp only [RepeatedZoomSnapPoint.DetermineFirstRepeatedSnapPointValue,
          Dbl.fin_sub_fin, Dbl.fin_div_fin _ _ hne, Dbl.floor_fin, Dbl.fin_mul_fin]
      · intro zone v hv
        simp only [SnapPointBase.Evaluate, RepeatedZoomSnapPoint.Evaluate, ge_iff_le,
          if_neg hv]
      · intro zone x hlo hhi
        exact (RepeatedZoomSnapPoint.Evaluate_finite_zoom o i s en x r rt zone hpos hlo hhi).2

/-- On a sequence position the specified `Evaluate` returns the position. -/
theorem Spec.repeatedEvaluate_position (first interval : ℚ) (range : Dbl) (j : ℤ)
    (hi : 0 < interval) :
    Spec.repeatedEvaluate first interval range ⌊(first + j * interval - first) / interval⌋
        (first + j * interval) = Dbl.fin (first + j * interval) := by
  have hfl : ⌊(first + j * interval - first) / interval⌋ = j := by
    have : (first + j * interval - first) / interval = (j : ℚ) := by
      field_simp
    rw [this]
    exact Int.floor_intCast j
  rw [hfl]
  simp only [Spec.repeatedEvaluate]
  have h0 : first + ↑j * interval - (first + ↑j * interval)
      ≤ first + ↑j * interval + interval - (first + ↑j * interval) := by linarith
  rw [if_pos h0]
  split_ifs <;> rfl

/-- The specified `Evaluate` is idempotent: its result is the value or one of the two
positions, which it returns unchanged. -/
theorem Spec.repeatedEvaluate_fixed (first interval : ℚ) (range : Dbl) (k : ℤ) (value : ℚ)
    (hi : 0 < interval) :
    ∃ y : ℚ, Spec.repeatedEvaluate first interval range k value = Dbl.fin y ∧
      (y = value ∨
        Spec.repeatedEvaluate first interval range ⌊(y - first) / interval⌋ y = Dbl.fin y) := by
  rcases Spec.repeatedEvaluate_cases first interval range k value
    with ⟨hr, _⟩ | ⟨hr, _⟩ | ⟨hr, _⟩
  · exact ⟨_, hr, Or.inr (Spec.repeatedEvaluate_position first interval range k hi)⟩
  · refine ⟨first + k * interval + interval, hr, Or.inr ?_⟩
    have e : first + (k : ℚ) * interval + interval = first + ((k + 1 : ℤ) : ℚ) * interval := by
      push_cast
      ring
    rw [e]
    exact Spec.repeatedEvaluate_position first interval range (k + 1) hi
  · exact ⟨value, hr, Or.inl rfl⟩

/-- `Evaluate` of a repeated point with finite fields and a positive interval is idempotent. -/
theorem SnapPointBase.Evaluate_repeated_idempotent (sp : SnapPointBase)
    (offset interval start end_ first last : Dbl)
    (hfin : sp.repeatedFinite = true)
    (hoi : sp.repeatedOffsetInterval = some (offset, interval))
    (hb : sp.repeatedBounds = some (start, end_))
    (hfl : sp.repeatedFirstLast = some (first, last)) (zone : Dbl × Dbl) (v : Dbl) :
    sp.Evaluate zone (sp.Evaluate zone v) = sp.Evaluate zone v := by
  obtain ⟨F, i, S, E, hi, _, _, _, _, hout, hin⟩ :=
    SnapPointBase.Evaluate_repeated sp offset interval start end_ first last hfin hoi hb hfl
  by_cases hv : Dbl.fin S ≤ v ∧ v ≤ Dbl.fin E
  · obtain ⟨x, rfl, hlo, hhi⟩ := Dbl.finite_of_between hv.1 hv.2
    obtain ⟨y, hy, hfix⟩ := Spec.repeatedEvaluate_fixed F i sp.ApplicableRange ⌊(x - F) / i⌋ x hi
    have hx := hin zone x hlo hhi
    rw [hy] at hx
    rcases hfix with rfl | hfix
    · rw [hx, hx]
    · rw [hx]
      by_cases hyin : Dbl.fin S ≤ Dbl.fin y ∧ Dbl.fin y ≤ Dbl.fin E
      · rw [hin zone y (by simpa using hyin.1) (by simpa using hyin.2), hfix]
      · exact hout zone (Dbl.fin y) hyin
  · rw [hout zone v hv, hout zone v hv]

/-- In exact arithmetic (no rounding).  `Evaluate` is idempotent: for a snap point of any of the
four kinds (a repeated point with finite fields and a positive interval), every zone and every value
`v`, `Evaluate(zone, Evaluate(zone, v)) = Evaluate(zone, v)`. -/
theorem exact_Evaluate_idempotent (sp : SnapPointBase) (zone : Dbl × Dbl) (v : Dbl)
    (hfin : sp.repeatedFinite = true) :
    sp.Evaluate zone (sp.Evaluate zone v) = sp.Evaluate zone v := by
  cases sp with
  | scroll p =>
      simp only [SnapPointBase.Evaluate, ScrollSnapPoint.Evaluate]
      split_ifs <;> rfl
  | zoom p =>
      simp only [SnapPointBase.Evaluate, ZoomSnapPoint.Evaluate]
      split_ifs <;> rfl
  | repeatedScroll p =>
      exact SnapPointBase.Evaluate_repeated_idempotent (SnapPointBase.repeatedScroll p) _ _ _ _
        _ _ hfin rfl rfl rfl zone v
  | repeatedZoom p =>
      exact SnapPointBase.Evaluate_repeated_idempotent (SnapPointBase.repeatedZoom p) _ _ _ _
        _ _ hfin rfl rfl rfl zone v

/-! ## Single points: sort key and kind -/

/-- The sort key of a single point with actual value `v`. -/
theorem SnapPointBase.SortPredicate_single (sp : SnapPointBase) (v : Dbl)
    (hv : sp.singleValue = some v) :
    sp.SortPredicate = { primary := v, secondary := v, tertiary := 0 } := by
  cases sp with
  | scroll p =>
      simp only [SnapPointBase.singleValue, Option.some.injEq] at hv
      subst hv
      rfl
  | zoom p =>
      simp only [SnapPointBase.singleValue, Option.some.injEq] at hv
      subst hv
      rfl
  | repeatedScroll p => simp [SnapPointBase.singleValue] at hv
  | repeatedZoom p => simp [SnapPointBase.singleValue] at hv

/-- A point is single or repeated. -/
theorem SnapPointBase.single_or_repeated (sp : SnapPointBase) :
    (∃ u, sp.singleValue = some u) ∨ (∃ s e, sp.repeatedBounds = some (s, e)) := by
  cases sp with
  | scroll p => exact Or.inl ⟨_, rfl⟩
  | zoom p => exact Or.inl ⟨_, rfl⟩
  | repeatedScroll p => exact Or.inr ⟨_, _, rfl⟩
  | repeatedZoom p => exact Or.inr ⟨_, _, rfl⟩

/-! ## `std::min` and `std::max` on ordered arguments -/

/-- `std::max(x, v)` is `v` for `x <= v`. -/
theorem Dbl.std_max_of_le {x v : Dbl} (h : x ≤ v) : Dbl.std_max x v = v := by
  cases x <;> cases v <;> simp_all [Dbl.std_max]
  intro hlt
  exact le_antisymm h hlt

/-- `std::min(v, y)` is `v` for `v <= y`. -/
theorem Dbl.std_min_of_le {v y : Dbl} (h : v ≤ y) : Dbl.std_min v y = v := by
  cases v <;> cases y <;> simp_all [Dbl.std_min]

/-! ## The first and the last repeated position -/

/-- The sequence position `offset - ⌊(offset - start) / interval⌋ * interval` is below
`start + interval` and is the smallest position `offset + j * interval` not below `start`; the
position `offset + ⌊(end - offset) / interval⌋ * interval` is above `end - interval` and is the
largest position not above `end`. -/
theorem Dbl.first_last_extremal (offset interval start end_ : ℚ) (hi : 0 < interval) :
    offset - ((⌊(offset - start) / interval⌋ : ℤ) : ℚ) * interval < start + interval ∧
    end_ - interval < offset + ((⌊(end_ - offset) / interval⌋ : ℤ) : ℚ) * interval ∧
    (∀ j : ℤ, start ≤ offset + (j : ℚ) * interval →
      offset - ((⌊(offset - start) / interval⌋ : ℤ) : ℚ) * interval
        ≤ offset + (j : ℚ) * interval) ∧
    (∀ j : ℤ, offset + (j : ℚ) * interval ≤ end_ →
      offset + (j : ℚ) * interval
        ≤ offset + ((⌊(end_ - offset) / interval⌋ : ℤ) : ℚ) * interval) := by
  have h1 : (offset - start) / interval < ((⌊(offset - start) / interval⌋ : ℤ) : ℚ) + 1 :=
    Int.lt_floor_add_one _
  have h2 : (end_ - offset) / interval < ((⌊(end_ - offset) / interval⌋ : ℤ) : ℚ) + 1 :=
    Int.lt_floor_add_one _
  have h3 : offset - start < (((⌊(offset - start) / interval⌋ : ℤ) : ℚ) + 1) * interval :=
    (div_lt_iff₀ hi).mp h1
  have h4 : end_ - offset < (((⌊(end_ - offset) / interval⌋ : ℤ) : ℚ) + 1) * interval :=
    (div_lt_iff₀ hi).mp h2
  refine ⟨by linarith, by linarith, ?_, ?_⟩
  · intro j hj
    have hj2 : ((-j : ℤ) : ℚ) ≤ (offset - start) / interval := by
      rw [le_div_iff₀ hi]
      push_cast
      linarith
    have hj3 : -j ≤ ⌊(offset - start) / interval⌋ := Int.le_floor.mpr hj2
    have hj4 : ((-j : ℤ) : ℚ) ≤ ((⌊(offset - start) / interval⌋ : ℤ) : ℚ) := by
      exact_mod_cast hj3
    have hj5 := mul_le_mul_of_nonneg_right hj4 hi.le
    push_cast at hj5
    linarith
  · intro j hj
    have hj2 : ((j : ℤ) : ℚ) ≤ (end_ - offset) / interval := by
      rw [le_div_iff₀ hi]
      linarith
    have hj3 : j ≤ ⌊(end_ - offset) / interval⌋ := Int.le_floor.mpr hj2
    have hj4 : ((j : ℤ) : ℚ) ≤ ((⌊(end_ - offset) / interval⌋ : ℤ) : ℚ) := by
      exact_mod_cast hj3
    have hj5 := mul_le_mul_of_nonneg_right hj4 hi.le
    linarith

/-- The floors of `DetermineFirstRepeatedSnapPointValue` and
`DetermineLastRepeatedSnapPointValue` are natural numbers when `start ≤ offset ≤ end`. -/
theorem Dbl.first_last_count (offset interval start end_ : ℚ) (hi : 0 < interval)
    (hso : start ≤ offset) (hoe : offset ≤ end_) :
    (∃ k : ℕ, ((⌊(offset - start) / interval⌋ : ℤ) : ℚ) = (k : ℚ)) ∧
    (∃ m : ℕ, ((⌊(end_ - offset) / interval⌋ : ℤ) : ℚ) = (m : ℚ)) := by
  have h1 : (0 : ℤ) ≤ ⌊(offset - start) / interval⌋ :=
    Int.floor_nonneg.mpr (div_nonneg (by linarith) hi.le)
  have h2 : (0 : ℤ) ≤ ⌊(end_ - offset) / interval⌋ :=
    Int.floor_nonneg.mpr (div_nonneg (by linarith) hi.le)
  constructor
  · refine ⟨(⌊(offset - start) / interval⌋).toNat, ?_⟩
    have := Int.toNat_of_nonneg h1
    exact_mod_cast this.symm
  · refine ⟨(⌊(end_ - offset) / interval⌋).toNat, ?_⟩
    have := Int.toNat_of_nonneg h2
    exact_mod_cast this.symm

/-- In exact arithmetic (no rounding).  For a repeated snap point (scroll or zoom) with finite
fields that satisfies the constructor's conditions (`end > start`, `start <= offset <= end`,
`interval > 0`), with actual offset `offset` (the alignment adjustment added for the scroll kind)
and actual bounds `(start, end)`: `DetermineFirstRepeatedSnapPointValue` returns `offset - k *
interval` for a natural number `k`, with `start <= first < start + interval`, the smallest sequence
position `offset + j * interval` not below `start`; `DetermineLastRepeatedSnapPointValue` returns
`offset + m * interval` for a natural number `m`, with `end - interval < last <= end`, the largest
sequence position not above `end`. -/
theorem exact_first_last_repeated_position (sp : SnapPointBase)
    (offset interval start end_ first last : Dbl)
    (hfin : sp.repeatedFinite = true) (hvalid : sp.repeatedValid = true)
    (hoi : sp.repeatedOffsetInterval = some (offset, interval))
    (hb : sp.repeatedBounds = some (start, end_))
    (hfl : sp.repeatedFirstLast = some (first, last)) :
    (∃ k : ℕ, first = offset - Dbl.fin k * interval) ∧
    start ≤ first ∧ first < start + interval ∧
    (∀ j : ℤ, start ≤ offset + Dbl.fin j * interval → first ≤ offset + Dbl.fin j * interval) ∧
    (∃ m : ℕ, last = offset + Dbl.fin m * interval) ∧
    end_ - interval < last ∧ last ≤ end_ ∧
    (∀ j : ℤ, offset + Dbl.fin j * interval ≤ end_ → offset + Dbl.fin j * interval ≤ last) := by
  cases sp with
  | scroll p => simp [SnapPointBase.repeatedBounds] at hb
  | zoom p => simp [SnapPointBase.repeatedBounds] at hb
  | repeatedScroll p =>
      obtain ⟨po, pi, ps, pe, al, padj, r, rt⟩ := p
      simp only [SnapPointBase.repeatedFinite, Bool.and_eq_true, decide_eq_true_eq] at hfin
      obtain ⟨⟨⟨⟨⟨ho, hi⟩, hs⟩, he⟩, ha⟩, hpos⟩ := hfin
      obtain ⟨o, rfl⟩ := Dbl.eq_fin_of_isFinite ho
      obtain ⟨i, rfl⟩ := Dbl.eq_fin_of_isFinite hi
      obtain ⟨s, rfl⟩ := Dbl.eq_fin_of_isFinite hs
      obtain ⟨en, rfl⟩ := Dbl.eq_fin_of_isFinite he
      obtain ⟨adj, rfl⟩ := Dbl.eq_fin_of_isFinite ha
      simp only [SnapPointBase.repeatedValid, Bool.and_eq_true, decide_eq_true_eq, GT.gt,
        Dbl.fin_lt_fin, Dbl.fin_le_fin] at hvalid
      obtain ⟨⟨⟨hse, hso⟩, hoe⟩, hi0⟩ := hvalid
      have hne : i ≠ 0 := ne_of_gt hi0
      simp only [SnapPointBase.repeatedOffsetInterval, RepeatedScrollSnapPoint.ActualOffset,
        Dbl.fin_add_fin, Option.some.injEq, Prod.mk.injEq] at hoi
      obtain ⟨rfl, rfl⟩ := hoi
      simp only [SnapPointBase.repeatedBounds, RepeatedScrollSnapPoint.ActualStart,
        RepeatedScrollSnapPoint.ActualEnd, Dbl.fin_add_fin, Option.some.injEq,
        Prod.mk.injEq] at hb
      obtain ⟨rfl, rfl⟩ := hb
      simp only [SnapPointBase.repeatedFirstLast,
        RepeatedScrollSnapPoint.DetermineFirstRepeatedSnapPointValue,
        RepeatedScrollSnapPoint.DetermineLastRepeatedSnapPointValue,
        RepeatedScrollSnapPoint.ActualOffset, RepeatedScrollSnapPoint.ActualStart,
        RepeatedScrollSnapPoint.ActualEnd, Dbl.fin_add_fin, Dbl.fin_sub_fin,
        Dbl.fin_div_fin _ _ hne, Dbl.floor_fin, Dbl.fin_mul_fin, Option.some.injEq,
        Prod.mk.injEq] at hfl
      obtain ⟨rfl, rfl⟩ := hfl
      obtain ⟨w1, _, _, w4⟩ := Dbl.first_last_within (o + adj) i (s + adj) (en + adj) hi0
        (by linarith) (by linarith)
      obtain ⟨x1, x2, x3, x4⟩ := Dbl.first_last_extremal (o + adj) i (s + adj) (en + adj) hi0
      obtain ⟨⟨k, hk⟩, ⟨m, hm⟩⟩ := Dbl.first_last_count (o + adj) i (s + adj) (en + adj) hi0
        (by linarith) (by linarith)
      simp only [Dbl.fin_mul_fin, Dbl.fin_add_fin, Dbl.fin_sub_fin, Dbl.fin_le_fin,
        Dbl.fin_lt_fin, Dbl.fin.injEq]
      refine ⟨⟨k, by rw [hk]⟩, w1, x1, x3, ⟨m, by rw [hm]⟩, x2, w4, x4⟩
  | repeatedZoom p =>
      obtain ⟨po, pi, ps, pe, r, rt⟩ := p
      simp only [SnapPointBase.repeatedFinite, Bool.and_eq_true, decide_eq_true_eq] at hfin
      obtain ⟨⟨⟨⟨ho, hi⟩, hs⟩, he⟩, hpos⟩ := hfin
      obtain ⟨o, rfl⟩ := Dbl.eq_fin_of_isFinite ho
      obtain ⟨i, rfl⟩ := Dbl.eq_fin_of_isFinite hi
      obtain ⟨s, rfl⟩ := Dbl.eq_fin_of_isFinite hs
      obtain ⟨en, rfl⟩ := Dbl.eq_fin_of_isFinite he
      simp only [SnapPointBase.repeatedValid, Bool.and_eq_true, decide_eq_true_eq, GT.gt,
        Dbl.fin_lt_fin, Dbl.fin_le_fin] at hvalid
      obtain ⟨⟨⟨hse, hso⟩, hoe⟩, hi0⟩ := hvalid
      have hne : i ≠ 0 := ne_of_gt hi0
      simp only [SnapPointBase.repeatedOffsetInterval, Option.some.injEq, Prod.mk.injEq] at hoi
      obtain ⟨rfl, rfl⟩ := hoi
      simp only [SnapPointBase.repeatedBounds, Option.some.injEq, Prod.mk.injEq] at hb
      obtain ⟨rfl, rfl⟩ := hb
      simp only [SnapPointBase.repeatedFirstLast,
        RepeatedZoomSnapPoint.DetermineFirstRepeatedSnapPointValue,
        RepeatedZoomSnapPoint.DetermineLastRepeatedSnapPointValue, Dbl.fin_add_fin,
        Dbl.fin_sub_fin, Dbl.fin_div_fin _ _ hne, Dbl.floor_fin, Dbl.fin_mul_fin,
        Option.some.injEq, Prod.mk.injEq] at hfl
      obtain ⟨rfl, rfl⟩ := hfl
      obtain ⟨w1, _, _, w4⟩ := Dbl.first_last_within o i s en hi0 hso hoe
      obtain ⟨x1, x2, x3, x4⟩ := Dbl.first_last_extremal o i s en hi0
      obtain ⟨⟨k, hk⟩, ⟨m, hm⟩⟩ := Dbl.first_last_count o i s en hi0 hso hoe
      simp only [Dbl.fin_mul_fin, Dbl.fin_add_fin, Dbl.fin_sub_fin, Dbl.fin_le_fin,
        Dbl.fin_lt_fin, Dbl.fin.injEq]
      refine ⟨⟨k, by rw [hk]⟩, w1, x1, x3, ⟨m, by rw [hm]⟩, x2, w4, x4⟩

/-! ## The distance Evaluate moves a value -/

/-- The specified `Evaluate` moves a value lying between `prev = first + k * interval` and
`prev + interval` by at most half the interval and by at most the applicable range. -/
theorem Spec.repeatedEvaluate_distance (first interval : ℚ) (range : Dbl) (k : ℤ) (value : ℚ)
    (hlo : first + k * interval ≤ value) (hhi : value < first + k * interval + interval) :
    Dbl.abs (Spec.repeatedEvaluate first interval range k value - Dbl.fin value)
      ≤ Dbl.fin (interval / 2) ∧
    (Dbl.fin 0 ≤ range →
      Dbl.abs (Spec.repeatedEvaluate first interval range k value - Dbl.fin value) ≤ range) := by
  have hi : 0 < interval := by linarith
  simp only [Spec.repeatedEvaluate]
  by_cases hc : value - (first + k * interval) ≤ first + k * interval + interval - value
  · rw [if_pos hc]
    by_cases hr : Dbl.fin (value - (first + k * interval)) ≤ range
    · rw [if_pos hr]
      have habs : |first + ↑k * interval - value| = value - (first + k * interval) := by
        rw [abs_sub_comm]
        exact abs_of_nonneg (by linarith)
      simp only [Dbl.fin_sub_fin, Dbl.abs_fin, Dbl.fin_le_fin, habs]
      exact ⟨by linarith, fun _ => hr⟩
    · rw [if_neg hr]
      simp only [Dbl.fin_sub_fin, Dbl.abs_fin, Dbl.fin_le_fin, sub_self, abs_zero]
      exact ⟨by linarith only [hi], fun h => h⟩
  · rw [if_neg hc]
    by_cases hr : Dbl.fin (first + k * interval + interval - value) ≤ range
    · rw [if_pos hr]
      have habs : |first + ↑k * interval + interval - value|
          = first + k * interval + interval - value := abs_of_nonneg (by linarith)
      simp only [Dbl.fin_sub_fin, Dbl.abs_fin, Dbl.fin_le_fin, habs]
      exact ⟨by linarith, fun _ => hr⟩
    · rw [if_neg hr]
      simp only [Dbl.fin_sub_fin, Dbl.abs_fin, Dbl.fin_le_fin, sub_self, abs_zero]
      exact ⟨by linarith only [hi], fun h => h⟩

/-- In exact arithmetic (no rounding).  `Evaluate` of a repeated snap point (scroll or zoom, finite
fields, positive interval) moves no value that is a number further than half an interval, nor
further than the applicable range when that is not negative (the positive range of an optional
point, `INFINITY` of a mandatory one): `|Evaluate(zone, v) - v| <= interval / 2` and
`|Evaluate(zone, v) - v| <= applicableRange`. -/
theorem exact_Evaluate_moves_at_most (sp : SnapPointBase) (offset interval : Dbl)
    (zone : Dbl × Dbl) (v : ℚ) (hfin : sp.repeatedFinite = true)
    (hoi : sp.repeatedOffsetInterval = some (offset, interval)) :
    Dbl.abs (sp.Evaluate zone (Dbl.fin v) - Dbl.fin v) ≤ interval / Dbl.fin 2 ∧
    (Dbl.fin 0 ≤ sp.ApplicableRange →
      Dbl.abs (sp.Evaluate zone (Dbl.fin v) - Dbl.fin v) ≤ sp.ApplicableRange) := by
  have key : ∀ (start end_ first last : Dbl), sp.repeatedBounds = some (start, end_) →
      sp.repeatedFirstLast = some (first, last) →
      Dbl.abs (sp.Evaluate zone (Dbl.fin v) - Dbl.fin v) ≤ interval / Dbl.fin 2 ∧
      (Dbl.fin 0 ≤ sp.ApplicableRange →
        Dbl.abs (sp.Evaluate zone (Dbl.fin v) - Dbl.fin v) ≤ sp.ApplicableRange) := by
    intro start end_ first last hb hfl
    obtain ⟨F, i, S, E, hi, rfl, _, _, _, hout, hin⟩ :=
      SnapPointBase.Evaluate_repeated sp offset interval start end_ first last hfin hoi hb hfl
    rw [Dbl.fin_div_two]
    by_cases hv : Dbl.fin S ≤ Dbl.fin v ∧ Dbl.fin v ≤ Dbl.fin E
    · rw [hin zone v (by simpa using hv.1) (by simpa using hv.2)]
      obtain ⟨h1, h2, _⟩ := Dbl.repeatedEvaluate_core F i v sp.ApplicableRange hi
      exact Spec.repeatedEvaluate_distance F i sp.ApplicableRange _ v h1 h2
    · rw [hout zone (Dbl.fin v) hv]
      simp only [Dbl.fin_sub_fin, Dbl.abs_fin, Dbl.fin_le_fin, sub_self, abs_zero]
      exact ⟨by linarith only [hi], fun h => h⟩
  cases sp with
  | scroll p => simp [SnapPointBase.repeatedOffsetInterval] at hoi
  | zoom p => simp [SnapPointBase.repeatedOffsetInterval] at hoi
  | repeatedScroll p => exact key _ _ _ _ rfl rfl
  | repeatedZoom p => exact key _ _ _ _ rfl rfl

/-! ## The assertion of ImpulseInfluence -/

/-- Where `Influence` of a point returns, its `ImpulseInfluence` does not reach
`MUX_ASSERT(false)`, whatever the ignored value, and returns its value. -/
theorem SnapPointBase.ImpulseInfluence_withAssert_of_Influence (q : SnapPointBase)
    (x r ignoredValue : Dbl) (h : q.Influence x = Except.ok r) :
    q.ImpulseInfluence_withAssert x ignoredValue = some (q.ImpulseInfluence x ignoredValue) := by
  cases q with
  | scroll p => rfl
  | zoom p => rfl
  | repeatedScroll p =>
      simp only [SnapPointBase.Influence, RepeatedScrollSnapPoint.Influence] at h
      simp only [SnapPointBase.ImpulseInfluence_withAssert, SnapPointBase.ImpulseInfluence,
        RepeatedScrollSnapPoint.ImpulseInfluence_withAssert,
        RepeatedScrollSnapPoint.ImpulseInfluence]
      by_cases h1 : x ≤ p.ActualStart
      · rw [if_pos h1, if_pos h1]
        split_ifs <;> rfl
      · rw [if_neg h1] at h
        rw [if_neg h1, if_neg h1]
        by_cases h2 : x ≥ p.ActualEnd
        · rw [if_pos h2, if_pos h2]
          split_ifs <;> rfl
        · rw [if_neg h2] at h
          cases h
  | repeatedZoom p =>
      simp only [SnapPointBase.Influence, RepeatedZoomSnapPoint.Influence] at h
      simp only [SnapPointBase.ImpulseInfluence_withAssert, SnapPointBase.ImpulseInfluence,
        RepeatedZoomSnapPoint.ImpulseInfluence_withAssert,
        RepeatedZoomSnapPoint.ImpulseInfluence]
      by_cases h1 : x ≤ p.m_start
      · rw [if_pos h1, if_pos h1]
        split_ifs <;> rfl
      · rw [if_neg h1] at h
        rw [if_neg h1, if_neg h1]
        by_cases h2 : x ≥ p.m_end
        · rw [if_pos h2, if_pos h2]
          split_ifs <;> rfl
        · rw [if_neg h2] at h
          cases h

/-- `ImpulseInfluence` reaches `MUX_ASSERT(false)` exactly on an edge that is neither at or
below the start nor at or above the end of a repeated point; for an edge that is a number,
exactly strictly inside the bounds. -/
theorem SnapPointBase.ImpulseInfluence_withAssert_eq_none_iff (q : SnapPointBase)
    (start end_ x ignoredValue : Dbl) (hb : q.repeatedBounds = some (start, end_)) :
    (q.ImpulseInfluence_withAssert x ignoredValue = none ↔ ¬ x ≤ start ∧ ¬ x ≥ end_) ∧
    (x ≠ Dbl.nan → start ≠ Dbl.nan → end_ ≠ Dbl.nan →
      (q.ImpulseInfluence_withAssert x ignoredValue = none ↔ start < x ∧ x < end_)) := by
  have key : (q.ImpulseInfluence_withAssert x ignoredValue = none ↔
      ¬ x ≤ start ∧ ¬ x ≥ end_) := by
    cases q with
    | scroll p => simp [SnapPointBase.repeatedBounds] at hb
    | zoom p => simp [SnapPointBase.repeatedBounds] at hb
    | repeatedScroll p =>
        simp only [SnapPointBase.repeatedBounds, Option.some.injEq, Prod.mk.injEq] at hb
        obtain ⟨rfl, rfl⟩ := hb
        simp only [SnapPointBase.ImpulseInfluence_withAssert,
          RepeatedScrollSnapPoint.ImpulseInfluence_withAssert]
        by_cases h1 : x ≤ p.ActualStart
        · rw [if_pos h1]
          split_ifs <;> simp [h1]
        · rw [if_neg h1]
          by_cases h2 : x ≥ p.ActualEnd
          · rw [if_pos h2]
            split_ifs <;> simp [h2]
          · rw [if_neg h2]
            simp [h1, h2]
    | repeatedZoom p =>
        simp only [SnapPointBase.repeatedBounds, Option.some.injEq, Prod.mk.injEq] at hb
        obtain ⟨rfl, rfl⟩ := hb
        simp only [SnapPointBase.ImpulseInfluence_withAssert,
          RepeatedZoomSnapPoint.ImpulseInfluence_withAssert]
        by_cases h1 : x ≤ p.m_start
        · rw [if_pos h1]
          split_ifs <;> simp [h1]
        · rw [if_neg h1]
          by_cases h2 : x ≥ p.m_end
          · rw [if_pos h2]
            split_ifs <;> simp [h2]
          · rw [if_neg h2]
            simp [h1, h2]
  refine ⟨key, fun hx hs he => ?_⟩
  rw [key]
  constructor
  · rintro ⟨h1, h2⟩
    exact ⟨Dbl.lt_of_not_le hx hs h1, Dbl.lt_of_not_le he hx h2⟩
  · rintro ⟨h1, h2⟩
    exact ⟨Dbl.not_le_of_lt h1, Dbl.not_le_of_lt h2⟩

/-- Where the min side of the regular zone of a single scroll point resolves, the min side of
its impulse zone does not reach the assertion. -/
theorem ScrollSnapPoint.impulse_min_withAssert (p : ScrollSnapPoint)
    (previousSnapPoint : Option SnapPointBase) (a currentIgnoredValue previousIgnoredValue : Dbl)
    (h : p.DetermineMinActualApplicableZone previousSnapPoint = Except.ok a) :
    p.DetermineMinActualImpulseApplicableZone_withAssert previousSnapPoint currentIgnoredValue
        previousIgnoredValue
      = some (p.DetermineMinActualImpulseApplicableZone previousSnapPoint currentIgnoredValue
          previousIgnoredValue) := by
  cases previousSnapPoint with
  | none => rfl
  | some q =>
      simp only [ScrollSnapPoint.DetermineMinActualApplicableZone] at h
      cases hi : q.Influence p.ActualValue with
      | error err => rw [hi] at h; cases h
      | ok r =>
          simp only [ScrollSnapPoint.DetermineMinActualImpulseApplicableZone_withAssert,
            ScrollSnapPoint.DetermineMinActualImpulseApplicableZone,
            SnapPointBase.ImpulseInfluence_withAssert_of_Influence q _ r previousIgnoredValue hi]
          split_ifs <;> rfl

/-- Where the max side of the regular zone of a single scroll point resolves, the max side of
its impulse zone does not reach the assertion. -/
theorem ScrollSnapPoint.impulse_max_withAssert (p : ScrollSnapPoint)
    (nextSnapPoint : Option SnapPointBase) (a currentIgnoredValue nextIgnoredValue : Dbl)
    (h : p.DetermineMaxActualApplicableZone nextSnapPoint = Except.ok a) :
    p.DetermineMaxActualImpulseApplicableZone_withAssert nextSnapPoint currentIgnoredValue
        nextIgnoredValue
      = some (p.DetermineMaxActualImpulseApplicableZone nextSnapPoint currentIgnoredValue
          nextIgnoredValue) := by
  cases nextSnapPoint with
  | none => rfl
  | some q =>
      simp only [ScrollSnapPoint.DetermineMaxActualApplicableZone] at h
      cases hi : q.Influence p.ActualValue with
      | error err => rw [hi] at h; cases h
      | ok r =>
          simp only [ScrollSnapPoint.DetermineMaxActualImpulseApplicableZone_withAssert,
            ScrollSnapPoint.DetermineMaxActualImpulseApplicableZone,
            SnapPointBase.ImpulseInfluence_withAssert_of_Influence q _ r nextIgnoredValue hi]
          split_ifs <;> rfl

/-- Where the min side of the regular zone of a single zoom point resolves, the min side of
its impulse zone does not reach the assertion. -/
theorem ZoomSnapPoint.impulse_min_withAssert_zoom (p : ZoomSnapPoint)
    (previousSnapPoint : Option SnapPointBase) (a currentIgnoredValue previousIgnoredValue : Dbl)
    (h : p.DetermineMinActualApplicableZone previousSnapPoint = Except.ok a) :
    p.DetermineMinActualImpulseApplicableZone_withAssert previousSnapPoint currentIgnoredValue
        previousIgnoredValue
      = some (p.DetermineMinActualImpulseApplicableZone previousSnapPoint currentIgnoredValue
          previousIgnoredValue) := by
  cases previousSnapPoint with
  | none => rfl
  | some q =>
      simp only [ZoomSnapPoint.DetermineMinActualApplicableZone] at h
      cases hi : q.Influence p.m_value with
      | error err => rw [hi] at h; cases h
      | ok r =>
          simp only [ZoomSnapPoint.DetermineMinActualImpulseApplicableZone_withAssert,
            ZoomSnapPoint.DetermineMinActualImpulseApplicableZone,
            SnapPointBase.ImpulseInfluence_withAssert_of_Influence q _ r previousIgnoredValue hi]
          split_ifs <;> rfl

/-- Where the max side of the regular zone of a single zoom point resolves, the max side of
its impulse zone does not reach the assertion. -/
theorem ZoomSnapPoint.impulse_max_withAssert_zoom (p : ZoomSnapPoint)
    (nextSnapPoint : Option SnapPointBase) (a currentIgnoredValue nextIgnoredValue : Dbl)
    (h : p.DetermineMaxActualApplicableZone nextSnapPoint = Except.ok a) :
    p.DetermineMaxActualImpulseApplicableZone_withAssert nextSnapPoint currentIgnoredValue
        nextIgnoredValue
      = some (p.DetermineMaxActualImpulseApplicableZone nextSnapPoint currentIgnoredValue
          nextIgnoredValue) := by
  cases nextSnapPoint with
  | none => rfl
  | some q =>
      simp only [ZoomSnapPoint.DetermineMaxActualApplicableZone] at h
      cases hi : q.Influence p.m_value with
      | error err => rw [hi] at h; cases h
      | ok r =>
          simp only [ZoomSnapPoint.DetermineMaxActualImpulseApplicableZone_withAssert,
            ZoomSnapPoint.DetermineMaxActualImpulseApplicableZone,
            SnapPointBase.ImpulseInfluence_withAssert_of_Influence q _ r nextIgnoredValue hi]
          split_ifs <;> rfl

/-- Where the min side of the regular zone of a repeated scroll point resolves, the min side
of its impulse zone does not reach the assertion. -/
theorem RepeatedScrollSnapPoint.impulse_min_withAssert_repeated (p : RepeatedScrollSnapPoint)
    (previousSnapPoint : Option SnapPointBase) (a currentIgnoredValue previousIgnoredValue : Dbl)
    (h : p.DetermineMinActualApplicableZone previousSnapPoint = Except.ok a) :
    p.DetermineMinActualImpulseApplicableZone_withAssert previousSnapPoint currentIgnoredValue
        previousIgnoredValue
      = some (p.DetermineMinActualImpulseApplicableZone previousSnapPoint currentIgnoredValue
          previousIgnoredValue) := by
  cases previousSnapPoint with
  | none => rfl
  | some q =>
      simp only [RepeatedScrollSnapPoint.DetermineMinActualApplicableZone] at h
      cases hi : q.Influence p.ActualStart with
      | error err => rw [hi] at h; cases h
      | ok r =>
          simp only [RepeatedScrollSnapPoint.DetermineMinActualImpulseApplicableZone_withAssert,
            RepeatedScrollSnapPoint.DetermineMinActualImpulseApplicableZone,
            SnapPointBase.ImpulseInfluence_withAssert_of_Influence q _ r previousIgnoredValue hi]
          split_ifs <;> rfl

/-- Where the max side of the regular zone of a repeated scroll point resolves, the max side
of its impulse zone does not reach the assertion. -/
theorem RepeatedScrollSnapPoint.impulse_max_withAssert_repeated (p : RepeatedScrollSnapPoint)
    (nextSnapPoint : Option SnapPointBase) (a currentIgnoredValue nextIgnoredValue : Dbl)
    (h : p.DetermineMaxActualApplicableZone nextSnapPoint = Except.ok a) :
    p.DetermineMaxActualImpulseApplicableZone_withAssert nextSnapPoint currentIgnoredValue
        nextIgnoredValue
      = some (p.DetermineMaxActualImpulseApplicableZone nextSnapPoint currentIgnoredValue
          nextIgnoredValue) := by
  cases nextSnapPoint with
  | none => rfl
  | some q =>
      simp only [RepeatedScrollSnapPoint.DetermineMaxActualApplicableZone] at h
      cases hi : q.Influence p.ActualEnd with
      | error err => rw [hi] at h; cases h
      | ok r =>
          simp only [RepeatedScrollSnapPoint.DetermineMaxActualImpulseApplicableZone_withAssert,
            RepeatedScrollSnapPoint.DetermineMaxActualImpulseApplicableZone,
            SnapPointBase.ImpulseInfluence_withAssert_of_Influence q _ r nextIgnoredValue hi]
          split_ifs <;> rfl

/-- Where the min side of the regular zone of a repeated zoom point resolves, the min side of
its impulse zone does not reach the assertion. -/
theorem RepeatedZoomSnapPoint.impulse_min_withAssert_repeatedZoom (p : RepeatedZoomSnapPoint)
    (previousSnapPoint : Option SnapPointBase) (a currentIgnoredValue previousIgnoredValue : Dbl)
    (h : p.DetermineMinActualApplicableZone previousSnapPoint = Except.ok a) :
    p.DetermineMinActualImpulseApplicableZone_withAssert previousSnapPoint currentIgnoredValue
        previousIgnoredValue
      = some (p.DetermineMinActualImpulseApplicableZone previousSnapPoint currentIgnoredValue
          previousIgnoredValue) := by
  cases previousSnapPoint with
  | none => rfl
  | some q =>
      simp only [RepeatedZoomSnapPoint.DetermineMinActualApplicableZone] at h
      cases hi : q.Influence p.m_start with
      | error err => rw [hi] at h; cases h
      | ok r =>
          simp only [RepeatedZoomSnapPoint.DetermineMinActualImpulseApplicableZone_withAssert,
            RepeatedZoomSnapPoint.DetermineMinActualImpulseApplicableZone,
            SnapPointBase.ImpulseInfluence_withAssert_of_Influence q _ r previousIgnoredValue hi]
          split_ifs <;> rfl

/-- Where the max side of the regular zone of a repeated zoom point resolves, the max side of
its impulse zone does not reach the assertion. -/
theorem RepeatedZoomSnapPoint.impulse_max_withAssert_repeatedZoom (p : RepeatedZoomSnapPoint)
    (nextSnapPoint : Option SnapPointBase) (a currentIgnoredValue nextIgnoredValue : Dbl)
    (h : p.DetermineMaxActualApplicableZone nextSnapPoint = Except.ok a) :
    p.DetermineMaxActualImpulseApplicableZone_withAssert nextSnapPoint currentIgnoredValue
        nextIgnoredValue
      = some (p.DetermineMaxActualImpulseApplicableZone nextSnapPoint currentIgnoredValue
          nextIgnoredValue) := by
  cases nextSnapPoint with
  | none => rfl
  | some q =>
      simp only [RepeatedZoomSnapPoint.DetermineMaxActualApplicableZone] at h
      cases hi : q.Influence p.m_end with
      | error err => rw [hi] at h; cases h
      | ok r =>
          simp only [RepeatedZoomSnapPoint.DetermineMaxActualImpulseApplicableZone_withAssert,
            RepeatedZoomSnapPoint.DetermineMaxActualImpulseApplicableZone,
            SnapPointBase.ImpulseInfluence_withAssert_of_Influence q _ r nextIgnoredValue hi]
          split_ifs <;> rfl

/-- Where the regular zone of a point resolves, both of its sides resolved. -/
theorem SnapPointBase.zone_sides_ok (s_equalityEpsilon : Dbl) (sp : SnapPointBase)
    (previousSnapPoint nextSnapPoint : Option SnapPointBase) (zone : Dbl × Dbl)
    (h : sp.DetermineActualApplicableZone s_equalityEpsilon previousSnapPoint nextSnapPoint
      = Except.ok zone) :
    match sp with
    | SnapPointBase.scroll p =>
        (∃ a, p.DetermineMinActualApplicableZone previousSnapPoint = Except.ok a) ∧
        (∃ b, p.DetermineMaxActualApplicableZone nextSnapPoint = Except.ok b)
    | SnapPointBase.zoom p =>
        (∃ a, p.DetermineMinActualApplicableZone previousSnapPoint = Except.ok a) ∧
        (∃ b, p.DetermineMaxActualApplicableZone nextSnapPoint = Except.ok b)
    | SnapPointBase.repeatedScroll p =>
        (∃ a, p.DetermineMinActualApplicableZone previousSnapPoint = Except.ok a) ∧
        (∃ b, p.DetermineMaxActualApplicableZone nextSnapPoint = Except.ok b)
    | SnapPointBase.repeatedZoom p =>
        (∃ a, p.DetermineMinActualApplicableZone previousSnapPoint = Except.ok a) ∧
        (∃ b, p.DetermineMaxActualApplicableZone nextSnapPoint = Except.ok b) := by
  cases sp with
  | scroll p =>
      simp only [SnapPointBase.DetermineActualApplicableZone,
        ScrollSnapPoint.DetermineActualApplicableZone] at h
      cases hmin : p.DetermineMinActualApplicableZone previousSnapPoint with
      | error err => rw [hmin] at h; cases h
      | ok a =>
          cases hmax : p.DetermineMaxActualApplicableZone nextSnapPoint with
          | error err => rw [hmin, hmax] at h; cases h
          | ok b => exact ⟨⟨a, hmin⟩, ⟨b, hmax⟩⟩
  | zoom p =>
      simp only [SnapPointBase.DetermineActualApplicableZone,
        ZoomSnapPoint.DetermineActualApplicableZone] at h
      cases hmin : p.DetermineMinActualApplicableZone previousSnapPoint with
      | error err => rw [hmin] at h; cases h
      | ok a =>
          cases hmax : p.DetermineMaxActualApplicableZone nextSnapPoint with
          | error err => rw [hmin, hmax] at h; cases h
          | ok b => exact ⟨⟨a, hmin⟩, ⟨b, hmax⟩⟩
  | repeatedScroll p =>
      simp only [SnapPointBase.DetermineActualApplicableZone,
        RepeatedScrollSnapPoint.DetermineActualApplicableZone] at h
      cases hmin : p.DetermineMinActualApplicableZone previousSnapPoint with
      | error err => rw [hmin] at h; cases h
      | ok a =>
          cases hmax : p.DetermineMaxActualApplicableZone nextSnapPoint with
          | error err => rw [hmin, hmax] at h; cases h
          | ok b => exact ⟨⟨a, hmin⟩, ⟨b, hmax⟩⟩
  | repeatedZoom p =>
      simp only [SnapPointBase.DetermineActualApplicableZone,
        RepeatedZoomSnapPoint.DetermineActualApplicableZone] at h
      cases hmin : p.DetermineMinActualApplicableZone previousSnapPoint with
      | error err => rw [hmin] at h; cases h
      | ok a =>
          cases hmax : p.DetermineMaxActualApplicableZone nextSnapPoint with
          | error err => rw [hmin, hmax] at h; cases h
          | ok b => exact ⟨⟨a, hmin⟩, ⟨b, hmax⟩⟩

/-- C38. The branch `MUX_ASSERT(false)` of a repeated point's `ImpulseInfluence` is not
reached after a regular pass that returned: for every snap point (single or repeated), every
choice of neighbours and all ignored values, if `DetermineActualApplicableZone(previous, next)`
returns without throwing, then `DetermineActualImpulseApplicableZone` on the same neighbours
makes no call of `ImpulseInfluence` that reaches the assertion, and returns the zone of the
function without the assertion.  For a repeated neighbour the assertion is reached exactly on
an edge that is neither `<=` its start nor `>=` its end, which for numbers is strictly inside
its bounds. -/
theorem C38_assert_branch_unreachable (s_equalityEpsilon : Dbl) (sp : SnapPointBase)
    (previousSnapPoint nextSnapPoint : Option SnapPointBase) (zone : Dbl × Dbl)
    (currentIgnoredValue previousIgnoredValue nextIgnoredValue : Dbl)
    (hzone : sp.DetermineActualApplicableZone s_equalityEpsilon previousSnapPoint nextSnapPoint
      = Except.ok zone) :
    sp.DetermineActualImpulseApplicableZone_withAssert previousSnapPoint nextSnapPoint
        currentIgnoredValue previousIgnoredValue nextIgnoredValue
      = some (sp.DetermineActualImpulseApplicableZone previousSnapPoint nextSnapPoint
          currentIgnoredValue previousIgnoredValue nextIgnoredValue) ∧
    (∀ (q : SnapPointBase) (start end_ edgeOfMidpoint ignoredValue : Dbl),
      q.repeatedBounds = some (start, end_) →
      (q.ImpulseInfluence_withAssert edgeOfMidpoint ignoredValue = none ↔
        ¬ edgeOfMidpoint ≤ start ∧ ¬ edgeOfMidpoint ≥ end_) ∧
      (edgeOfMidpoint ≠ Dbl.nan → start ≠ Dbl.nan → end_ ≠ Dbl.nan →
        (q.ImpulseInfluence_withAssert edgeOfMidpoint ignoredValue = none ↔
          start < edgeOfMidpoint ∧ edgeOfMidpoint < end_))) := by
  refine ⟨?_, fun q start end_ e ign hb =>
    SnapPointBase.ImpulseInfluence_withAssert_eq_none_iff q start end_ e ign hb⟩
  have hs := SnapPointBase.zone_sides_ok s_equalityEpsilon sp previousSnapPoint nextSnapPoint
    zone hzone
  cases sp with
  | scroll p =>
      obtain ⟨⟨a, ha⟩, ⟨b, hb⟩⟩ := hs
      simp only [SnapPointBase.DetermineActualImpulseApplicableZone_withAssert,
        SnapPointBase.DetermineActualImpulseApplicableZone,
        ScrollSnapPoint.DetermineActualImpulseApplicableZone_withAssert,
        ScrollSnapPoint.DetermineActualImpulseApplicableZone,
        ScrollSnapPoint.impulse_min_withAssert p _ a _ _ ha,
        ScrollSnapPoint.impulse_max_withAssert p _ b _ _ hb]
  | zoom p =>
      obtain ⟨⟨a, ha⟩, ⟨b, hb⟩⟩ := hs
      simp only [SnapPointBase.DetermineActualImpulseApplicableZone_withAssert,
        SnapPointBase.DetermineActualImpulseApplicableZone,
        ZoomSnapPoint.DetermineActualImpulseApplicableZone_withAssert,
        ZoomSnapPoint.DetermineActualImpulseApplicableZone,
        ZoomSnapPoint.impulse_min_withAssert_zoom p _ a _ _ ha,
        ZoomSnapPoint.impulse_max_withAssert_zoom p _ b _ _ hb]
  | repeatedScroll p =>
      obtain ⟨⟨a, ha⟩, ⟨b, hb⟩⟩ := hs
      simp only [SnapPointBase.DetermineActualImpulseApplicableZone_withAssert,
        SnapPointBase.DetermineActualImpulseApplicableZone,
        RepeatedScrollSnapPoint.DetermineActualImpulseApplicableZone_withAssert,
        RepeatedScrollSnapPoint.DetermineActualImpulseApplicableZone,
        RepeatedScrollSnapPoint.impulse_min_withAssert_repeated p _ a _ _ ha,
        RepeatedScrollSnapPoint.impulse_max_withAssert_repeated p _ b _ _ hb]
  | repeatedZoom p =>
      obtain ⟨⟨a, ha⟩, ⟨b, hb⟩⟩ := hs
      simp only [SnapPointBase.DetermineActualImpulseApplicableZone_withAssert,
        SnapPointBase.DetermineActualImpulseApplicableZone,
        RepeatedZoomSnapPoint.DetermineActualImpulseApplicableZone_withAssert,
        RepeatedZoomSnapPoint.DetermineActualImpulseApplicableZone,
        RepeatedZoomSnapPoint.impulse_min_withAssert_repeatedZoom p _ a _ _ ha,
        RepeatedZoomSnapPoint.impulse_max_withAssert_repeatedZoom p _ b _ _ hb]

/-- C38 witness: the mandatory point at `-20` before the repeated point
`offset = 0, interval = 10, start = 0, end = 100`, whose regular zone resolves to
`(-inf, 0)`: with the neighbour ignoring its first position `0`, the impulse zone is computed
without reaching the assertion, and is `(-inf, 0)`. -/
theorem C38_assert_branch_unreachable_witness :
    (SnapPointBase.scroll (Scenario.mandatoryScroll (-20))).DetermineActualApplicableZone
        (Dbl.fin 0) none (some (SnapPointBase.repeatedScroll Scenario.mandatoryRepeated))
      = Except.ok (Dbl.ninf, Dbl.fin 0) ∧
    (SnapPointBase.scroll
        (Scenario.mandatoryScroll (-20))).DetermineActualImpulseApplicableZone_withAssert
        none (some (SnapPointBase.repeatedScroll Scenario.mandatoryRepeated)) Dbl.NAN Dbl.NAN
        (Dbl.fin 0)
      = some (Dbl.ninf, Dbl.fin 0) := by
  have hzone :
      (SnapPointBase.scroll (Scenario.mandatoryScroll (-20))).DetermineActualApplicableZone
        (Dbl.fin 0) none (some (SnapPointBase.repeatedScroll Scenario.mandatoryRepeated))
      = Except.ok (Dbl.ninf, Dbl.fin 0) := by
    norm_num [SnapPointBase.DetermineActualApplicableZone,
      ScrollSnapPoint.DetermineActualApplicableZone,
      ScrollSnapPoint.DetermineMinActualApplicableZone,
      ScrollSnapPoint.DetermineMaxActualApplicableZone, SnapPointBase.Influence,
      RepeatedScrollSnapPoint.Influence, RepeatedScrollSnapPoint.ActualStart,
      RepeatedScrollSnapPoint.ActualEnd, ScrollSnapPoint.ActualValue,
      Scenario.mandatoryScroll, Scenario.mandatoryRepeated, Dbl.INFINITY, bind, Except.bind]
  refine ⟨hzone, ?_⟩
  rw [(C38_assert_branch_unreachable (Dbl.fin 0)
    (SnapPointBase.scroll (Scenario.mandatoryScroll (-20))) none
    (some (SnapPointBase.repeatedScroll Scenario.mandatoryRepeated)) (Dbl.ninf, Dbl.fin 0)
    Dbl.NAN Dbl.NAN (Dbl.fin 0) hzone).1]
  have hfloor : ⌊((0 : ℚ) + 0 - (0 + 0)) / 10⌋ = 0 := by
    rw [Int.floor_eq_iff]
    norm_num
  norm_num [SnapPointBase.DetermineActualImpulseApplicableZone,
    ScrollSnapPoint.DetermineActualImpulseApplicableZone,
    ScrollSnapPoint.DetermineMinActualImpulseApplicableZone,
    ScrollSnapPoint.DetermineMaxActualImpulseApplicableZone, SnapPointBase.ImpulseInfluence,
    RepeatedScrollSnapPoint.ImpulseInfluence,
    RepeatedScrollSnapPoint.DetermineFirstRepeatedSnapPointValue,
    RepeatedScrollSnapPoint.ActualOffset, RepeatedScrollSnapPoint.ActualStart,
    RepeatedScrollSnapPoint.ActualEnd, ScrollSnapPoint.ActualValue, Scenario.mandatoryScroll,
    Scenario.mandatoryRepeated, Dbl.INFINITY, Dbl.NAN, Dbl.isnan, Dbl.beq, Dbl.fin_div_fin,
    hfloor]

/-! ## The ignored value of a wrapper -/

/-- C39. For every wrapper state, `ResetIgnoredValue` returns true exactly when the stored
ignored value was not NaN, leaves the ignored value NaN and changes no other field.  Hence a
second consecutive `ResetIgnoredValue` returns false, and `ResetIgnoredValue` right after
`SetIgnoredValue(x)` with `x` not NaN returns true. -/
theorem C39_ResetIgnoredValue (w : SnapPointWrapper) (x : Dbl) :
    (w.ResetIgnoredValue.2 = true ↔ w.m_ignoredValue.isnan = false) ∧
    w.ResetIgnoredValue.1 = { w with m_ignoredValue := Dbl.NAN } ∧
    w.ResetIgnoredValue.1.m_ignoredValue.isnan = true ∧
    w.ResetIgnoredValue.1.ResetIgnoredValue = (w.ResetIgnoredValue.1, false) ∧
    (w.SetIgnoredValue x) = { w with m_ignoredValue := x } ∧
    (x.isnan = false → (w.SetIgnoredValue x).ResetIgnoredValue.2 = true) := by
  obtain ⟨sp, z, iz, c, ig⟩ := w
  refine ⟨?_, ?_, ?_, ?_, rfl, ?_⟩
  · cases ig <;> simp [SnapPointWrapper.ResetIgnoredValue, Dbl.isnan]
  · cases ig <;> simp [SnapPointWrapper.ResetIgnoredValue, Dbl.isnan, Dbl.NAN]
  · cases ig <;> simp [SnapPointWrapper.ResetIgnoredValue, Dbl.isnan, Dbl.NAN]
  · cases ig <;> simp [SnapPointWrapper.ResetIgnoredValue, Dbl.isnan, Dbl.NAN]
  · intro hx
    simp [SnapPointWrapper.SetIgnoredValue, SnapPointWrapper.ResetIgnoredValue, hx]

/-- C39 witness: a wrapper that ignores `10` is reset (true), a second reset returns false. -/
theorem C39_ResetIgnoredValue_witness :
    (((Scenario.freshWrapper
        (SnapPointBase.scroll (Scenario.mandatoryScroll 10))).SetIgnoredValue
      (Dbl.fin 10)).ResetIgnoredValue).2 = true ∧
    ((((Scenario.freshWrapper
        (SnapPointBase.scroll (Scenario.mandatoryScroll 10))).SetIgnoredValue
      (Dbl.fin 10)).ResetIgnoredValue).1.ResetIgnoredValue).2 = false :=
  ⟨(C39_ResetIgnoredValue
      (Scenario.freshWrapper (SnapPointBase.scroll (Scenario.mandatoryScroll 10)))
      (Dbl.fin 10)).2.2.2.2.2 rfl,
    by
      rw [(C39_ResetIgnoredValue
        ((Scenario.freshWrapper
          (SnapPointBase.scroll (Scenario.mandatoryScroll 10))).SetIgnoredValue (Dbl.fin 10))
        (Dbl.fin 10)).2.2.2.1]⟩

/-! ## Rounding: evaluation lemmas -/

namespace Dbl

theorem roundHalfEven_eq (z : ℚ) (n : ℤ)
    (h : |z - n| < 1 / 2 ∨ (|z - n| = 1 / 2 ∧ n % 2 = 0)) : roundHalfEven z = n := by
  unfold roundHalfEven
  simp only []
  have hf1 : (⌊z⌋ : ℚ) ≤ z := Int.floor_le z
  have hf2 : z < ⌊z⌋ + 1 := Int.lt_floor_add_one z
  rcases h with h | ⟨h, he⟩
  · rw [abs_lt] at h
    have hcases : ⌊z⌋ = n ∨ ⌊z⌋ = n - 1 := by
      have h1 : ⌊z⌋ < n + 1 := by
        have : (⌊z⌋ : ℚ) < ((n + 1 : ℤ) : ℚ) := by push_cast; linarith [h.2]
        exact_mod_cast this
      have h2 : n - 2 < ⌊z⌋ := by
        have : ((n - 2 : ℤ) : ℚ) < (⌊z⌋ : ℚ) := by push_cast; linarith [h.1]
        exact_mod_cast this
      omega
    rcases hcases with hc | hc
    · rw [hc]; rw [if_pos (by linarith [h.2])]
    · rw [hc]
      have hlt : ¬ (z - ((n - 1 : ℤ) : ℚ) < 1 / 2) := by push_cast; linarith [h.1]
      have hgt : (1 / 2 : ℚ) < z - ((n - 1 : ℤ) : ℚ) := by push_cast; linarith [h.1]
      rw [if_neg hlt, if_pos hgt]; ring
  · rcases (abs_eq (by norm_num : (0 : ℚ) ≤ 1 / 2)).1 h with h | h
    · have hz : z = n + 1 / 2 := by linarith
      have hfl : ⌊z⌋ = n := by
        rw [Int.floor_eq_iff]; constructor <;> linarith
      rw [hfl]
      have h1 : ¬ (z - (n : ℚ) < 1 / 2) := by linarith
      have h2 : ¬ ((1 / 2 : ℚ) < z - (n : ℚ)) := by linarith
      rw [if_neg h1, if_neg h2, if_pos he]
    · have hz : z = n - 1 / 2 := by linarith
      have hfl : ⌊z⌋ = n - 1 := by
        rw [Int.floor_eq_iff]; push_cast; constructor <;> linarith
      rw [hfl]
      have h1 : ¬ (z - ((n - 1 : ℤ) : ℚ) < 1 / 2) := by push_cast; linarith
      have h2 : ¬ ((1 / 2 : ℚ) < z - ((n - 1 : ℤ) : ℚ)) := by push_cast; linarith
      have h3 : ¬ ((n - 1) % 2 = 0) := by omega
      rw [if_neg h1, if_neg h2, if_neg h3]; ring

theorem log_two_eq (x : ℚ) (e : ℤ) (hlo : (2 : ℚ) ^ e ≤ |x|) (hhi : |x| < (2 : ℚ) ^ (e + 1)) :
    Int.log 2 |x| = e := by
  have hpos : 0 < |x| := lt_of_lt_of_le (zpow_pos (by norm_num) e) hlo
  have h1 : e ≤ Int.log 2 |x| := by
    have := (Int.zpow_le_iff_le_log (b := 2) (by norm_num) hpos (x := e)).1 (by exact_mod_cast hlo)
    exact this
  have h2 : Int.log 2 |x| < e + 1 := by
    have := (Int.lt_zpow_iff_log_lt (b := 2) (by norm_num) hpos (x := e + 1)).1
      (by exact_mod_cast hhi)
    exact this
  omega

theorem roundTo_of (p : ℕ) (emin emax : ℤ) (x : ℚ) (e n : ℤ) (hemin : emin ≤ e)
    (hlo : (2 : ℚ) ^ e ≤ |x|) (hhi : |x| < (2 : ℚ) ^ (e + 1))
    (hnear : |x / 2 ^ (e - ((p : ℤ) - 1)) - n| < 1 / 2 ∨
      (|x / 2 ^ (e - ((p : ℤ) - 1)) - n| = 1 / 2 ∧ n % 2 = 0)) :
    roundTo p emin emax x
      = if (2 : ℚ) ^ (emax + 1) ≤ |(n : ℚ) * 2 ^ (e - ((p : ℤ) - 1))| then
          infOfSign (decide (0 < x))
        else fin ((n : ℚ) * 2 ^ (e - ((p : ℤ) - 1))) := by
  have hx : x ≠ 0 := by
    intro h
    rw [h, abs_zero] at hlo
    exact absurd hlo (not_le.mpr (zpow_pos (by norm_num) e))
  unfold roundTo
  rw [if_neg hx]
  simp only []
  rw [log_two_eq x e hlo hhi, max_eq_left hemin, roundHalfEven_eq _ n hnear]

theorem round64_eq (x y : ℚ) (e n : ℤ) (hemin : -1022 ≤ e)
    (hlo : (2 : ℚ) ^ e ≤ |x|) (hhi : |x| < (2 : ℚ) ^ (e + 1))
    (hy : y = (n : ℚ) * 2 ^ (e - 52))
    (hnear : |x / 2 ^ (e - 52) - n| < 1 / 2 ∨ (|x / 2 ^ (e - 52) - n| = 1 / 2 ∧ n % 2 = 0))
    (hov : |y| < 2 ^ (1024 : ℤ)) :
    round64 (fin x) = fin y := by
  have h := roundTo_of 53 (-1022) 1023 x e n hemin hlo hhi (by simpa using hnear)
  have hq : ((53 : ℕ) : ℤ) - 1 = 52 := by norm_num
  rw [hq] at h
  rw [← hy] at h
  have hov2 : ¬ ((2 : ℚ) ^ ((1023 : ℤ) + 1) ≤ |y|) := by
    have : ((1023 : ℤ) + 1) = 1024 := by norm_num
    rw [this]; exact not_le.mpr hov
  rw [if_neg hov2] at h
  exact h

theorem roundHalfEven_intCast (m : ℤ) : roundHalfEven (m : ℚ) = m :=
  roundHalfEven_eq _ m (Or.inl (by simp))

/-- A number `n * 2 ^ j` with `|n| < 2 ^ 53` and `-1022 ≤ j ≤ 970` is a double. -/
theorem round64_dyadic (n j : ℤ) (hn : |n| < 2 ^ 53) (hj1 : -1022 ≤ j) (hj2 : j ≤ 970) :
    round64 (fin ((n : ℚ) * 2 ^ j)) = fin ((n : ℚ) * 2 ^ j) := by
  by_cases hn0 : n = 0
  · subst hn0; simp [round64, roundTo]
  have h2 : (0 : ℚ) < 2 := by norm_num
  set x : ℚ := (n : ℚ) * 2 ^ j with hx
  have hnq : (1 : ℚ) ≤ |(n : ℚ)| := by
    have : (1 : ℤ) ≤ |n| := Int.one_le_abs hn0
    exact_mod_cast this
  have hnq2 : |(n : ℚ)| < 2 ^ (53 : ℤ) := by
    have : ((|n| : ℤ) : ℚ) < ((2 ^ 53 : ℤ) : ℚ) := by exact_mod_cast hn
    rw [Int.cast_abs] at this
    have e53 : ((2 : ℚ) ^ (53 : ℤ)) = ((2 ^ 53 : ℤ) : ℚ) := by norm_num
    rw [e53]; exact this
  have hxabs : |x| = |(n : ℚ)| * 2 ^ j := by
    rw [hx, abs_mul, abs_of_pos (zpow_pos h2 j)]
  have hxpos : 0 < |x| := by
    rw [hxabs]; exact mul_pos (by linarith) (zpow_pos h2 j)
  have hlo : (2 : ℚ) ^ (Int.log 2 |x|) ≤ |x| := by
    have := Int.zpow_log_le_self (b := 2) (by norm_num) hxpos
    exact_mod_cast this
  have hhi : |x| < (2 : ℚ) ^ (Int.log 2 |x| + 1) := by
    have := Int.lt_zpow_succ_log_self (b := 2) (by norm_num) |x|
    exact_mod_cast this
  set e := Int.log 2 |x| with he
  -- j ≤ e
  have hje : j ≤ e := by
    have : (2 : ℚ) ^ j ≤ |x| := by
      rw [hxabs]; nlinarith [zpow_pos h2 j]
    have := (Int.zpow_le_iff_le_log (b := 2) (by norm_num) hxpos (x := j)).1
      (by exact_mod_cast this)
    exact this
  -- e < 53 + j
  have hej : e < 53 + j := by
    have : |x| < (2 : ℚ) ^ (53 + j) := by
      rw [hxabs, zpow_add₀ (by norm_num : (2 : ℚ) ≠ 0)]
      exact mul_lt_mul_of_pos_right hnq2 (zpow_pos h2 j)
    have := (Int.lt_zpow_iff_log_lt (b := 2) (by norm_num) hxpos (x := 53 + j)).1
      (by exact_mod_cast this)
    exact this
  obtain ⟨t, ht⟩ : ∃ t : ℕ, (t : ℤ) = j - e + 52 := ⟨(j - e + 52).toNat, by omega⟩
  have hdiv : x / 2 ^ (e - (((53 : ℕ) : ℤ) - 1)) = ((n * 2 ^ t : ℤ) : ℚ) := by
    have h53 : (((53 : ℕ) : ℤ) - 1) = 52 := by norm_num
    rw [h53, hx]
    push_cast
    rw [← zpow_natCast (2 : ℚ) t, ht, mul_div_assoc, ← zpow_sub₀ (by norm_num : (2 : ℚ) ≠ 0)]
    congr 2
    ring
  have hround := roundTo_of 53 (-1022) 1023 x e (n * 2 ^ t) (by omega) hlo hhi
    (Or.inl (by rw [hdiv]; simp))
  have hback : ((n * 2 ^ t : ℤ) : ℚ) * 2 ^ (e - (((53 : ℕ) : ℤ) - 1)) = x := by
    rw [← hdiv]
    field_simp
  rw [hback] at hround
  have hov : ¬ ((2 : ℚ) ^ ((1023 : ℤ) + 1) ≤ |x|) := by
    apply not_le.mpr
    calc |x| < (2 : ℚ) ^ (53 + j) := by
          rw [hxabs, zpow_add₀ (by norm_num : (2 : ℚ) ≠ 0)]
          exact mul_lt_mul_of_pos_right hnq2 (zpow_pos h2 j)
      _ ≤ (2 : ℚ) ^ ((1023 : ℤ) + 1) := zpow_le_zpow_right₀ (by norm_num) (by omega)
  rw [if_neg hov] at hround
  show roundTo 53 (-1022) 1023 x = fin x
  exact hround

theorem round64_intCast (n : ℤ) (hn : |n| < 2 ^ 53) : round64 (fin (n : ℚ)) = fin (n : ℚ) := by
  have := round64_dyadic n 0 hn (by norm_num) (by norm_num)
  simpa using this

end Dbl

namespace Dbl

theorem floor_le_roundHalfEven (z : ℚ) : ⌊z⌋ ≤ roundHalfEven z := by
  unfold roundHalfEven
  simp only []
  split_ifs <;> omega

theorem roundHalfEven_le_of_lt (z : ℚ) (M : ℤ) (h : z < (M : ℚ) - 1 / 2) :
    roundHalfEven z ≤ M - 1 := by
  have hf1 : (⌊z⌋ : ℚ) ≤ z := Int.floor_le z
  have hfM : ⌊z⌋ ≤ M - 1 := by
    have : (⌊z⌋ : ℚ) < ((M : ℤ) : ℚ) := by linarith
    have : ⌊z⌋ < M := by exact_mod_cast this
    omega
  unfold roundHalfEven
  simp only []
  by_cases hlt : z - (⌊z⌋ : ℚ) < 1 / 2
  · rw [if_pos hlt]; exact hfM
  · have hne : ⌊z⌋ ≠ M - 1 := by
      intro heq
      apply hlt
      rw [heq]; push_cast; linarith
    have : ⌊z⌋ + 1 ≤ M - 1 := by omega
    rw [if_neg hlt]
    split_ifs <;> omega

/-- The floor of a rounded quotient of two integers is the floor of the exact quotient. -/
theorem floor_round64_div (a b : ℤ) (hb : 0 < b) (ha : |a| < 2 ^ 53) (hb2 : b < 2 ^ 53) :
    floor (round64 (fin ((a : ℚ) / (b : ℚ)))) = fin ((⌊(a : ℚ) / (b : ℚ)⌋ : ℤ) : ℚ) := by
  have h2 : (0 : ℚ) < 2 := by norm_num
  have hbq : (0 : ℚ) < (b : ℚ) := by exact_mod_cast hb
  set y : ℚ := (a : ℚ) / (b : ℚ) with hy
  set k : ℤ := ⌊y⌋ with hk
  have hk1 : (k : ℚ) ≤ y := Int.floor_le y
  have hk2 : y < k + 1 := Int.lt_floor_add_one y
  have haq : |(a : ℚ)| < 2 ^ (53 : ℤ) := by
    have : ((|a| : ℤ) : ℚ) < ((2 ^ 53 : ℤ) : ℚ) := by exact_mod_cast ha
    rw [Int.cast_abs] at this
    have e53 : ((2 : ℚ) ^ (53 : ℤ)) = ((2 ^ 53 : ℤ) : ℚ) := by norm_num
    rw [e53]; exact this
  have hyabs : |y| = |(a : ℚ)| / b := by rw [hy, abs_div, abs_of_pos hbq]
  have hyle : |y| ≤ |(a : ℚ)| := by
    rw [hyabs]
    apply div_le_self (abs_nonneg _)
    exact_mod_cast hb
  by_cases hint : (k : ℚ) = y
  · -- the quotient is an integer
    have hkabs : |k| < 2 ^ 53 := by
      have : |(k : ℚ)| < ((2 ^ 53 : ℤ) : ℚ) := by
        rw [hint]
        have e53 : ((2 : ℚ) ^ (53 : ℤ)) = ((2 ^ 53 : ℤ) : ℚ) := by norm_num
        rw [← e53]; exact lt_of_le_of_lt hyle haq
      rw [← Int.cast_abs] at this
      exact_mod_cast this
    rw [← hint, round64_intCast k hkabs]
    simp [floor]
  · have hklt : (k : ℚ) < y := lt_of_le_of_ne hk1 hint
    have hy0 : y ≠ 0 := by
      intro h0
      apply hint
      rw [hk, h0]; simp
    have hypos : 0 < |y| := abs_pos.mpr hy0
    have ha0 : a ≠ 0 := by
      intro h0; apply hy0; rw [hy, h0]; simp
    have hlo : (2 : ℚ) ^ (Int.log 2 |y|) ≤ |y| := by
      have := Int.zpow_log_le_self (b := 2) (by norm_num) hypos
      exact_mod_cast this
    have hhi : |y| < (2 : ℚ) ^ (Int.log 2 |y| + 1) := by
      have := Int.lt_zpow_succ_log_self (b := 2) (by norm_num) |y|
      exact_mod_cast this
    set e := Int.log 2 |y| with he
    -- e ≤ 52
    have he52 : e < 53 := by
      have : |y| < (2 : ℚ) ^ (53 : ℤ) := lt_of_le_of_lt hyle haq
      have := (Int.lt_zpow_iff_log_lt (b := 2) (by norm_num) hypos (x := 53)).1
        (by exact_mod_cast this)
      exact this
    -- -53 ≤ e
    have hbq2 : (b : ℚ) < 2 ^ (53 : ℤ) := by
      have : ((b : ℤ) : ℚ) < ((2 ^ 53 : ℤ) : ℚ) := by exact_mod_cast hb2
      have e53 : ((2 : ℚ) ^ (53 : ℤ)) = ((2 ^ 53 : ℤ) : ℚ) := by norm_num
      rw [e53]; exact this
    have ha1 : (1 : ℚ) ≤ |(a : ℚ)| := by
      have : (1 : ℤ) ≤ |a| := Int.one_le_abs ha0
      exact_mod_cast this
    have hylow : (2 : ℚ) ^ (-53 : ℤ) ≤ |y| := by
      rw [hyabs, zpow_neg, le_div_iff₀ hbq]
      have : ((2 : ℚ) ^ (53 : ℤ))⁻¹ * b ≤ 1 := by
        rw [inv_mul_le_iff₀ (zpow_pos h2 53)]; linarith
      linarith
    have hem : -53 ≤ e := by
      have := (Int.zpow_le_iff_le_log (b := 2) (by norm_num) hypos (x := -53)).1
        (by exact_mod_cast hylow)
      exact this
    obtain ⟨t, ht⟩ : ∃ t : ℕ, (t : ℤ) = 52 - e := ⟨(52 - e).toNat, by omega⟩
    have ht2 : (2 : ℚ) ^ (e - 52) = ((2 : ℚ) ^ t)⁻¹ := by
      rw [← zpow_natCast (2 : ℚ) t, ht, ← zpow_neg]; congr 1; ring
    have hqpos : (0 : ℚ) < (2 : ℚ) ^ t := pow_pos h2 t
    -- the rounded value
    set m : ℤ := roundHalfEven (y / 2 ^ (e - 52)) with hm
    have hz : y / 2 ^ (e - 52) = y * 2 ^ t := by rw [ht2, div_inv_eq_mul]
    -- lower bound
    have hlow : k * 2 ^ t ≤ m := by
      have h1 : ((k * 2 ^ t : ℤ) : ℚ) ≤ y / 2 ^ (e - 52) := by
        rw [hz]; push_cast
        exact mul_le_mul_of_nonneg_right hk1 hqpos.le
      have h2 : k * 2 ^ t ≤ ⌊y / 2 ^ (e - 52)⌋ := Int.le_floor.mpr h1
      exact le_trans h2 (floor_le_roundHalfEven _)
    -- upper bound: b * 2 ^ e ≤ |a| < 2 ^ 53
    have hbt : (b : ℚ) < 2 * 2 ^ t := by
      have h1 : (2 : ℚ) ^ e * b ≤ |(a : ℚ)| := by
        have := hlo
        rw [hyabs, le_div_iff₀ hbq] at this
        exact this
      have h3 : (2 : ℚ) ^ e * 2 ^ t = 2 ^ (52 : ℤ) := by
        rw [← zpow_natCast (2 : ℚ) t, ht, ← zpow_add₀ (by norm_num : (2 : ℚ) ≠ 0)]
        congr 1; ring
      have h4 : (2 : ℚ) ^ (53 : ℤ) = 2 * 2 ^ (52 : ℤ) := by norm_num
      have hepos : (0 : ℚ) < 2 ^ e := zpow_pos h2 e
      by_contra hcon
      push_neg at hcon
      have : (2 : ℚ) ^ e * (2 * 2 ^ t) ≤ 2 ^ e * b := mul_le_mul_of_nonneg_left hcon hepos.le
      have : (2 : ℚ) ^ (53 : ℤ) ≤ |(a : ℚ)| := by
        rw [h4, ← h3]; linarith
      linarith
    have hkb : (1 : ℚ) / b ≤ (k : ℚ) + 1 - y := by
      -- (k + 1) * b - a is a positive integer
      have h1 : y * b = a := by rw [hy]; field_simp
      have h2 : (a : ℚ) < (k + 1) * b := by rw [← h1]; exact mul_lt_mul_of_pos_right hk2 hbq
      have h3 : a < (k + 1) * b := by exact_mod_cast h2
      have h4 : a + 1 ≤ (k + 1) * b := by omega
      have h5 : (a : ℚ) + 1 ≤ (k + 1) * b := by exact_mod_cast h4
      rw [div_le_iff₀ hbq]
      have : ((k : ℚ) + 1 - y) * b = (k + 1) * b - a := by rw [sub_mul, h1]
      rw [this]; linarith
    have hup : m ≤ (k + 1) * 2 ^ t - 1 := by
      apply roundHalfEven_le_of_lt
      rw [hz]; push_cast
      have h1 : (1 : ℚ) / 2 < ((k : ℚ) + 1 - y) * 2 ^ t := by
        have : (1 : ℚ) / b * 2 ^ t ≤ ((k : ℚ) + 1 - y) * 2 ^ t :=
          mul_le_mul_of_nonneg_right hkb hqpos.le
        have h6 : (1 : ℚ) / 2 < 1 / b * 2 ^ t := by
          rw [one_div, one_div, inv_mul_eq_div, lt_div_iff₀ hbq]
          linarith
        linarith
      linarith
    -- the result
    have hmq1 : (k : ℚ) ≤ (m : ℚ) * 2 ^ (e - 52) := by
      rw [ht2, ← div_eq_mul_inv, le_div_iff₀ hqpos]
      exact_mod_cast hlow
    have hmq2 : (m : ℚ) * 2 ^ (e - 52) < k + 1 := by
      rw [ht2, ← div_eq_mul_inv, div_lt_iff₀ hqpos]
      have : (m : ℚ) ≤ ((k : ℚ) + 1) * 2 ^ t - 1 := by exact_mod_cast hup
      linarith
    have hround : round64 (fin y) = fin ((m : ℚ) * 2 ^ (e - 52)) := by
      have hemin : (-1022 : ℤ) ≤ e := by omega
      have hy' : y ≠ 0 := hy0
      show roundTo 53 (-1022) 1023 y = _
      unfold roundTo
      rw [if_neg hy']
      simp only []
      rw [← he, max_eq_left hemin]
      have h53 : (((53 : ℕ) : ℤ) - 1) = 52 := by norm_num
      rw [h53, ← hm]
      have hov : ¬ ((2 : ℚ) ^ ((1023 : ℤ) + 1) ≤ |(m : ℚ) * 2 ^ (e - 52)|) := by
        apply not_le.mpr
        have hyb := abs_lt.1 (lt_of_le_of_lt hyle haq)
        have h1 : |(m : ℚ) * 2 ^ (e - 52)| ≤ 2 ^ (53 : ℤ) + 1 := by
          rw [abs_le]
          constructor <;> linarith [hyb.1, hyb.2]
        have h2' : (2 : ℚ) ^ (53 : ℤ) + 1 < 2 ^ ((1023 : ℤ) + 1) := by
          have : (2 : ℚ) ^ (54 : ℤ) ≤ 2 ^ ((1023 : ℤ) + 1) :=
            zpow_le_zpow_right₀ (by norm_num) (by norm_num)
          have : (2 : ℚ) ^ (53 : ℤ) + 1 < 2 ^ (54 : ℤ) := by norm_num
          linarith
        linarith
      rw [if_neg hov]
    rw [hround]
    show fin ((⌊(m : ℚ) * 2 ^ (e - 52)⌋ : ℤ) : ℚ) = _
    congr 2
    rw [Int.floor_eq_iff]
    exact ⟨hmq1, hmq2⟩

end Dbl

namespace Dbl

/-- Certificate of a rounding to `double`: `x` lies in the binade of exponent `e`, and `n` is
the integer nearest to `x / 2 ^ (e - 52)` (the even one at a tie). -/
theorem round64_cert (x y : ℚ) (e n : ℤ) (hemin : -1022 ≤ e)
    (hlo : (2 : ℚ) ^ e ≤ x ∨ x ≤ -(2 : ℚ) ^ e)
    (hhi : -(2 : ℚ) ^ (e + 1) < x ∧ x < (2 : ℚ) ^ (e + 1))
    (hy : y = (n : ℚ) * 2 ^ (e - 52))
    (hnear : (-(1 / 2) < x / 2 ^ (e - 52) - n ∧ x / 2 ^ (e - 52) - n < 1 / 2) ∨
      ((x / 2 ^ (e - 52) - n = 1 / 2 ∨ x / 2 ^ (e - 52) - n = -(1 / 2)) ∧ n % 2 = 0))
    (hov : -(2 : ℚ) ^ (1024 : ℤ) < y ∧ y < (2 : ℚ) ^ (1024 : ℤ)) :
    round64 (fin x) = fin y := by
  apply round64_eq x y e n hemin
  · rcases hlo with h | h
    · exact le_trans h (le_abs_self x)
    · exact le_trans (by linarith) (neg_le_abs x)
  · exact abs_lt.2 hhi
  · exact hy
  · rcases hnear with h | ⟨h, he⟩
    · exact Or.inl (abs_lt.2 h)
    · refine Or.inr ⟨?_, he⟩
      rcases h with h | h
      · rw [h]; norm_num
      · rw [h]; norm_num
  · exact abs_lt.2 hov

/-- Certificate of an overflow to `+inf`. -/
theorem round64_cert_inf (x : ℚ) (e n : ℤ) (hemin : -1022 ≤ e)
    (hlo : (2 : ℚ) ^ e ≤ x) (hhi : x < (2 : ℚ) ^ (e + 1))
    (hnear : (-(1 / 2) < x / 2 ^ (e - 52) - n ∧ x / 2 ^ (e - 52) - n < 1 / 2) ∨
      ((x / 2 ^ (e - 52) - n = 1 / 2 ∨ x / 2 ^ (e - 52) - n = -(1 / 2)) ∧ n % 2 = 0))
    (hov : (2 : ℚ) ^ (1024 : ℤ) ≤ (n : ℚ) * 2 ^ (e - 52)) :
    round64 (fin x) = pinf := by
  have hpos : 0 < x := lt_of_lt_of_le (zpow_pos (by norm_num) e) hlo
  have h := roundTo_of 53 (-1022) 1023 x e n hemin (by rw [abs_of_pos hpos]; exact hlo)
    (by rw [abs_of_pos hpos]; exact hhi)
    (by
      have h53 : (((53 : ℕ) : ℤ) - 1) = 52 := by norm_num
      rw [h53]
      rcases hnear with h | ⟨h, he⟩
      · exact Or.inl (abs_lt.2 h)
      · refine Or.inr ⟨?_, he⟩
        rcases h with h | h
        · rw [h]; norm_num
        · rw [h]; norm_num)
  have h53 : (((53 : ℕ) : ℤ) - 1) = 52 := by norm_num
  rw [h53] at h
  have hov2 : (2 : ℚ) ^ ((1023 : ℤ) + 1) ≤ |(n : ℚ) * 2 ^ (e - 52)| := by
    have : ((1023 : ℤ) + 1) = 1024 := by norm_num
    rw [this]; exact le_trans hov (le_abs_self _)
  rw [if_pos hov2] at h
  show roundTo 53 (-1022) 1023 x = pinf
  rw [h]; simp [infOfSign, hpos]

/-- Certificate of an overflow to `-inf`. -/
theorem round64_cert_ninf (x : ℚ) (e n : ℤ) (hemin : -1022 ≤ e)
    (hlo : x ≤ -(2 : ℚ) ^ e) (hhi : -(2 : ℚ) ^ (e + 1) < x)
    (hnear : (-(1 / 2) < x / 2 ^ (e - 52) - n ∧ x / 2 ^ (e - 52) - n < 1 / 2) ∨
      ((x / 2 ^ (e - 52) - n = 1 / 2 ∨ x / 2 ^ (e - 52) - n = -(1 / 2)) ∧ n % 2 = 0))
    (hov : (n : ℚ) * 2 ^ (e - 52) ≤ -(2 : ℚ) ^ (1024 : ℤ)) :
    round64 (fin x) = ninf := by
  have hneg : x < 0 := lt_of_le_of_lt hlo (neg_neg_of_pos (zpow_pos (by norm_num) e))
  have h := roundTo_of 53 (-1022) 1023 x e n hemin (by rw [abs_of_neg hneg]; linarith)
    (by rw [abs_of_neg hneg]; linarith)
    (by
      have h53 : (((53 : ℕ) : ℤ) - 1) = 52 := by norm_num
      rw [h53]
      rcases hnear with h | ⟨h, he⟩
      · exact Or.inl (abs_lt.2 h)
      · refine Or.inr ⟨?_, he⟩
        rcases h with h | h
        · rw [h]; norm_num
        · rw [h]; norm_num)
  have h53 : (((53 : ℕ) : ℤ) - 1) = 52 := by norm_num
  rw [h53] at h
  have hov2 : (2 : ℚ) ^ ((1023 : ℤ) + 1) ≤ |(n : ℚ) * 2 ^ (e - 52)| := by
    have : ((1023 : ℤ) + 1) = 1024 := by norm_num
    rw [this]
    exact le_trans (by linarith) (neg_le_abs _)
  rw [if_pos hov2] at h
  show roundTo 53 (-1022) 1023 x = ninf
  rw [h]; simp [infOfSign, not_lt.mpr hneg.le]

/-- Certificate of a `std::floor`. -/
theorem floor_fin_cert (a : ℚ) (k : ℤ) (h1 : (k : ℚ) ≤ a) (h2 : a < (k : ℚ) + 1) :
    floor (fin a) = fin (k : ℚ) := by
  rw [floor_fin]
  congr 2
  rw [Int.floor_eq_iff]
  exact ⟨h1, h2⟩

end Dbl

namespace Binary64

theorem add_intCast (a b : ℤ) (h : |a + b| < 2 ^ 53) :
    add (Dbl.fin a) (Dbl.fin b) = Dbl.fin ((a + b : ℤ) : ℚ) := by
  rw [add, Dbl.fin_add_fin, ← Int.cast_add]
  exact Dbl.round64_intCast _ h

theorem sub_intCast (a b : ℤ) (h : |a - b| < 2 ^ 53) :
    sub (Dbl.fin a) (Dbl.fin b) = Dbl.fin ((a - b : ℤ) : ℚ) := by
  rw [sub, Dbl.fin_sub_fin, ← Int.cast_sub]
  exact Dbl.round64_intCast _ h

theorem mul_intCast (a b : ℤ) (h : |a * b| < 2 ^ 53) :
    mul (Dbl.fin a) (Dbl.fin b) = Dbl.fin ((a * b : ℤ) : ℚ) := by
  rw [mul, Dbl.fin_mul_fin, ← Int.cast_mul]
  exact Dbl.round64_intCast _ h

theorem floor_intCast_div (a b : ℤ) (hb : 0 < b) : ⌊(a : ℚ) / (b : ℚ)⌋ = a / b := by
  obtain ⟨n, hn⟩ : ∃ n : ℕ, b = (n : ℤ) := ⟨b.toNat, by omega⟩
  subst hn
  exact_mod_cast Rat.floor_intCast_div_natCast a n

theorem floor_div_intCast (a b : ℤ) (hb : 0 < b) (ha : |a| < 2 ^ 53) (hb2 : b < 2 ^ 53) :
    Dbl.floor (div (Dbl.fin a) (Dbl.fin b)) = Dbl.fin ((a / b : ℤ) : ℚ) := by
  have hb0 : (b : ℚ) ≠ 0 := by
    have : (0 : ℚ) < b := by exact_mod_cast hb
    exact ne_of_gt this
  rw [div, Dbl.fin_div_fin _ _ hb0, Dbl.floor_round64_div a b hb ha hb2, floor_intCast_div a b hb]

theorem exact_floor_div_intCast (a b : ℤ) (hb : 0 < b) :
    Dbl.floor (Dbl.fin a / Dbl.fin b) = Dbl.fin ((a / b : ℤ) : ℚ) := by
  have hb0 : (b : ℚ) ≠ 0 := by
    have : (0 : ℚ) < b := by exact_mod_cast hb
    exact ne_of_gt this
  rw [Dbl.fin_div_fin _ _ hb0, Dbl.floor_fin, floor_intCast_div a b hb]

end Binary64

/-- On a repeated scroll point whose offset, interval, start and adjustment are integers of
magnitude at most `2 ^ 48` the rounded computation of the first position is the exact one. -/
theorem binary64_First_intCast (p : RepeatedScrollSnapPoint)
    (o i s adj : ℤ)
    (ho : p.m_offset = Dbl.fin o) (hi : p.m_interval = Dbl.fin i) (hs : p.m_start = Dbl.fin s)
    (hadj : p.m_alignmentAdjustment = Dbl.fin adj)
    (hob : |o| ≤ 2 ^ 48) (hib : i ≤ 2 ^ 48) (hsb : |s| ≤ 2 ^ 48) (hab : |adj| ≤ 2 ^ 48)
    (hipos : 0 < i) :
    Binary64.RepeatedScrollSnapPoint.DetermineFirstRepeatedSnapPointValue p
      = Dbl.fin (((o + adj) - ((o + adj) - (s + adj)) / i * i : ℤ) : ℚ) ∧
    p.DetermineFirstRepeatedSnapPointValue
      = Dbl.fin (((o + adj) - ((o + adj) - (s + adj)) / i * i : ℤ) : ℚ) := by
  rw [abs_le] at hob hsb hab
  have hk1 : ((o + adj) - (s + adj)) / i * i ≤ (o + adj) - (s + adj) := Int.ediv_mul_le _ (by omega)
  have hk2 : (o + adj) - (s + adj) < ((o + adj) - (s + adj)) / i * i + i := by
    have := Int.lt_ediv_add_one_mul_self ((o + adj) - (s + adj)) hipos
    linarith
  constructor
  · simp only [Binary64.RepeatedScrollSnapPoint.DetermineFirstRepeatedSnapPointValue,
      Binary64.RepeatedScrollSnapPoint.ActualOffset, Binary64.RepeatedScrollSnapPoint.ActualStart,
      ho, hi, hs, hadj]
    rw [Binary64.add_intCast o adj (abs_lt.mpr ⟨by linarith, by linarith⟩),
      Binary64.add_intCast s adj (abs_lt.mpr ⟨by linarith, by linarith⟩),
      Binary64.sub_intCast _ _ (abs_lt.mpr ⟨by linarith, by linarith⟩),
      Binary64.floor_div_intCast _ _ hipos (abs_lt.mpr ⟨by linarith, by linarith⟩) (by linarith),
      Binary64.mul_intCast _ _ (abs_lt.mpr ⟨by linarith, by linarith⟩),
      Binary64.sub_intCast _ _ (abs_lt.mpr ⟨by linarith, by linarith⟩)]
  · simp only [RepeatedScrollSnapPoint.DetermineFirstRepeatedSnapPointValue,
      RepeatedScrollSnapPoint.ActualOffset, RepeatedScrollSnapPoint.ActualStart,
      ho, hi, hs, hadj, Dbl.fin_add_fin, Dbl.fin_sub_fin]
    rw [← Int.cast_add, ← Int.cast_add, ← Int.cast_sub,
      Binary64.exact_floor_div_intCast _ _ hipos, Dbl.fin_mul_fin, Dbl.fin_sub_fin]
    push_cast
    rfl

/-- The same for the last position. -/
theorem binary64_Last_intCast (p : RepeatedScrollSnapPoint)
    (o i e adj : ℤ)
    (ho : p.m_offset = Dbl.fin o) (hi : p.m_interval = Dbl.fin i) (he : p.m_end = Dbl.fin e)
    (hadj : p.m_alignmentAdjustment = Dbl.fin adj)
    (hob : |o| ≤ 2 ^ 48) (hib : i ≤ 2 ^ 48) (heb : |e| ≤ 2 ^ 48) (hab : |adj| ≤ 2 ^ 48)
    (hipos : 0 < i) :
    Binary64.RepeatedScrollSnapPoint.DetermineLastRepeatedSnapPointValue p
      = Dbl.fin (((o + adj) + ((e + adj) - (o + adj)) / i * i : ℤ) : ℚ) ∧
    p.DetermineLastRepeatedSnapPointValue
      = Dbl.fin (((o + adj) + ((e + adj) - (o + adj)) / i * i : ℤ) : ℚ) := by
  rw [abs_le] at hob heb hab
  have hk1 : ((e + adj) - (o + adj)) / i * i ≤ (e + adj) - (o + adj) := Int.ediv_mul_le _ (by omega)
  have hk2 : (e + adj) - (o + adj) < ((e + adj) - (o + adj)) / i * i + i := by
    have := Int.lt_ediv_add_one_mul_self ((e + adj) - (o + adj)) hipos
    linarith
  constructor
  · simp only [Binary64.RepeatedScrollSnapPoint.DetermineLastRepeatedSnapPointValue,
      Binary64.RepeatedScrollSnapPoint.ActualOffset, Binary64.RepeatedScrollSnapPoint.ActualEnd,
      ho, hi, he, hadj]
    rw [Binary64.add_intCast o adj (abs_lt.mpr ⟨by linarith, by linarith⟩),
      Binary64.add_intCast e adj (abs_lt.mpr ⟨by linarith, by linarith⟩),
      Binary64.sub_intCast _ _ (abs_lt.mpr ⟨by linarith, by linarith⟩),
      Binary64.floor_div_intCast _ _ hipos (abs_lt.mpr ⟨by linarith, by linarith⟩) (by linarith),
      Binary64.mul_intCast _ _ (abs_lt.mpr ⟨by linarith, by linarith⟩),
      Binary64.add_intCast _ _ (abs_lt.mpr ⟨by linarith, by linarith⟩)]
  · simp only [RepeatedScrollSnapPoint.DetermineLastRepeatedSnapPointValue,
      RepeatedScrollSnapPoint.ActualOffset, RepeatedScrollSnapPoint.ActualEnd,
      ho, hi, he, hadj, Dbl.fin_add_fin, Dbl.fin_sub_fin]
    rw [← Int.cast_add, ← Int.cast_add, ← Int.cast_sub,
      Binary64.exact_floor_div_intCast _ _ hipos, Dbl.fin_mul_fin, Dbl.fin_add_fin]
    push_cast
    rfl

/-- On integers (fields of magnitude at most `2 ^ 48`, a range that is such an integer or
`INFINITY`, any integer value) the rounded `Evaluate` of a repeated scroll point is the exact
one, and its result is an integer. -/
theorem binary64_Evaluate_intCast (p : RepeatedScrollSnapPoint)
    (o i s e adj v : ℤ) (zone : Dbl × Dbl)
    (ho : p.m_offset = Dbl.fin o) (hi : p.m_interval = Dbl.fin i) (hs : p.m_start = Dbl.fin s)
    (he : p.m_end = Dbl.fin e) (hadj : p.m_alignmentAdjustment = Dbl.fin adj)
    (hr : p.m_specifiedApplicableRange = Dbl.pinf ∨
      ∃ r : ℤ, |r| ≤ 2 ^ 48 ∧ p.m_specifiedApplicableRange = Dbl.fin r)
    (hob : |o| ≤ 2 ^ 48) (hib : i ≤ 2 ^ 48) (hsb : |s| ≤ 2 ^ 48) (heb : |e| ≤ 2 ^ 48)
    (hab : |adj| ≤ 2 ^ 48) (hipos : 0 < i) :
    Binary64.RepeatedScrollSnapPoint.Evaluate p zone (Dbl.fin v) = p.Evaluate zone (Dbl.fin v) ∧
    ∃ w : ℤ, p.Evaluate zone (Dbl.fin v) = Dbl.fin w := by
  obtain ⟨hF1, hF2⟩ := binary64_First_intCast p o i s adj ho hi hs hadj
    hob hib hsb hab hipos
  rw [abs_le] at hob hsb hab heb
  have hS : Binary64.RepeatedScrollSnapPoint.ActualStart p = Dbl.fin ((s + adj : ℤ) : ℚ) := by
    simp only [Binary64.RepeatedScrollSnapPoint.ActualStart, hs, hadj]
    exact Binary64.add_intCast s adj (abs_lt.mpr ⟨by linarith, by linarith⟩)
  have hE : Binary64.RepeatedScrollSnapPoint.ActualEnd p = Dbl.fin ((e + adj : ℤ) : ℚ) := by
    simp only [Binary64.RepeatedScrollSnapPoint.ActualEnd, he, hadj]
    exact Binary64.add_intCast e adj (abs_lt.mpr ⟨by linarith, by linarith⟩)
  have hS' : p.ActualStart = Dbl.fin ((s + adj : ℤ) : ℚ) := by
    simp [RepeatedScrollSnapPoint.ActualStart, hs, hadj]
  have hE' : p.ActualEnd = Dbl.fin ((e + adj : ℤ) : ℚ) := by
    simp [RepeatedScrollSnapPoint.ActualEnd, he, hadj]
  by_cases hin : Dbl.fin (v : ℚ) ≥ Dbl.fin ((s + adj : ℤ) : ℚ) ∧
      Dbl.fin (v : ℚ) ≤ Dbl.fin ((e + adj : ℤ) : ℚ)
  swap
  · refine ⟨?_, v, ?_⟩
    · simp only [Binary64.RepeatedScrollSnapPoint.Evaluate, RepeatedScrollSnapPoint.Evaluate,
        hS, hE, hS', hE', if_neg hin]
    · simp only [RepeatedScrollSnapPoint.Evaluate, hS', hE', if_neg hin]
  have hvlo : s + adj ≤ v := by
    have := hin.1
    rw [ge_iff_le, Dbl.fin_le_fin] at this
    exact_mod_cast this
  have hvhi : v ≤ e + adj := by
    have := hin.2
    rw [Dbl.fin_le_fin] at this
    exact_mod_cast this
  have hk1 : ((o + adj) - (s + adj)) / i * i ≤ (o + adj) - (s + adj) := Int.ediv_mul_le _ (by omega)
  have hk2 : (o + adj) - (s + adj) < ((o + adj) - (s + adj)) / i * i + i := by
    have := Int.lt_ediv_add_one_mul_self ((o + adj) - (s + adj)) hipos
    linarith
  set F : ℤ := (o + adj) - ((o + adj) - (s + adj)) / i * i with hFdef
  have hp1 : (v - F) / i * i ≤ v - F := Int.ediv_mul_le _ (by omega)
  have hp2 : v - F < (v - F) / i * i + i := by
    have := Int.lt_ediv_add_one_mul_self (v - F) hipos
    linarith
  have hFlo : s + adj ≤ F := by rw [hFdef]; linarith
  have hFhi : F < s + adj + i := by rw [hFdef]; linarith
  set P : ℤ := (v - F) / i * i + F with hPdef
  have hPlo : v - i < P := by rw [hPdef]; linarith
  have hPhi : P ≤ v := by rw [hPdef]; linarith
  have hpassed : Dbl.floor (Binary64.div (Binary64.sub (Dbl.fin v) (Dbl.fin F)) (Dbl.fin i))
      = Dbl.fin (((v - F) / i : ℤ) : ℚ) := by
    rw [Binary64.sub_intCast _ _ (abs_lt.mpr ⟨by linarith, by linarith⟩),
      Binary64.floor_div_intCast _ _ hipos (abs_lt.mpr ⟨by linarith, by linarith⟩) (by linarith)]
  have hpassed' : Dbl.floor ((Dbl.fin v - Dbl.fin F) / Dbl.fin i)
      = Dbl.fin (((v - F) / i : ℤ) : ℚ) := by
    rw [Dbl.fin_sub_fin, ← Int.cast_sub, Binary64.exact_floor_div_intCast _ _ hipos]
  have hprev : Binary64.add (Binary64.mul (Dbl.fin (((v - F) / i : ℤ) : ℚ)) (Dbl.fin i))
      (Dbl.fin F) = Dbl.fin (P : ℚ) := by
    rw [Binary64.mul_intCast _ _ (abs_lt.mpr ⟨by linarith, by linarith⟩),
      Binary64.add_intCast _ _ (abs_lt.mpr ⟨by linarith, by linarith⟩)]
  have hprev' : Dbl.fin (((v - F) / i : ℤ) : ℚ) * Dbl.fin i + Dbl.fin F = Dbl.fin (P : ℚ) := by
    rw [Dbl.fin_mul_fin, Dbl.fin_add_fin, hPdef]; push_cast; rfl
  have hnext : Binary64.add (Dbl.fin (P : ℚ)) (Dbl.fin i) = Dbl.fin ((P + i : ℤ) : ℚ) :=
    Binary64.add_intCast _ _ (abs_lt.mpr ⟨by linarith, by linarith⟩)
  have hnext' : Dbl.fin (P : ℚ) + Dbl.fin i = Dbl.fin ((P + i : ℤ) : ℚ) := by
    rw [Dbl.fin_add_fin]; push_cast; rfl
  have hd1 : Binary64.sub (Dbl.fin v) (Dbl.fin (P : ℚ)) = Dbl.fin ((v - P : ℤ) : ℚ) :=
    Binary64.sub_intCast _ _ (abs_lt.mpr ⟨by linarith, by linarith⟩)
  have hd1' : Dbl.fin (v : ℚ) - Dbl.fin (P : ℚ) = Dbl.fin ((v - P : ℤ) : ℚ) := by
    rw [Dbl.fin_sub_fin]; push_cast; rfl
  have hd2 : Binary64.sub (Dbl.fin ((P + i : ℤ) : ℚ)) (Dbl.fin v)
      = Dbl.fin ((P + i - v : ℤ) : ℚ) :=
    Binary64.sub_intCast _ _ (abs_lt.mpr ⟨by linarith, by linarith⟩)
  have hd2' : Dbl.fin ((P + i : ℤ) : ℚ) - Dbl.fin (v : ℚ) = Dbl.fin ((P + i - v : ℤ) : ℚ) := by
    rw [Dbl.fin_sub_fin]; push_cast; rfl
  have hr1 : Binary64.add (Dbl.fin (P : ℚ)) p.m_specifiedApplicableRange
      = Dbl.fin (P : ℚ) + p.m_specifiedApplicableRange := by
    rcases hr with hr | ⟨r, hrb, hr⟩
    · rw [hr]; rfl
    · rw [hr, Dbl.fin_add_fin, ← Int.cast_add]
      rw [abs_le] at hrb
      exact Binary64.add_intCast _ _ (abs_lt.mpr ⟨by linarith, by linarith⟩)
  have hr2 : Binary64.sub (Dbl.fin ((P + i : ℤ) : ℚ)) p.m_specifiedApplicableRange
      = Dbl.fin ((P + i : ℤ) : ℚ) - p.m_specifiedApplicableRange := by
    rcases hr with hr | ⟨r, hrb, hr⟩
    · rw [hr]; rfl
    · rw [hr, Dbl.fin_sub_fin, ← Int.cast_sub]
      rw [abs_le] at hrb
      exact Binary64.sub_intCast _ _ (abs_lt.mpr ⟨by linarith, by linarith⟩)
  constructor
  · simp only [Binary64.RepeatedScrollSnapPoint.Evaluate, RepeatedScrollSnapPoint.Evaluate,
      hS, hE, hS', hE', hF1, hF2, hi, hpassed, hpassed', hprev, hprev', hnext, hnext', hd1, hd1',
      hd2, hd2', hr1, hr2]
  · simp only [RepeatedScrollSnapPoint.Evaluate, hS', hE', hF2, hi, hpassed', hprev', hnext',
      if_pos hin]
    split_ifs
    · exact ⟨P, rfl⟩
    · exact ⟨v, rfl⟩
    · exact ⟨P + i, rfl⟩
    · exact ⟨v, rfl⟩

/-- On a repeated zoom point whose offset, interval and start are integers of magnitude at most
`2 ^ 48` the rounded computation of the first position is the exact one. -/
theorem binary64_zoom_First_intCast (p : RepeatedZoomSnapPoint) (o i s : ℤ)
    (ho : p.m_offset = Dbl.fin o) (hi : p.m_interval = Dbl.fin i) (hs : p.m_start = Dbl.fin s)
    (hob : |o| ≤ 2 ^ 48) (hib : i ≤ 2 ^ 48) (hsb : |s| ≤ 2 ^ 48) (hipos : 0 < i) :
    Binary64.RepeatedZoomSnapPoint.DetermineFirstRepeatedSnapPointValue p
      = Dbl.fin ((o - (o - s) / i * i : ℤ) : ℚ) ∧
    p.DetermineFirstRepeatedSnapPointValue = Dbl.fin ((o - (o - s) / i * i : ℤ) : ℚ) := by
  rw [abs_le] at hob hsb
  have hk1 : (o - s) / i * i ≤ o - s := Int.ediv_mul_le _ (by omega)
  have hk2 : o - s < (o - s) / i * i + i := by
    have := Int.lt_ediv_add_one_mul_self (o - s) hipos
    linarith
  constructor
  · simp only [Binary64.RepeatedZoomSnapPoint.DetermineFirstRepeatedSnapPointValue, ho, hi, hs]
    rw [Binary64.sub_intCast _ _ (abs_lt.mpr ⟨by linarith, by linarith⟩),
      Binary64.floor_div_intCast _ _ hipos (abs_lt.mpr ⟨by linarith, by linarith⟩) (by linarith),
      Binary64.mul_intCast _ _ (abs_lt.mpr ⟨by linarith, by linarith⟩),
      Binary64.sub_intCast _ _ (abs_lt.mpr ⟨by linarith, by linarith⟩)]
  · simp only [RepeatedZoomSnapPoint.DetermineFirstRepeatedSnapPointValue, ho, hi, hs,
      Dbl.fin_sub_fin]
    rw [← Int.cast_sub, Binary64.exact_floor_div_intCast _ _ hipos, Dbl.fin_mul_fin,
      Dbl.fin_sub_fin]
    push_cast
    rfl

/-- The same for the last position. -/
theorem binary64_zoom_Last_intCast (p : RepeatedZoomSnapPoint) (o i e : ℤ)
    (ho : p.m_offset = Dbl.fin o) (hi : p.m_interval = Dbl.fin i) (he : p.m_end = Dbl.fin e)
    (hob : |o| ≤ 2 ^ 48) (hib : i ≤ 2 ^ 48) (heb : |e| ≤ 2 ^ 48) (hipos : 0 < i) :
    Binary64.RepeatedZoomSnapPoint.DetermineLastRepeatedSnapPointValue p
      = Dbl.fin ((o + (e - o) / i * i : ℤ) : ℚ) ∧
    p.DetermineLastRepeatedSnapPointValue = Dbl.fin ((o + (e - o) / i * i : ℤ) : ℚ) := by
  rw [abs_le] at hob heb
  have hk1 : (e - o) / i * i ≤ e - o := Int.ediv_mul_le _ (by omega)
  have hk2 : e - o < (e - o) / i * i + i := by
    have := Int.lt_ediv_add_one_mul_self (e - o) hipos
    linarith
  constructor
  · simp only [Binary64.RepeatedZoomSnapPoint.DetermineLastRepeatedSnapPointValue, ho, hi, he]
    rw [Binary64.sub_intCast _ _ (abs_lt.mpr ⟨by linarith, by linarith⟩),
      Binary64.floor_div_intCast _ _ hipos (abs_lt.mpr ⟨by linarith, by linarith⟩) (by linarith),
      Binary64.mul_intCast _ _ (abs_lt.mpr ⟨by linarith, by linarith⟩),
      Binary64.add_intCast _ _ (abs_lt.mpr ⟨by linarith, by linarith⟩)]
  · simp only [RepeatedZoomSnapPoint.DetermineLastRepeatedSnapPointValue, ho, hi, he,
      Dbl.fin_sub_fin]
    rw [← Int.cast_sub, Binary64.exact_floor_div_intCast _ _ hipos, Dbl.fin_mul_fin,
      Dbl.fin_add_fin]
    push_cast
    rfl

/-- On integers (fields of magnitude at most `2 ^ 48`, a range that is such an integer or
`INFINITY`, any integer value) the rounded `Evaluate` of a repeated zoom point is the exact
one, and its result is an integer. -/
theorem binary64_zoom_Evaluate_intCast (p : RepeatedZoomSnapPoint)
    (o i s e v : ℤ) (zone : Dbl × Dbl)
    (ho : p.m_offset = Dbl.fin o) (hi : p.m_interval = Dbl.fin i) (hs : p.m_start = Dbl.fin s)
    (he : p.m_end = Dbl.fin e)
    (hr : p.m_specifiedApplicableRange = Dbl.pinf ∨
      ∃ r : ℤ, |r| ≤ 2 ^ 48 ∧ p.m_specifiedApplicableRange = Dbl.fin r)
    (hob : |o| ≤ 2 ^ 48) (hib : i ≤ 2 ^ 48) (hsb : |s| ≤ 2 ^ 48) (heb : |e| ≤ 2 ^ 48)
    (hipos : 0 < i) :
    Binary64.RepeatedZoomSnapPoint.Evaluate p zone (Dbl.fin v) = p.Evaluate zone (Dbl.fin v) ∧
    ∃ w : ℤ, p.Evaluate zone (Dbl.fin v) = Dbl.fin w := by
  obtain ⟨hF1, hF2⟩ := binary64_zoom_First_intCast p o i s ho hi hs hob hib hsb hipos
  rw [abs_le] at hob hsb heb
  by_cases hin : Dbl.fin (v : ℚ) ≥ Dbl.fin (s : ℚ) ∧ Dbl.fin (v : ℚ) ≤ Dbl.fin (e : ℚ)
  swap
  · refine ⟨?_, v, ?_⟩
    · simp only [Binary64.RepeatedZoomSnapPoint.Evaluate, RepeatedZoomSnapPoint.Evaluate,
        hs, he, if_neg hin]
    · simp only [RepeatedZoomSnapPoint.Evaluate, hs, he, if_neg hin]
  have hvlo : s ≤ v := by
    have := hin.1
    rw [ge_iff_le, Dbl.fin_le_fin] at this
    exact_mod_cast this
  have hvhi : v ≤ e := by
    have := hin.2
    rw [Dbl.fin_le_fin] at this
    exact_mod_cast this
  have hk1 : (o - s) / i * i ≤ o - s := Int.ediv_mul_le _ (by omega)
  have hk2 : o - s < (o - s) / i * i + i := by
    have := Int.lt_ediv_add_one_mul_self (o - s) hipos
    linarith
  set F : ℤ := o - (o - s) / i * i with hFdef
  have hp1 : (v - F) / i * i ≤ v - F := Int.ediv_mul_le _ (by omega)
  have hp2 : v - F < (v - F) / i * i + i := by
    have := Int.lt_ediv_add_one_mul_self (v - F) hipos
    linarith
  have hFlo : s ≤ F := by rw [hFdef]; linarith
  have hFhi : F < s + i := by rw [hFdef]; linarith
  set P : ℤ := (v - F) / i * i + F with hPdef
  have hPlo : v - i < P := by rw [hPdef]; linarith
  have hPhi : P ≤ v := by rw [hPdef]; linarith
  have hpassed : Dbl.floor (Binary64.div (Binary64.sub (Dbl.fin v) (Dbl.fin F)) (Dbl.fin i))
      = Dbl.fin (((v - F) / i : ℤ) : ℚ) := by
    rw [Binary64.sub_intCast _ _ (abs_lt.mpr ⟨by linarith, by linarith⟩),
      Binary64.floor_div_intCast _ _ hipos (abs_lt.mpr ⟨by linarith, by linarith⟩) (by linarith)]
  have hpassed' : Dbl.floor ((Dbl.fin v - Dbl.fin F) / Dbl.fin i)
      = Dbl.fin (((v - F) / i : ℤ) : ℚ) := by
    rw [Dbl.fin_sub_fin, ← Int.cast_sub, Binary64.exact_floor_div_intCast _ _ hipos]
  have hprev : Binary64.add (Binary64.mul (Dbl.fin (((v - F) / i : ℤ) : ℚ)) (Dbl.fin i))
      (Dbl.fin F) = Dbl.fin (P : ℚ) := by
    rw [Binary64.mul_intCast _ _ (abs_lt.mpr ⟨by linarith, by linarith⟩),
      Binary64.add_intCast _ _ (abs_lt.mpr ⟨by linarith, by linarith⟩)]
  have hprev' : Dbl.fin (((v - F) / i : ℤ) : ℚ) * Dbl.fin i + Dbl.fin F = Dbl.fin (P : ℚ) := by
    rw [Dbl.fin_mul_fin, Dbl.fin_add_fin, hPdef]; push_cast; rfl
  have hnext : Binary64.add (Dbl.fin (P : ℚ)) (Dbl.fin i) = Dbl.fin ((P + i : ℤ) : ℚ) :=
    Binary64.add_intCast _ _ (abs_lt.mpr ⟨by linarith, by linarith⟩)
  have hnext' : Dbl.fin (P : ℚ) + Dbl.fin i = Dbl.fin ((P + i : ℤ) : ℚ) := by
    rw [Dbl.fin_add_fin]; push_cast; rfl
  have hd1 : Binary64.sub (Dbl.fin v) (Dbl.fin (P : ℚ)) = Dbl.fin ((v - P : ℤ) : ℚ) :=
    Binary64.sub_intCast _ _ (abs_lt.mpr ⟨by linarith, by linarith⟩)
  have hd1' : Dbl.fin (v : ℚ) - Dbl.fin (P : ℚ) = Dbl.fin ((v - P : ℤ) : ℚ) := by
    rw [Dbl.fin_sub_fin]; push_cast; rfl
  have hd2 : Binary64.sub (Dbl.fin ((P + i : ℤ) : ℚ)) (Dbl.fin v)
      = Dbl.fin ((P + i - v : ℤ) : ℚ) :=
    Binary64.sub_intCast _ _ (abs_lt.mpr ⟨by linarith, by linarith⟩)
  have hd2' : Dbl.fin ((P + i : ℤ) : ℚ) - Dbl.fin (v : ℚ) = Dbl.fin ((P + i - v : ℤ) : ℚ) := by
    rw [Dbl.fin_sub_fin]; push_cast; rfl
  have hr1 : Binary64.add (Dbl.fin (P : ℚ)) p.m_specifiedApplicableRange
      = Dbl.fin (P : ℚ) + p.m_specifiedApplicableRange := by
    rcases hr with hr | ⟨r, hrb, hr⟩
    · rw [hr]; rfl
    · rw [hr, Dbl.fin_add_fin, ← Int.cast_add]
      rw [abs_le] at hrb
      exact Binary64.add_intCast _ _ (abs_lt.mpr ⟨by linarith, by linarith⟩)
  have hr2 : Binary64.sub (Dbl.fin ((P + i : ℤ) : ℚ)) p.m_specifiedApplicableRange
      = Dbl.fin ((P + i : ℤ) : ℚ) - p.m_specifiedApplicableRange := by
    rcases hr with hr | ⟨r, hrb, hr⟩
    · rw [hr]; rfl
    · rw [hr, Dbl.fin_sub_fin, ← Int.cast_sub]
      rw [abs_le] at hrb
      exact Binary64.sub_intCast _ _ (abs_lt.mpr ⟨by linarith, by linarith⟩)
  constructor
  · simp only [Binary64.RepeatedZoomSnapPoint.Evaluate, RepeatedZoomSnapPoint.Evaluate,
      hs, he, hF1, hF2, hi, hpassed, hpassed', hprev, hprev', hnext, hnext', hd1, hd1',
      hd2, hd2', hr1, hr2]
  · simp only [RepeatedZoomSnapPoint.Evaluate, hs, he, hF2, hi, hpassed', hprev', hnext',
      if_pos hin]
    split_ifs
    · exact ⟨P, rfl⟩
    · exact ⟨v, rfl⟩
    · exact ⟨P + i, rfl⟩
    · exact ⟨v, rfl⟩

namespace Dbl

/-- The result of `roundHalfEven` is a nearest integer, the even one at a tie. -/
theorem roundHalfEven_spec (z : ℚ) :
    |z - roundHalfEven z| < 1 / 2 ∨
      (|z - roundHalfEven z| = 1 / 2 ∧ roundHalfEven z % 2 = 0) := by
  have hf1 : (⌊z⌋ : ℚ) ≤ z := Int.floor_le z
  have hf2 : z < ⌊z⌋ + 1 := Int.lt_floor_add_one z
  unfold roundHalfEven
  simp only []
  by_cases h1 : z - (⌊z⌋ : ℚ) < 1 / 2
  · rw [if_pos h1]
    left
    rw [abs_lt]; constructor <;> linarith
  · rw [if_neg h1]
    by_cases h2 : (1 / 2 : ℚ) < z - (⌊z⌋ : ℚ)
    · rw [if_pos h2]
      left
      rw [abs_lt]; push_cast; constructor <;> linarith
    · rw [if_neg h2]
      have he : z - (⌊z⌋ : ℚ) = 1 / 2 := le_antisymm (not_lt.mp h2) (not_lt.mp h1)
      by_cases h3 : ⌊z⌋ % 2 = 0
      · rw [if_pos h3]
        right
        refine ⟨?_, h3⟩
        rw [he]; norm_num
      · rw [if_neg h3]
        right
        refine ⟨?_, by omega⟩
        push_cast
        have : z - ((⌊z⌋ : ℚ) + 1) = -(1 / 2) := by linarith
        rw [this]; norm_num

theorem roundHalfEven_neg (z : ℚ) : roundHalfEven (-z) = -roundHalfEven z := by
  apply roundHalfEven_eq
  have h := roundHalfEven_spec z
  have e : -z - ((-roundHalfEven z : ℤ) : ℚ) = -(z - roundHalfEven z) := by push_cast; ring
  rw [e, abs_neg]
  rcases h with h | ⟨h, he⟩
  · exact Or.inl h
  · exact Or.inr ⟨h, by omega⟩

theorem roundHalfEven_le_of_le (z : ℚ) (n : ℤ) (h : z ≤ n) : roundHalfEven z ≤ n := by
  have hf1 : (⌊z⌋ : ℚ) ≤ z := Int.floor_le z
  have hfn : ⌊z⌋ ≤ n := by
    have : (⌊z⌋ : ℚ) ≤ ((n : ℤ) : ℚ) := le_trans hf1 h
    exact_mod_cast this
  unfold roundHalfEven
  simp only []
  by_cases h1 : z - (⌊z⌋ : ℚ) < 1 / 2
  · rw [if_pos h1]; exact hfn
  · have hlt : ⌊z⌋ < n := by
      have : (⌊z⌋ : ℚ) < ((n : ℤ) : ℚ) := by
        have : (⌊z⌋ : ℚ) < z := by linarith
        exact lt_of_lt_of_le this h
      exact_mod_cast this
    rw [if_neg h1]
    split_ifs <;> omega

theorem le_roundHalfEven_of_le (z : ℚ) (n : ℤ) (h : (n : ℚ) ≤ z) : n ≤ roundHalfEven z :=
  le_trans (Int.le_floor.mpr h) (floor_le_roundHalfEven z)

/-- The rounding of a nonzero rational, unfolded. -/
theorem round64_fin_of_ne (x : ℚ) (hx : x ≠ 0) :
    round64 (fin x)
      = if (2 : ℚ) ^ (1024 : ℤ)
            ≤ |(roundHalfEven (x / 2 ^ (max (Int.log 2 |x|) (-1022) - 52)) : ℚ)
                * 2 ^ (max (Int.log 2 |x|) (-1022) - 52)| then
          infOfSign (decide (0 < x))
        else
          fin ((roundHalfEven (x / 2 ^ (max (Int.log 2 |x|) (-1022) - 52)) : ℚ)
            * 2 ^ (max (Int.log 2 |x|) (-1022) - 52)) := by
  show roundTo 53 (-1022) 1023 x = _
  unfold roundTo
  rw [if_neg hx]
  have h53 : (((53 : ℕ) : ℤ) - 1) = 52 := by norm_num
  have h1024 : ((1023 : ℤ) + 1) = 1024 := by norm_num
  simp only [h53, h1024]

theorem round64_zero : round64 (fin 0) = fin 0 := by
  simp [round64, roundTo]

theorem round64_neg (x : ℚ) : round64 (fin (-x)) = -round64 (fin x) := by
  by_cases hx : x = 0
  · subst hx; simp [round64_zero]
  have hnx : -x ≠ 0 := neg_ne_zero.mpr hx
  rw [round64_fin_of_ne x hx, round64_fin_of_ne (-x) hnx, abs_neg, neg_div, roundHalfEven_neg]
  have e : ((-roundHalfEven (x / 2 ^ (max (Int.log 2 |x|) (-1022) - 52)) : ℤ) : ℚ)
      * 2 ^ (max (Int.log 2 |x|) (-1022) - 52)
      = -((roundHalfEven (x / 2 ^ (max (Int.log 2 |x|) (-1022) - 52)) : ℚ)
        * 2 ^ (max (Int.log 2 |x|) (-1022) - 52)) := by push_cast; ring
  rw [e, abs_neg]
  split_ifs with h
  · rcases lt_or_gt_of_ne hx with hneg | hpos
    · have h1 : ¬ (0 < x) := not_lt.mpr hneg.le
      have h2 : 0 < -x := by linarith
      simp [infOfSign, h1, h2]
    · have h1 : ¬ (0 < -x) := by linarith
      simp [infOfSign, h1, hpos]
  · rfl

end Dbl

namespace Dbl

/-- The rounding of a positive rational: the exponent, the integer significand, and the two
outcomes. -/
theorem round64_pos_form (z : ℚ) (hz : 0 < z) :
    ∃ (e n : ℤ), e = max (Int.log 2 z) (-1022) ∧ n = roundHalfEven (z / 2 ^ (e - 52)) ∧ 0 ≤ n ∧
      ((round64 (fin z) = pinf ∧ (2 : ℚ) ^ (1024 : ℤ) ≤ (n : ℚ) * 2 ^ (e - 52)) ∨
        (round64 (fin z) = fin ((n : ℚ) * 2 ^ (e - 52)) ∧
          (n : ℚ) * 2 ^ (e - 52) < (2 : ℚ) ^ (1024 : ℤ))) := by
  have h2 : (0 : ℚ) < 2 := by norm_num
  refine ⟨max (Int.log 2 z) (-1022), roundHalfEven (z / 2 ^ (max (Int.log 2 z) (-1022) - 52)),
    rfl, rfl, ?_, ?_⟩
  · apply le_roundHalfEven_of_le
    push_cast
    exact div_nonneg hz.le (zpow_pos h2 _).le
  · have hn : (0 : ℚ) ≤ (roundHalfEven (z / 2 ^ (max (Int.log 2 z) (-1022) - 52)) : ℚ) := by
      have : (0 : ℤ) ≤ roundHalfEven (z / 2 ^ (max (Int.log 2 z) (-1022) - 52)) := by
        apply le_roundHalfEven_of_le
        push_cast
        exact div_nonneg hz.le (zpow_pos h2 _).le
      exact_mod_cast this
    have hnq : (0 : ℚ) ≤ (roundHalfEven (z / 2 ^ (max (Int.log 2 z) (-1022) - 52)) : ℚ)
        * 2 ^ (max (Int.log 2 z) (-1022) - 52) := mul_nonneg hn (zpow_pos h2 _).le
    rw [round64_fin_of_ne z (ne_of_gt hz), abs_of_pos hz, abs_of_nonneg hnq]
    by_cases hov : (2 : ℚ) ^ (1024 : ℤ)
        ≤ (roundHalfEven (z / 2 ^ (max (Int.log 2 z) (-1022) - 52)) : ℚ)
          * 2 ^ (max (Int.log 2 z) (-1022) - 52)
    · left
      rw [if_pos hov]
      exact ⟨by simp [infOfSign, hz], hov⟩
    · right
      rw [if_neg hov]
      exact ⟨rfl, not_le.mp hov⟩

/-- Rounding does not pass a positive double from below. -/
theorem round64_le_of_le_pos (x z : ℚ) (hx : round64 (fin x) = fin x) (hz : 0 < z)
    (hzx : z ≤ x) : ∃ y : ℚ, round64 (fin z) = fin y ∧ 0 ≤ y ∧ y ≤ x := by
  have h2 : (0 : ℚ) < 2 := by norm_num
  have h2' : (2 : ℚ) ≠ 0 := by norm_num
  have hxpos : 0 < x := lt_of_lt_of_le hz hzx
  obtain ⟨ex, nx, hex, hnx, hnx0, hcx⟩ := round64_pos_form x hxpos
  obtain ⟨ez, nz, hez, hnz, hnz0, hcz⟩ := round64_pos_form z hz
  have hxeq : (nx : ℚ) * 2 ^ (ex - 52) = x ∧ x < (2 : ℚ) ^ (1024 : ℤ) := by
    rcases hcx with ⟨h, _⟩ | ⟨h, hlt⟩
    · rw [hx] at h; exact absurd h (by simp)
    · rw [hx] at h
      have := Dbl.fin.inj h
      exact ⟨this.symm, by rw [this]; exact hlt⟩
  have hee : ez ≤ ex := by
    rw [hez, hex]
    exact max_le_max (Int.log_mono_right hz hzx) le_rfl
  obtain ⟨t, ht⟩ : ∃ t : ℕ, (t : ℤ) = ex - ez := ⟨(ex - ez).toNat, by omega⟩
  have hM : x / 2 ^ (ez - 52) = ((nx * 2 ^ t : ℤ) : ℚ) := by
    rw [← hxeq.1]
    push_cast
    rw [← zpow_natCast (2 : ℚ) t, ht, mul_div_assoc, ← zpow_sub₀ h2']
    congr 2
    ring
  have hle : nz ≤ nx * 2 ^ t := by
    rw [hnz]
    apply roundHalfEven_le_of_le
    rw [← hM]
    exact div_le_div_of_nonneg_right hzx (zpow_pos h2 _).le
  have hy : (nz : ℚ) * 2 ^ (ez - 52) ≤ x := by
    have h1 : (nz : ℚ) ≤ ((nx * 2 ^ t : ℤ) : ℚ) := by exact_mod_cast hle
    rw [← hM] at h1
    rwa [le_div_iff₀ (zpow_pos h2 _)] at h1
  have hy0 : (0 : ℚ) ≤ (nz : ℚ) * 2 ^ (ez - 52) :=
    mul_nonneg (by exact_mod_cast hnz0) (zpow_pos h2 _).le
  rcases hcz with ⟨_, hov⟩ | ⟨h, _⟩
  · linarith [hxeq.2]
  · exact ⟨_, h, hy0, hy⟩

/-- Rounding does not pass a positive double from above. -/
theorem le_round64_of_le_pos (x z : ℚ) (hx : round64 (fin x) = fin x) (hxpos : 0 < x)
    (hxz : x ≤ z) : fin x ≤ round64 (fin z) := by
  have h2 : (0 : ℚ) < 2 := by norm_num
  have h2' : (2 : ℚ) ≠ 0 := by norm_num
  have hz : 0 < z := lt_of_lt_of_le hxpos hxz
  obtain ⟨ex, nx, hex, hnx, hnx0, hcx⟩ := round64_pos_form x hxpos
  obtain ⟨ez, nz, hez, hnz, hnz0, hcz⟩ := round64_pos_form z hz
  have hxeq : (nx : ℚ) * 2 ^ (ex - 52) = x := by
    rcases hcx with ⟨h, _⟩ | ⟨h, hlt⟩
    · rw [hx] at h; exact absurd h (by simp)
    · rw [hx] at h
      exact (Dbl.fin.inj h).symm
  rcases hcz with ⟨h, _⟩ | ⟨h, _⟩
  · rw [h]; simp
  rw [h, fin_le_fin]
  have hee : ex ≤ ez := by
    rw [hez, hex]
    exact max_le_max (Int.log_mono_right hxpos hxz) le_rfl
  rcases eq_or_lt_of_le hee with heq | hlt
  · -- same exponent
    have hxq : x / 2 ^ (ez - 52) = (nx : ℚ) := by
      rw [← heq, ← hxeq]
      field_simp
    have hle : nx ≤ nz := by
      rw [hnz]
      apply le_roundHalfEven_of_le
      rw [← hxq]
      exact div_le_div_of_nonneg_right hxz (zpow_pos h2 _).le
    rw [← hxeq, heq]
    exact mul_le_mul_of_nonneg_right (by exact_mod_cast hle) (zpow_pos h2 _).le
  · -- a higher exponent
    have hezlog : ez = Int.log 2 z := by
      rw [hez]
      apply max_eq_left
      have : (-1022 : ℤ) ≤ ex := by rw [hex]; exact le_max_right _ _
      by_contra hcon
      push_neg at hcon
      have : ez = -1022 := by rw [hez]; exact max_eq_right hcon.le
      omega
    have hzlo : (2 : ℚ) ^ ez ≤ z := by
      rw [hezlog]
      have := Int.zpow_log_le_self (b := 2) (by norm_num) hz
      exact_mod_cast this
    have hxhi : x < (2 : ℚ) ^ (ex + 1) := by
      have h1 : x < (2 : ℚ) ^ (Int.log 2 x + 1) := by
        have := Int.lt_zpow_succ_log_self (b := 2) (by norm_num) x
        exact_mod_cast this
      have h3 : Int.log 2 x + 1 ≤ ex + 1 := by
        have : Int.log 2 x ≤ ex := by rw [hex]; exact le_max_left _ _
        omega
      exact lt_of_lt_of_le h1 (zpow_le_zpow_right₀ (by norm_num) h3)
    have hnzlo : (2 : ℤ) ^ 52 ≤ nz := by
      rw [hnz]
      apply le_roundHalfEven_of_le
      rw [le_div_iff₀ (zpow_pos h2 _)]
      have : (((2 : ℤ) ^ 52 : ℤ) : ℚ) * 2 ^ (ez - 52) = 2 ^ ez := by
        have h52 : (((2 : ℤ) ^ 52 : ℤ) : ℚ) = (2 : ℚ) ^ (52 : ℤ) := by norm_num
        rw [h52, ← zpow_add₀ h2']
        congr 1
        ring
      rw [this]; exact hzlo
    have h4 : (2 : ℚ) ^ ez ≤ (nz : ℚ) * 2 ^ (ez - 52) := by
      have : (((2 : ℤ) ^ 52 : ℤ) : ℚ) * 2 ^ (ez - 52) = 2 ^ ez := by
        have h52 : (((2 : ℤ) ^ 52 : ℤ) : ℚ) = (2 : ℚ) ^ (52 : ℤ) := by norm_num
        rw [h52, ← zpow_add₀ h2']
        congr 1
        ring
      rw [← this]
      exact mul_le_mul_of_nonneg_right (by exact_mod_cast hnzlo) (zpow_pos h2 _).le
    have h5 : (2 : ℚ) ^ (ex + 1) ≤ 2 ^ ez := zpow_le_zpow_right₀ (by norm_num) (by omega)
    linarith

end Dbl

namespace Dbl

/-- A number `n * 2 ^ j` with `|n| < 2 ^ 53`, `-1074 ≤ j` and magnitude below `2 ^ 1024` is a
double (subnormal numbers included). -/
theorem round64_dyadic_lt (n j : ℤ) (hn : |n| < 2 ^ 53) (hj : -1074 ≤ j)
    (hov : |(n : ℚ) * 2 ^ j| < (2 : ℚ) ^ (1024 : ℤ)) :
    round64 (fin ((n : ℚ) * 2 ^ j)) = fin ((n : ℚ) * 2 ^ j) := by
  by_cases hn0 : n = 0
  · subst hn0; simp [round64_zero]
  have h2 : (0 : ℚ) < 2 := by norm_num
  have h2' : (2 : ℚ) ≠ 0 := by norm_num
  set x : ℚ := (n : ℚ) * 2 ^ j with hx
  have hnq2 : |(n : ℚ)| < 2 ^ (53 : ℤ) := by
    have : ((|n| : ℤ) : ℚ) < ((2 ^ 53 : ℤ) : ℚ) := by exact_mod_cast hn
    rw [Int.cast_abs] at this
    have e53 : ((2 : ℚ) ^ (53 : ℤ)) = ((2 ^ 53 : ℤ) : ℚ) := by norm_num
    rw [e53]; exact this
  have hxabs : |x| = |(n : ℚ)| * 2 ^ j := by
    rw [hx, abs_mul, abs_of_pos (zpow_pos h2 j)]
  have hnq1 : (0 : ℚ) < |(n : ℚ)| := abs_pos.mpr (by exact_mod_cast hn0)
  have hxpos : 0 < |x| := by
    rw [hxabs]; exact mul_pos hnq1 (zpow_pos h2 j)
  have hx0 : x ≠ 0 := abs_pos.mp hxpos
  have hlog : Int.log 2 |x| < 53 + j := by
    have : |x| < (2 : ℚ) ^ (53 + j) := by
      rw [hxabs, zpow_add₀ h2']
      exact mul_lt_mul_of_pos_right hnq2 (zpow_pos h2 j)
    exact (Int.lt_zpow_iff_log_lt (b := 2) (by norm_num) hxpos (x := 53 + j)).1
      (by exact_mod_cast this)
  set E : ℤ := max (Int.log 2 |x|) (-1022) with hE
  have hEj : E ≤ j + 52 := by
    rw [hE]
    apply max_le <;> omega
  obtain ⟨t, ht⟩ : ∃ t : ℕ, (t : ℤ) = j - E + 52 := ⟨(j - E + 52).toNat, by omega⟩
  have hdiv : x / 2 ^ (E - 52) = ((n * 2 ^ t : ℤ) : ℚ) := by
    rw [hx]
    push_cast
    rw [← zpow_natCast (2 : ℚ) t, ht, mul_div_assoc, ← zpow_sub₀ h2']
    congr 2
    ring
  have hback : ((n * 2 ^ t : ℤ) : ℚ) * 2 ^ (E - 52) = x := by
    rw [← hdiv]
    field_simp
  rw [round64_fin_of_ne x hx0, ← hE, hdiv, roundHalfEven_intCast, hback,
    if_neg (not_le.mpr hov)]

/-- The same with `|n| ≤ 2 ^ 53`. -/
theorem round64_dyadic_le (n j : ℤ) (hn : |n| ≤ 2 ^ 53) (hj : -1074 ≤ j)
    (hov : |(n : ℚ) * 2 ^ j| < (2 : ℚ) ^ (1024 : ℤ)) :
    round64 (fin ((n : ℚ) * 2 ^ j)) = fin ((n : ℚ) * 2 ^ j) := by
  rcases lt_or_eq_of_le hn with h | h
  · exact round64_dyadic_lt n j h hj hov
  · have h2' : (2 : ℚ) ≠ 0 := by norm_num
    have hcase : n = 2 ^ 53 ∨ n = -(2 ^ 53) := by
      rcases abs_cases n with ⟨h1, _⟩ | ⟨h1, _⟩ <;> omega
    have hre : (n : ℚ) * 2 ^ j = (((n / 2 : ℤ) : ℤ) : ℚ) * 2 ^ (j + 1) := by
      have hn2 : (n : ℚ) = ((n / 2 : ℤ) : ℚ) * 2 := by
        have : n = (n / 2) * 2 := by rcases hcase with h1 | h1 <;> omega
        exact_mod_cast this
      rw [zpow_add₀ h2', zpow_one]
      conv_lhs => rw [hn2]
      ring
    rw [hre] at hov ⊢
    apply round64_dyadic_lt _ _ _ (by omega) hov
    rcases hcase with h1 | h1 <;> rw [h1] <;> norm_num

/-- A finite result of a rounding is `n * 2 ^ j` with `|n| ≤ 2 ^ 53` and `-1074 ≤ j`. -/
theorem round64_result_dyadic (z y : ℚ) (h : round64 (fin z) = fin y) :
    ∃ n j : ℤ, |n| ≤ 2 ^ 53 ∧ -1074 ≤ j ∧ y = (n : ℚ) * 2 ^ j ∧ |y| < (2 : ℚ) ^ (1024 : ℤ) := by
  have h2 : (0 : ℚ) < 2 := by norm_num
  have h2' : (2 : ℚ) ≠ 0 := by norm_num
  -- positive arguments
  have hpos : ∀ z y : ℚ, 0 < z → round64 (fin z) = fin y →
      ∃ n j : ℤ, |n| ≤ 2 ^ 53 ∧ -1074 ≤ j ∧ y = (n : ℚ) * 2 ^ j ∧
        |y| < (2 : ℚ) ^ (1024 : ℤ) := by
    intro z y hz h
    obtain ⟨e, n, he, hn, hn0, hc⟩ := round64_pos_form z hz
    rcases hc with ⟨h1, _⟩ | ⟨h1, hlt⟩
    · rw [h] at h1; exact absurd h1 (by simp)
    · rw [h] at h1
      have hy := Dbl.fin.inj h1
      have hzhi : z < (2 : ℚ) ^ (e + 1) := by
        have h1 : z < (2 : ℚ) ^ (Int.log 2 z + 1) := by
          have := Int.lt_zpow_succ_log_self (b := 2) (by norm_num) z
          exact_mod_cast this
        have h3 : Int.log 2 z + 1 ≤ e + 1 := by
          have : Int.log 2 z ≤ e := by rw [he]; exact le_max_left _ _
          omega
        exact lt_of_lt_of_le h1 (zpow_le_zpow_right₀ (by norm_num) h3)
      have hnle : n ≤ 2 ^ 53 := by
        rw [hn]
        apply roundHalfEven_le_of_le
        rw [div_le_iff₀ (zpow_pos h2 _)]
        have : (((2 : ℤ) ^ 53 : ℤ) : ℚ) * 2 ^ (e - 52) = 2 ^ (e + 1) := by
          have h53 : (((2 : ℤ) ^ 53 : ℤ) : ℚ) = (2 : ℚ) ^ (53 : ℤ) := by norm_num
          rw [h53, ← zpow_add₀ h2']
          congr 1
          ring
        rw [this]; exact hzhi.le
      have hemin : (-1022 : ℤ) ≤ e := by rw [he]; exact le_max_right _ _
      refine ⟨n, e - 52, ?_, by omega, hy, ?_⟩
      · rw [abs_of_nonneg hn0]; exact hnle
      · rw [hy, abs_of_nonneg (mul_nonneg (by exact_mod_cast hn0) (zpow_pos h2 _).le)]
        exact hlt
  rcases lt_trichotomy z 0 with hz | hz | hz
  · have hneg : round64 (fin (-z)) = fin (-y) := by
      rw [round64_neg, h]; rfl
    obtain ⟨n, j, hn, hj, hy, hov⟩ := hpos (-z) (-y) (by linarith) hneg
    refine ⟨-n, j, by rwa [abs_neg], hj, ?_, by rwa [abs_neg] at hov⟩
    push_cast
    linarith
  · subst hz
    rw [round64_zero] at h
    have := Dbl.fin.inj h
    exact ⟨0, 0, by norm_num, by norm_num, by simp [← this], by rw [← this]; norm_num⟩
  · exact hpos z y hz h

/-- Twice a double is a double, short of overflow. -/
theorem round64_two_mul (x : ℚ) (hx : round64 (fin x) = fin x)
    (hb : |x| < (2 : ℚ) ^ (1023 : ℤ)) : round64 (fin (2 * x)) = fin (2 * x) := by
  have h2' : (2 : ℚ) ≠ 0 := by norm_num
  obtain ⟨n, j, hn, hj, hyeq, hov⟩ := round64_result_dyadic x x hx
  have hre : 2 * x = (n : ℚ) * 2 ^ (j + 1) := by
    rw [hyeq, zpow_add₀ h2', zpow_one]; ring
  rw [hre]
  apply round64_dyadic_le n (j + 1) hn (by omega)
  rw [← hre, abs_mul]
  have h1024 : (2 : ℚ) ^ (1024 : ℤ) = 2 * 2 ^ (1023 : ℤ) := by
    rw [show (1024 : ℤ) = 1023 + 1 from rfl, zpow_add₀ h2', zpow_one]; ring
  have habs2 : |(2 : ℚ)| = 2 := abs_of_pos (by norm_num)
  rw [h1024, habs2]
  linarith

end Dbl

/-! ## Rounding: order -/

namespace Dbl

/-- The rounding of a rational keeps its sign and is never `nan`. -/
theorem round64_fin_cases (z : ℚ) :
    (round64 (fin z) = pinf ∧ 0 < z) ∨ (round64 (fin z) = ninf ∧ z < 0) ∨
      ∃ y : ℚ, round64 (fin z) = fin y ∧ (0 ≤ z → 0 ≤ y) ∧ (z ≤ 0 → y ≤ 0) := by
  have hpos : ∀ w : ℚ, 0 < w →
      round64 (fin w) = pinf ∨ ∃ y : ℚ, round64 (fin w) = fin y ∧ 0 ≤ y := by
    intro w hw
    obtain ⟨e, n, _, _, hn, h | h⟩ := round64_pos_form w hw
    · exact Or.inl h.1
    · refine Or.inr ⟨_, h.1, ?_⟩
      have : (0 : ℚ) ≤ (n : ℚ) := by exact_mod_cast hn
      exact mul_nonneg this (zpow_pos (by norm_num : (0 : ℚ) < 2) _).le
  rcases lt_trichotomy z 0 with hz | hz | hz
  · have hneg := round64_neg (-z)
    rw [neg_neg] at hneg
    rcases hpos (-z) (by linarith) with h | ⟨y, h, hy⟩
    · right; left
      rw [hneg, h]
      exact ⟨rfl, hz⟩
    · right; right
      refine ⟨-y, ?_, fun h0 => absurd hz (not_lt.mpr h0), fun _ => by linarith⟩
      rw [hneg, h]
      rfl
  · subst hz
    right; right
    exact ⟨0, round64_zero, fun _ => le_refl _, fun _ => le_refl _⟩
  · rcases hpos z hz with h | ⟨y, h, hy⟩
    · left; exact ⟨h, hz⟩
    · right; right
      exact ⟨y, h, fun _ => hy, fun h0 => absurd hz (not_lt.mpr h0)⟩

/-- Rounding never passes a double from below: `z <= x` gives `round64 z <= x`. -/
theorem round64_le_of_le (x z : ℚ) (hx : round64 (fin x) = fin x) (hzx : z ≤ x) :
    round64 (fin z) ≤ fin x := by
  rcases lt_or_le 0 z with hz | hz
  · obtain ⟨y, hy, _, hyx⟩ := round64_le_of_le_pos x z hx hz hzx
    rw [hy, fin_le_fin]
    exact hyx
  · rcases lt_or_le x 0 with hxneg | hxpos
    · -- both negative: mirror
      have hx' : round64 (fin (-x)) = fin (-x) := by rw [round64_neg, hx]; rfl
      have h := le_round64_of_le_pos (-x) (-z) hx' (by linarith) (by linarith)
      rw [round64_neg] at h
      rcases round64_fin_cases z with ⟨h1, h2⟩ | ⟨h1, _⟩ | ⟨y, h1, _, _⟩
      · exact absurd h2 (not_lt.mpr hz)
      · rw [h1]; exact ninf_le_fin x
      · rw [h1] at h ⊢
        rw [neg_fin, fin_le_fin] at h
        rw [fin_le_fin]
        linarith
    · rcases round64_fin_cases z with ⟨_, h2⟩ | ⟨h1, _⟩ | ⟨y, h1, _, hy⟩
      · exact absurd h2 (not_lt.mpr hz)
      · rw [h1]; exact ninf_le_fin x
      · rw [h1, fin_le_fin]
        linarith [hy hz]

/-- Rounding never passes a double from above: `x <= z` gives `x <= round64 z`. -/
theorem le_round64_of_le (x z : ℚ) (hx : round64 (fin x) = fin x) (hxz : x ≤ z) :
    fin x ≤ round64 (fin z) := by
  have hx' : round64 (fin (-x)) = fin (-x) := by rw [round64_neg, hx]; rfl
  have h := round64_le_of_le (-x) (-z) hx' (by linarith)
  rw [round64_neg] at h
  rcases round64_fin_cases z with ⟨h1, _⟩ | ⟨h1, _⟩ | ⟨y, h1, _, _⟩
  · rw [h1]; exact fin_le_pinf x
  · rw [h1] at h
    exact absurd h (by simp)
  · rw [h1] at h ⊢
    rw [neg_fin, fin_le_fin] at h
    rw [fin_le_fin]
    linarith

end Dbl

/-! ## The midpoint `(a + b) / 2` as computed -/

namespace Binary64

/-- Value of `(a + b) / 2` computed in binary64 when the sum rounds to the finite `s`. -/
theorem div_two_of_add (s : ℚ) : div (Dbl.fin s) (Dbl.fin 2) = Dbl.round64 (Dbl.fin (s / 2)) := by
  rw [div, Dbl.fin_div_two]

/-- The computed midpoint of a double `a` (of magnitude below `2 ^ 1023`) and a number `b` not
below it is not below `a`. -/
theorem le_midpoint_computed (a : ℚ) (b : Dbl) (ha : Dbl.round64 (Dbl.fin a) = Dbl.fin a)
    (hb : |a| < (2 : ℚ) ^ (1023 : ℤ)) (hab : Dbl.fin a ≤ b) :
    Dbl.fin a ≤ div (add (Dbl.fin a) b) (Dbl.fin 2) := by
  have h2a := Dbl.round64_two_mul a ha hb
  cases b with
  | nan => exact absurd hab (by simp)
  | ninf => exact absurd hab (by simp)
  | pinf =>
      have : div (add (Dbl.fin a) Dbl.pinf) (Dbl.fin 2) = Dbl.pinf := by
        simp [div, add, Dbl.round64]
      rw [this]
      exact Dbl.fin_le_pinf a
  | fin q =>
      rw [Dbl.fin_le_fin] at hab
      have hs := Dbl.le_round64_of_le (2 * a) (a + q) h2a (by linarith)
      rw [add, Dbl.fin_add_fin]
      rcases Dbl.round64_fin_cases (a + q) with ⟨h1, _⟩ | ⟨h1, _⟩ | ⟨y, h1, _, _⟩
      · rw [h1]
        have : div Dbl.pinf (Dbl.fin 2) = Dbl.pinf := by simp [div, Dbl.round64]
        rw [this]
        exact Dbl.fin_le_pinf a
      · rw [h1] at hs
        exact absurd hs (by simp)
      · rw [h1] at hs ⊢
        rw [Dbl.fin_le_fin] at hs
        rw [div_two_of_add]
        exact Dbl.le_round64_of_le a (y / 2) ha (by linarith)

/-- The computed midpoint of a double `a` (of magnitude below `2 ^ 1023`) and a number `b` not
above it is not above `a`. -/
theorem midpoint_computed_le (a : ℚ) (b : Dbl) (ha : Dbl.round64 (Dbl.fin a) = Dbl.fin a)
    (hb : |a| < (2 : ℚ) ^ (1023 : ℤ)) (hab : b ≤ Dbl.fin a) :
    div (add (Dbl.fin a) b) (Dbl.fin 2) ≤ Dbl.fin a := by
  have h2a := Dbl.round64_two_mul a ha hb
  cases b with
  | nan => exact absurd hab (by simp)
  | pinf => exact absurd hab (by simp)
  | ninf =>
      have : div (add (Dbl.fin a) Dbl.ninf) (Dbl.fin 2) = Dbl.ninf := by
        simp [div, add, Dbl.round64]
      rw [this]
      exact Dbl.ninf_le_fin a
  | fin q =>
      rw [Dbl.fin_le_fin] at hab
      have hs := Dbl.round64_le_of_le (2 * a) (a + q) h2a (by linarith)
      rw [add, Dbl.fin_add_fin]
      rcases Dbl.round64_fin_cases (a + q) with ⟨h1, _⟩ | ⟨h1, _⟩ | ⟨y, h1, _, _⟩
      · rw [h1] at hs
        exact absurd hs (by simp)
      · rw [h1]
        have : div Dbl.ninf (Dbl.fin 2) = Dbl.ninf := by simp [div, Dbl.round64]
        rw [this]
        exact Dbl.ninf_le_fin a
      · rw [h1] at hs ⊢
        rw [Dbl.fin_le_fin] at hs
        rw [div_two_of_add]
        exact Dbl.round64_le_of_le a (y / 2) ha (by linarith)

/-- The exact sum of two doubles does not depend on the order of its terms. -/
theorem add_swap (a b : Dbl) : add a b = add b a := by
  have : a + b = b + a := by
    cases a <;> cases b <;> first | rfl | (simp only [Dbl.fin_add_fin]; rw [Rat.add_comm])
  rw [add, add, this]

end Binary64

/-! ## ImpulseInfluence of a single point, as computed -/

/-- A double that `isDouble` accepts is left unchanged by the rounding. -/
theorem Dbl.round64_of_isDouble {x : Dbl} (h : x.isDouble = true) : Dbl.round64 x = x := by
  simpa [Dbl.isDouble] using h

/-- An integer of magnitude below `2 ^ 53` is a double. -/
theorem Dbl.isDouble_intCast (n : ℤ) (hn : |n| < 2 ^ 53) : (Dbl.fin (n : ℚ)).isDouble = true := by
  simp only [Dbl.isDouble, decide_eq_true_eq]
  exact Dbl.round64_intCast n hn

/-- `ImpulseInfluence` of a single point with computed actual value `v`, unfolded. -/
theorem binary64_ImpulseInfluence_single (sp : SnapPointBase) (v e ignoredValue : Dbl)
    (hv : Binary64.SnapPointBase.singleValue sp = some v) :
    Binary64.SnapPointBase.ImpulseInfluence sp e ignoredValue
      = if ignoredValue.isnan then Binary64.div (Binary64.add v e) (Dbl.fin 2)
        else if v ≤ e then Dbl.std_min v (Binary64.div (Binary64.add v e) (Dbl.fin 2))
        else Dbl.std_max v (Binary64.div (Binary64.add v e) (Dbl.fin 2)) := by
  cases sp with
  | scroll p =>
      simp only [Binary64.SnapPointBase.singleValue, Option.some.injEq] at hv
      subst hv
      rfl
  | zoom p =>
      simp only [Binary64.SnapPointBase.singleValue, Option.some.injEq] at hv
      subst hv
      rfl
  | repeatedScroll p => simp [Binary64.SnapPointBase.singleValue] at hv
  | repeatedZoom p => simp [Binary64.SnapPointBase.singleValue] at hv

/-- The clamp of `ImpulseInfluence` returns the double `v` itself when `2 * v` does not
overflow. -/
theorem binary64_impulse_clamp (v : ℚ) (e : Dbl) (hd : Dbl.round64 (Dbl.fin v) = Dbl.fin v)
    (hb : |v| < (2 : ℚ) ^ (1023 : ℤ)) :
    (if Dbl.fin v ≤ e then
        Dbl.std_min (Dbl.fin v) (Binary64.div (Binary64.add (Dbl.fin v) e) (Dbl.fin 2))
      else Dbl.std_max (Dbl.fin v) (Binary64.div (Binary64.add (Dbl.fin v) e) (Dbl.fin 2)))
      = Dbl.fin v := by
  by_cases hle : Dbl.fin v ≤ e
  · rw [if_pos hle, Dbl.std_min]
    have h := Binary64.le_midpoint_computed v e hd hb hle
    rw [if_neg (Dbl.not_lt_of_le_dbl h)]
  · rw [if_neg hle, Dbl.std_max]
    by_cases hnan : e = Dbl.nan
    · subst hnan
      have : Binary64.div (Binary64.add (Dbl.fin v) Dbl.nan) (Dbl.fin 2) = Dbl.nan := by
        simp [Binary64.div, Binary64.add, Dbl.round64]
      rw [this, if_neg (Dbl.not_lt_nan _)]
    · have hlt : e < Dbl.fin v := Dbl.lt_of_not_le (by simp) hnan hle
      have h := Binary64.midpoint_computed_le v e hd hb (Dbl.le_of_lt hlt)
      rw [if_neg (Dbl.not_lt_of_le_dbl h)]

/-- C26 (amended). For a single snap point (scroll or zoom, whatever its applicable range) with
computed actual value `v`, every `edgeOfMidpoint` `e` and every `ignoredValue`:
`ImpulseInfluence(e, ignoredValue)` is the unclamped midpoint `(v + e) / 2`, as the program
computes it, when `ignoredValue` is NaN; when it is not NaN and `v` is a double of magnitude
below `2 ^ 1023` (so that `2 * v` does not overflow), the result is exactly `v`, for every
`e`. -/
theorem C26_single_ImpulseInfluence (sp : SnapPointBase) (v e ignoredValue : Dbl)
    (hv : Binary64.SnapPointBase.singleValue sp = some v) :
    (ignoredValue.isnan = true →
      Binary64.SnapPointBase.ImpulseInfluence sp e ignoredValue
        = Binary64.div (Binary64.add v e) (Dbl.fin 2)) ∧
    (ignoredValue.isnan = false → v.isDouble = true → Dbl.abs v < Dbl.fin (2 ^ 1023) →
      Binary64.SnapPointBase.ImpulseInfluence sp e ignoredValue = v) := by
  rw [binary64_ImpulseInfluence_single sp v e ignoredValue hv]
  constructor
  · intro h
    rw [if_pos h]
  · intro h hd hb
    rw [if_neg (by simp [h])]
    cases v with
    | nan => simp at hb
    | pinf => simp at hb
    | ninf => simp at hb
    | fin q =>
        rw [Dbl.abs_fin, Dbl.fin_lt_fin] at hb
        exact binary64_impulse_clamp q e (Dbl.round64_of_isDouble hd)
          (by rw [zpow_ofNat]; exact hb)

/-- C26 witness: the mandatory scroll point at `10` (adjustment `0`, computed actual value `10`),
edge `30`: the midpoint `20` when nothing is ignored, the point's own `10` with the ignored
value `7`. -/
theorem C26_single_ImpulseInfluence_witness :
    Binary64.SnapPointBase.ImpulseInfluence (SnapPointBase.scroll (Scenario.mandatoryScroll 10))
        (Dbl.fin 30) Dbl.nan = Binary64.div (Binary64.add (Dbl.fin 10) (Dbl.fin 30)) (Dbl.fin 2) ∧
    Binary64.SnapPointBase.ImpulseInfluence (SnapPointBase.scroll (Scenario.mandatoryScroll 10))
        (Dbl.fin 30) (Dbl.fin 7) = Dbl.fin 10 := by
  have hv : Binary64.SnapPointBase.singleValue (SnapPointBase.scroll (Scenario.mandatoryScroll 10))
      = some (Dbl.fin 10) := by
    have h := Binary64.add_intCast 10 0 (by norm_num)
    simp only [Binary64.SnapPointBase.singleValue, Binary64.ScrollSnapPoint.ActualValue,
      Scenario.mandatoryScroll]
    norm_num at h ⊢
    exact h
  have hd : (Dbl.fin 10).isDouble = true := by
    have h := Dbl.isDouble_intCast 10 (by norm_num)
    norm_num at h
    exact h
  exact ⟨(C26_single_ImpulseInfluence _ (Dbl.fin 10) (Dbl.fin 30) Dbl.nan hv).1 rfl,
    (C26_single_ImpulseInfluence _ (Dbl.fin 10) (Dbl.fin 30) (Dbl.fin 7) hv).2 rfl hd
      (by norm_num)⟩

/-- C26 counterexample: the mandatory scroll point at `v = -3 * 2 ^ 1022` (a double, adjustment
`0`), edge `e = -2 ^ 1023` and the ignored value `0`, which is not NaN: the sum `v + e` overflows
to `-inf`, so does the midpoint, and `ImpulseInfluence` returns `std::min(v, -inf) = -inf`, which
is not `v`. -/
theorem C26_counterexample :
    Binary64.SnapPointBase.ImpulseInfluence
      (SnapPointBase.scroll
        { m_value := Dbl.fin (-(3 * 2 ^ 1022)), m_alignment := ScrollSnapPointsAlignment.Near,
          m_alignmentAdjustment := Dbl.fin 0, m_specifiedApplicableRange := Dbl.pinf,
          m_applicableRangeType := SnapPointApplicableRangeType.Mandatory })
      (Dbl.fin (-(2 ^ 1023))) (Dbl.fin 0) = Dbl.ninf ∧
    Binary64.SnapPointBase.singleValue
      (SnapPointBase.scroll
        { m_value := Dbl.fin (-(3 * 2 ^ 1022)), m_alignment := ScrollSnapPointsAlignment.Near,
          m_alignmentAdjustment := Dbl.fin 0, m_specifiedApplicableRange := Dbl.pinf,
          m_applicableRangeType := SnapPointApplicableRangeType.Mandatory })
      = some (Dbl.fin (-(3 * 2 ^ 1022))) ∧
    (Dbl.fin 0).isnan = false ∧ Dbl.ninf ≠ Dbl.fin (-(3 * 2 ^ 1022)) := by
  have h1 : Binary64.add (Dbl.fin (-(3 * 2 ^ 1022))) (Dbl.fin 0) = Dbl.fin (-(3 * 2 ^ 1022)) := by
    rw [Binary64.add, Dbl.fin_add_fin]
    exact Dbl.round64_cert _ _ (1023) (-6755399441055744) (by norm_num) (by norm_num)
      (by norm_num) (by norm_num) (Or.inl ⟨by norm_num, by norm_num⟩) (by norm_num)
  have h2 : Binary64.add (Dbl.fin (-(3 * 2 ^ 1022))) (Dbl.fin (-(2 ^ 1023))) = Dbl.ninf := by
    rw [Binary64.add, Dbl.fin_add_fin]
    exact Dbl.round64_cert_ninf _ (1024) (-5629499534213120) (by norm_num) (by norm_num)
      (by norm_num) (by norm_num) (by norm_num)
  have h3 : Binary64.div (Dbl.ninf) (Dbl.fin 2) = Dbl.ninf := by
    norm_num [Binary64.div, Dbl.round64, Dbl.div_def, Dbl.div, Dbl.infOfSign]
  refine ⟨?_, ?_, rfl, by simp⟩
  · simp only [Binary64.SnapPointBase.ImpulseInfluence, Binary64.ScrollSnapPoint.ImpulseInfluence,
      Binary64.ScrollSnapPoint.ActualValue, h1, h2, h3]
    norm_num [Dbl.isnan, Dbl.std_min]
  · simp only [Binary64.SnapPointBase.singleValue, Binary64.ScrollSnapPoint.ActualValue, h1]

/-! ## Influence of a single point, as computed -/

/-- A comparison that holds has no `nan` side. -/
theorem Dbl.le_self_of_le {a b : Dbl} (h : a ≤ b) : a ≤ a ∧ b ≤ b := by
  cases a <;> cases b <;> simp_all

/-- `Influence` of a single point with computed actual value `v`, unfolded. -/
theorem binary64_Influence_single (sp : SnapPointBase) (v e : Dbl)
    (hv : Binary64.SnapPointBase.singleValue sp = some v) :
    Binary64.SnapPointBase.Influence sp e
      = Except.ok
        (match sp.ApplicableRangeType with
          | SnapPointApplicableRangeType.Optional =>
              if v ≤ e then
                Dbl.std_min (Binary64.add v sp.ApplicableRange)
                  (Binary64.div (Binary64.add v e) (Dbl.fin 2))
              else
                Dbl.std_max (Binary64.sub v sp.ApplicableRange)
                  (Binary64.div (Binary64.add v e) (Dbl.fin 2))
          | SnapPointApplicableRangeType.Mandatory =>
              Binary64.div (Binary64.add v e) (Dbl.fin 2)) := by
  cases sp with
  | scroll p =>
      simp only [Binary64.SnapPointBase.singleValue, Option.some.injEq] at hv
      subst hv
      rfl
  | zoom p =>
      simp only [Binary64.SnapPointBase.singleValue, Option.some.injEq] at hv
      subst hv
      rfl
  | repeatedScroll p => simp [Binary64.SnapPointBase.singleValue] at hv
  | repeatedZoom p => simp [Binary64.SnapPointBase.singleValue] at hv

/-- The computed sum `v + r` with a positive `r` is not below the double `v`, and the computed
difference `v - r` is not above it. -/
theorem binary64_add_sub_range (v : ℚ) (r : Dbl) (hd : Dbl.round64 (Dbl.fin v) = Dbl.fin v)
    (hr : Dbl.fin 0 < r) :
    Dbl.fin v ≤ Binary64.add (Dbl.fin v) r ∧ Binary64.sub (Dbl.fin v) r ≤ Dbl.fin v := by
  rcases Dbl.pos_cases hr with rfl | ⟨q, hq, rfl⟩
  · constructor
    · have : Binary64.add (Dbl.fin v) Dbl.pinf = Dbl.pinf := by simp [Binary64.add, Dbl.round64]
      rw [this]; exact Dbl.fin_le_pinf v
    · have : Binary64.sub (Dbl.fin v) Dbl.pinf = Dbl.ninf := by simp [Binary64.sub, Dbl.round64]
      rw [this]; exact Dbl.ninf_le_fin v
  · constructor
    · rw [Binary64.add, Dbl.fin_add_fin]
      exact Dbl.le_round64_of_le v (v + q) hd (by linarith)
    · rw [Binary64.sub, Dbl.fin_sub_fin]
      exact Dbl.round64_le_of_le v (v - q) hd (by linarith)

/-- The clamped midpoint of an optional point stays between the computed bounds `v - r` and
`v + r`. -/
theorem binary64_Influence_clamp (v : ℚ) (r e : Dbl) (hd : Dbl.round64 (Dbl.fin v) = Dbl.fin v)
    (hb : |v| < (2 : ℚ) ^ (1023 : ℤ)) (hr : Dbl.fin 0 < r) :
    Binary64.sub (Dbl.fin v) r
        ≤ (if Dbl.fin v ≤ e then
            Dbl.std_min (Binary64.add (Dbl.fin v) r)
              (Binary64.div (Binary64.add (Dbl.fin v) e) (Dbl.fin 2))
          else
            Dbl.std_max (Binary64.sub (Dbl.fin v) r)
              (Binary64.div (Binary64.add (Dbl.fin v) e) (Dbl.fin 2))) ∧
      (if Dbl.fin v ≤ e then
          Dbl.std_min (Binary64.add (Dbl.fin v) r)
            (Binary64.div (Binary64.add (Dbl.fin v) e) (Dbl.fin 2))
        else
          Dbl.std_max (Binary64.sub (Dbl.fin v) r)
            (Binary64.div (Binary64.add (Dbl.fin v) e) (Dbl.fin 2)))
        ≤ Binary64.add (Dbl.fin v) r := by
  obtain ⟨hadd, hsub⟩ := binary64_add_sub_range v r hd hr
  by_cases hle : Dbl.fin v ≤ e
  · have hm := Binary64.le_midpoint_computed v e hd hb hle
    rw [if_pos hle, Dbl.std_min]
    split_ifs with hc
    · exact ⟨Dbl.le_trans_dbl hsub hm, Dbl.le_of_lt hc⟩
    · exact ⟨Dbl.le_trans_dbl hsub hadd, (Dbl.le_self_of_le hadd).2⟩
  · rw [if_neg hle, Dbl.std_max]
    split_ifs with hc
    · refine ⟨Dbl.le_of_lt hc, ?_⟩
      have hnan : e ≠ Dbl.nan := by
        rintro rfl
        have : Binary64.div (Binary64.add (Dbl.fin v) Dbl.nan) (Dbl.fin 2) = Dbl.nan := by
          simp [Binary64.div, Binary64.add, Dbl.round64]
        rw [this] at hc
        exact absurd hc (by simp)
      have hlt : e < Dbl.fin v := Dbl.lt_of_not_le (by simp) hnan hle
      exact Dbl.le_trans_dbl (Binary64.midpoint_computed_le v e hd hb (Dbl.le_of_lt hlt)) hadd
    · exact ⟨(Dbl.le_self_of_le hsub).1, Dbl.le_trans_dbl hsub hadd⟩

/-- Between exact bounds `v - r` and `v + r` the distance to `v` is at most `r`. -/
theorem Dbl.abs_sub_le_of_between (x : Dbl) (v : ℚ) (r : Dbl) (hr : Dbl.fin 0 < r)
    (h1 : Dbl.fin v - r ≤ x) (h2 : x ≤ Dbl.fin v + r) : Dbl.abs (x - Dbl.fin v) ≤ r := by
  rcases Dbl.pos_cases hr with rfl | ⟨q, hq, rfl⟩
  · cases x with
    | nan => simp at h1
    | ninf => simp
    | pinf => simp
    | fin a => simp
  · cases x with
    | nan => simp at h1
    | ninf => simp at h1
    | pinf => simp at h2
    | fin a =>
        simp only [Dbl.fin_sub_fin, Dbl.fin_add_fin, Dbl.fin_le_fin] at h1 h2
        simp only [Dbl.fin_sub_fin, Dbl.abs_fin, Dbl.fin_le_fin]
        rw [abs_le]
        constructor <;> linarith

/-- C9 (amended). `Influence(e)` of a single point with computed actual value `v`: the midpoint
`(v + e) / 2`, as the program computes it, when the point is mandatory; when it is optional with
range `r`, `min(v + r, midpoint)` if `v <= e` and `max(v - r, midpoint)` otherwise, every sum
and difference as computed.  For a double `v` of magnitude below `2 ^ 1023` and a positive
range the optional result lies between the computed bounds `v - r` and `v + r`, for every `e`;
whenever these two bounds are computed without rounding error, `|Influence(e) - v| <= r`. -/
theorem C9_single_Influence (sp : SnapPointBase) (v : Dbl)
    (hv : Binary64.SnapPointBase.singleValue sp = some v) (e : Dbl) :
    ∃ influence : Dbl, Binary64.SnapPointBase.Influence sp e = Except.ok influence ∧
      (sp.ApplicableRangeType = SnapPointApplicableRangeType.Mandatory →
        influence = Binary64.div (Binary64.add v e) (Dbl.fin 2)) ∧
      (sp.ApplicableRangeType = SnapPointApplicableRangeType.Optional →
        influence =
          if v ≤ e then
            Dbl.std_min (Binary64.add v sp.ApplicableRange)
              (Binary64.div (Binary64.add v e) (Dbl.fin 2))
          else
            Dbl.std_max (Binary64.sub v sp.ApplicableRange)
              (Binary64.div (Binary64.add v e) (Dbl.fin 2))) ∧
      (sp.ApplicableRangeType = SnapPointApplicableRangeType.Optional →
        v.isDouble = true → Dbl.abs v < Dbl.fin (2 ^ 1023) → Dbl.fin 0 < sp.ApplicableRange →
        Binary64.sub v sp.ApplicableRange ≤ influence ∧
        influence ≤ Binary64.add v sp.ApplicableRange ∧
        (Binary64.sub v sp.ApplicableRange = v - sp.ApplicableRange →
          Binary64.add v sp.ApplicableRange = v + sp.ApplicableRange →
          Dbl.abs (influence - v) ≤ sp.ApplicableRange)) := by
  refine ⟨_, binary64_Influence_single sp v e hv, ?_, ?_, ?_⟩
  · intro h
    rw [h]
  · intro h
    rw [h]
  · intro h hd hb hr
    rw [h]
    cases v with
    | nan => simp at hb
    | pinf => simp at hb
    | ninf => simp at hb
    | fin q =>
        rw [Dbl.abs_fin, Dbl.fin_lt_fin] at hb
        have hc := binary64_Influence_clamp q sp.ApplicableRange e (Dbl.round64_of_isDouble hd)
          (by rw [zpow_ofNat]; exact hb) hr
        refine ⟨hc.1, hc.2, fun hs ha => ?_⟩
        apply Dbl.abs_sub_le_of_between _ q _ hr
        · rw [← hs]; exact hc.1
        · rw [← ha]; exact hc.2

/-- C9 witness: the optional scroll point at `0` with range `8` and the edge `100`: the midpoint
is `50`, the influence `min(0 + 8, 50) = 8`, and `|8 - 0| <= 8`. -/
theorem C9_single_Influence_witness :
    Binary64.SnapPointBase.singleValue (SnapPointBase.scroll (Scenario.optionalScroll 0 8))
      = some (Dbl.fin 0) ∧
    Binary64.SnapPointBase.Influence (SnapPointBase.scroll (Scenario.optionalScroll 0 8))
      (Dbl.fin 100) = Except.ok (Dbl.fin 8) ∧
    Dbl.abs (Dbl.fin 8 - Dbl.fin 0) ≤ Dbl.fin 8 := by
  have h00 : Binary64.add (Dbl.fin 0) (Dbl.fin 0) = Dbl.fin 0 := by
    have h := Binary64.add_intCast 0 0 (by norm_num)
    norm_num at h
    exact h
  have h08 : Binary64.add (Dbl.fin 0) (Dbl.fin 8) = Dbl.fin 8 := by
    have h := Binary64.add_intCast 0 8 (by norm_num)
    norm_num at h
    exact h
  have hs8 : Binary64.sub (Dbl.fin 0) (Dbl.fin 8) = Dbl.fin (-8) := by
    have h := Binary64.sub_intCast 0 8 (by norm_num)
    norm_num at h
    exact h
  have h0100 : Binary64.add (Dbl.fin 0) (Dbl.fin 100) = Dbl.fin 100 := by
    have h := Binary64.add_intCast 0 100 (by norm_num)
    norm_num at h
    exact h
  have hdiv : Binary64.div (Dbl.fin 100) (Dbl.fin 2) = Dbl.fin 50 := by
    have h := Dbl.round64_intCast 50 (by norm_num)
    rw [Binary64.div, Dbl.fin_div_two]
    norm_num at h ⊢
    exact h
  have hv : Binary64.SnapPointBase.singleValue
      (SnapPointBase.scroll (Scenario.optionalScroll 0 8)) = some (Dbl.fin 0) := by
    simp only [Binary64.SnapPointBase.singleValue, Binary64.ScrollSnapPoint.ActualValue,
      Scenario.optionalScroll, h00]
  have hd : (Dbl.fin 0).isDouble = true := by
    have h := Dbl.isDouble_intCast 0 (by norm_num)
    norm_num at h
    exact h
  obtain ⟨influence, hinf, _, hopt, hbound⟩ :=
    C9_single_Influence (SnapPointBase.scroll (Scenario.optionalScroll 0 8)) (Dbl.fin 0) hv
      (Dbl.fin 100)
  have hval : influence = Dbl.fin 8 := by
    rw [hopt rfl]
    simp only [SnapPointBase.ApplicableRange, Scenario.optionalScroll, h08, h0100, hdiv]
    norm_num [Dbl.std_min]
  have hb := (hbound rfl hd (by norm_num) (by
    norm_num [SnapPointBase.ApplicableRange, Scenario.optionalScroll])).2.2
      (by
        simp only [SnapPointBase.ApplicableRange, Scenario.optionalScroll, hs8]
        norm_num)
      (by
        simp only [SnapPointBase.ApplicableRange, Scenario.optionalScroll, h08]
        norm_num)
  rw [hval] at hinf hb
  exact ⟨hv, hinf, hb⟩

/-- C9 counterexample.  First conjuncts: the optional scroll point at `v = 1` with the range
`r = 3602879701896397 / 2 ^ 55` (the double nearest to `0.1`) and the edge `e = 100`: the sum
`v + r` rounds to `2476979795053773 / 2 ^ 51` (the double nearest to `1.1`), which is below the
midpoint `50.5` and is the influence returned; its distance to `v` is
`0.1000000000000000888...`, more than `r`.  Last conjuncts: the optional point at
`v = -3 * 2 ^ 1022` with range `1` and the edge `e = -2 ^ 1023 >= v`: the sum `v + e` overflows,
the midpoint is `-inf`, and so is the influence. -/
theorem C9_counterexample :
    Binary64.SnapPointBase.Influence
      (SnapPointBase.scroll
        { m_value := Dbl.fin 1, m_alignment := ScrollSnapPointsAlignment.Near,
          m_alignmentAdjustment := Dbl.fin 0,
          m_specifiedApplicableRange := Dbl.fin (3602879701896397 / 2 ^ 55),
          m_applicableRangeType := SnapPointApplicableRangeType.Optional })
      (Dbl.fin 100) = Except.ok (Dbl.fin (2476979795053773 / 2 ^ 51)) ∧
    ¬ Dbl.abs (Dbl.fin (2476979795053773 / 2 ^ 51) - Dbl.fin 1)
        ≤ Dbl.fin (3602879701896397 / 2 ^ 55) ∧
    Binary64.SnapPointBase.Influence
      (SnapPointBase.scroll
        { m_value := Dbl.fin (-(3 * 2 ^ 1022)), m_alignment := ScrollSnapPointsAlignment.Near,
          m_alignmentAdjustment := Dbl.fin 0, m_specifiedApplicableRange := Dbl.fin 1,
          m_applicableRangeType := SnapPointApplicableRangeType.Optional })
      (Dbl.fin (-(2 ^ 1023))) = Except.ok Dbl.ninf ∧
    ¬ Dbl.abs (Dbl.ninf - Dbl.fin (-(3 * 2 ^ 1022))) ≤ Dbl.fin 1 := by
  have h1 : Binary64.add (Dbl.fin 1) (Dbl.fin 0) = Dbl.fin 1 := by
    rw [Binary64.add, Dbl.fin_add_fin]
    exact Dbl.round64_cert _ _ (0) (4503599627370496) (by norm_num) (by norm_num)
      (by norm_num) (by norm_num) (Or.inl ⟨by norm_num, by norm_num⟩) (by norm_num)
  have h2 : Binary64.add (Dbl.fin 1) (Dbl.fin 100) = Dbl.fin 101 := by
    rw [Binary64.add, Dbl.fin_add_fin]
    exact Dbl.round64_cert _ _ (6) (7107243161944064) (by norm_num) (by norm_num)
      (by norm_num) (by norm_num) (Or.inl ⟨by norm_num, by norm_num⟩) (by norm_num)
  have h3 : Binary64.div (Dbl.fin 101) (Dbl.fin 2) = Dbl.fin (101 / 2 ^ 1) := by
    rw [Binary64.div, Dbl.fin_div_fin _ _ (by norm_num)]
    exact Dbl.round64_cert _ _ (5) (7107243161944064) (by norm_num) (by norm_num)
      (by norm_num) (by norm_num) (Or.inl ⟨by norm_num, by norm_num⟩) (by norm_num)
  have h4 : Binary64.add (Dbl.fin 1) (Dbl.fin (3602879701896397 / 2 ^ 55))
      = Dbl.fin (2476979795053773 / 2 ^ 51) := by
    rw [Binary64.add, Dbl.fin_add_fin]
    exact Dbl.round64_cert _ _ (0) (4953959590107546) (by norm_num) (by norm_num)
      (by norm_num) (by norm_num) (Or.inl ⟨by norm_num, by norm_num⟩) (by norm_num)
  have k1 : Binary64.add (Dbl.fin (-(3 * 2 ^ 1022))) (Dbl.fin 0) = Dbl.fin (-(3 * 2 ^ 1022)) := by
    rw [Binary64.add, Dbl.fin_add_fin]
    exact Dbl.round64_cert _ _ (1023) (-6755399441055744) (by norm_num) (by norm_num)
      (by norm_num) (by norm_num) (Or.inl ⟨by norm_num, by norm_num⟩) (by norm_num)
  have k2 : Binary64.add (Dbl.fin (-(3 * 2 ^ 1022))) (Dbl.fin (-(2 ^ 1023))) = Dbl.ninf := by
    rw [Binary64.add, Dbl.fin_add_fin]
    exact Dbl.round64_cert_ninf _ (1024) (-5629499534213120) (by norm_num) (by norm_num)
      (by norm_num) (by norm_num) (by norm_num)
  have k3 : Binary64.div (Dbl.ninf) (Dbl.fin 2) = Dbl.ninf := by
    norm_num [Binary64.div, Dbl.round64, Dbl.div_def, Dbl.div, Dbl.infOfSign]
  have k4 : Binary64.add (Dbl.fin (-(3 * 2 ^ 1022))) (Dbl.fin 1) = Dbl.fin (-(3 * 2 ^ 1022)) := by
    rw [Binary64.add, Dbl.fin_add_fin]
    exact Dbl.round64_cert _ _ (1023) (-6755399441055744) (by norm_num) (by norm_num)
      (by norm_num) (by norm_num) (Or.inl ⟨by norm_num, by norm_num⟩) (by norm_num)
  refine ⟨?_, ?_, ?_, ?_⟩
  · simp only [Binary64.SnapPointBase.Influence, Binary64.ScrollSnapPoint.Influence,
      Binary64.ScrollSnapPoint.ActualValue, h1, h2, h3, h4]
    norm_num [Dbl.std_min]
  · norm_num [abs_of_pos]
  · simp only [Binary64.SnapPointBase.Influence, Binary64.ScrollSnapPoint.Influence,
      Binary64.ScrollSnapPoint.ActualValue, k1, k2, k3, k4]
    norm_num [Dbl.std_min]
  · norm_num

/-! ## The zone of a single point contains the point, as computed -/

/-- The sort key of a single point with computed actual value `v`. -/
theorem binary64_SortPredicate_single (sp : SnapPointBase) (v : Dbl)
    (hv : Binary64.SnapPointBase.singleValue sp = some v) :
    Binary64.SnapPointBase.SortPredicate sp = { primary := v, secondary := v, tertiary := 0 } := by
  cases sp with
  | scroll p =>
      simp only [Binary64.SnapPointBase.singleValue, Option.some.injEq] at hv
      subst hv
      rfl
  | zoom p =>
      simp only [Binary64.SnapPointBase.singleValue, Option.some.injEq] at hv
      subst hv
      rfl
  | repeatedScroll p => simp [Binary64.SnapPointBase.singleValue] at hv
  | repeatedZoom p => simp [Binary64.SnapPointBase.singleValue] at hv

/-- The sort key of a repeated point with computed bounds `(s, e)`. -/
theorem binary64_SortPredicate_repeated (sp : SnapPointBase) (s e : Dbl)
    (hb : Binary64.SnapPointBase.repeatedBounds sp = some (s, e)) :
    Binary64.SnapPointBase.SortPredicate sp = { primary := s, secondary := e, tertiary := 1 } := by
  cases sp with
  | scroll p => simp [Binary64.SnapPointBase.repeatedBounds] at hb
  | zoom p => simp [Binary64.SnapPointBase.repeatedBounds] at hb
  | repeatedScroll p =>
      simp only [Binary64.SnapPointBase.repeatedBounds, Option.some.injEq, Prod.mk.injEq] at hb
      obtain ⟨rfl, rfl⟩ := hb
      rfl
  | repeatedZoom p =>
      simp only [Binary64.SnapPointBase.repeatedBounds, Option.some.injEq, Prod.mk.injEq] at hb
      obtain ⟨rfl, rfl⟩ := hb
      rfl

/-- `Influence` of a repeated point with computed bounds `(s, e)`. -/
theorem binary64_Influence_repeated (sp : SnapPointBase) (s e edge : Dbl)
    (hb : Binary64.SnapPointBase.repeatedBounds sp = some (s, e)) :
    Binary64.SnapPointBase.Influence sp edge
      = if edge ≤ s then Except.ok s
        else if edge ≥ e then Except.ok e
        else Except.error hresult_error.E_INVALIDARG := by
  cases sp with
  | scroll p => simp [Binary64.SnapPointBase.repeatedBounds] at hb
  | zoom p => simp [Binary64.SnapPointBase.repeatedBounds] at hb
  | repeatedScroll p =>
      simp only [Binary64.SnapPointBase.repeatedBounds, Option.some.injEq, Prod.mk.injEq] at hb
      obtain ⟨rfl, rfl⟩ := hb
      rfl
  | repeatedZoom p =>
      simp only [Binary64.SnapPointBase.repeatedBounds, Option.some.injEq, Prod.mk.injEq] at hb
      obtain ⟨rfl, rfl⟩ := hb
      rfl

/-- A point is single or repeated. -/
theorem binary64_single_or_repeated (sp : SnapPointBase) :
    (∃ u, Binary64.SnapPointBase.singleValue sp = some u) ∨
      (∃ s e, Binary64.SnapPointBase.repeatedBounds sp = some (s, e)) := by
  cases sp with
  | scroll p => exact Or.inl ⟨_, rfl⟩
  | zoom p => exact Or.inl ⟨_, rfl⟩
  | repeatedScroll p => exact Or.inr ⟨_, _, rfl⟩
  | repeatedZoom p => exact Or.inr ⟨_, _, rfl⟩

/-- What `wellFormed` says of a single point. -/
theorem binary64_wellFormed_single (sp : SnapPointBase) (u : Dbl)
    (hu : Binary64.SnapPointBase.singleValue sp = some u)
    (h : Binary64.SnapPointBase.wellFormed sp = true) :
    (∃ a : ℚ, u = Dbl.fin a) ∧
    (sp.ApplicableRangeType = SnapPointApplicableRangeType.Optional →
      Dbl.fin 0 < sp.ApplicableRange) := by
  simp only [Binary64.SnapPointBase.wellFormed, hu, Bool.and_eq_true, Bool.or_eq_true,
    bne_iff_ne, ne_eq, decide_eq_true_eq] at h
  obtain ⟨⟨hr, hfin⟩, _⟩ := h
  refine ⟨Dbl.eq_fin_of_isFinite hfin, fun ho => ?_⟩
  rcases hr with hr | hr
  · exact absurd ho hr
  · exact hr

/-- The computed sum of a finite number and a positive range is not `nan`, nor is the computed
difference. -/
theorem binary64_add_sub_ne_nan (a : ℚ) (r : Dbl) (hr : Dbl.fin 0 < r) :
    Binary64.add (Dbl.fin a) r ≠ Dbl.nan ∧ Binary64.sub (Dbl.fin a) r ≠ Dbl.nan := by
  rcases Dbl.pos_cases hr with rfl | ⟨q, hq, rfl⟩
  · constructor
    · simp [Binary64.add, Dbl.round64]
    · simp [Binary64.sub, Dbl.round64]
  · constructor
    · rw [Binary64.add, Dbl.fin_add_fin]
      rcases Dbl.round64_fin_cases (a + q) with ⟨h, _⟩ | ⟨h, _⟩ | ⟨y, h, _⟩ <;> rw [h] <;> simp
    · rw [Binary64.sub, Dbl.fin_sub_fin]
      rcases Dbl.round64_fin_cases (a - q) with ⟨h, _⟩ | ⟨h, _⟩ | ⟨y, h, _⟩ <;> rw [h] <;> simp

/-- The influence of a well-formed single point at `u <= v` on the edge `v` (a double of
magnitude below `2 ^ 1023`) is `<= v`; for `v <= u` it is `>= v`. -/
theorem binary64_singleInfluence_side (q : SnapPointBase) (u v : ℚ) (infl : Dbl)
    (hu : Binary64.SnapPointBase.singleValue q = some (Dbl.fin u))
    (hr : q.ApplicableRangeType = SnapPointApplicableRangeType.Optional →
      Dbl.fin 0 < q.ApplicableRange)
    (hd : Dbl.round64 (Dbl.fin v) = Dbl.fin v) (hb : |v| < (2 : ℚ) ^ (1023 : ℤ))
    (h : Binary64.SnapPointBase.Influence q (Dbl.fin v) = Except.ok infl) :
    (u ≤ v → infl ≤ Dbl.fin v) ∧ (v < u → Dbl.fin v ≤ infl) := by
  rw [binary64_Influence_single q _ _ hu] at h
  have hinfl := (Except.ok.inj h).symm
  have hmid_le : u ≤ v →
      Binary64.div (Binary64.add (Dbl.fin u) (Dbl.fin v)) (Dbl.fin 2) ≤ Dbl.fin v := by
    intro huv
    rw [Binary64.add_swap]
    exact Binary64.midpoint_computed_le v _ hd hb (by simpa using huv)
  have hle_mid : v ≤ u →
      Dbl.fin v ≤ Binary64.div (Binary64.add (Dbl.fin u) (Dbl.fin v)) (Dbl.fin 2) := by
    intro huv
    rw [Binary64.add_swap]
    exact Binary64.le_midpoint_computed v _ hd hb (by simpa using huv)
  cases ht : q.ApplicableRangeType with
  | Mandatory =>
      rw [ht] at hinfl
      simp only at hinfl
      rw [hinfl]
      exact ⟨hmid_le, fun h => hle_mid h.le⟩
  | Optional =>
      rw [ht] at hinfl
      simp only at hinfl
      obtain ⟨hadd, hsub⟩ := binary64_add_sub_ne_nan u _ (hr ht)
      constructor
      · intro huv
        rw [if_pos (by simpa using huv), Dbl.std_min] at hinfl
        have hm := hmid_le huv
        split_ifs at hinfl with hc
        · rw [hinfl]; exact hm
        · rw [hinfl]
          have hmn : Binary64.div (Binary64.add (Dbl.fin u) (Dbl.fin v)) (Dbl.fin 2) ≠ Dbl.nan := by
            intro hn
            rw [hn] at hm
            exact absurd hm (by simp)
          exact Dbl.le_trans_dbl (Dbl.le_of_not_lt_dbl hmn hadd hc) hm
      · intro huv
        rw [if_neg (by simpa using huv), Dbl.std_max] at hinfl
        have hm := hle_mid huv.le
        split_ifs at hinfl with hc
        · rw [hinfl]; exact hm
        · rw [hinfl]
          have hmn : Binary64.div (Binary64.add (Dbl.fin u) (Dbl.fin v)) (Dbl.fin 2) ≠ Dbl.nan := by
            intro hn
            rw [hn] at hm
            exact absurd hm (by simp)
          exact Dbl.le_trans_dbl hm (Dbl.le_of_not_lt_dbl hsub hmn hc)

/-- The lower bound of the resolved zone of a single point with computed actual value `v`. -/
theorem binary64_zone_single (s_equalityEpsilon : Dbl) (sp : SnapPointBase) (v : Dbl)
    (previousSnapPoint nextSnapPoint : Option SnapPointBase) (zone : Dbl × Dbl)
    (hv : Binary64.SnapPointBase.singleValue sp = some v)
    (hzone : Binary64.SnapPointBase.DetermineActualApplicableZone s_equalityEpsilon sp
      previousSnapPoint nextSnapPoint = Except.ok zone) :
    (match previousSnapPoint with
      | none =>
          zone.1 = if sp.ApplicableRangeType ≠ SnapPointApplicableRangeType.Optional then
              -Dbl.INFINITY
            else Binary64.sub v sp.ApplicableRange
      | some q =>
          ∃ infl, Binary64.SnapPointBase.Influence q v = Except.ok infl ∧
            zone.1 = match sp.ApplicableRangeType with
              | SnapPointApplicableRangeType.Optional =>
                  Dbl.std_max infl (Binary64.sub v sp.ApplicableRange)
              | SnapPointApplicableRangeType.Mandatory => infl) ∧
    (match nextSnapPoint with
      | none =>
          zone.2 = if sp.ApplicableRangeType ≠ SnapPointApplicableRangeType.Optional then
              Dbl.INFINITY
            else Binary64.add v sp.ApplicableRange
      | some q =>
          ∃ infl, Binary64.SnapPointBase.Influence q v = Except.ok infl ∧
            zone.2 = match sp.ApplicableRangeType with
              | SnapPointApplicableRangeType.Optional =>
                  Dbl.std_min (Binary64.add v sp.ApplicableRange) infl
              | SnapPointApplicableRangeType.Mandatory => infl) := by
  cases sp with
  | repeatedScroll p => simp [Binary64.SnapPointBase.singleValue] at hv
  | repeatedZoom p => simp [Binary64.SnapPointBase.singleValue] at hv
  | scroll p =>
      simp only [Binary64.SnapPointBase.singleValue, Option.some.injEq] at hv
      subst hv
      simp only [Binary64.SnapPointBase.DetermineActualApplicableZone,
        Binary64.ScrollSnapPoint.DetermineActualApplicableZone, bind, Except.bind] at hzone
      cases hmin : Binary64.ScrollSnapPoint.DetermineMinActualApplicableZone p previousSnapPoint with
      | error err => rw [hmin] at hzone; cases hzone
      | ok zmin =>
        cases hmax : Binary64.ScrollSnapPoint.DetermineMaxActualApplicableZone p nextSnapPoint with
        | error err => rw [hmin, hmax] at hzone; cases hzone
        | ok zmax =>
          rw [hmin, hmax] at hzone
          have hz := Except.ok.inj hzone
          subst hz
          constructor
          · cases previousSnapPoint with
            | none =>
                simp only [Binary64.ScrollSnapPoint.DetermineMinActualApplicableZone] at hmin
                simp only [SnapPointBase.ApplicableRangeType, SnapPointBase.ApplicableRange]
                split_ifs at hmin ⊢ <;> exact (Except.ok.inj hmin).symm
            | some q =>
                simp only [Binary64.ScrollSnapPoint.DetermineMinActualApplicableZone, bind,
                  Except.bind] at hmin
                cases hi : Binary64.SnapPointBase.Influence q
                    (Binary64.ScrollSnapPoint.ActualValue p) with
                | error err => rw [hi] at hmin; cases hmin
                | ok infl =>
                    rw [hi] at hmin
                    refine ⟨infl, hi, ?_⟩
                    simp only [SnapPointBase.ApplicableRangeType, SnapPointBase.ApplicableRange]
                    cases ht : p.m_applicableRangeType <;> rw [ht] at hmin <;>
                      exact (Except.ok.inj hmin).symm
          · cases nextSnapPoint with
            | none =>
                simp only [Binary64.ScrollSnapPoint.DetermineMaxActualApplicableZone] at hmax
                simp only [SnapPointBase.ApplicableRangeType, SnapPointBase.ApplicableRange]
                split_ifs at hmax ⊢ <;> exact (Except.ok.inj hmax).symm
            | some q =>
                simp only [Binary64.ScrollSnapPoint.DetermineMaxActualApplicableZone, bind,
                  Except.bind] at hmax
                cases hi : Binary64.SnapPointBase.Influence q
                    (Binary64.ScrollSnapPoint.ActualValue p) with
                | error err => rw [hi] at hmax; cases hmax
                | ok infl =>
                    rw [hi] at hmax
                    refine ⟨infl, hi, ?_⟩
                    simp only [SnapPointBase.ApplicableRangeType, SnapPointBase.ApplicableRange]
                    cases ht : p.m_applicableRangeType <;> rw [ht] at hmax <;>
                      exact (Except.ok.inj hmax).symm
  | zoom p =>
      simp only [Binary64.SnapPointBase.singleValue, Option.some.injEq] at hv
      subst hv
      simp only [Binary64.SnapPointBase.DetermineActualApplicableZone,
        Binary64.ZoomSnapPoint.DetermineActualApplicableZone, bind, Except.bind] at hzone
      cases hmin : Binary64.ZoomSnapPoint.DetermineMinActualApplicableZone p previousSnapPoint with
      | error err => rw [hmin] at hzone; cases hzone
      | ok zmin =>
        cases hmax : Binary64.ZoomSnapPoint.DetermineMaxActualApplicableZone p nextSnapPoint with
        | error err => rw [hmin, hmax] at hzone; cases hzone
        | ok zmax =>
          rw [hmin, hmax] at hzone
          have hz := Except.ok.inj hzone
          subst hz
          constructor
          · cases previousSnapPoint with
            | none =>
                simp only [Binary64.ZoomSnapPoint.DetermineMinActualApplicableZone] at hmin
                simp only [SnapPointBase.ApplicableRangeType, SnapPointBase.ApplicableRange]
                split_ifs at hmin ⊢ <;> exact (Except.ok.inj hmin).symm
            | some q =>
                simp only [Binary64.ZoomSnapPoint.DetermineMinActualApplicableZone, bind,
                  Except.bind] at hmin
                cases hi : Binary64.SnapPointBase.Influence q p.m_value with
                | error err => rw [hi] at hmin; cases hmin
                | ok infl =>
                    rw [hi] at hmin
                    refine ⟨infl, hi, ?_⟩
                    simp only [SnapPointBase.ApplicableRangeType, SnapPointBase.ApplicableRange]
                    cases ht : p.m_applicableRangeType <;> rw [ht] at hmin <;>
                      exact (Except.ok.inj hmin).symm
          · cases nextSnapPoint with
            | none =>
                simp only [Binary64.ZoomSnapPoint.DetermineMaxActualApplicableZone] at hmax
                simp only [SnapPointBase.ApplicableRangeType, SnapPointBase.ApplicableRange]
                split_ifs at hmax ⊢ <;> exact (Except.ok.inj hmax).symm
            | some q =>
                simp only [Binary64.ZoomSnapPoint.DetermineMaxActualApplicableZone, bind,
                  Except.bind] at hmax
                cases hi : Binary64.SnapPointBase.Influence q p.m_value with
                | error err => rw [hi] at hmax; cases hmax
                | ok infl =>
                    rw [hi] at hmax
                    refine ⟨infl, hi, ?_⟩
                    simp only [SnapPointBase.ApplicableRangeType, SnapPointBase.ApplicableRange]
                    cases ht : p.m_applicableRangeType <;> rw [ht] at hmax <;>
                      exact (Except.ok.inj hmax).symm

/-- The influence of a well-formed previous neighbour (`previous < p` by `operator<`) on a
single point `p` at the double `v` is `<= v`. -/
theorem binary64_Influence_previous_le (q p : SnapPointBase) (v : ℚ) (infl : Dbl)
    (hp : Binary64.SnapPointBase.singleValue p = some (Dbl.fin v))
    (hd : Dbl.round64 (Dbl.fin v) = Dbl.fin v) (hb : |v| < (2 : ℚ) ^ (1023 : ℤ))
    (hq : Binary64.SnapPointBase.wellFormed q = true)
    (hlt : Binary64.SnapPointBase.operator_lt q p = true)
    (h : Binary64.SnapPointBase.Influence q (Dbl.fin v) = Except.ok infl) :
    infl ≤ Dbl.fin v := by
  rcases binary64_single_or_repeated q with ⟨u, hu⟩ | ⟨s, e, hbd⟩
  · obtain ⟨⟨a, rfl⟩, hr⟩ := binary64_wellFormed_single q u hu hq
    have hlt2 : a < v := by
      simp only [Binary64.SnapPointBase.operator_lt, binary64_SortPredicate_single q _ hu,
        binary64_SortPredicate_single p _ hp, Dbl.fin_lt_fin] at hlt
      by_contra hc
      simp [hc] at hlt
    exact (binary64_singleInfluence_side q a v infl hu hr hd hb h).1 hlt2.le
  · rw [binary64_Influence_repeated q _ _ _ hbd] at h
    simp only [Binary64.SnapPointBase.operator_lt, binary64_SortPredicate_repeated q _ _ hbd,
      binary64_SortPredicate_single p _ hp] at hlt
    split_ifs at h with h1 h2
    · rw [← Except.ok.inj h]
      clear h
      -- `v <= s`: the order leaves `s = v`
      cases s with
      | nan => simp at h1
      | ninf => simp at h1
      | pinf =>
          simp at hlt
      | fin s0 =>
          rw [Dbl.fin_le_fin] at h1 ⊢
          by_contra hc
          have hvs : v < s0 := by
            rcases h1.lt_or_eq with h3 | h3
            · exact h3
            · exact absurd (le_of_eq h3.symm) hc
          simp [hvs, not_lt.mpr hvs.le] at hlt
    · rw [← Except.ok.inj h]
      simpa using h2

/-- The influence of a well-formed next neighbour (`p < next` by `operator<`) on a single point
`p` at the double `v` is `>= v`. -/
theorem binary64_Influence_next_ge (q p : SnapPointBase) (v : ℚ) (infl : Dbl)
    (hp : Binary64.SnapPointBase.singleValue p = some (Dbl.fin v))
    (hd : Dbl.round64 (Dbl.fin v) = Dbl.fin v) (hb : |v| < (2 : ℚ) ^ (1023 : ℤ))
    (hq : Binary64.SnapPointBase.wellFormed q = true)
    (hlt : Binary64.SnapPointBase.operator_lt p q = true)
    (h : Binary64.SnapPointBase.Influence q (Dbl.fin v) = Except.ok infl) :
    Dbl.fin v ≤ infl := by
  rcases binary64_single_or_repeated q with ⟨u, hu⟩ | ⟨s, e, hbd⟩
  · obtain ⟨⟨a, rfl⟩, hr⟩ := binary64_wellFormed_single q u hu hq
    have hlt2 : v < a := by
      simp only [Binary64.SnapPointBase.operator_lt, binary64_SortPredicate_single q _ hu,
        binary64_SortPredicate_single p _ hp, Dbl.fin_lt_fin] at hlt
      by_contra hc
      simp [hc] at hlt
    exact (binary64_singleInfluence_side q a v infl hu hr hd hb h).2 hlt2
  · rw [binary64_Influence_repeated q _ _ _ hbd] at h
    simp only [Binary64.SnapPointBase.operator_lt, binary64_SortPredicate_repeated q _ _ hbd,
      binary64_SortPredicate_single p _ hp] at hlt
    split_ifs at h with h1 h2
    · rw [← Except.ok.inj h]
      exact h1
    · rw [← Except.ok.inj h]
      clear h
      -- `v >= e` and not `v <= s`: the order leaves `e = v`
      cases e with
      | nan => simp at h2
      | pinf => simp at h2
      | ninf =>
          cases s with
          | nan => simp at hlt
          | pinf => simp at h1
          | ninf => simp at hlt
          | fin s0 =>
              rw [Dbl.fin_le_fin] at h1
              have hsv : s0 < v := lt_of_not_le h1
              simp [hsv, not_lt.mpr hsv.le] at hlt
      | fin e0 =>
          rw [ge_iff_le, Dbl.fin_le_fin] at h2
          rw [Dbl.fin_le_fin]
          by_contra hc
          have hev : e0 < v := lt_of_not_le hc
          cases s with
          | nan => simp [hev, not_lt.mpr hev.le] at hlt
          | pinf => simp at h1
          | ninf => simp at hlt
          | fin s0 =>
              rw [Dbl.fin_le_fin] at h1
              have hsv : s0 < v := lt_of_not_le h1
              simp [hsv, not_lt.mpr hsv.le] at hlt

/-- C34 (amended). The resolved zone of a single point contains the point: for a single snap
point whose computed actual value `v` is a double of magnitude below `2 ^ 1023` (mandatory, or
optional with a positive range) and neighbours that, when present, are well-formed (a single
point with a finite actual value and, if optional, a positive range; or a repeated point as the
constructor accepts it) and ordered around it by `operator<` (`previous < p < next`), if
`DetermineActualApplicableZone(previous, next)` returns `(min, max)` without throwing, then
`min <= v <= max`. -/
theorem C34_single_zone_contains_point (s_equalityEpsilon : Dbl) (sp : SnapPointBase) (v : ℚ)
    (previousSnapPoint nextSnapPoint : Option SnapPointBase) (zone : Dbl × Dbl)
    (hv : Binary64.SnapPointBase.singleValue sp = some (Dbl.fin v))
    (hd : (Dbl.fin v).isDouble = true) (hb : |v| < 2 ^ 1023)
    (hr : sp.ApplicableRangeType = SnapPointApplicableRangeType.Optional →
      Dbl.fin 0 < sp.ApplicableRange)
    (hprev : ∀ q, previousSnapPoint = some q →
      Binary64.SnapPointBase.wellFormed q = true ∧
        Binary64.SnapPointBase.operator_lt q sp = true)
    (hnext : ∀ q, nextSnapPoint = some q →
      Binary64.SnapPointBase.wellFormed q = true ∧
        Binary64.SnapPointBase.operator_lt sp q = true)
    (hzone : Binary64.SnapPointBase.DetermineActualApplicableZone s_equalityEpsilon sp
      previousSnapPoint nextSnapPoint = Except.ok zone) :
    zone.1 ≤ Dbl.fin v ∧ Dbl.fin v ≤ zone.2 := by
  have hd' := Dbl.round64_of_isDouble hd
  have hb' : |v| < (2 : ℚ) ^ (1023 : ℤ) := by rw [zpow_ofNat]; exact hb
  obtain ⟨hmin, hmax⟩ := binary64_zone_single s_equalityEpsilon sp _ _ _ zone hv hzone
  have hown : sp.ApplicableRangeType = SnapPointApplicableRangeType.Optional →
      Dbl.fin v ≤ Binary64.add (Dbl.fin v) sp.ApplicableRange ∧
      Binary64.sub (Dbl.fin v) sp.ApplicableRange ≤ Dbl.fin v :=
    fun ho => binary64_add_sub_range v _ hd' (hr ho)
  constructor
  · cases previousSnapPoint with
    | none =>
        simp only at hmin
        rw [hmin]
        cases ht : sp.ApplicableRangeType with
        | Mandatory => simp [Dbl.INFINITY]
        | Optional =>
            simp only [ne_eq, not_true_eq_false, if_false]
            exact (hown ht).2
    | some q =>
        obtain ⟨hq, hlt⟩ := hprev q rfl
        obtain ⟨infl, hi, hz⟩ := hmin
        have hle := binary64_Influence_previous_le q sp v infl hv hd' hb' hq hlt hi
        rw [hz]
        cases ht : sp.ApplicableRangeType with
        | Mandatory => exact hle
        | Optional =>
            simp only [Dbl.std_max]
            split_ifs
            · exact (hown ht).2
            · exact hle
  · cases nextSnapPoint with
    | none =>
        simp only at hmax
        rw [hmax]
        cases ht : sp.ApplicableRangeType with
        | Mandatory => simp [Dbl.INFINITY]
        | Optional =>
            simp only [ne_eq, not_true_eq_false, if_false]
            exact (hown ht).1
    | some q =>
        obtain ⟨hq, hlt⟩ := hnext q rfl
        obtain ⟨infl, hi, hz⟩ := hmax
        have hle := binary64_Influence_next_ge q sp v infl hv hd' hb' hq hlt hi
        rw [hz]
        cases ht : sp.ApplicableRangeType with
        | Mandatory => exact hle
        | Optional =>
            simp only [Dbl.std_min]
            split_ifs
            · exact hle
            · exact (hown ht).1

/-- C34 witness: the optional point at `10` with range `2`, after the repeated point
`offset = 0, interval = 1, start = 0, end = 9` and before the mandatory point at `30`: the zone
is `(9, 12)` and contains `10`. -/
theorem C34_single_zone_contains_point_witness :
    Binary64.SnapPointBase.DetermineActualApplicableZone (Dbl.fin 0)
        (SnapPointBase.scroll (Scenario.optionalScroll 10 2))
        (some (SnapPointBase.repeatedZoom
          ⟨Dbl.fin 0, Dbl.fin 1, Dbl.fin 0, Dbl.fin 9, Dbl.INFINITY,
            SnapPointApplicableRangeType.Mandatory⟩))
        (some (SnapPointBase.scroll (Scenario.mandatoryScroll 30)))
      = Except.ok (Dbl.fin 9, Dbl.fin 12) ∧
    (Dbl.fin 9, Dbl.fin 12).1 ≤ Dbl.fin 10 ∧ Dbl.fin 10 ≤ (Dbl.fin 9, Dbl.fin 12).2 := by
  have w1 : Binary64.add (Dbl.fin 10) (Dbl.fin 0) = Dbl.fin 10 := by
    rw [Binary64.add, Dbl.fin_add_fin]
    exact Dbl.round64_cert _ _ (3) (5629499534213120) (by norm_num) (by norm_num)
      (by norm_num) (by norm_num) (Or.inl ⟨by norm_num, by norm_num⟩) (by norm_num)
  have w2 : Binary64.add (Dbl.fin 30) (Dbl.fin 0) = Dbl.fin 30 := by
    rw [Binary64.add, Dbl.fin_add_fin]
    exact Dbl.round64_cert _ _ (4) (8444249301319680) (by norm_num) (by norm_num)
      (by norm_num) (by norm_num) (Or.inl ⟨by norm_num, by norm_num⟩) (by norm_num)
  have w3 : Binary64.add (Dbl.fin 30) (Dbl.fin 10) = Dbl.fin 40 := by
    rw [Binary64.add, Dbl.fin_add_fin]
    exact Dbl.round64_cert _ _ (5) (5629499534213120) (by norm_num) (by norm_num)
      (by norm_num) (by norm_num) (Or.inl ⟨by norm_num, by norm_num⟩) (by norm_num)
  have w4 : Binary64.div (Dbl.fin 40) (Dbl.fin 2) = Dbl.fin 20 := by
    rw [Binary64.div, Dbl.fin_div_fin _ _ (by norm_num)]
    exact Dbl.round64_cert _ _ (4) (5629499534213120) (by norm_num) (by norm_num)
      (by norm_num) (by norm_num) (Or.inl ⟨by norm_num, by norm_num⟩) (by norm_num)
  have w5 : Binary64.add (Dbl.fin 10) (Dbl.fin 2) = Dbl.fin 12 := by
    rw [Binary64.add, Dbl.fin_add_fin]
    exact Dbl.round64_cert _ _ (3) (6755399441055744) (by norm_num) (by norm_num)
      (by norm_num) (by norm_num) (Or.inl ⟨by norm_num, by norm_num⟩) (by norm_num)
  have w6 : Binary64.sub (Dbl.fin 10) (Dbl.fin 2) = Dbl.fin 8 := by
    rw [Binary64.sub, Dbl.fin_sub_fin]
    exact Dbl.round64_cert _ _ (3) (4503599627370496) (by norm_num) (by norm_num)
      (by norm_num) (by norm_num) (Or.inl ⟨by norm_num, by norm_num⟩) (by norm_num)
  have hzone :
      Binary64.SnapPointBase.DetermineActualApplicableZone (Dbl.fin 0)
        (SnapPointBase.scroll (Scenario.optionalScroll 10 2))
        (some (SnapPointBase.repeatedZoom
          ⟨Dbl.fin 0, Dbl.fin 1, Dbl.fin 0, Dbl.fin 9, Dbl.INFINITY,
            SnapPointApplicableRangeType.Mandatory⟩))
        (some (SnapPointBase.scroll (Scenario.mandatoryScroll 30)))
      = Except.ok (Dbl.fin 9, Dbl.fin 12) := by
    simp only [Binary64.SnapPointBase.DetermineActualApplicableZone,
      Binary64.ScrollSnapPoint.DetermineActualApplicableZone,
      Binary64.ScrollSnapPoint.DetermineMinActualApplicableZone,
      Binary64.ScrollSnapPoint.DetermineMaxActualApplicableZone, Binary64.SnapPointBase.Influence,
      Binary64.ScrollSnapPoint.Influence, RepeatedZoomSnapPoint.Influence,
      Binary64.ScrollSnapPoint.ActualValue, Scenario.mandatoryScroll, Scenario.optionalScroll,
      w1, w2, w3, w4, w5, w6]
    norm_num [Dbl.std_min, Dbl.std_max, bind, Except.bind]
  have hd : (Dbl.fin 10).isDouble = true := by
    have h := Dbl.isDouble_intCast 10 (by norm_num)
    norm_num at h
    exact h
  exact ⟨hzone,
    C34_single_zone_contains_point (Dbl.fin 0)
      (SnapPointBase.scroll (Scenario.optionalScroll 10 2)) 10 _ _ (Dbl.fin 9, Dbl.fin 12)
      (by simp only [Binary64.SnapPointBase.singleValue, Binary64.ScrollSnapPoint.ActualValue,
        Scenario.optionalScroll, w1])
      hd (by norm_num)
      (fun _ => by
        norm_num [SnapPointBase.ApplicableRange, Scenario.optionalScroll])
      (fun q hq => by
        cases hq
        constructor
        · simp [Binary64.SnapPointBase.wellFormed, SnapPointBase.ApplicableRangeType,
            SnapPointBase.ApplicableRange, Dbl.INFINITY, Binary64.SnapPointBase.singleValue,
            SnapPointBase.repeatedValid]
        · simp only [Binary64.SnapPointBase.operator_lt, Binary64.SnapPointBase.SortPredicate,
            RepeatedZoomSnapPoint.SortPredicate, Binary64.ScrollSnapPoint.SortPredicate,
            Binary64.ScrollSnapPoint.ActualValue, Scenario.optionalScroll, w1]
          norm_num)
      (fun q hq => by
        cases hq
        constructor
        · simp only [Binary64.SnapPointBase.wellFormed, SnapPointBase.ApplicableRangeType,
            SnapPointBase.ApplicableRange, Binary64.SnapPointBase.singleValue,
            SnapPointBase.repeatedValid, Scenario.mandatoryScroll,
            Binary64.ScrollSnapPoint.ActualValue, w2]
          simp [Dbl.isFinite, Dbl.INFINITY]
        · simp only [Binary64.SnapPointBase.operator_lt, Binary64.SnapPointBase.SortPredicate,
            Binary64.ScrollSnapPoint.SortPredicate, Binary64.ScrollSnapPoint.ActualValue,
            Scenario.optionalScroll, Scenario.mandatoryScroll, w1, w2]
          norm_num)
      hzone⟩

/-- C34 counterexample.  First conjuncts: the mandatory scroll point `p` at `3 * 2 ^ 1022`
after the mandatory scroll point at `2 ^ 1023` (both doubles, adjustment `0`, in sort order,
no next neighbour): the sum of the two values overflows, so the influence of the previous point
and the lower zone bound are `+inf`, above the value of `p`.  Last conjuncts: the mandatory
point at `+inf` after the mandatory point at `-inf`: the midpoint `(-inf + inf) / 2` is `nan`,
and `nan <= +inf` is false. -/
theorem C34_counterexample :
    Binary64.SnapPointBase.DetermineActualApplicableZone (Dbl.fin 0)
        (SnapPointBase.scroll (Scenario.mandatoryScroll (3 * 2 ^ 1022)))
        (some (SnapPointBase.scroll (Scenario.mandatoryScroll (2 ^ 1023)))) none
      = Except.ok (Dbl.pinf, Dbl.pinf) ∧
    Binary64.SnapPointBase.singleValue
        (SnapPointBase.scroll (Scenario.mandatoryScroll (3 * 2 ^ 1022)))
      = some (Dbl.fin (3 * 2 ^ 1022)) ∧
    Binary64.SnapPointBase.operator_lt
        (SnapPointBase.scroll (Scenario.mandatoryScroll (2 ^ 1023)))
        (SnapPointBase.scroll (Scenario.mandatoryScroll (3 * 2 ^ 1022))) = true ∧
    ¬ (Dbl.pinf, Dbl.pinf).1 ≤ Dbl.fin (3 * 2 ^ 1022) ∧
    Binary64.SnapPointBase.DetermineActualApplicableZone (Dbl.fin 0)
        (SnapPointBase.scroll
          { m_value := Dbl.pinf, m_alignment := ScrollSnapPointsAlignment.Near,
            m_alignmentAdjustment := Dbl.fin 0, m_specifiedApplicableRange := Dbl.pinf,
            m_applicableRangeType := SnapPointApplicableRangeType.Mandatory })
        (some (SnapPointBase.scroll
          { m_value := Dbl.ninf, m_alignment := ScrollSnapPointsAlignment.Near,
            m_alignmentAdjustment := Dbl.fin 0, m_specifiedApplicableRange := Dbl.pinf,
            m_applicableRangeType := SnapPointApplicableRangeType.Mandatory })) none
      = Except.ok (Dbl.nan, Dbl.pinf) ∧
    ¬ (Dbl.nan, Dbl.pinf).1 ≤ Dbl.pinf := by
  have h1 : Binary64.add (Dbl.fin (3 * 2 ^ 1022)) (Dbl.fin 0) = Dbl.fin (3 * 2 ^ 1022) := by
    rw [Binary64.add, Dbl.fin_add_fin]
    exact Dbl.round64_cert _ _ (1023) (6755399441055744) (by norm_num) (by norm_num)
      (by norm_num) (by norm_num) (Or.inl ⟨by norm_num, by norm_num⟩) (by norm_num)
  have h2 : Binary64.add (Dbl.fin (2 ^ 1023)) (Dbl.fin 0) = Dbl.fin (2 ^ 1023) := by
    rw [Binary64.add, Dbl.fin_add_fin]
    exact Dbl.round64_cert _ _ (1023) (4503599627370496) (by norm_num) (by norm_num)
      (by norm_num) (by norm_num) (Or.inl ⟨by norm_num, by norm_num⟩) (by norm_num)
  have h3 : Binary64.add (Dbl.fin (2 ^ 1023)) (Dbl.fin (3 * 2 ^ 1022)) = Dbl.pinf := by
    rw [Binary64.add, Dbl.fin_add_fin]
    exact Dbl.round64_cert_inf _ (1024) (5629499534213120) (by norm_num) (by norm_num)
      (by norm_num) (by norm_num) (by norm_num)
  have h4 : Binary64.div (Dbl.pinf) (Dbl.fin 2) = Dbl.pinf := by
    norm_num [Binary64.div, Dbl.round64, Dbl.div_def, Dbl.div, Dbl.infOfSign]
  refine ⟨?_, ?_, ?_, by simp, ?_, by simp⟩
  · simp only [Binary64.SnapPointBase.DetermineActualApplicableZone,
      Binary64.ScrollSnapPoint.DetermineActualApplicableZone,
      Binary64.ScrollSnapPoint.DetermineMinActualApplicableZone,
      Binary64.ScrollSnapPoint.DetermineMaxActualApplicableZone, Binary64.SnapPointBase.Influence,
      Binary64.ScrollSnapPoint.Influence, Binary64.ScrollSnapPoint.ActualValue,
      Scenario.mandatoryScroll, h1, h2, h3, h4]
    simp [bind, Except.bind, Dbl.INFINITY]
  · simp only [Binary64.SnapPointBase.singleValue, Binary64.ScrollSnapPoint.ActualValue,
      Scenario.mandatoryScroll, h1]
  · simp only [Binary64.SnapPointBase.operator_lt, Binary64.SnapPointBase.SortPredicate,
      Binary64.ScrollSnapPoint.SortPredicate, Binary64.ScrollSnapPoint.ActualValue,
      Scenario.mandatoryScroll, h1, h2]
    norm_num
  · norm_num [Binary64.SnapPointBase.DetermineActualApplicableZone,
      Binary64.ScrollSnapPoint.DetermineActualApplicableZone,
      Binary64.ScrollSnapPoint.DetermineMinActualApplicableZone,
      Binary64.ScrollSnapPoint.DetermineMaxActualApplicableZone, Binary64.SnapPointBase.Influence,
      Binary64.ScrollSnapPoint.Influence, Binary64.ScrollSnapPoint.ActualValue,
      Binary64.add, Binary64.div, Dbl.round64, bind, Except.bind, Dbl.INFINITY]

/-! ## The impulse zone of a single point that carries an ignored value, as computed -/

/-- `ImpulseInfluence` of a single point at `u <= v` on the edge `v` (a double of magnitude
below `2 ^ 1023`) is `<= v`; for `v <= u` it is `>= v` or `nan`. -/
theorem binary64_singleImpulseInfluence_side (q : SnapPointBase) (u : Dbl) (v : ℚ)
    (ignoredValue : Dbl)
    (hu : Binary64.SnapPointBase.singleValue q = some u)
    (hd : Dbl.round64 (Dbl.fin v) = Dbl.fin v) (hb : |v| < (2 : ℚ) ^ (1023 : ℤ)) :
    (u ≤ Dbl.fin v →
      Binary64.SnapPointBase.ImpulseInfluence q (Dbl.fin v) ignoredValue ≤ Dbl.fin v) ∧
    (Dbl.fin v ≤ u →
      Dbl.fin v ≤ Binary64.SnapPointBase.ImpulseInfluence q (Dbl.fin v) ignoredValue) := by
  rw [binary64_ImpulseInfluence_single q u _ _ hu]
  constructor
  · intro huv
    have hm : Binary64.div (Binary64.add u (Dbl.fin v)) (Dbl.fin 2) ≤ Dbl.fin v := by
      rw [Binary64.add_swap]
      exact Binary64.midpoint_computed_le v u hd hb huv
    split_ifs with h1
    · exact hm
    · rw [Dbl.std_min]
      split_ifs
      · exact hm
      · exact huv
  · intro huv
    have hm : Dbl.fin v ≤ Binary64.div (Binary64.add u (Dbl.fin v)) (Dbl.fin 2) := by
      rw [Binary64.add_swap]
      exact Binary64.le_midpoint_computed v u hd hb huv
    split_ifs with h1 h2
    · exact hm
    · rw [Dbl.std_min]
      split_ifs
      · exact hm
      · exact huv
    · rw [Dbl.std_max]
      split_ifs
      · exact hm
      · exact huv

/-- `DetermineActualImpulseApplicableZone` of a single point with computed actual value `v`
between two neighbours, unfolded. -/
theorem binary64_impulseZone_single (sp previous next : SnapPointBase)
    (v currentIgnoredValue previousIgnoredValue nextIgnoredValue : Dbl)
    (hv : Binary64.SnapPointBase.singleValue sp = some v) :
    Binary64.SnapPointBase.DetermineActualImpulseApplicableZone sp (some previous) (some next)
        currentIgnoredValue previousIgnoredValue nextIgnoredValue
      = (if currentIgnoredValue.isnan then
            Binary64.SnapPointBase.ImpulseInfluence previous v previousIgnoredValue
          else
            Dbl.std_max (Binary64.SnapPointBase.ImpulseInfluence previous v previousIgnoredValue)
              v,
          if currentIgnoredValue.isnan then
            Binary64.SnapPointBase.ImpulseInfluence next v nextIgnoredValue
          else
            Dbl.std_min v (Binary64.SnapPointBase.ImpulseInfluence next v nextIgnoredValue)) := by
  cases sp with
  | scroll p =>
      simp only [Binary64.SnapPointBase.singleValue, Option.some.injEq] at hv
      subst hv
      rfl
  | zoom p =>
      simp only [Binary64.SnapPointBase.singleValue, Option.some.injEq] at hv
      subst hv
      rfl
  | repeatedScroll p => simp [Binary64.SnapPointBase.singleValue] at hv
  | repeatedZoom p => simp [Binary64.SnapPointBase.singleValue] at hv

/-- C35 (amended). A single snap point whose computed actual value `v` is a double of
magnitude below `2 ^ 1023` and whose own ignored value is not NaN, between single neighbours
with `previous.actualValue <= v <= next.actualValue`: `DetermineActualImpulseApplicableZone`
returns exactly `(v, v)`, whatever the neighbours' ignored values, applicable ranges and kinds
(scroll or zoom) are. -/
theorem C35_single_impulse_zone_with_ignored_value (sp previous next : SnapPointBase) (v : ℚ)
    (u w currentIgnoredValue previousIgnoredValue nextIgnoredValue : Dbl)
    (hv : Binary64.SnapPointBase.singleValue sp = some (Dbl.fin v))
    (hd : (Dbl.fin v).isDouble = true) (hb : |v| < 2 ^ 1023)
    (hu : Binary64.SnapPointBase.singleValue previous = some u)
    (hw : Binary64.SnapPointBase.singleValue next = some w)
    (hcur : currentIgnoredValue.isnan = false)
    (hle1 : u ≤ Dbl.fin v) (hle2 : Dbl.fin v ≤ w) :
    Binary64.SnapPointBase.DetermineActualImpulseApplicableZone sp (some previous) (some next)
        currentIgnoredValue previousIgnoredValue nextIgnoredValue = (Dbl.fin v, Dbl.fin v) := by
  have hd' := Dbl.round64_of_isDouble hd
  have hb' : |v| < (2 : ℚ) ^ (1023 : ℤ) := by rw [zpow_ofNat]; exact hb
  rw [binary64_impulseZone_single sp previous next _ _ _ _ hv]
  have h1 := (binary64_singleImpulseInfluence_side previous u v previousIgnoredValue hu hd'
    hb').1 hle1
  have h2 := (binary64_singleImpulseInfluence_side next w v nextIgnoredValue hw hd' hb').2 hle2
  simp only [hcur, Bool.false_eq_true, if_false]
  rw [Dbl.std_max_of_le h1, Dbl.std_min_of_le h2]

/-- C35 witness: the mandatory scroll point at `10` with the ignored value `10`, between the
mandatory scroll points at `0` and at `30`: the impulse zone is `(10, 10)`. -/
theorem C35_single_impulse_zone_with_ignored_value_witness :
    Binary64.SnapPointBase.DetermineActualImpulseApplicableZone
      (SnapPointBase.scroll (Scenario.mandatoryScroll 10))
      (some (SnapPointBase.scroll (Scenario.mandatoryScroll 0)))
      (some (SnapPointBase.scroll (Scenario.mandatoryScroll 30)))
      (Dbl.fin 10) Dbl.nan Dbl.nan = (Dbl.fin 10, Dbl.fin 10) := by
  have w0 : Binary64.add (Dbl.fin 0) (Dbl.fin 0) = Dbl.fin 0 := by
    have h := Binary64.add_intCast 0 0 (by norm_num)
    norm_num at h
    exact h
  have w1 : Binary64.add (Dbl.fin 10) (Dbl.fin 0) = Dbl.fin 10 := by
    have h := Binary64.add_intCast 10 0 (by norm_num)
    norm_num at h
    exact h
  have w2 : Binary64.add (Dbl.fin 30) (Dbl.fin 0) = Dbl.fin 30 := by
    have h := Binary64.add_intCast 30 0 (by norm_num)
    norm_num at h
    exact h
  have hd : (Dbl.fin 10).isDouble = true := by
    have h := Dbl.isDouble_intCast 10 (by norm_num)
    norm_num at h
    exact h
  exact C35_single_impulse_zone_with_ignored_value
    (SnapPointBase.scroll (Scenario.mandatoryScroll 10))
    (SnapPointBase.scroll (Scenario.mandatoryScroll 0))
    (SnapPointBase.scroll (Scenario.mandatoryScroll 30)) 10 (Dbl.fin 0) (Dbl.fin 30)
    (Dbl.fin 10) Dbl.nan Dbl.nan
    (by simp only [Binary64.SnapPointBase.singleValue, Binary64.ScrollSnapPoint.ActualValue,
      Scenario.mandatoryScroll, w1])
    hd (by norm_num)
    (by simp only [Binary64.SnapPointBase.singleValue, Binary64.ScrollSnapPoint.ActualValue,
      Scenario.mandatoryScroll, w0])
    (by simp only [Binary64.SnapPointBase.singleValue, Binary64.ScrollSnapPoint.ActualValue,
      Scenario.mandatoryScroll, w2])
    rfl (by norm_num) (by norm_num)

/-- C35 counterexample: the mandatory scroll point at `v = 3 * 2 ^ 1022` with the ignored value
`0` (not NaN), after the mandatory scroll point at `2 ^ 1023 <= v` and before a mandatory scroll
point at `v` itself (all doubles, adjustment `0`, no ignored value on the neighbours): the sum
`2 ^ 1023 + v` overflows, the previous point's `ImpulseInfluence` is `+inf`, and the impulse
zone is `(std::max(+inf, v), v) = (+inf, v)`, not `(v, v)`. -/
theorem C35_counterexample :
    Binary64.SnapPointBase.DetermineActualImpulseApplicableZone
      (SnapPointBase.scroll (Scenario.mandatoryScroll (3 * 2 ^ 1022)))
      (some (SnapPointBase.scroll (Scenario.mandatoryScroll (2 ^ 1023))))
      (some (SnapPointBase.scroll (Scenario.mandatoryScroll (3 * 2 ^ 1022))))
      (Dbl.fin 0) Dbl.nan Dbl.nan = (Dbl.pinf, Dbl.fin (3 * 2 ^ 1022)) ∧
    Binary64.SnapPointBase.singleValue
        (SnapPointBase.scroll (Scenario.mandatoryScroll (3 * 2 ^ 1022)))
      = some (Dbl.fin (3 * 2 ^ 1022)) ∧
    Binary64.SnapPointBase.singleValue (SnapPointBase.scroll (Scenario.mandatoryScroll (2 ^ 1023)))
      = some (Dbl.fin (2 ^ 1023)) ∧
    Dbl.fin (2 ^ 1023) ≤ Dbl.fin (3 * 2 ^ 1022) ∧
    (Dbl.pinf, Dbl.fin (3 * 2 ^ 1022)) ≠ (Dbl.fin (3 * 2 ^ 1022), Dbl.fin (3 * 2 ^ 1022)) := by
  have h1 : Binary64.add (Dbl.fin (3 * 2 ^ 1022)) (Dbl.fin 0) = Dbl.fin (3 * 2 ^ 1022) := by
    rw [Binary64.add, Dbl.fin_add_fin]
    exact Dbl.round64_cert _ _ (1023) (6755399441055744) (by norm_num) (by norm_num)
      (by norm_num) (by norm_num) (Or.inl ⟨by norm_num, by norm_num⟩) (by norm_num)
  have h2 : Binary64.add (Dbl.fin (2 ^ 1023)) (Dbl.fin 0) = Dbl.fin (2 ^ 1023) := by
    rw [Binary64.add, Dbl.fin_add_fin]
    exact Dbl.round64_cert _ _ (1023) (4503599627370496) (by norm_num) (by norm_num)
      (by norm_num) (by norm_num) (Or.inl ⟨by norm_num, by norm_num⟩) (by norm_num)
  have h3 : Binary64.add (Dbl.fin (2 ^ 1023)) (Dbl.fin (3 * 2 ^ 1022)) = Dbl.pinf := by
    rw [Binary64.add, Dbl.fin_add_fin]
    exact Dbl.round64_cert_inf _ (1024) (5629499534213120) (by norm_num) (by norm_num)
      (by norm_num) (by norm_num) (by norm_num)
  have h4 : Binary64.div (Dbl.pinf) (Dbl.fin 2) = Dbl.pinf := by
    norm_num [Binary64.div, Dbl.round64, Dbl.div_def, Dbl.div, Dbl.infOfSign]
  have h5 : Binary64.add (Dbl.fin (3 * 2 ^ 1022)) (Dbl.fin (3 * 2 ^ 1022)) = Dbl.pinf := by
    rw [Binary64.add, Dbl.fin_add_fin]
    exact Dbl.round64_cert_inf _ (1024) (6755399441055744) (by norm_num) (by norm_num)
      (by norm_num) (by norm_num) (by norm_num)
  refine ⟨?_, ?_, ?_, by norm_num, by simp⟩
  · simp only [Binary64.SnapPointBase.DetermineActualImpulseApplicableZone,
      Binary64.ScrollSnapPoint.DetermineActualImpulseApplicableZone,
      Binary64.ScrollSnapPoint.DetermineMinActualImpulseApplicableZone,
      Binary64.ScrollSnapPoint.DetermineMaxActualImpulseApplicableZone,
      Binary64.SnapPointBase.ImpulseInfluence, Binary64.ScrollSnapPoint.ImpulseInfluence,
      Binary64.ScrollSnapPoint.ActualValue, Scenario.mandatoryScroll, h1, h2, h3, h4, h5]
    simp [Dbl.isnan, Dbl.std_max, Dbl.std_min]
  · simp only [Binary64.SnapPointBase.singleValue, Binary64.ScrollSnapPoint.ActualValue,
      Scenario.mandatoryScroll, h1]
  · simp only [Binary64.SnapPointBase.singleValue, Binary64.ScrollSnapPoint.ActualValue,
      Scenario.mandatoryScroll, h2]

/-! ## Combine of single points -/

/-- An integer that fits an `int` is stored unchanged. -/
theorem int_wrap_of_fits (x : Int) (h1 : -2 ^ 31 ≤ x) (h2 : x < 2 ^ 31) : int_wrap x = x := by
  unfold int_wrap
  norm_num at h1 h2 ⊢
  omega

/-- C19 (amended). `Combine` of a single point with an incoming single point of the same kind,
called with a combination count below `INT_MAX = 2 ^ 31 - 1`, sets the receiver's applicable
range to `std::max(incoming range, existing range)`, which for numbers is
`max(existing range, incoming range)`, increases the combination count by one and changes
nothing else, neither in the point nor in the wrapper that holds it; nothing is thrown. -/
theorem C19_Combine_single (combinationCount : Int) (p q : ScrollSnapPoint)
    (pz qz : ZoomSnapPoint) (w incoming : SnapPointWrapper)
    (hlo : -2 ^ 31 ≤ combinationCount) (hhi : combinationCount < 2 ^ 31 - 1)
    (hwlo : -2 ^ 31 ≤ w.m_combinationCount) (hwhi : w.m_combinationCount < 2 ^ 31 - 1) :
    p.Combine combinationCount (SnapPointBase.scroll q) =
      { snapPoint :=
          { m_value := p.m_value
            m_alignment := p.m_alignment
            m_alignmentAdjustment := p.m_alignmentAdjustment
            m_specifiedApplicableRange :=
              Dbl.std_max q.m_specifiedApplicableRange p.m_specifiedApplicableRange
            m_applicableRangeType := p.m_applicableRangeType }
        combinationCount := combinationCount + 1
        thrown := none } ∧
    pz.Combine combinationCount (SnapPointBase.zoom qz) =
      { snapPoint :=
          { m_value := pz.m_value
            m_specifiedApplicableRange :=
              Dbl.std_max qz.m_specifiedApplicableRange pz.m_specifiedApplicableRange
            m_applicableRangeType := pz.m_applicableRangeType }
        combinationCount := combinationCount + 1
        thrown := none } ∧
    (∀ existing arriving : Dbl, existing ≠ Dbl.nan → arriving ≠ Dbl.nan →
      Dbl.std_max arriving existing = Dbl.std_max existing arriving) ∧
    (w.m_snapPoint = SnapPointBase.scroll p → incoming.m_snapPoint = SnapPointBase.scroll q →
      w.Combine incoming =
        ({ m_snapPoint := SnapPointBase.scroll
              { p with
                m_specifiedApplicableRange :=
                  Dbl.std_max q.m_specifiedApplicableRange p.m_specifiedApplicableRange }
           m_actualApplicableZone := w.m_actualApplicableZone
           m_actualImpulseApplicableZone := w.m_actualImpulseApplicableZone
           m_combinationCount := w.m_combinationCount + 1
           m_ignoredValue := w.m_ignoredValue }, none)) ∧
    (w.m_snapPoint = SnapPointBase.zoom pz → incoming.m_snapPoint = SnapPointBase.zoom qz →
      w.Combine incoming =
        ({ m_snapPoint := SnapPointBase.zoom
              { pz with
                m_specifiedApplicableRange :=
                  Dbl.std_max qz.m_specifiedApplicableRange pz.m_specifiedApplicableRange }
           m_actualApplicableZone := w.m_actualApplicableZone
           m_actualImpulseApplicableZone := w.m_actualImpulseApplicableZone
           m_combinationCount := w.m_combinationCount + 1
           m_ignoredValue := w.m_ignoredValue }, none)) := by
  have hc : int_wrap (combinationCount + 1) = combinationCount + 1 :=
    int_wrap_of_fits _ (by linarith) (by linarith)
  have hwc : int_wrap (w.m_combinationCount + 1) = w.m_combinationCount + 1 :=
    int_wrap_of_fits _ (by linarith) (by linarith)
  refine ⟨?_, ?_, fun _ _ h1 h2 => Dbl.std_max_comm h2 h1, ?_, ?_⟩
  · simp only [ScrollSnapPoint.Combine, hc]
  · simp only [ZoomSnapPoint.Combine, hc]
  · intro hw hi
    simp [SnapPointWrapper.Combine, SnapPointWrapper.SnapPoint, SnapPointBase.Combine,
      ScrollSnapPoint.Combine, hw, hi, hwc]
  · intro hw hi
    simp [SnapPointWrapper.Combine, SnapPointWrapper.SnapPoint, SnapPointBase.Combine,
      ZoomSnapPoint.Combine, hw, hi, hwc]

/-- C19 witness, the scenario of the specification: combining two single points at the same
position with ranges `5` and `8` yields combination count `2` and range `8`. -/
theorem C19_Combine_single_witness :
    ((Scenario.freshWrapper (SnapPointBase.scroll (Scenario.optionalScroll 0 5))).Combine
      (Scenario.freshWrapper (SnapPointBase.scroll (Scenario.optionalScroll 0 8)))).1
      = { m_snapPoint := SnapPointBase.scroll (Scenario.optionalScroll 0 8)
          m_actualApplicableZone := (Dbl.ninf, Dbl.pinf)
          m_actualImpulseApplicableZone := (Dbl.ninf, Dbl.pinf)
          m_combinationCount := 2
          m_ignoredValue := Dbl.NAN } ∧
    ((Scenario.freshWrapper (SnapPointBase.scroll (Scenario.optionalScroll 0 5))).Combine
      (Scenario.freshWrapper (SnapPointBase.scroll (Scenario.optionalScroll 0 8)))).2 = none := by
  have h := (C19_Combine_single 1 (Scenario.optionalScroll 0 5) (Scenario.optionalScroll 0 8)
    ⟨Dbl.fin 1, Dbl.fin 1, SnapPointApplicableRangeType.Mandatory⟩
    ⟨Dbl.fin 1, Dbl.fin 1, SnapPointApplicableRangeType.Mandatory⟩
    (Scenario.freshWrapper (SnapPointBase.scroll (Scenario.optionalScroll 0 5)))
    (Scenario.freshWrapper (SnapPointBase.scroll (Scenario.optionalScroll 0 8)))
    (by norm_num) (by norm_num) (by norm_num [Scenario.freshWrapper])
    (by norm_num [Scenario.freshWrapper])).2.2.2.1 rfl rfl
  rw [h]
  norm_num [Scenario.freshWrapper, Scenario.optionalScroll, Dbl.std_max]

/-- C19 counterexample: `Combine` called with the combination count `INT_MAX = 2147483647` on
two mandatory scroll points at `0` leaves the count `-2147483648`, which is not
`2147483647 + 1`; so does the wrapper that holds the point. -/
theorem C19_counterexample :
    ((Scenario.mandatoryScroll 0).Combine 2147483647
      (SnapPointBase.scroll (Scenario.mandatoryScroll 0))).combinationCount = -2147483648 ∧
    ((Scenario.mandatoryScroll 0).Combine 2147483647
      (SnapPointBase.scroll (Scenario.mandatoryScroll 0))).thrown = none ∧
    ((Scenario.mandatoryScroll 0).Combine 2147483647
      (SnapPointBase.scroll (Scenario.mandatoryScroll 0))).combinationCount
        ≠ 2147483647 + 1 := by
  have h : ((Scenario.mandatoryScroll 0).Combine 2147483647
      (SnapPointBase.scroll (Scenario.mandatoryScroll 0))).combinationCount = -2147483648 := by
    simp only [ScrollSnapPoint.Combine, int_wrap]
    norm_num
  refine ⟨h, rfl, ?_⟩
  rw [h]
  norm_num

/-! ## The integer domain: rounded and exact methods agree -/

/-- What `isInteger48` says. -/
theorem Dbl.isInteger48_iff (x : Dbl) :
    x.isInteger48 = true ↔ ∃ n : ℤ, |n| ≤ 2 ^ 48 ∧ x = Dbl.fin (n : ℚ) := by
  cases x with
  | nan => simp [Dbl.isInteger48]
  | ninf => simp [Dbl.isInteger48]
  | pinf => simp [Dbl.isInteger48]
  | fin q =>
      simp only [Dbl.isInteger48, decide_eq_true_eq, Dbl.fin.injEq]
      constructor
      · rintro ⟨hden, hnum⟩
        refine ⟨q.num, hnum, ?_⟩
        have := Rat.num_div_den q
        rw [hden] at this
        simpa using this.symm
      · rintro ⟨n, hn, rfl⟩
        simpa using hn

/-- An integer of magnitude at most `2 ^ 48` passes `isInteger48`. -/
theorem Dbl.isInteger48_intCast (n : ℤ) (hn : |n| ≤ 2 ^ 48) :
    (Dbl.fin (n : ℚ)).isInteger48 = true :=
  (Dbl.isInteger48_iff _).2 ⟨n, hn, rfl⟩

/-- The fields of a repeated scroll point of the integer domain. -/
theorem SnapPointBase.integerFields_repeatedScroll (p : RepeatedScrollSnapPoint)
    (h : (SnapPointBase.repeatedScroll p).integerFields = true) :
    ∃ o i s e adj : ℤ, p.m_offset = Dbl.fin o ∧ p.m_interval = Dbl.fin i ∧
      p.m_start = Dbl.fin s ∧ p.m_end = Dbl.fin e ∧ p.m_alignmentAdjustment = Dbl.fin adj ∧
      |o| ≤ 2 ^ 48 ∧ |i| ≤ 2 ^ 48 ∧ |s| ≤ 2 ^ 48 ∧ |e| ≤ 2 ^ 48 ∧ |adj| ≤ 2 ^ 48 ∧
      (p.m_specifiedApplicableRange = Dbl.pinf ∨
        ∃ r : ℤ, |r| ≤ 2 ^ 48 ∧ p.m_specifiedApplicableRange = Dbl.fin r) := by
  simp only [SnapPointBase.integerFields, Bool.and_eq_true, Bool.or_eq_true, beq_iff_eq,
    Dbl.isInteger48_iff] at h
  obtain ⟨⟨⟨⟨⟨⟨o, ho, h1⟩, ⟨i, hi, h2⟩⟩, ⟨s, hs, h3⟩⟩, ⟨e, he, h4⟩⟩, ⟨adj, ha, h5⟩⟩, hr⟩ := h
  exact ⟨o, i, s, e, adj, h1, h2, h3, h4, h5, ho, hi, hs, he, ha, hr⟩

/-- The fields of a repeated zoom point of the integer domain. -/
theorem SnapPointBase.integerFields_repeatedZoom (p : RepeatedZoomSnapPoint)
    (h : (SnapPointBase.repeatedZoom p).integerFields = true) :
    ∃ o i s e : ℤ, p.m_offset = Dbl.fin o ∧ p.m_interval = Dbl.fin i ∧
      p.m_start = Dbl.fin s ∧ p.m_end = Dbl.fin e ∧
      |o| ≤ 2 ^ 48 ∧ |i| ≤ 2 ^ 48 ∧ |s| ≤ 2 ^ 48 ∧ |e| ≤ 2 ^ 48 ∧
      (p.m_specifiedApplicableRange = Dbl.pinf ∨
        ∃ r : ℤ, |r| ≤ 2 ^ 48 ∧ p.m_specifiedApplicableRange = Dbl.fin r) := by
  simp only [SnapPointBase.integerFields, Bool.and_eq_true, Bool.or_eq_true, beq_iff_eq,
    Dbl.isInteger48_iff] at h
  obtain ⟨⟨⟨⟨⟨o, ho, h1⟩, ⟨i, hi, h2⟩⟩, ⟨s, hs, h3⟩⟩, ⟨e, he, h4⟩⟩, hr⟩ := h
  exact ⟨o, i, s, e, h1, h2, h3, h4, ho, hi, hs, he, hr⟩

/-- A point of the integer domain that satisfies the constructor's conditions has finite fields
and a positive interval. -/
theorem SnapPointBase.repeatedFinite_of_integerFields (sp : SnapPointBase)
    (hint : sp.integerFields = true) (hvalid : sp.repeatedValid = true) :
    sp.repeatedFinite = true := by
  cases sp with
  | scroll p => rfl
  | zoom p => rfl
  | repeatedScroll p =>
      obtain ⟨o, i, s, e, adj, h1, h2, h3, h4, h5, _⟩ :=
        SnapPointBase.integerFields_repeatedScroll p hint
      simp only [SnapPointBase.repeatedValid, Bool.and_eq_true, decide_eq_true_eq] at hvalid
      simp only [SnapPointBase.repeatedFinite, h1, h2, h3, h4, h5, Dbl.isFinite, Bool.and_eq_true,
        decide_eq_true_eq, true_and]
      have := hvalid.2
      rw [h2] at this
      exact this
  | repeatedZoom p =>
      obtain ⟨o, i, s, e, h1, h2, h3, h4, _⟩ := SnapPointBase.integerFields_repeatedZoom p hint
      simp only [SnapPointBase.repeatedValid, Bool.and_eq_true, decide_eq_true_eq] at hvalid
      simp only [SnapPointBase.repeatedFinite, h1, h2, h3, h4, Dbl.isFinite, Bool.and_eq_true,
        decide_eq_true_eq, true_and]
      have := hvalid.2
      rw [h2] at this
      exact this

/-- On the integer domain the computed bounds, offset, first and last position of a point are
the exact ones. -/
theorem binary64_vocabulary_intCast (sp : SnapPointBase)
    (hint : sp.integerFields = true) (hfin : sp.repeatedFinite = true) :
    Binary64.SnapPointBase.singleValue sp = sp.singleValue ∧
    Binary64.SnapPointBase.repeatedBounds sp = sp.repeatedBounds ∧
    Binary64.SnapPointBase.repeatedOffsetInterval sp = sp.repeatedOffsetInterval ∧
    Binary64.SnapPointBase.repeatedFirstLast sp = sp.repeatedFirstLast := by
  cases sp with
  | scroll p =>
      simp only [SnapPointBase.integerFields, Bool.and_eq_true, Dbl.isInteger48_iff] at hint
      obtain ⟨⟨v, hv, h1⟩, ⟨adj, ha, h2⟩⟩ := hint
      rw [abs_le] at hv ha
      refine ⟨?_, rfl, rfl, rfl⟩
      simp only [Binary64.SnapPointBase.singleValue, SnapPointBase.singleValue,
        Binary64.ScrollSnapPoint.ActualValue, ScrollSnapPoint.ActualValue, h1, h2]
      rw [Binary64.add_intCast v adj (abs_lt.mpr ⟨by linarith, by linarith⟩), Dbl.fin_add_fin]
      push_cast
      rfl
  | zoom p => exact ⟨rfl, rfl, rfl, rfl⟩
  | repeatedScroll p =>
      obtain ⟨o, i, s, e, adj, h1, h2, h3, h4, h5, ho, hi, hs, he, ha, _⟩ :=
        SnapPointBase.integerFields_repeatedScroll p hint
      have hipos : 0 < i := by
        simp only [SnapPointBase.repeatedFinite, Bool.and_eq_true, decide_eq_true_eq, h2,
          Dbl.fin_lt_fin] at hfin
        exact_mod_cast hfin.2
      have hib : i ≤ 2 ^ 48 := (abs_le.mp hi).2
      obtain ⟨hF1, hF2⟩ := binary64_First_intCast p o i s adj h1 h2 h3 h5 ho hib hs ha hipos
      obtain ⟨hL1, hL2⟩ := binary64_Last_intCast p o i e adj h1 h2 h4 h5 ho hib he ha hipos
      rw [abs_le] at ho hs he ha
      have hO : Binary64.RepeatedScrollSnapPoint.ActualOffset p = p.ActualOffset := by
        simp only [Binary64.RepeatedScrollSnapPoint.ActualOffset,
          RepeatedScrollSnapPoint.ActualOffset, h1, h5]
        rw [Binary64.add_intCast o adj (abs_lt.mpr ⟨by linarith, by linarith⟩), Dbl.fin_add_fin]
        push_cast
        rfl
      have hS : Binary64.RepeatedScrollSnapPoint.ActualStart p = p.ActualStart := by
        simp only [Binary64.RepeatedScrollSnapPoint.ActualStart,
          RepeatedScrollSnapPoint.ActualStart, h3, h5]
        rw [Binary64.add_intCast s adj (abs_lt.mpr ⟨by linarith, by linarith⟩), Dbl.fin_add_fin]
        push_cast
        rfl
      have hE : Binary64.RepeatedScrollSnapPoint.ActualEnd p = p.ActualEnd := by
        simp only [Binary64.RepeatedScrollSnapPoint.ActualEnd,
          RepeatedScrollSnapPoint.ActualEnd, h4, h5]
        rw [Binary64.add_intCast e adj (abs_lt.mpr ⟨by linarith, by linarith⟩), Dbl.fin_add_fin]
        push_cast
        rfl
      refine ⟨rfl, ?_, ?_, ?_⟩
      · simp only [Binary64.SnapPointBase.repeatedBounds, SnapPointBase.repeatedBounds, hS, hE]
      · simp only [Binary64.SnapPointBase.repeatedOffsetInterval,
          SnapPointBase.repeatedOffsetInterval, hO]
      · simp only [Binary64.SnapPointBase.repeatedFirstLast, SnapPointBase.repeatedFirstLast,
          hF1, hF2, hL1, hL2]
  | repeatedZoom p =>
      obtain ⟨o, i, s, e, h1, h2, h3, h4, ho, hi, hs, he, _⟩ :=
        SnapPointBase.integerFields_repeatedZoom p hint
      have hipos : 0 < i := by
        simp only [SnapPointBase.repeatedFinite, Bool.and_eq_true, decide_eq_true_eq, h2,
          Dbl.fin_lt_fin] at hfin
        exact_mod_cast hfin.2
      have hib : i ≤ 2 ^ 48 := (abs_le.mp hi).2
      obtain ⟨hF1, hF2⟩ := binary64_zoom_First_intCast p o i s h1 h2 h3 ho hib hs hipos
      obtain ⟨hL1, hL2⟩ := binary64_zoom_Last_intCast p o i e h1 h2 h4 ho hib he hipos
      refine ⟨rfl, rfl, rfl, ?_⟩
      simp only [Binary64.SnapPointBase.repeatedFirstLast, SnapPointBase.repeatedFirstLast,
        hF1, hF2, hL1, hL2]

/-- On the integer domain the computed `Evaluate` of an integer value is the exact one, and it
is an integer. -/
theorem binary64_SnapPointBase_Evaluate_intCast (sp : SnapPointBase) (zone : Dbl × Dbl) (v : ℤ)
    (hint : sp.integerFields = true) (hfin : sp.repeatedFinite = true) :
    Binary64.SnapPointBase.Evaluate sp zone (Dbl.fin v) = sp.Evaluate zone (Dbl.fin v) ∧
    ∃ w : ℤ, sp.Evaluate zone (Dbl.fin v) = Dbl.fin w := by
  cases sp with
  | scroll p =>
      have hv := (binary64_vocabulary_intCast (SnapPointBase.scroll p) hint hfin).1
      simp only [Binary64.SnapPointBase.singleValue, SnapPointBase.singleValue,
        Option.some.injEq] at hv
      simp only [SnapPointBase.integerFields, Bool.and_eq_true, Dbl.isInteger48_iff] at hint
      obtain ⟨⟨a, _, h1⟩, ⟨adj, _, h2⟩⟩ := hint
      constructor
      · simp only [Binary64.SnapPointBase.Evaluate, Binary64.ScrollSnapPoint.Evaluate,
          SnapPointBase.Evaluate, ScrollSnapPoint.Evaluate, hv]
      · simp only [SnapPointBase.Evaluate, ScrollSnapPoint.Evaluate, ScrollSnapPoint.ActualValue,
          h1, h2, Dbl.fin_add_fin]
        split_ifs
        · exact ⟨a + adj, by push_cast; rfl⟩
        · exact ⟨v, rfl⟩
  | zoom p =>
      simp only [SnapPointBase.integerFields, Dbl.isInteger48_iff] at hint
      obtain ⟨a, _, h1⟩ := hint
      refine ⟨rfl, ?_⟩
      simp only [SnapPointBase.Evaluate, ZoomSnapPoint.Evaluate, h1]
      split_ifs
      · exact ⟨a, rfl⟩
      · exact ⟨v, rfl⟩
  | repeatedScroll p =>
      obtain ⟨o, i, s, e, adj, h1, h2, h3, h4, h5, ho, hi, hs, he, ha, hr⟩ :=
        SnapPointBase.integerFields_repeatedScroll p hint
      have hipos : 0 < i := by
        simp only [SnapPointBase.repeatedFinite, Bool.and_eq_true, decide_eq_true_eq, h2,
          Dbl.fin_lt_fin] at hfin
        exact_mod_cast hfin.2
      exact binary64_Evaluate_intCast p o i s e adj v zone h1 h2 h3 h4 h5 hr ho (abs_le.mp hi).2
        hs he ha hipos
  | repeatedZoom p =>
      obtain ⟨o, i, s, e, h1, h2, h3, h4, ho, hi, hs, he, hr⟩ :=
        SnapPointBase.integerFields_repeatedZoom p hint
      have hipos : 0 < i := by
        simp only [SnapPointBase.repeatedFinite, Bool.and_eq_true, decide_eq_true_eq, h2,
          Dbl.fin_lt_fin] at hfin
        exact_mod_cast hfin.2
      exact binary64_zoom_Evaluate_intCast p o i s e v zone h1 h2 h3 h4 hr ho (abs_le.mp hi).2
        hs he hipos

/-! ## Properties of the repeated positions on the integer domain -/

/-- C33 (amended). `Evaluate` is idempotent on single points, for every zone and every value,
and on repeated points of the integer domain (offset, interval, start, end and alignment
adjustment integers of magnitude at most `2 ^ 48`, a range that is such an integer or
`INFINITY`) that satisfy the constructor's conditions (`end > start`,
`start <= offset <= end`, `interval > 0`), for every zone and every integer value `v`:
`Evaluate(zone, Evaluate(zone, v)) = Evaluate(zone, v)`. -/
theorem C33_Evaluate_idempotent (sp : SnapPointBase) (zone : Dbl × Dbl) :
    (∀ u : Dbl, Binary64.SnapPointBase.singleValue sp = some u → ∀ v : Dbl,
      Binary64.SnapPointBase.Evaluate sp zone (Binary64.SnapPointBase.Evaluate sp zone v)
        = Binary64.SnapPointBase.Evaluate sp zone v) ∧
    (sp.integerFields = true → sp.repeatedValid = true → ∀ v : ℤ,
      Binary64.SnapPointBase.Evaluate sp zone (Binary64.SnapPointBase.Evaluate sp zone (Dbl.fin v))
        = Binary64.SnapPointBase.Evaluate sp zone (Dbl.fin v)) := by
  constructor
  · intro u hu v
    cases sp with
    | scroll p =>
        simp only [Binary64.SnapPointBase.Evaluate, Binary64.ScrollSnapPoint.Evaluate]
        split_ifs <;> simp_all
    | zoom p =>
        simp only [Binary64.SnapPointBase.Evaluate, ZoomSnapPoint.Evaluate]
        split_ifs <;> simp_all
    | repeatedScroll p => simp [Binary64.SnapPointBase.singleValue] at hu
    | repeatedZoom p => simp [Binary64.SnapPointBase.singleValue] at hu
  · intro hint hvalid v
    have hfin := SnapPointBase.repeatedFinite_of_integerFields sp hint hvalid
    obtain ⟨h1, w, hw⟩ := binary64_SnapPointBase_Evaluate_intCast sp zone v hint hfin
    rw [h1, hw]
    obtain ⟨h2, _⟩ := binary64_SnapPointBase_Evaluate_intCast sp zone w hint hfin
    rw [h2, ← hw]
    exact exact_Evaluate_idempotent sp zone (Dbl.fin v) hfin

/-- C33 witness: the repeated point `offset = 0, interval = 10, start = 0, end = 96` evaluates
`96` to `100`, and `100` to itself. -/
theorem C33_Evaluate_idempotent_witness :
    Binary64.SnapPointBase.Evaluate (SnapPointBase.repeatedScroll Scenario.repeatedEnd96)
        (Dbl.fin 0, Dbl.fin 96) (Dbl.fin 96) = Dbl.fin 100 ∧
    Binary64.SnapPointBase.Evaluate (SnapPointBase.repeatedScroll Scenario.repeatedEnd96)
        (Dbl.fin 0, Dbl.fin 96) (Dbl.fin 100) = Dbl.fin 100 := by
  have h96 : Binary64.SnapPointBase.Evaluate (SnapPointBase.repeatedScroll Scenario.repeatedEnd96)
      (Dbl.fin 0, Dbl.fin 96) (Dbl.fin ((96 : ℤ) : ℚ)) = Dbl.fin 100 := by
    rw [(binary64_SnapPointBase_Evaluate_intCast _ (Dbl.fin 0, Dbl.fin 96) 96
      (by decide) (by decide)).1]
    have hfloor1 : ⌊((0 : ℚ) + 0 - (0 + 0)) / 10⌋ = 0 := by
      rw [Int.floor_eq_iff]
      norm_num
    have hfloor2 : ⌊((96 : ℚ) - 0) / 10⌋ = 9 := by
      rw [Int.floor_eq_iff]
      norm_num
    norm_num [SnapPointBase.Evaluate, RepeatedScrollSnapPoint.Evaluate,
      Scenario.repeatedEnd96, RepeatedScrollSnapPoint.DetermineFirstRepeatedSnapPointValue,
      RepeatedScrollSnapPoint.ActualOffset, RepeatedScrollSnapPoint.ActualStart,
      RepeatedScrollSnapPoint.ActualEnd, Dbl.fin_div_fin, hfloor1, hfloor2, Dbl.INFINITY]
  have h := (C33_Evaluate_idempotent (SnapPointBase.repeatedScroll Scenario.repeatedEnd96)
    (Dbl.fin 0, Dbl.fin 96)).2 (by decide) (by decide) 96
  rw [h96] at h
  norm_num at h96
  exact ⟨h96, h⟩

/-- C33 counterexample: the mandatory repeated scroll point with `offset = 41.23`,
`interval = 0.14`, `start = 5.4`, `end = 99.4` (the doubles nearest to these decimals,
adjustment `0`), which satisfies the constructor's conditions, and the value
`(7250795400066499 / 2 ^ 48)` (the double nearest to `25.76`): `Evaluate` returns
`(1817624662109061 / 2 ^ 46)` (the double nearest to `25.83`), and `Evaluate` of that returns
`(7270498648436243 / 2 ^ 48)` (`25.829999999999995`), the double just below. -/
theorem C33_counterexample :
    (SnapPointBase.repeatedScroll Scenario.roundingIdempotence).repeatedValid = true ∧
    Binary64.SnapPointBase.Evaluate (SnapPointBase.repeatedScroll Scenario.roundingIdempotence)
      (Dbl.fin (3039929748475085 / 2 ^ 49), Dbl.fin (3497326585629901 / 2 ^ 45))
      (Dbl.fin (7250795400066499 / 2 ^ 48)) = Dbl.fin (1817624662109061 / 2 ^ 46) ∧
    Binary64.SnapPointBase.Evaluate (SnapPointBase.repeatedScroll Scenario.roundingIdempotence)
      (Dbl.fin (3039929748475085 / 2 ^ 49), Dbl.fin (3497326585629901 / 2 ^ 45))
      (Dbl.fin (1817624662109061 / 2 ^ 46)) = Dbl.fin (7270498648436243 / 2 ^ 48) ∧
    Dbl.fin (7270498648436243 / 2 ^ 48) ≠ Dbl.fin (1817624662109061 / 2 ^ 46) := by
  have h1 : Binary64.add (Dbl.fin (3039929748475085 / 2 ^ 49)) (Dbl.fin 0)
      = Dbl.fin (3039929748475085 / 2 ^ 49) := by
    rw [Binary64.add, Dbl.fin_add_fin]
    exact Dbl.round64_cert _ _ (2) (6079859496950170) (by norm_num) (by norm_num)
      (by norm_num) (by norm_num) (Or.inl ⟨by norm_num, by norm_num⟩) (by norm_num)
  have h2 : Binary64.add (Dbl.fin (3497326585629901 / 2 ^ 45)) (Dbl.fin 0)
      = Dbl.fin (3497326585629901 / 2 ^ 45) := by
    rw [Binary64.add, Dbl.fin_add_fin]
    exact Dbl.round64_cert _ _ (6) (6994653171259802) (by norm_num) (by norm_num)
      (by norm_num) (by norm_num) (Or.inl ⟨by norm_num, by norm_num⟩) (by norm_num)
  have h3 : Binary64.add (Dbl.fin (5802606644890173 / 2 ^ 47)) (Dbl.fin 0)
      = Dbl.fin (5802606644890173 / 2 ^ 47) := by
    rw [Binary64.add, Dbl.fin_add_fin]
    exact Dbl.round64_cert _ _ (5) (5802606644890173) (by norm_num) (by norm_num)
      (by norm_num) (by norm_num) (Or.inl ⟨by norm_num, by norm_num⟩) (by norm_num)
  have h4 : Binary64.sub (Dbl.fin (5802606644890173 / 2 ^ 47)) (Dbl.fin (3039929748475085 / 2 ^ 49))
      = Dbl.fin (2521312103885701 / 2 ^ 46) := by
    rw [Binary64.sub, Dbl.fin_sub_fin]
    exact Dbl.round64_cert _ _ (5) (5042624207771402) (by norm_num) (by norm_num)
      (by norm_num) (by norm_num) (Or.inl ⟨by norm_num, by norm_num⟩) (by norm_num)
  have h5 : Binary64.div (Dbl.fin (2521312103885701 / 2 ^ 46)) (Dbl.fin (1261007895663739 / 2 ^ 53))
      = Dbl.fin (4502343042653037 / 2 ^ 44) := by
    rw [Binary64.div, Dbl.fin_div_fin _ _ (by norm_num)]
    exact Dbl.round64_cert _ _ (7) (9004686085306074) (by norm_num) (by norm_num)
      (by norm_num) (by norm_num) (Or.inl ⟨by norm_num, by norm_num⟩) (by norm_num)
  have h6 : Dbl.floor (Dbl.fin (4502343042653037 / 2 ^ 44)) = Dbl.fin 255 := by
    rw [Dbl.floor_fin_cert (4502343042653037 / 2 ^ 44) (255) (by norm_num) (by norm_num)]
    norm_num
  have h7 : Binary64.mul (Dbl.fin 255) (Dbl.fin (1261007895663739 / 2 ^ 53))
      = Dbl.fin (2512164167142605 / 2 ^ 46) := by
    rw [Binary64.mul, Dbl.fin_mul_fin]
    exact Dbl.round64_cert _ _ (5) (5024328334285210) (by norm_num) (by norm_num)
      (by norm_num) (by norm_num) (Or.inl ⟨by norm_num, by norm_num⟩) (by norm_num)
  have h8 : Binary64.sub (Dbl.fin (5802606644890173 / 2 ^ 47)) (Dbl.fin (2512164167142605 / 2 ^ 46))
      = Dbl.fin (778278310604963 / 2 ^ 47) := by
    rw [Binary64.sub, Dbl.fin_sub_fin]
    exact Dbl.round64_cert _ _ (2) (6226226484839704) (by norm_num) (by norm_num)
      (by norm_num) (by norm_num) (Or.inl ⟨by norm_num, by norm_num⟩) (by norm_num)
  have h9 : Binary64.sub (Dbl.fin (7250795400066499 / 2 ^ 48)) (Dbl.fin (778278310604963 / 2 ^ 47))
      = Dbl.fin (5694238778856573 / 2 ^ 48) := by
    rw [Binary64.sub, Dbl.fin_sub_fin]
    exact Dbl.round64_cert _ _ (4) (5694238778856573) (by norm_num) (by norm_num)
      (by norm_num) (by norm_num) (Or.inl ⟨by norm_num, by norm_num⟩) (by norm_num)
  have h10 : Binary64.div (Dbl.fin (5694238778856573 / 2 ^ 48))
      (Dbl.fin (1261007895663739 / 2 ^ 53))
      = Dbl.fin (5084141766836225 / 2 ^ 45) := by
    rw [Binary64.div, Dbl.fin_div_fin _ _ (by norm_num)]
    exact Dbl.round64_cert _ _ (7) (5084141766836225) (by norm_num) (by norm_num)
      (by norm_num) (by norm_num) (Or.inl ⟨by norm_num, by norm_num⟩) (by norm_num)
  have h11 : Dbl.floor (Dbl.fin (5084141766836225 / 2 ^ 45)) = Dbl.fin 144 := by
    rw [Dbl.floor_fin_cert (5084141766836225 / 2 ^ 45) (144) (by norm_num) (by norm_num)]
    norm_num
  have h12 : Binary64.mul (Dbl.fin 144) (Dbl.fin (1261007895663739 / 2 ^ 53))
      = Dbl.fin (2837267765243413 / 2 ^ 47) := by
    rw [Binary64.mul, Dbl.fin_mul_fin]
    exact Dbl.round64_cert _ _ (4) (5674535530486826) (by norm_num) (by norm_num)
      (by norm_num) (by norm_num) (Or.inr ⟨by norm_num, by norm_num⟩) (by norm_num)
  have h13 : Binary64.add (Dbl.fin (2837267765243413 / 2 ^ 47)) (Dbl.fin (778278310604963 / 2 ^ 47))
      = Dbl.fin (451943259481047 / 2 ^ 44) := by
    rw [Binary64.add, Dbl.fin_add_fin]
    exact Dbl.round64_cert _ _ (4) (7231092151696752) (by norm_num) (by norm_num)
      (by norm_num) (by norm_num) (Or.inl ⟨by norm_num, by norm_num⟩) (by norm_num)
  have h14 : Binary64.add (Dbl.fin (451943259481047 / 2 ^ 44)) (Dbl.fin (1261007895663739 / 2 ^ 53))
      = Dbl.fin (1817624662109061 / 2 ^ 46) := by
    rw [Binary64.add, Dbl.fin_add_fin]
    exact Dbl.round64_cert _ _ (4) (7270498648436244) (by norm_num) (by norm_num)
      (by norm_num) (by norm_num) (Or.inl ⟨by norm_num, by norm_num⟩) (by norm_num)
  have h15 : Binary64.sub (Dbl.fin (7250795400066499 / 2 ^ 48)) (Dbl.fin (451943259481047 / 2 ^ 44))
      = Dbl.fin (19703248369747 / 2 ^ 48) := by
    rw [Binary64.sub, Dbl.fin_sub_fin]
    exact Dbl.round64_cert _ _ (-4) (5044031582655232) (by norm_num) (by norm_num)
      (by norm_num) (by norm_num) (Or.inl ⟨by norm_num, by norm_num⟩) (by norm_num)
  have h16 : Binary64.sub (Dbl.fin (1817624662109061 / 2 ^ 46))
      (Dbl.fin (7250795400066499 / 2 ^ 48))
      = Dbl.fin (19703248369745 / 2 ^ 48) := by
    rw [Binary64.sub, Dbl.fin_sub_fin]
    exact Dbl.round64_cert _ _ (-4) (5044031582654720) (by norm_num) (by norm_num)
      (by norm_num) (by norm_num) (Or.inl ⟨by norm_num, by norm_num⟩) (by norm_num)
  have h17 : Binary64.sub (Dbl.fin (1817624662109061 / 2 ^ 46)) (Dbl.pinf) = Dbl.ninf := by
    norm_num [Binary64.sub, Dbl.round64, Dbl.sub_def, Dbl.sub, Dbl.infOfSign, Dbl.sub_def, Dbl.add,
        Dbl.neg]
  have h18 : Binary64.sub (Dbl.fin (1817624662109061 / 2 ^ 46)) (Dbl.fin (778278310604963 / 2 ^ 47))
      = Dbl.fin (2856971013613159 / 2 ^ 47) := by
    rw [Binary64.sub, Dbl.fin_sub_fin]
    exact Dbl.round64_cert _ _ (4) (5713942027226318) (by norm_num) (by norm_num)
      (by norm_num) (by norm_num) (Or.inl ⟨by norm_num, by norm_num⟩) (by norm_num)
  have h19 : Binary64.div (Dbl.fin (2856971013613159 / 2 ^ 47))
      (Dbl.fin (1261007895663739 / 2 ^ 53))
      = Dbl.fin (5101733952880641 / 2 ^ 45) := by
    rw [Binary64.div, Dbl.fin_div_fin _ _ (by norm_num)]
    exact Dbl.round64_cert _ _ (7) (5101733952880641) (by norm_num) (by norm_num)
      (by norm_num) (by norm_num) (Or.inl ⟨by norm_num, by norm_num⟩) (by norm_num)
  have h20 : Dbl.floor (Dbl.fin (5101733952880641 / 2 ^ 45)) = Dbl.fin 145 := by
    rw [Dbl.floor_fin_cert (5101733952880641 / 2 ^ 45) (145) (by norm_num) (by norm_num)]
    norm_num
  have h21 : Binary64.mul (Dbl.fin 145) (Dbl.fin (1261007895663739 / 2 ^ 53))
      = Dbl.fin (5713942027226317 / 2 ^ 48) := by
    rw [Binary64.mul, Dbl.fin_mul_fin]
    exact Dbl.round64_cert _ _ (4) (5713942027226317) (by norm_num) (by norm_num)
      (by norm_num) (by norm_num) (Or.inl ⟨by norm_num, by norm_num⟩) (by norm_num)
  have h22 : Binary64.add (Dbl.fin (5713942027226317 / 2 ^ 48)) (Dbl.fin (778278310604963 / 2 ^ 47))
      = Dbl.fin (7270498648436243 / 2 ^ 48) := by
    rw [Binary64.add, Dbl.fin_add_fin]
    exact Dbl.round64_cert _ _ (4) (7270498648436243) (by norm_num) (by norm_num)
      (by norm_num) (by norm_num) (Or.inl ⟨by norm_num, by norm_num⟩) (by norm_num)
  have h23 : Binary64.add (Dbl.fin (7270498648436243 / 2 ^ 48))
      (Dbl.fin (1261007895663739 / 2 ^ 53))
      = Dbl.fin (7309905145175735 / 2 ^ 48) := by
    rw [Binary64.add, Dbl.fin_add_fin]
    exact Dbl.round64_cert _ _ (4) (7309905145175735) (by norm_num) (by norm_num)
      (by norm_num) (by norm_num) (Or.inl ⟨by norm_num, by norm_num⟩) (by norm_num)
  have h24 : Binary64.sub (Dbl.fin (1817624662109061 / 2 ^ 46))
      (Dbl.fin (7270498648436243 / 2 ^ 48))
      = Dbl.fin (1 / 2 ^ 48) := by
    rw [Binary64.sub, Dbl.fin_sub_fin]
    exact Dbl.round64_cert _ _ (-48) (4503599627370496) (by norm_num) (by norm_num)
      (by norm_num) (by norm_num) (Or.inl ⟨by norm_num, by norm_num⟩) (by norm_num)
  have h25 : Binary64.sub (Dbl.fin (7309905145175735 / 2 ^ 48))
      (Dbl.fin (1817624662109061 / 2 ^ 46))
      = Dbl.fin (39406496739491 / 2 ^ 48) := by
    rw [Binary64.sub, Dbl.fin_sub_fin]
    exact Dbl.round64_cert _ _ (-3) (5044031582654848) (by norm_num) (by norm_num)
      (by norm_num) (by norm_num) (Or.inl ⟨by norm_num, by norm_num⟩) (by norm_num)
  have h26 : Binary64.add (Dbl.fin (7270498648436243 / 2 ^ 48)) (Dbl.pinf) = Dbl.pinf := by
    norm_num [Binary64.add, Dbl.round64, Dbl.add_def, Dbl.add, Dbl.infOfSign]
  refine ⟨?_, ?_, ?_, by norm_num⟩
  · norm_num [SnapPointBase.repeatedValid, Scenario.roundingIdempotence, Dbl.INFINITY]
  · simp only [Binary64.SnapPointBase.Evaluate, Binary64.RepeatedScrollSnapPoint.Evaluate,
        Binary64.RepeatedScrollSnapPoint.DetermineFirstRepeatedSnapPointValue,
        Binary64.RepeatedScrollSnapPoint.DetermineLastRepeatedSnapPointValue,
        Binary64.RepeatedScrollSnapPoint.ActualOffset, Binary64.RepeatedScrollSnapPoint.ActualStart,
        Binary64.RepeatedScrollSnapPoint.ActualEnd,
      Binary64.RepeatedScrollSnapPoint.ImpulseInfluence,
      Binary64.SnapPointBase.ImpulseInfluence, SnapPointBase.setAlignmentAdjustment,
      Scenario.roundingIdempotence, Dbl.INFINITY, h1, h2, h3, h4, h5, h6, h7, h8, h9, h10, h11, h12,
      h13, h14, h15, h16, h17, h18, h19, h20, h21, h22, h23, h24, h25, h26]
    norm_num
  · simp only [Binary64.SnapPointBase.Evaluate, Binary64.RepeatedScrollSnapPoint.Evaluate,
        Binary64.RepeatedScrollSnapPoint.DetermineFirstRepeatedSnapPointValue,
        Binary64.RepeatedScrollSnapPoint.DetermineLastRepeatedSnapPointValue,
        Binary64.RepeatedScrollSnapPoint.ActualOffset, Binary64.RepeatedScrollSnapPoint.ActualStart,
        Binary64.RepeatedScrollSnapPoint.ActualEnd,
      Binary64.RepeatedScrollSnapPoint.ImpulseInfluence,
      Binary64.SnapPointBase.ImpulseInfluence, SnapPointBase.setAlignmentAdjustment,
      Scenario.roundingIdempotence, Dbl.INFINITY, h1, h2, h3, h4, h5, h6, h7, h8, h9, h10, h11, h12,
      h13, h14, h15, h16, h17, h18, h19, h20, h21, h22, h23, h24, h25, h26]
    norm_num

/-- C36 (amended). For a repeated snap point (scroll or zoom) of the integer domain (offset,
interval, start, end and alignment adjustment integers of magnitude at most `2 ^ 48`) that
satisfies the constructor's conditions (`end > start`, `start <= offset <= end`,
`interval > 0`), with computed actual offset `offset` and computed actual bounds
`(start, end)`: the computed `DetermineFirstRepeatedSnapPointValue` is `offset - k * interval`
for a natural number `k`, with `start <= first < start + interval`, the smallest sequence
position `offset + j * interval` not below `start`; the computed
`DetermineLastRepeatedSnapPointValue` is `offset + m * interval` for a natural number `m`, with
`end - interval < last <= end`, the largest sequence position not above `end`. -/
theorem C36_first_last_repeated_position (sp : SnapPointBase)
    (offset interval start end_ first last : Dbl)
    (hint : sp.integerFields = true) (hvalid : sp.repeatedValid = true)
    (hoi : Binary64.SnapPointBase.repeatedOffsetInterval sp = some (offset, interval))
    (hb : Binary64.SnapPointBase.repeatedBounds sp = some (start, end_))
    (hfl : Binary64.SnapPointBase.repeatedFirstLast sp = some (first, last)) :
    (∃ k : ℕ, first = offset - Dbl.fin k * interval) ∧
    start ≤ first ∧ first < start + interval ∧
    (∀ j : ℤ, start ≤ offset + Dbl.fin j * interval → first ≤ offset + Dbl.fin j * interval) ∧
    (∃ m : ℕ, last = offset + Dbl.fin m * interval) ∧
    end_ - interval < last ∧ last ≤ end_ ∧
    (∀ j : ℤ, offset + Dbl.fin j * interval ≤ end_ → offset + Dbl.fin j * interval ≤ last) := by
  have hfin := SnapPointBase.repeatedFinite_of_integerFields sp hint hvalid
  obtain ⟨_, hb', hoi', hfl'⟩ := binary64_vocabulary_intCast sp hint hfin
  rw [hb'] at hb
  rw [hoi'] at hoi
  rw [hfl'] at hfl
  exact exact_first_last_repeated_position sp offset interval start end_ first last hfin hvalid
    hoi hb hfl

/-- C36 witness: the repeated point `offset = 6, interval = 10, start = 0, end = 100` has first
position `6 = 6 - 0 * 10` in `[0, 10)` and last position `96 = 6 + 9 * 10` in `(90, 100]`. -/
theorem C36_first_last_repeated_position_witness :
    Binary64.SnapPointBase.repeatedFirstLast
        (SnapPointBase.repeatedScroll Scenario.repeatedOffset6)
      = some (Dbl.fin 6, Dbl.fin 96) ∧
    Dbl.fin 0 ≤ Dbl.fin 6 ∧ Dbl.fin 6 < Dbl.fin 0 + Dbl.fin 10 ∧
    Dbl.fin 100 - Dbl.fin 10 < Dbl.fin 96 ∧ Dbl.fin 96 ≤ Dbl.fin 100 := by
  have hfl : Binary64.SnapPointBase.repeatedFirstLast
      (SnapPointBase.repeatedScroll Scenario.repeatedOffset6)
      = some (Dbl.fin 6, Dbl.fin 96) := by
    rw [(binary64_vocabulary_intCast _ (by decide) (by decide)).2.2.2]
    norm_num [SnapPointBase.repeatedFirstLast, Scenario.repeatedOffset6,
      RepeatedScrollSnapPoint.DetermineFirstRepeatedSnapPointValue,
      RepeatedScrollSnapPoint.DetermineLastRepeatedSnapPointValue,
      RepeatedScrollSnapPoint.ActualOffset, RepeatedScrollSnapPoint.ActualStart,
      RepeatedScrollSnapPoint.ActualEnd, Dbl.fin_div_fin]
  have h := C36_first_last_repeated_position
    (SnapPointBase.repeatedScroll Scenario.repeatedOffset6)
    (Dbl.fin 6) (Dbl.fin 10) (Dbl.fin 0) (Dbl.fin 100) (Dbl.fin 6) (Dbl.fin 96)
    (by decide) (by decide)
    (by rw [(binary64_vocabulary_intCast _ (by decide) (by decide)).2.2.1]
        norm_num [SnapPointBase.repeatedBounds, SnapPointBase.repeatedOffsetInterval,
            Scenario.mandatoryRepeated, Scenario.optionalRepeated, Scenario.repeatedOffset6,
            RepeatedScrollSnapPoint.ActualStart, RepeatedScrollSnapPoint.ActualEnd,
            RepeatedScrollSnapPoint.ActualOffset])
    (by rw [(binary64_vocabulary_intCast _ (by decide) (by decide)).2.1]
        norm_num [SnapPointBase.repeatedBounds, SnapPointBase.repeatedOffsetInterval,
            Scenario.mandatoryRepeated, Scenario.optionalRepeated, Scenario.repeatedOffset6,
            RepeatedScrollSnapPoint.ActualStart, RepeatedScrollSnapPoint.ActualEnd,
            RepeatedScrollSnapPoint.ActualOffset])
    hfl
  exact ⟨hfl, h.2.1, h.2.2.1, h.2.2.2.2.2.1, h.2.2.2.2.2.2.1⟩

/-- C36 counterexample.  The mandatory repeated scroll point with `offset = 0.5`, `interval = 0.4`,
`start = 0.1`, `end = 100` (the doubles nearest to these decimals) has the computed first position
`(900719925474099 / 2 ^ 53)` (`0.09999999999999998`), below its actual start `(3602879701896397 / 2
^ 55)`.  The point with `offset = 1.19`, `interval = 0.01`, `start = 0`, `end = 100` has the
computed first position `(45035996273705 / 2 ^ 52)` (`0.010000000000000009`), not below `start +
interval`.  The point with `offset = 0`, `interval = 10`, `start = 0`, `end = +inf` has the computed
last position `+inf`, which is not above `end - interval = +inf`.  All three points satisfy the
constructor's conditions. -/
theorem C36_counterexample :
    (SnapPointBase.repeatedScroll Scenario.roundingFirstBelow).repeatedValid = true ∧
    Binary64.RepeatedScrollSnapPoint.ActualStart Scenario.roundingFirstBelow
      = Dbl.fin (3602879701896397 / 2 ^ 55) ∧
    Binary64.RepeatedScrollSnapPoint.DetermineFirstRepeatedSnapPointValue
      Scenario.roundingFirstBelow = Dbl.fin (900719925474099 / 2 ^ 53) ∧
    ¬ Dbl.fin (3602879701896397 / 2 ^ 55) ≤ Dbl.fin (900719925474099 / 2 ^ 53) ∧
    (SnapPointBase.repeatedScroll Scenario.roundingFirstAbove).repeatedValid = true ∧
    Binary64.RepeatedScrollSnapPoint.ActualStart Scenario.roundingFirstAbove = Dbl.fin 0 ∧
    Binary64.RepeatedScrollSnapPoint.DetermineFirstRepeatedSnapPointValue
      Scenario.roundingFirstAbove = Dbl.fin (45035996273705 / 2 ^ 52) ∧
    ¬ Dbl.fin (45035996273705 / 2 ^ 52) < Dbl.fin 0 + Dbl.fin (5764607523034235 / 2 ^ 59) ∧
    (SnapPointBase.repeatedScroll Scenario.unboundedEnd).repeatedValid = true ∧
    Binary64.RepeatedScrollSnapPoint.ActualEnd Scenario.unboundedEnd = Dbl.pinf ∧
    Binary64.RepeatedScrollSnapPoint.DetermineLastRepeatedSnapPointValue Scenario.unboundedEnd
      = Dbl.pinf ∧
    ¬ Dbl.pinf - Dbl.fin 10 < Dbl.pinf := by
  have h1 : Binary64.add (Dbl.fin (3602879701896397 / 2 ^ 55)) (Dbl.fin 0)
      = Dbl.fin (3602879701896397 / 2 ^ 55) := by
    rw [Binary64.add, Dbl.fin_add_fin]
    exact Dbl.round64_cert _ _ (-4) (7205759403792794) (by norm_num) (by norm_num)
      (by norm_num) (by norm_num) (Or.inl ⟨by norm_num, by norm_num⟩) (by norm_num)
  have h2 : Binary64.add (Dbl.fin (1 / 2 ^ 1)) (Dbl.fin 0) = Dbl.fin (1 / 2 ^ 1) := by
    rw [Binary64.add, Dbl.fin_add_fin]
    exact Dbl.round64_cert _ _ (-1) (4503599627370496) (by norm_num) (by norm_num)
      (by norm_num) (by norm_num) (Or.inl ⟨by norm_num, by norm_num⟩) (by norm_num)
  have h3 : Binary64.sub (Dbl.fin (1 / 2 ^ 1)) (Dbl.fin (3602879701896397 / 2 ^ 55))
      = Dbl.fin (3602879701896397 / 2 ^ 53) := by
    rw [Binary64.sub, Dbl.fin_sub_fin]
    exact Dbl.round64_cert _ _ (-2) (7205759403792794) (by norm_num) (by norm_num)
      (by norm_num) (by norm_num) (Or.inr ⟨by norm_num, by norm_num⟩) (by norm_num)
  have h4 : Binary64.div (Dbl.fin (3602879701896397 / 2 ^ 53)) (Dbl.fin (3602879701896397 / 2 ^ 53))
      = Dbl.fin 1 := by
    rw [Binary64.div, Dbl.fin_div_fin _ _ (by norm_num)]
    exact Dbl.round64_cert _ _ (0) (4503599627370496) (by norm_num) (by norm_num)
      (by norm_num) (by norm_num) (Or.inl ⟨by norm_num, by norm_num⟩) (by norm_num)
  have h5 : Dbl.floor (Dbl.fin 1) = Dbl.fin 1 := by
    rw [Dbl.floor_fin_cert 1 (1) (by norm_num) (by norm_num)]
    norm_num
  have h6 : Binary64.mul (Dbl.fin 1) (Dbl.fin (3602879701896397 / 2 ^ 53))
      = Dbl.fin (3602879701896397 / 2 ^ 53) := by
    rw [Binary64.mul, Dbl.fin_mul_fin]
    exact Dbl.round64_cert _ _ (-2) (7205759403792794) (by norm_num) (by norm_num)
      (by norm_num) (by norm_num) (Or.inl ⟨by norm_num, by norm_num⟩) (by norm_num)
  have h7 : Binary64.sub (Dbl.fin (1 / 2 ^ 1)) (Dbl.fin (3602879701896397 / 2 ^ 53))
      = Dbl.fin (900719925474099 / 2 ^ 53) := by
    rw [Binary64.sub, Dbl.fin_sub_fin]
    exact Dbl.round64_cert _ _ (-4) (7205759403792792) (by norm_num) (by norm_num)
      (by norm_num) (by norm_num) (Or.inl ⟨by norm_num, by norm_num⟩) (by norm_num)
  have k1 : Binary64.add (Dbl.fin 0) (Dbl.fin 0) = Dbl.fin 0 := by
    rw [Binary64.add, Dbl.fin_add_fin]
    norm_num [Dbl.round64, Dbl.roundTo]
  have k2 : Binary64.add (Dbl.fin (2679641778285445 / 2 ^ 51)) (Dbl.fin 0)
      = Dbl.fin (2679641778285445 / 2 ^ 51) := by
    rw [Binary64.add, Dbl.fin_add_fin]
    exact Dbl.round64_cert _ _ (0) (5359283556570890) (by norm_num) (by norm_num)
      (by norm_num) (by norm_num) (Or.inl ⟨by norm_num, by norm_num⟩) (by norm_num)
  have k3 : Binary64.sub (Dbl.fin (2679641778285445 / 2 ^ 51)) (Dbl.fin 0)
      = Dbl.fin (2679641778285445 / 2 ^ 51) := by
    rw [Binary64.sub, Dbl.fin_sub_fin]
    exact Dbl.round64_cert _ _ (0) (5359283556570890) (by norm_num) (by norm_num)
      (by norm_num) (by norm_num) (Or.inl ⟨by norm_num, by norm_num⟩) (by norm_num)
  have k4 : Binary64.div (Dbl.fin (2679641778285445 / 2 ^ 51)) (Dbl.fin (5764607523034235 / 2 ^ 59))
      = Dbl.fin (8373880557142015 / 2 ^ 46) := by
    rw [Binary64.div, Dbl.fin_div_fin _ _ (by norm_num)]
    exact Dbl.round64_cert _ _ (6) (8373880557142015) (by norm_num) (by norm_num)
      (by norm_num) (by norm_num) (Or.inl ⟨by norm_num, by norm_num⟩) (by norm_num)
  have k5 : Dbl.floor (Dbl.fin (8373880557142015 / 2 ^ 46)) = Dbl.fin 118 := by
    rw [Dbl.floor_fin_cert (8373880557142015 / 2 ^ 46) (118) (by norm_num) (by norm_num)]
    norm_num
  have k6 : Binary64.mul (Dbl.fin 118) (Dbl.fin (5764607523034235 / 2 ^ 59))
      = Dbl.fin (5314247560297185 / 2 ^ 52) := by
    rw [Binary64.mul, Dbl.fin_mul_fin]
    exact Dbl.round64_cert _ _ (0) (5314247560297185) (by norm_num) (by norm_num)
      (by norm_num) (by norm_num) (Or.inl ⟨by norm_num, by norm_num⟩) (by norm_num)
  have k7 : Binary64.sub (Dbl.fin (2679641778285445 / 2 ^ 51)) (Dbl.fin (5314247560297185 / 2 ^ 52))
      = Dbl.fin (45035996273705 / 2 ^ 52) := by
    rw [Binary64.sub, Dbl.fin_sub_fin]
    exact Dbl.round64_cert _ _ (-7) (5764607523034240) (by norm_num) (by norm_num)
      (by norm_num) (by norm_num) (Or.inl ⟨by norm_num, by norm_num⟩) (by norm_num)
  have m1 : Binary64.add (Dbl.fin 0) (Dbl.fin 0) = Dbl.fin 0 := by
    rw [Binary64.add, Dbl.fin_add_fin]
    norm_num [Dbl.round64, Dbl.roundTo]
  have m2 : Binary64.add (Dbl.pinf) (Dbl.fin 0) = Dbl.pinf := by
    norm_num [Binary64.add, Dbl.round64, Dbl.add_def, Dbl.add, Dbl.infOfSign]
  have m3 : Binary64.sub (Dbl.pinf) (Dbl.fin 0) = Dbl.pinf := by
    norm_num [Binary64.sub, Dbl.round64, Dbl.sub_def, Dbl.sub, Dbl.infOfSign, Dbl.sub_def, Dbl.add,
        Dbl.neg]
  have m4 : Binary64.div (Dbl.pinf) (Dbl.fin 10) = Dbl.pinf := by
    norm_num [Binary64.div, Dbl.round64, Dbl.div_def, Dbl.div, Dbl.infOfSign]
  have m5 : Dbl.floor (Dbl.pinf) = Dbl.pinf := rfl
  have m6 : Binary64.mul (Dbl.pinf) (Dbl.fin 10) = Dbl.pinf := by
    norm_num [Binary64.mul, Dbl.round64, Dbl.mul_def, Dbl.mul, Dbl.infOfSign]
  have m7 : Binary64.add (Dbl.fin 0) (Dbl.pinf) = Dbl.pinf := by
    norm_num [Binary64.add, Dbl.round64, Dbl.add_def, Dbl.add, Dbl.infOfSign]
  refine ⟨?_, ?_, ?_, by norm_num, ?_, ?_, ?_, by norm_num, ?_, ?_, ?_, by simp⟩
  · norm_num [SnapPointBase.repeatedValid, Scenario.roundingFirstBelow, Dbl.INFINITY]
  · simp only [Binary64.SnapPointBase.Evaluate, Binary64.RepeatedScrollSnapPoint.Evaluate,
        Binary64.RepeatedScrollSnapPoint.DetermineFirstRepeatedSnapPointValue,
        Binary64.RepeatedScrollSnapPoint.DetermineLastRepeatedSnapPointValue,
        Binary64.RepeatedScrollSnapPoint.ActualOffset, Binary64.RepeatedScrollSnapPoint.ActualStart,
        Binary64.RepeatedScrollSnapPoint.ActualEnd,
      Binary64.RepeatedScrollSnapPoint.ImpulseInfluence,
      Binary64.SnapPointBase.ImpulseInfluence, SnapPointBase.setAlignmentAdjustment,
      Scenario.roundingFirstBelow, Dbl.INFINITY, h1, h2, h3, h4, h5, h6, h7]
  · simp only [Binary64.SnapPointBase.Evaluate, Binary64.RepeatedScrollSnapPoint.Evaluate,
        Binary64.RepeatedScrollSnapPoint.DetermineFirstRepeatedSnapPointValue,
        Binary64.RepeatedScrollSnapPoint.DetermineLastRepeatedSnapPointValue,
        Binary64.RepeatedScrollSnapPoint.ActualOffset, Binary64.RepeatedScrollSnapPoint.ActualStart,
        Binary64.RepeatedScrollSnapPoint.ActualEnd,
      Binary64.RepeatedScrollSnapPoint.ImpulseInfluence,
      Binary64.SnapPointBase.ImpulseInfluence, SnapPointBase.setAlignmentAdjustment,
      Scenario.roundingFirstBelow, Dbl.INFINITY, h1, h2, h3, h4, h5, h6, h7]
  · norm_num [SnapPointBase.repeatedValid, Scenario.roundingFirstAbove, Dbl.INFINITY]
  · simp only [Binary64.SnapPointBase.Evaluate, Binary64.RepeatedScrollSnapPoint.Evaluate,
        Binary64.RepeatedScrollSnapPoint.DetermineFirstRepeatedSnapPointValue,
        Binary64.RepeatedScrollSnapPoint.DetermineLastRepeatedSnapPointValue,
        Binary64.RepeatedScrollSnapPoint.ActualOffset, Binary64.RepeatedScrollSnapPoint.ActualStart,
        Binary64.RepeatedScrollSnapPoint.ActualEnd,
      Binary64.RepeatedScrollSnapPoint.ImpulseInfluence,
      Binary64.SnapPointBase.ImpulseInfluence, SnapPointBase.setAlignmentAdjustment,
      Scenario.roundingFirstAbove, Dbl.INFINITY, k1, k2, k3, k4, k5, k6, k7]
  · simp only [Binary64.SnapPointBase.Evaluate, Binary64.RepeatedScrollSnapPoint.Evaluate,
        Binary64.RepeatedScrollSnapPoint.DetermineFirstRepeatedSnapPointValue,
        Binary64.RepeatedScrollSnapPoint.DetermineLastRepeatedSnapPointValue,
        Binary64.RepeatedScrollSnapPoint.ActualOffset, Binary64.RepeatedScrollSnapPoint.ActualStart,
        Binary64.RepeatedScrollSnapPoint.ActualEnd,
      Binary64.RepeatedScrollSnapPoint.ImpulseInfluence,
      Binary64.SnapPointBase.ImpulseInfluence, SnapPointBase.setAlignmentAdjustment,
      Scenario.roundingFirstAbove, Dbl.INFINITY, k1, k2, k3, k4, k5, k6, k7]
  · norm_num [SnapPointBase.repeatedValid, Scenario.unboundedEnd, Dbl.INFINITY]
  · simp only [Binary64.SnapPointBase.Evaluate, Binary64.RepeatedScrollSnapPoint.Evaluate,
        Binary64.RepeatedScrollSnapPoint.DetermineFirstRepeatedSnapPointValue,
        Binary64.RepeatedScrollSnapPoint.DetermineLastRepeatedSnapPointValue,
        Binary64.RepeatedScrollSnapPoint.ActualOffset, Binary64.RepeatedScrollSnapPoint.ActualStart,
        Binary64.RepeatedScrollSnapPoint.ActualEnd,
      Binary64.RepeatedScrollSnapPoint.ImpulseInfluence,
      Binary64.SnapPointBase.ImpulseInfluence, SnapPointBase.setAlignmentAdjustment,
      Scenario.unboundedEnd, Dbl.INFINITY, m1, m2, m3, m4, m5, m6, m7]
  · simp only [Binary64.SnapPointBase.Evaluate, Binary64.RepeatedScrollSnapPoint.Evaluate,
        Binary64.RepeatedScrollSnapPoint.DetermineFirstRepeatedSnapPointValue,
        Binary64.RepeatedScrollSnapPoint.DetermineLastRepeatedSnapPointValue,
        Binary64.RepeatedScrollSnapPoint.ActualOffset, Binary64.RepeatedScrollSnapPoint.ActualStart,
        Binary64.RepeatedScrollSnapPoint.ActualEnd,
      Binary64.RepeatedScrollSnapPoint.ImpulseInfluence,
      Binary64.SnapPointBase.ImpulseInfluence, SnapPointBase.setAlignmentAdjustment,
      Scenario.unboundedEnd, Dbl.INFINITY, m1, m2, m3, m4, m5, m6, m7]

/-- C37 (amended). The computed `Evaluate` of a repeated snap point (scroll or zoom) of the
integer domain (offset, interval, start, end and alignment adjustment integers of magnitude at
most `2 ^ 48`, a range that is such an integer or `INFINITY`) that satisfies the constructor's
conditions (`end > start`, `start <= offset <= end`, `interval > 0`) moves no integer value
further than half an interval, nor further than the applicable range when that is not negative
(the positive range of an optional point, `INFINITY` of a mandatory one):
`|Evaluate(zone, v) - v| <= interval / 2` and `|Evaluate(zone, v) - v| <= applicableRange`,
distances and half interval taken exactly. -/
theorem C37_Evaluate_moves_at_most (sp : SnapPointBase) (offset interval : Dbl)
    (zone : Dbl × Dbl) (v : ℤ) (hint : sp.integerFields = true)
    (hvalid : sp.repeatedValid = true)
    (hoi : Binary64.SnapPointBase.repeatedOffsetInterval sp = some (offset, interval)) :
    Dbl.abs (Binary64.SnapPointBase.Evaluate sp zone (Dbl.fin v) - Dbl.fin v)
      ≤ interval / Dbl.fin 2 ∧
    (Dbl.fin 0 ≤ sp.ApplicableRange →
      Dbl.abs (Binary64.SnapPointBase.Evaluate sp zone (Dbl.fin v) - Dbl.fin v)
        ≤ sp.ApplicableRange) := by
  have hfin := SnapPointBase.repeatedFinite_of_integerFields sp hint hvalid
  obtain ⟨_, _, hoi', _⟩ := binary64_vocabulary_intCast sp hint hfin
  rw [hoi'] at hoi
  rw [(binary64_SnapPointBase_Evaluate_intCast sp zone v hint hfin).1]
  exact exact_Evaluate_moves_at_most sp offset interval zone v hfin hoi

/-- C37 witness: the optional repeated scenario point (interval `10`, range `3`) moves `12` to
`10`: by `2`, which is at most `10 / 2` and at most `3`. -/
theorem C37_Evaluate_moves_at_most_witness :
    Dbl.abs (Binary64.SnapPointBase.Evaluate
        (SnapPointBase.repeatedScroll Scenario.optionalRepeated)
        (Dbl.fin 0, Dbl.fin 100) (Dbl.fin ((12 : ℤ) : ℚ)) - Dbl.fin ((12 : ℤ) : ℚ))
      ≤ Dbl.fin 10 / Dbl.fin 2 ∧
    Dbl.abs (Binary64.SnapPointBase.Evaluate
        (SnapPointBase.repeatedScroll Scenario.optionalRepeated)
        (Dbl.fin 0, Dbl.fin 100) (Dbl.fin ((12 : ℤ) : ℚ)) - Dbl.fin ((12 : ℤ) : ℚ))
      ≤ Dbl.fin 3 :=
  have h := C37_Evaluate_moves_at_most (SnapPointBase.repeatedScroll Scenario.optionalRepeated)
    (Dbl.fin 0) (Dbl.fin 10) (Dbl.fin 0, Dbl.fin 100) 12
    (by decide) (by decide)
    (by rw [(binary64_vocabulary_intCast _ (by decide) (by decide)).2.2.1]
        norm_num [SnapPointBase.repeatedBounds, SnapPointBase.repeatedOffsetInterval,
            Scenario.mandatoryRepeated, Scenario.optionalRepeated, Scenario.repeatedOffset6,
            RepeatedScrollSnapPoint.ActualStart, RepeatedScrollSnapPoint.ActualEnd,
            RepeatedScrollSnapPoint.ActualOffset])
  ⟨h.1, h.2 (by simp [SnapPointBase.ApplicableRange, Scenario.optionalRepeated])⟩

/-- C37 counterexample: the mandatory repeated scroll point with `offset = 56.16`,
`interval = 0.31`, `start = 2.3`, `end = 80.5` (the doubles nearest to these decimals; the
interval is `(5584463537939415 / 2 ^ 54)`), which satisfies the constructor's conditions, and the
value `(628964631552983 / 2 ^ 43)` (the double nearest to `71.505`): `Evaluate` returns
`(2510404948538163 / 2 ^ 45)` (the double nearest to `71.35`), at a distance of
`0.15500000000000114` from the value, more than half the interval. -/
theorem C37_counterexample :
    (SnapPointBase.repeatedScroll Scenario.roundingDistance).repeatedValid = true ∧
    Binary64.SnapPointBase.repeatedOffsetInterval
        (SnapPointBase.repeatedScroll Scenario.roundingDistance)
      = some (Dbl.fin (1975954336508805 / 2 ^ 45), Dbl.fin (5584463537939415 / 2 ^ 54)) ∧
    Binary64.SnapPointBase.Evaluate (SnapPointBase.repeatedScroll Scenario.roundingDistance)
      (Dbl.fin (2589569785738035 / 2 ^ 50), Dbl.fin (161 / 2 ^ 1))
      (Dbl.fin (628964631552983 / 2 ^ 43)) = Dbl.fin (2510404948538163 / 2 ^ 45) ∧
    ¬ Dbl.abs (Dbl.fin (2510404948538163 / 2 ^ 45) - Dbl.fin (628964631552983 / 2 ^ 43))
        ≤ Dbl.fin (5584463537939415 / 2 ^ 54) / Dbl.fin 2 := by
  have h1 : Binary64.add (Dbl.fin (2589569785738035 / 2 ^ 50)) (Dbl.fin 0)
      = Dbl.fin (2589569785738035 / 2 ^ 50) := by
    rw [Binary64.add, Dbl.fin_add_fin]
    exact Dbl.round64_cert _ _ (1) (5179139571476070) (by norm_num) (by norm_num)
      (by norm_num) (by norm_num) (Or.inl ⟨by norm_num, by norm_num⟩) (by norm_num)
  have h2 : Binary64.add (Dbl.fin (161 / 2 ^ 1)) (Dbl.fin 0) = Dbl.fin (161 / 2 ^ 1) := by
    rw [Binary64.add, Dbl.fin_add_fin]
    exact Dbl.round64_cert _ _ (6) (5664683906301952) (by norm_num) (by norm_num)
      (by norm_num) (by norm_num) (Or.inl ⟨by norm_num, by norm_num⟩) (by norm_num)
  have h3 : Binary64.add (Dbl.fin (1975954336508805 / 2 ^ 45)) (Dbl.fin 0)
      = Dbl.fin (1975954336508805 / 2 ^ 45) := by
    rw [Binary64.add, Dbl.fin_add_fin]
    exact Dbl.round64_cert _ _ (5) (7903817346035220) (by norm_num) (by norm_num)
      (by norm_num) (by norm_num) (Or.inl ⟨by norm_num, by norm_num⟩) (by norm_num)
  have h4 : Binary64.sub (Dbl.fin (1975954336508805 / 2 ^ 45)) (Dbl.fin (2589569785738035 / 2 ^ 50))
      = Dbl.fin (3790060561408983 / 2 ^ 46) := by
    rw [Binary64.sub, Dbl.fin_sub_fin]
    exact Dbl.round64_cert _ _ (5) (7580121122817966) (by norm_num) (by norm_num)
      (by norm_num) (by norm_num) (Or.inl ⟨by norm_num, by norm_num⟩) (by norm_num)
  have h5 : Binary64.div (Dbl.fin (3790060561408983 / 2 ^ 46)) (Dbl.fin (5584463537939415 / 2 ^ 54))
      = Dbl.fin (764125113187295 / 2 ^ 42) := by
    rw [Binary64.div, Dbl.fin_div_fin _ _ (by norm_num)]
    exact Dbl.round64_cert _ _ (7) (6113000905498360) (by norm_num) (by norm_num)
      (by norm_num) (by norm_num) (Or.inl ⟨by norm_num, by norm_num⟩) (by norm_num)
  have h6 : Dbl.floor (Dbl.fin (764125113187295 / 2 ^ 42)) = Dbl.fin 173 := by
    rw [Dbl.floor_fin_cert (764125113187295 / 2 ^ 42) (173) (by norm_num) (by norm_num)]
    norm_num
  have h7 : Binary64.mul (Dbl.fin 173) (Dbl.fin (5584463537939415 / 2 ^ 54))
      = Dbl.fin (7547751500496241 / 2 ^ 47) := by
    rw [Binary64.mul, Dbl.fin_mul_fin]
    exact Dbl.round64_cert _ _ (5) (7547751500496241) (by norm_num) (by norm_num)
      (by norm_num) (by norm_num) (Or.inl ⟨by norm_num, by norm_num⟩) (by norm_num)
  have h8 : Binary64.sub (Dbl.fin (1975954336508805 / 2 ^ 45)) (Dbl.fin (7547751500496241 / 2 ^ 47))
      = Dbl.fin (356065845538979 / 2 ^ 47) := by
    rw [Binary64.sub, Dbl.fin_sub_fin]
    exact Dbl.round64_cert _ _ (1) (5697053528623664) (by norm_num) (by norm_num)
      (by norm_num) (by norm_num) (Or.inl ⟨by norm_num, by norm_num⟩) (by norm_num)
  have h9 : Binary64.sub (Dbl.fin (628964631552983 / 2 ^ 43)) (Dbl.fin (356065845538979 / 2 ^ 47))
      = Dbl.fin (2426842064827187 / 2 ^ 45) := by
    rw [Binary64.sub, Dbl.fin_sub_fin]
    exact Dbl.round64_cert _ _ (6) (4853684129654374) (by norm_num) (by norm_num)
      (by norm_num) (by norm_num) (Or.inr ⟨by norm_num, by norm_num⟩) (by norm_num)
  have h10 : Binary64.div (Dbl.fin (2426842064827187 / 2 ^ 45))
      (Dbl.fin (5584463537939415 / 2 ^ 54))
      = Dbl.fin (7828522789765119 / 2 ^ 45) := by
    rw [Binary64.div, Dbl.fin_div_fin _ _ (by norm_num)]
    exact Dbl.round64_cert _ _ (7) (7828522789765119) (by norm_num) (by norm_num)
      (by norm_num) (by norm_num) (Or.inl ⟨by norm_num, by norm_num⟩) (by norm_num)
  have h11 : Dbl.floor (Dbl.fin (7828522789765119 / 2 ^ 45)) = Dbl.fin 222 := by
    rw [Dbl.floor_fin_cert (7828522789765119 / 2 ^ 45) (222) (by norm_num) (by norm_num)]
    norm_num
  have h12 : Binary64.mul (Dbl.fin 222) (Dbl.fin (5584463537939415 / 2 ^ 54))
      = Dbl.fin (1210694243576709 / 2 ^ 44) := by
    rw [Binary64.mul, Dbl.fin_mul_fin]
    exact Dbl.round64_cert _ _ (6) (4842776974306836) (by norm_num) (by norm_num)
      (by norm_num) (by norm_num) (Or.inl ⟨by norm_num, by norm_num⟩) (by norm_num)
  have h13 : Binary64.add (Dbl.fin (1210694243576709 / 2 ^ 44)) (Dbl.fin (356065845538979 / 2 ^ 47))
      = Dbl.fin (2510404948538163 / 2 ^ 45) := by
    rw [Binary64.add, Dbl.fin_add_fin]
    exact Dbl.round64_cert _ _ (6) (5020809897076326) (by norm_num) (by norm_num)
      (by norm_num) (by norm_num) (Or.inr ⟨by norm_num, by norm_num⟩) (by norm_num)
  have h14 : Binary64.add (Dbl.fin (2510404948538163 / 2 ^ 45))
      (Dbl.fin (5584463537939415 / 2 ^ 54))
      = Dbl.fin (2521312103885701 / 2 ^ 45) := by
    rw [Binary64.add, Dbl.fin_add_fin]
    exact Dbl.round64_cert _ _ (6) (5042624207771402) (by norm_num) (by norm_num)
      (by norm_num) (by norm_num) (Or.inl ⟨by norm_num, by norm_num⟩) (by norm_num)
  have h15 : Binary64.sub (Dbl.fin (628964631552983 / 2 ^ 43)) (Dbl.fin (2510404948538163 / 2 ^ 45))
      = Dbl.fin (5453577673769 / 2 ^ 45) := by
    rw [Binary64.sub, Dbl.fin_sub_fin]
    exact Dbl.round64_cert _ _ (-3) (5584463537939456) (by norm_num) (by norm_num)
      (by norm_num) (by norm_num) (Or.inl ⟨by norm_num, by norm_num⟩) (by norm_num)
  have h16 : Binary64.sub (Dbl.fin (2521312103885701 / 2 ^ 45)) (Dbl.fin (628964631552983 / 2 ^ 43))
      = Dbl.fin (5453577673769 / 2 ^ 45) := by
    rw [Binary64.sub, Dbl.fin_sub_fin]
    exact Dbl.round64_cert _ _ (-3) (5584463537939456) (by norm_num) (by norm_num)
      (by norm_num) (by norm_num) (Or.inl ⟨by norm_num, by norm_num⟩) (by norm_num)
  have h17 : Binary64.add (Dbl.fin (2510404948538163 / 2 ^ 45)) (Dbl.pinf) = Dbl.pinf := by
    norm_num [Binary64.add, Dbl.round64, Dbl.add_def, Dbl.add, Dbl.infOfSign]
  refine ⟨?_, ?_, ?_, ?_⟩
  · norm_num [SnapPointBase.repeatedValid, Scenario.roundingDistance, Dbl.INFINITY]
  · simp only [Binary64.SnapPointBase.repeatedOffsetInterval,
      Binary64.RepeatedScrollSnapPoint.ActualOffset, Scenario.roundingDistance, h1, h2, h3, h4, h5,
      h6, h7, h8, h9, h10, h11, h12, h13, h14, h15, h16, h17]
  · simp only [Binary64.SnapPointBase.Evaluate, Binary64.RepeatedScrollSnapPoint.Evaluate,
        Binary64.RepeatedScrollSnapPoint.DetermineFirstRepeatedSnapPointValue,
        Binary64.RepeatedScrollSnapPoint.DetermineLastRepeatedSnapPointValue,
        Binary64.RepeatedScrollSnapPoint.ActualOffset, Binary64.RepeatedScrollSnapPoint.ActualStart,
        Binary64.RepeatedScrollSnapPoint.ActualEnd,
      Binary64.RepeatedScrollSnapPoint.ImpulseInfluence,
      Binary64.SnapPointBase.ImpulseInfluence, SnapPointBase.setAlignmentAdjustment,
      Scenario.roundingDistance, Dbl.INFINITY, h1, h2, h3, h4, h5, h6, h7, h8, h9, h10, h11, h12,
      h13, h14, h15, h16, h17]
    norm_num
  · norm_num [Dbl.fin_div_fin, Dbl.abs, abs_le]

/-- In exact arithmetic (no rounding).  `Evaluate` of a repeated point returns a value outside
the actual bounds unchanged. -/
theorem exact_Evaluate_outside_bounds (sp : SnapPointBase) (start end_ : Dbl) (zone : Dbl × Dbl)
    (value : Dbl) (hb : sp.repeatedBounds = some (start, end_))
    (hout : ¬ (start ≤ value ∧ value ≤ end_)) : sp.Evaluate zone value = value := by
  cases sp with
  | scroll p => simp [SnapPointBase.repeatedBounds] at hb
  | zoom p => simp [SnapPointBase.repeatedBounds] at hb
  | repeatedScroll p =>
      simp only [SnapPointBase.repeatedBounds, Option.some.injEq, Prod.mk.injEq] at hb
      obtain ⟨rfl, rfl⟩ := hb
      simp only [SnapPointBase.Evaluate, RepeatedScrollSnapPoint.Evaluate, ge_iff_le,
        if_neg hout]
  | repeatedZoom p =>
      simp only [SnapPointBase.repeatedBounds, Option.some.injEq, Prod.mk.injEq] at hb
      obtain ⟨rfl, rfl⟩ := hb
      simp only [SnapPointBase.Evaluate, RepeatedZoomSnapPoint.Evaluate, ge_iff_le,
        if_neg hout]

/-- In exact arithmetic (no rounding).  `Evaluate` of a repeated point with finite fields and a
positive interval is the value itself or a sequence position `offset + k * interval`. -/
theorem exact_Evaluate_position (sp : SnapPointBase) (offset interval start end_ : ℚ)
    (zone : Dbl × Dbl) (value : Dbl) (hfin : sp.repeatedFinite = true)
    (hoi : sp.repeatedOffsetInterval = some (Dbl.fin offset, Dbl.fin interval))
    (hb : sp.repeatedBounds = some (Dbl.fin start, Dbl.fin end_)) :
    sp.Evaluate zone value = value ∨
      ∃ k : ℤ, sp.Evaluate zone value = Dbl.fin (offset + k * interval) ∧
        start - interval / 2 ≤ offset + k * interval := by
  cases sp with
  | scroll p => simp [SnapPointBase.repeatedBounds] at hb
  | zoom p => simp [SnapPointBase.repeatedBounds] at hb
  | repeatedScroll p =>
      obtain ⟨o, i, s, e, al, a, r, ty⟩ := p
      simp only [SnapPointBase.repeatedFinite, Bool.and_eq_true, decide_eq_true_eq] at hfin
      obtain ⟨⟨⟨⟨⟨ho, hi⟩, hs⟩, he⟩, ha⟩, hpos⟩ := hfin
      obtain ⟨o, rfl⟩ := Dbl.eq_fin_of_isFinite ho
      obtain ⟨i, rfl⟩ := Dbl.eq_fin_of_isFinite hi
      obtain ⟨s, rfl⟩ := Dbl.eq_fin_of_isFinite hs
      obtain ⟨e, rfl⟩ := Dbl.eq_fin_of_isFinite he
      obtain ⟨a, rfl⟩ := Dbl.eq_fin_of_isFinite ha
      have hi0 : 0 < i := by simpa using hpos
      simp only [SnapPointBase.repeatedOffsetInterval, RepeatedScrollSnapPoint.ActualOffset,
        Dbl.fin_add_fin, Option.some.injEq, Prod.mk.injEq, Dbl.fin.injEq] at hoi
      simp only [SnapPointBase.repeatedBounds, RepeatedScrollSnapPoint.ActualStart,
        RepeatedScrollSnapPoint.ActualEnd, Dbl.fin_add_fin, Option.some.injEq, Prod.mk.injEq,
        Dbl.fin.injEq] at hb
      obtain ⟨rfl, rfl⟩ := hoi
      obtain ⟨rfl, rfl⟩ := hb
      exact (exact_Evaluate_value_or_position o i s e a r al ty zone value hi0).1
  | repeatedZoom p =>
      obtain ⟨o, i, s, e, r, ty⟩ := p
      simp only [SnapPointBase.repeatedFinite, Bool.and_eq_true, decide_eq_true_eq] at hfin
      obtain ⟨⟨⟨⟨ho, hi⟩, hs⟩, he⟩, hpos⟩ := hfin
      obtain ⟨o, rfl⟩ := Dbl.eq_fin_of_isFinite ho
      obtain ⟨i, rfl⟩ := Dbl.eq_fin_of_isFinite hi
      obtain ⟨s, rfl⟩ := Dbl.eq_fin_of_isFinite hs
      obtain ⟨e, rfl⟩ := Dbl.eq_fin_of_isFinite he
      have hi0 : 0 < i := by simpa using hpos
      simp only [SnapPointBase.repeatedOffsetInterval, Option.some.injEq, Prod.mk.injEq,
        Dbl.fin.injEq] at hoi
      simp only [SnapPointBase.repeatedBounds, Option.some.injEq, Prod.mk.injEq,
        Dbl.fin.injEq] at hb
      obtain ⟨rfl, rfl⟩ := hoi
      obtain ⟨rfl, rfl⟩ := hb
      exact (exact_Evaluate_value_or_position o i s e 0 r
        ScrollSnapPointsAlignment.Near ty zone value hi0).2 rfl

/-- The actual offset, interval and bounds of a repeated point with finite fields are finite. -/
theorem SnapPointBase.repeated_vocabulary_finite (sp : SnapPointBase) (offset interval start
    end_ : Dbl) (hfin : sp.repeatedFinite = true)
    (hoi : sp.repeatedOffsetInterval = some (offset, interval))
    (hb : sp.repeatedBounds = some (start, end_)) :
    ∃ o i s e : ℚ, offset = Dbl.fin o ∧ interval = Dbl.fin i ∧ start = Dbl.fin s ∧
      end_ = Dbl.fin e ∧ 0 < i := by
  cases sp with
  | scroll p => simp [SnapPointBase.repeatedBounds] at hb
  | zoom p => simp [SnapPointBase.repeatedBounds] at hb
  | repeatedScroll p =>
      obtain ⟨o, i, s, e, al, a, r, ty⟩ := p
      simp only [SnapPointBase.repeatedFinite, Bool.and_eq_true, decide_eq_true_eq] at hfin
      obtain ⟨⟨⟨⟨⟨ho, hi⟩, hs⟩, he⟩, ha⟩, hpos⟩ := hfin
      obtain ⟨o, rfl⟩ := Dbl.eq_fin_of_isFinite ho
      obtain ⟨i, rfl⟩ := Dbl.eq_fin_of_isFinite hi
      obtain ⟨s, rfl⟩ := Dbl.eq_fin_of_isFinite hs
      obtain ⟨e, rfl⟩ := Dbl.eq_fin_of_isFinite he
      obtain ⟨a, rfl⟩ := Dbl.eq_fin_of_isFinite ha
      simp only [SnapPointBase.repeatedOffsetInterval, RepeatedScrollSnapPoint.ActualOffset,
        Dbl.fin_add_fin, Option.some.injEq, Prod.mk.injEq] at hoi
      simp only [SnapPointBase.repeatedBounds, RepeatedScrollSnapPoint.ActualStart,
        RepeatedScrollSnapPoint.ActualEnd, Dbl.fin_add_fin, Option.some.injEq,
        Prod.mk.injEq] at hb
      exact ⟨_, _, _, _, hoi.1.symm, hoi.2.symm, hb.1.symm, hb.2.symm, by simpa using hpos⟩
  | repeatedZoom p =>
      obtain ⟨o, i, s, e, r, ty⟩ := p
      simp only [SnapPointBase.repeatedFinite, Bool.and_eq_true, decide_eq_true_eq] at hfin
      obtain ⟨⟨⟨⟨ho, hi⟩, hs⟩, he⟩, hpos⟩ := hfin
      obtain ⟨o, rfl⟩ := Dbl.eq_fin_of_isFinite ho
      obtain ⟨i, rfl⟩ := Dbl.eq_fin_of_isFinite hi
      obtain ⟨s, rfl⟩ := Dbl.eq_fin_of_isFinite hs
      obtain ⟨e, rfl⟩ := Dbl.eq_fin_of_isFinite he
      simp only [SnapPointBase.repeatedOffsetInterval, Option.some.injEq, Prod.mk.injEq] at hoi
      simp only [SnapPointBase.repeatedBounds, Option.some.injEq, Prod.mk.injEq] at hb
      exact ⟨_, _, _, _, hoi.1.symm, hoi.2.symm, hb.1.symm, hb.2.symm, by simpa using hpos⟩

/-- C18 (amended). For a repeated point of the integer domain (offset, interval, start, end and
alignment adjustment integers of magnitude at most `2 ^ 48`, a range that is such an integer or
`INFINITY`) that satisfies the constructor's conditions (`end > start`,
`start <= offset <= end`, `interval > 0`), with computed actual offset `offset` and computed
actual bounds `(start, end)`, and every integer value: the computed `Evaluate(zone, value)` is
either `value` itself or a sequence position `offset + k * interval` (`k` an integer) with
`start - interval / 2 <= position <= end + interval / 2`. -/
theorem C18_Evaluate_value_or_position (sp : SnapPointBase) (offset interval start end_ : Dbl)
    (zone : Dbl × Dbl) (value : ℤ) (hint : sp.integerFields = true)
    (hvalid : sp.repeatedValid = true)
    (hoi : Binary64.SnapPointBase.repeatedOffsetInterval sp = some (offset, interval))
    (hb : Binary64.SnapPointBase.repeatedBounds sp = some (start, end_)) :
    Binary64.SnapPointBase.Evaluate sp zone (Dbl.fin value) = Dbl.fin value ∨
      ∃ k : ℤ,
        Binary64.SnapPointBase.Evaluate sp zone (Dbl.fin value)
          = offset + Dbl.fin k * interval ∧
        start - interval / Dbl.fin 2 ≤ offset + Dbl.fin k * interval ∧
        offset + Dbl.fin k * interval ≤ end_ + interval / Dbl.fin 2 := by
  have hfin := SnapPointBase.repeatedFinite_of_integerFields sp hint hvalid
  obtain ⟨_, hb', hoi', _⟩ := binary64_vocabulary_intCast sp hint hfin
  rw [hb'] at hb
  rw [hoi'] at hoi
  rw [(binary64_SnapPointBase_Evaluate_intCast sp zone value hint hfin).1]
  obtain ⟨o, i, s, e, rfl, rfl, rfl, rfl, hi0⟩ :=
    SnapPointBase.repeated_vocabulary_finite sp offset interval start end_ hfin hoi hb
  by_cases hev : sp.Evaluate zone (Dbl.fin value) = Dbl.fin value
  · exact Or.inl hev
  · right
    rcases exact_Evaluate_position sp o i s e zone
        (Dbl.fin value) hfin hoi hb with h | ⟨k, hk, hlow⟩
    · exact absurd h hev
    · have hin : Dbl.fin s ≤ Dbl.fin (value : ℚ) ∧ Dbl.fin (value : ℚ) ≤ Dbl.fin e := by
        by_contra hout
        exact hev (exact_Evaluate_outside_bounds sp _ _ zone _ hb hout)
      have hdist := (exact_Evaluate_moves_at_most sp (Dbl.fin o) (Dbl.fin i) zone value hfin
        hoi).1
      rw [hk] at hdist
      simp only [Dbl.fin_sub_fin, Dbl.abs_fin, Dbl.fin_div_two, Dbl.fin_le_fin] at hdist hin
      rw [abs_le] at hdist
      refine ⟨k, ?_, ?_, ?_⟩
      · rw [hk]
        simp only [Dbl.fin_mul_fin, Dbl.fin_add_fin]
      · simp only [Dbl.fin_mul_fin, Dbl.fin_add_fin, Dbl.fin_sub_fin, Dbl.fin_div_two,
          Dbl.fin_le_fin]
        exact hlow
      · simp only [Dbl.fin_mul_fin, Dbl.fin_add_fin, Dbl.fin_div_two, Dbl.fin_le_fin]
        linarith [hdist.2, hin.2]

/-- C18 witness: for the optional repeated scenario point (`offset = 0`, `interval = 10`,
`start = 0`, `end = 100`) and the value `7`, the result is `7` or a position `0 + k * 10`
between `0 - 10 / 2` and `100 + 10 / 2` (it is `10`). -/
theorem C18_Evaluate_value_or_position_witness :
    Binary64.SnapPointBase.Evaluate (SnapPointBase.repeatedScroll Scenario.optionalRepeated)
        (Dbl.fin 0, Dbl.fin 100) (Dbl.fin ((7 : ℤ) : ℚ)) = Dbl.fin ((7 : ℤ) : ℚ) ∨
      ∃ k : ℤ,
        Binary64.SnapPointBase.Evaluate (SnapPointBase.repeatedScroll Scenario.optionalRepeated)
          (Dbl.fin 0, Dbl.fin 100) (Dbl.fin ((7 : ℤ) : ℚ))
          = Dbl.fin 0 + Dbl.fin k * Dbl.fin 10 ∧
        Dbl.fin 0 - Dbl.fin 10 / Dbl.fin 2 ≤ Dbl.fin 0 + Dbl.fin k * Dbl.fin 10 ∧
        Dbl.fin 0 + Dbl.fin k * Dbl.fin 10 ≤ Dbl.fin 100 + Dbl.fin 10 / Dbl.fin 2 :=
  C18_Evaluate_value_or_position (SnapPointBase.repeatedScroll Scenario.optionalRepeated)
    (Dbl.fin 0) (Dbl.fin 10) (Dbl.fin 0) (Dbl.fin 100) (Dbl.fin 0, Dbl.fin 100) 7
    (by decide) (by decide)
    (by rw [(binary64_vocabulary_intCast _ (by decide) (by decide)).2.2.1]
        norm_num [SnapPointBase.repeatedBounds, SnapPointBase.repeatedOffsetInterval,
            Scenario.mandatoryRepeated, Scenario.optionalRepeated, Scenario.repeatedOffset6,
            RepeatedScrollSnapPoint.ActualStart, RepeatedScrollSnapPoint.ActualEnd,
            RepeatedScrollSnapPoint.ActualOffset])
    (by rw [(binary64_vocabulary_intCast _ (by decide) (by decide)).2.1]
        norm_num [SnapPointBase.repeatedBounds, SnapPointBase.repeatedOffsetInterval,
            Scenario.mandatoryRepeated, Scenario.optionalRepeated, Scenario.repeatedOffset6,
            RepeatedScrollSnapPoint.ActualStart, RepeatedScrollSnapPoint.ActualEnd,
            RepeatedScrollSnapPoint.ActualOffset])

/-- C18 counterexample.  First conjuncts: the mandatory repeated point `offset = 0`, `interval =
0.1`, `start = 0`, `end = 1000` (the interval is the double `i = (3602879701896397 / 2 ^ 55)`) and
the value `(5404319552844595 / 2 ^ 54)` (the double nearest to `0.3`): the computed `Evaluate`
returns `(1351079888211149 / 2 ^ 52)` (`0.30000000000000004`), which is not the value and lies
strictly between the positions `0 + 3 * i` and `0 + 4 * i`, so it is no position `offset + k *
interval`.  Last conjuncts: with `offset = 6`, `interval = 10`, `start = 0`, `end = 100`,
`Evaluate(0) = -4`, a position below the actual start; with `offset = 0`, `interval = 10`, `start =
0`, `end = 96`, `Evaluate(96) = 100`, a position above the actual end. -/
theorem C18_counterexample :
    (SnapPointBase.repeatedScroll Scenario.roundingTenths).repeatedValid = true ∧
    Binary64.SnapPointBase.Evaluate (SnapPointBase.repeatedScroll Scenario.roundingTenths)
      (Dbl.fin 0, Dbl.fin 1000) (Dbl.fin (5404319552844595 / 2 ^ 54))
          = Dbl.fin (1351079888211149 / 2 ^ 52) ∧
    Dbl.fin (1351079888211149 / 2 ^ 52) ≠ Dbl.fin (5404319552844595 / 2 ^ 54) ∧
    (0 : ℚ) + 3 * (3602879701896397 / 2 ^ 55) < (1351079888211149 / 2 ^ 52) ∧
    ((1351079888211149 / 2 ^ 52) : ℚ) < 0 + 4 * (3602879701896397 / 2 ^ 55) ∧
    (∀ k : ℤ, Dbl.fin (1351079888211149 / 2 ^ 52)
      ≠ Dbl.fin 0 + Dbl.fin k * Dbl.fin (3602879701896397 / 2 ^ 55)) ∧
    Binary64.SnapPointBase.Evaluate (SnapPointBase.repeatedScroll Scenario.repeatedOffset6)
      (Dbl.fin 0, Dbl.fin 100) (Dbl.fin 0) = Dbl.fin (-4) ∧
    Dbl.fin (-4) ≠ Dbl.fin 0 ∧
    ¬ Binary64.RepeatedScrollSnapPoint.ActualStart Scenario.repeatedOffset6 ≤ Dbl.fin (-4) ∧
    Binary64.SnapPointBase.Evaluate (SnapPointBase.repeatedScroll Scenario.repeatedEnd96)
      (Dbl.fin 0, Dbl.fin 96) (Dbl.fin 96) = Dbl.fin 100 ∧
    Dbl.fin 100 ≠ Dbl.fin 96 ∧
    ¬ Dbl.fin 100 ≤ Binary64.RepeatedScrollSnapPoint.ActualEnd Scenario.repeatedEnd96 := by
  have h1 : Binary64.add (Dbl.fin 0) (Dbl.fin 0) = Dbl.fin 0 := by
    rw [Binary64.add, Dbl.fin_add_fin]
    norm_num [Dbl.round64, Dbl.roundTo]
  have h2 : Binary64.add (Dbl.fin 1000) (Dbl.fin 0) = Dbl.fin 1000 := by
    rw [Binary64.add, Dbl.fin_add_fin]
    exact Dbl.round64_cert _ _ (9) (8796093022208000) (by norm_num) (by norm_num)
      (by norm_num) (by norm_num) (Or.inl ⟨by norm_num, by norm_num⟩) (by norm_num)
  have h3 : Binary64.sub (Dbl.fin 0) (Dbl.fin 0) = Dbl.fin 0 := by
    rw [Binary64.sub, Dbl.fin_sub_fin]
    norm_num [Dbl.round64, Dbl.roundTo]
  have h4 : Binary64.div (Dbl.fin 0) (Dbl.fin (3602879701896397 / 2 ^ 55)) = Dbl.fin 0 := by
    rw [Binary64.div, Dbl.fin_div_fin _ _ (by norm_num)]
    norm_num [Dbl.round64, Dbl.roundTo]
  have h5 : Dbl.floor (Dbl.fin 0) = Dbl.fin 0 := by
    rw [Dbl.floor_fin_cert 0 (0) (by norm_num) (by norm_num)]
    norm_num
  have h6 : Binary64.mul (Dbl.fin 0) (Dbl.fin (3602879701896397 / 2 ^ 55)) = Dbl.fin 0 := by
    rw [Binary64.mul, Dbl.fin_mul_fin]
    norm_num [Dbl.round64, Dbl.roundTo]
  have h7 : Binary64.sub (Dbl.fin (5404319552844595 / 2 ^ 54)) (Dbl.fin 0)
      = Dbl.fin (5404319552844595 / 2 ^ 54) := by
    rw [Binary64.sub, Dbl.fin_sub_fin]
    exact Dbl.round64_cert _ _ (-2) (5404319552844595) (by norm_num) (by norm_num)
      (by norm_num) (by norm_num) (Or.inl ⟨by norm_num, by norm_num⟩) (by norm_num)
  have h8 : Binary64.div (Dbl.fin (5404319552844595 / 2 ^ 54)) (Dbl.fin (3602879701896397 / 2 ^ 55))
      = Dbl.fin (6755399441055743 / 2 ^ 51) := by
    rw [Binary64.div, Dbl.fin_div_fin _ _ (by norm_num)]
    exact Dbl.round64_cert _ _ (1) (6755399441055743) (by norm_num) (by norm_num)
      (by norm_num) (by norm_num) (Or.inl ⟨by norm_num, by norm_num⟩) (by norm_num)
  have h9 : Dbl.floor (Dbl.fin (6755399441055743 / 2 ^ 51)) = Dbl.fin 2 := by
    rw [Dbl.floor_fin_cert (6755399441055743 / 2 ^ 51) (2) (by norm_num) (by norm_num)]
    norm_num
  have h10 : Binary64.mul (Dbl.fin 2) (Dbl.fin (3602879701896397 / 2 ^ 55))
      = Dbl.fin (3602879701896397 / 2 ^ 54) := by
    rw [Binary64.mul, Dbl.fin_mul_fin]
    exact Dbl.round64_cert _ _ (-3) (7205759403792794) (by norm_num) (by norm_num)
      (by norm_num) (by norm_num) (Or.inl ⟨by norm_num, by norm_num⟩) (by norm_num)
  have h11 : Binary64.add (Dbl.fin (3602879701896397 / 2 ^ 54)) (Dbl.fin 0)
      = Dbl.fin (3602879701896397 / 2 ^ 54) := by
    rw [Binary64.add, Dbl.fin_add_fin]
    exact Dbl.round64_cert _ _ (-3) (7205759403792794) (by norm_num) (by norm_num)
      (by norm_num) (by norm_num) (Or.inl ⟨by norm_num, by norm_num⟩) (by norm_num)
  have h12 : Binary64.add (Dbl.fin (3602879701896397 / 2 ^ 54))
      (Dbl.fin (3602879701896397 / 2 ^ 55))
      = Dbl.fin (1351079888211149 / 2 ^ 52) := by
    rw [Binary64.add, Dbl.fin_add_fin]
    exact Dbl.round64_cert _ _ (-2) (5404319552844596) (by norm_num) (by norm_num)
      (by norm_num) (by norm_num) (Or.inr ⟨by norm_num, by norm_num⟩) (by norm_num)
  have h13 : Binary64.sub (Dbl.fin (5404319552844595 / 2 ^ 54))
      (Dbl.fin (3602879701896397 / 2 ^ 54))
      = Dbl.fin (900719925474099 / 2 ^ 53) := by
    rw [Binary64.sub, Dbl.fin_sub_fin]
    exact Dbl.round64_cert _ _ (-4) (7205759403792792) (by norm_num) (by norm_num)
      (by norm_num) (by norm_num) (Or.inl ⟨by norm_num, by norm_num⟩) (by norm_num)
  have h14 : Binary64.sub (Dbl.fin (1351079888211149 / 2 ^ 52))
      (Dbl.fin (5404319552844595 / 2 ^ 54))
      = Dbl.fin (1 / 2 ^ 54) := by
    rw [Binary64.sub, Dbl.fin_sub_fin]
    exact Dbl.round64_cert _ _ (-54) (4503599627370496) (by norm_num) (by norm_num)
      (by norm_num) (by norm_num) (Or.inl ⟨by norm_num, by norm_num⟩) (by norm_num)
  have h15 : Binary64.sub (Dbl.fin (1351079888211149 / 2 ^ 52)) (Dbl.pinf) = Dbl.ninf := by
    norm_num [Binary64.sub, Dbl.round64, Dbl.sub_def, Dbl.sub, Dbl.infOfSign, Dbl.sub_def, Dbl.add,
        Dbl.neg]
  have a1 : Binary64.add (Dbl.fin 0) (Dbl.fin 0) = Dbl.fin 0 := by
    rw [Binary64.add, Dbl.fin_add_fin]
    norm_num [Dbl.round64, Dbl.roundTo]
  have a2 : Binary64.add (Dbl.fin 100) (Dbl.fin 0) = Dbl.fin 100 := by
    rw [Binary64.add, Dbl.fin_add_fin]
    exact Dbl.round64_cert _ _ (6) (7036874417766400) (by norm_num) (by norm_num)
      (by norm_num) (by norm_num) (Or.inl ⟨by norm_num, by norm_num⟩) (by norm_num)
  have a3 : Binary64.add (Dbl.fin 6) (Dbl.fin 0) = Dbl.fin 6 := by
    rw [Binary64.add, Dbl.fin_add_fin]
    exact Dbl.round64_cert _ _ (2) (6755399441055744) (by norm_num) (by norm_num)
      (by norm_num) (by norm_num) (Or.inl ⟨by norm_num, by norm_num⟩) (by norm_num)
  have a4 : Binary64.sub (Dbl.fin 6) (Dbl.fin 0) = Dbl.fin 6 := by
    rw [Binary64.sub, Dbl.fin_sub_fin]
    exact Dbl.round64_cert _ _ (2) (6755399441055744) (by norm_num) (by norm_num)
      (by norm_num) (by norm_num) (Or.inl ⟨by norm_num, by norm_num⟩) (by norm_num)
  have a5 : Binary64.div (Dbl.fin 6) (Dbl.fin 10) = Dbl.fin (5404319552844595 / 2 ^ 53) := by
    rw [Binary64.div, Dbl.fin_div_fin _ _ (by norm_num)]
    exact Dbl.round64_cert _ _ (-1) (5404319552844595) (by norm_num) (by norm_num)
      (by norm_num) (by norm_num) (Or.inl ⟨by norm_num, by norm_num⟩) (by norm_num)
  have a6 : Dbl.floor (Dbl.fin (5404319552844595 / 2 ^ 53)) = Dbl.fin 0 := by
    rw [Dbl.floor_fin_cert (5404319552844595 / 2 ^ 53) (0) (by norm_num) (by norm_num)]
    norm_num
  have a7 : Binary64.mul (Dbl.fin 0) (Dbl.fin 10) = Dbl.fin 0 := by
    rw [Binary64.mul, Dbl.fin_mul_fin]
    norm_num [Dbl.round64, Dbl.roundTo]
  have a8 : Binary64.sub (Dbl.fin 0) (Dbl.fin 6) = Dbl.fin (-6) := by
    rw [Binary64.sub, Dbl.fin_sub_fin]
    exact Dbl.round64_cert _ _ (2) (-6755399441055744) (by norm_num) (by norm_num)
      (by norm_num) (by norm_num) (Or.inl ⟨by norm_num, by norm_num⟩) (by norm_num)
  have a9 : Binary64.div (Dbl.fin (-6)) (Dbl.fin 10) = Dbl.fin (-5404319552844595 / 2 ^ 53) := by
    rw [Binary64.div, Dbl.fin_div_fin _ _ (by norm_num)]
    exact Dbl.round64_cert _ _ (-1) (-5404319552844595) (by norm_num) (by norm_num)
      (by norm_num) (by norm_num) (Or.inl ⟨by norm_num, by norm_num⟩) (by norm_num)
  have a10 : Dbl.floor (Dbl.fin (-5404319552844595 / 2 ^ 53)) = Dbl.fin (-1) := by
    rw [Dbl.floor_fin_cert (-5404319552844595 / 2 ^ 53) (-1) (by norm_num) (by norm_num)]
    norm_num
  have a11 : Binary64.mul (Dbl.fin (-1)) (Dbl.fin 10) = Dbl.fin (-10) := by
    rw [Binary64.mul, Dbl.fin_mul_fin]
    exact Dbl.round64_cert _ _ (3) (-5629499534213120) (by norm_num) (by norm_num)
      (by norm_num) (by norm_num) (Or.inl ⟨by norm_num, by norm_num⟩) (by norm_num)
  have a12 : Binary64.add (Dbl.fin (-10)) (Dbl.fin 6) = Dbl.fin (-4) := by
    rw [Binary64.add, Dbl.fin_add_fin]
    exact Dbl.round64_cert _ _ (2) (-4503599627370496) (by norm_num) (by norm_num)
      (by norm_num) (by norm_num) (Or.inl ⟨by norm_num, by norm_num⟩) (by norm_num)
  have a13 : Binary64.add (Dbl.fin (-4)) (Dbl.fin 10) = Dbl.fin 6 := by
    rw [Binary64.add, Dbl.fin_add_fin]
    exact Dbl.round64_cert _ _ (2) (6755399441055744) (by norm_num) (by norm_num)
      (by norm_num) (by norm_num) (Or.inl ⟨by norm_num, by norm_num⟩) (by norm_num)
  have a14 : Binary64.sub (Dbl.fin 0) (Dbl.fin (-4)) = Dbl.fin 4 := by
    rw [Binary64.sub, Dbl.fin_sub_fin]
    exact Dbl.round64_cert _ _ (2) (4503599627370496) (by norm_num) (by norm_num)
      (by norm_num) (by norm_num) (Or.inl ⟨by norm_num, by norm_num⟩) (by norm_num)
  have a15 : Binary64.add (Dbl.fin (-4)) (Dbl.pinf) = Dbl.pinf := by
    norm_num [Binary64.add, Dbl.round64, Dbl.add_def, Dbl.add, Dbl.infOfSign]
  have b1 : Binary64.add (Dbl.fin 0) (Dbl.fin 0) = Dbl.fin 0 := by
    rw [Binary64.add, Dbl.fin_add_fin]
    norm_num [Dbl.round64, Dbl.roundTo]
  have b2 : Binary64.add (Dbl.fin 96) (Dbl.fin 0) = Dbl.fin 96 := by
    rw [Binary64.add, Dbl.fin_add_fin]
    exact Dbl.round64_cert _ _ (6) (6755399441055744) (by norm_num) (by norm_num)
      (by norm_num) (by norm_num) (Or.inl ⟨by norm_num, by norm_num⟩) (by norm_num)
  have b3 : Binary64.sub (Dbl.fin 0) (Dbl.fin 0) = Dbl.fin 0 := by
    rw [Binary64.sub, Dbl.fin_sub_fin]
    norm_num [Dbl.round64, Dbl.roundTo]
  have b4 : Binary64.div (Dbl.fin 0) (Dbl.fin 10) = Dbl.fin 0 := by
    rw [Binary64.div, Dbl.fin_div_fin _ _ (by norm_num)]
    norm_num [Dbl.round64, Dbl.roundTo]
  have b5 : Dbl.floor (Dbl.fin 0) = Dbl.fin 0 := by
    rw [Dbl.floor_fin_cert 0 (0) (by norm_num) (by norm_num)]
    norm_num
  have b6 : Binary64.mul (Dbl.fin 0) (Dbl.fin 10) = Dbl.fin 0 := by
    rw [Binary64.mul, Dbl.fin_mul_fin]
    norm_num [Dbl.round64, Dbl.roundTo]
  have b7 : Binary64.sub (Dbl.fin 96) (Dbl.fin 0) = Dbl.fin 96 := by
    rw [Binary64.sub, Dbl.fin_sub_fin]
    exact Dbl.round64_cert _ _ (6) (6755399441055744) (by norm_num) (by norm_num)
      (by norm_num) (by norm_num) (Or.inl ⟨by norm_num, by norm_num⟩) (by norm_num)
  have b8 : Binary64.div (Dbl.fin 96) (Dbl.fin 10) = Dbl.fin (5404319552844595 / 2 ^ 49) := by
    rw [Binary64.div, Dbl.fin_div_fin _ _ (by norm_num)]
    exact Dbl.round64_cert _ _ (3) (5404319552844595) (by norm_num) (by norm_num)
      (by norm_num) (by norm_num) (Or.inl ⟨by norm_num, by norm_num⟩) (by norm_num)
  have b9 : Dbl.floor (Dbl.fin (5404319552844595 / 2 ^ 49)) = Dbl.fin 9 := by
    rw [Dbl.floor_fin_cert (5404319552844595 / 2 ^ 49) (9) (by norm_num) (by norm_num)]
    norm_num
  have b10 : Binary64.mul (Dbl.fin 9) (Dbl.fin 10) = Dbl.fin 90 := by
    rw [Binary64.mul, Dbl.fin_mul_fin]
    exact Dbl.round64_cert _ _ (6) (6333186975989760) (by norm_num) (by norm_num)
      (by norm_num) (by norm_num) (Or.inl ⟨by norm_num, by norm_num⟩) (by norm_num)
  have b11 : Binary64.add (Dbl.fin 90) (Dbl.fin 0) = Dbl.fin 90 := by
    rw [Binary64.add, Dbl.fin_add_fin]
    exact Dbl.round64_cert _ _ (6) (6333186975989760) (by norm_num) (by norm_num)
      (by norm_num) (by norm_num) (Or.inl ⟨by norm_num, by norm_num⟩) (by norm_num)
  have b12 : Binary64.add (Dbl.fin 90) (Dbl.fin 10) = Dbl.fin 100 := by
    rw [Binary64.add, Dbl.fin_add_fin]
    exact Dbl.round64_cert _ _ (6) (7036874417766400) (by norm_num) (by norm_num)
      (by norm_num) (by norm_num) (Or.inl ⟨by norm_num, by norm_num⟩) (by norm_num)
  have b13 : Binary64.sub (Dbl.fin 96) (Dbl.fin 90) = Dbl.fin 6 := by
    rw [Binary64.sub, Dbl.fin_sub_fin]
    exact Dbl.round64_cert _ _ (2) (6755399441055744) (by norm_num) (by norm_num)
      (by norm_num) (by norm_num) (Or.inl ⟨by norm_num, by norm_num⟩) (by norm_num)
  have b14 : Binary64.sub (Dbl.fin 100) (Dbl.fin 96) = Dbl.fin 4 := by
    rw [Binary64.sub, Dbl.fin_sub_fin]
    exact Dbl.round64_cert _ _ (2) (4503599627370496) (by norm_num) (by norm_num)
      (by norm_num) (by norm_num) (Or.inl ⟨by norm_num, by norm_num⟩) (by norm_num)
  have b15 : Binary64.sub (Dbl.fin 100) (Dbl.pinf) = Dbl.ninf := by
    norm_num [Binary64.sub, Dbl.round64, Dbl.sub_def, Dbl.sub, Dbl.infOfSign, Dbl.sub_def, Dbl.add,
        Dbl.neg]
  refine ⟨?_, ?_, by norm_num, by norm_num, by norm_num, ?_, ?_, by norm_num, ?_, ?_,
    by norm_num, ?_⟩
  · norm_num [SnapPointBase.repeatedValid, Scenario.roundingTenths, Dbl.INFINITY]
  · simp only [Binary64.SnapPointBase.Evaluate, Binary64.RepeatedScrollSnapPoint.Evaluate,
        Binary64.RepeatedScrollSnapPoint.DetermineFirstRepeatedSnapPointValue,
        Binary64.RepeatedScrollSnapPoint.DetermineLastRepeatedSnapPointValue,
        Binary64.RepeatedScrollSnapPoint.ActualOffset, Binary64.RepeatedScrollSnapPoint.ActualStart,
        Binary64.RepeatedScrollSnapPoint.ActualEnd,
      Binary64.RepeatedScrollSnapPoint.ImpulseInfluence,
      Binary64.SnapPointBase.ImpulseInfluence, SnapPointBase.setAlignmentAdjustment,
      Scenario.roundingTenths, Dbl.INFINITY, h1, h2, h3, h4, h5, h6, h7, h8, h9, h10, h11, h12, h13,
      h14, h15]
    norm_num
  · intro k hk
    rw [Dbl.fin_mul_fin, Dbl.fin_add_fin] at hk
    have hq := Dbl.fin.inj hk
    have g3 : (3 : ℚ) < k := by
      by_contra hc
      have hc2 : (k : ℚ) ≤ 3 := not_lt.mp hc
      linarith
    have g4 : (k : ℚ) < 4 := by
      by_contra hc
      have hc2 : (4 : ℚ) ≤ k := not_lt.mp hc
      linarith
    have g3z : (3 : ℤ) < k := by exact_mod_cast g3
    have g4z : k < (4 : ℤ) := by exact_mod_cast g4
    omega
  · simp only [Binary64.SnapPointBase.Evaluate, Binary64.RepeatedScrollSnapPoint.Evaluate,
        Binary64.RepeatedScrollSnapPoint.DetermineFirstRepeatedSnapPointValue,
        Binary64.RepeatedScrollSnapPoint.DetermineLastRepeatedSnapPointValue,
        Binary64.RepeatedScrollSnapPoint.ActualOffset, Binary64.RepeatedScrollSnapPoint.ActualStart,
        Binary64.RepeatedScrollSnapPoint.ActualEnd,
      Binary64.RepeatedScrollSnapPoint.ImpulseInfluence,
      Binary64.SnapPointBase.ImpulseInfluence, SnapPointBase.setAlignmentAdjustment,
      Scenario.repeatedOffset6, Dbl.INFINITY, a1, a2, a3, a4, a5, a6, a7, a8, a9, a10, a11, a12,
      a13, a14, a15]
    norm_num
  · simp only [Binary64.SnapPointBase.Evaluate, Binary64.RepeatedScrollSnapPoint.Evaluate,
        Binary64.RepeatedScrollSnapPoint.DetermineFirstRepeatedSnapPointValue,
        Binary64.RepeatedScrollSnapPoint.DetermineLastRepeatedSnapPointValue,
        Binary64.RepeatedScrollSnapPoint.ActualOffset, Binary64.RepeatedScrollSnapPoint.ActualStart,
        Binary64.RepeatedScrollSnapPoint.ActualEnd,
      Binary64.RepeatedScrollSnapPoint.ImpulseInfluence,
      Binary64.SnapPointBase.ImpulseInfluence, SnapPointBase.setAlignmentAdjustment,
      Scenario.repeatedOffset6, Dbl.INFINITY, a1, a2, a3, a4, a5, a6, a7, a8, a9, a10, a11, a12,
      a13, a14, a15]
    norm_num
  · simp only [Binary64.SnapPointBase.Evaluate, Binary64.RepeatedScrollSnapPoint.Evaluate,
        Binary64.RepeatedScrollSnapPoint.DetermineFirstRepeatedSnapPointValue,
        Binary64.RepeatedScrollSnapPoint.DetermineLastRepeatedSnapPointValue,
        Binary64.RepeatedScrollSnapPoint.ActualOffset, Binary64.RepeatedScrollSnapPoint.ActualStart,
        Binary64.RepeatedScrollSnapPoint.ActualEnd,
      Binary64.RepeatedScrollSnapPoint.ImpulseInfluence,
      Binary64.SnapPointBase.ImpulseInfluence, SnapPointBase.setAlignmentAdjustment,
      Scenario.repeatedEnd96, Dbl.INFINITY, b1, b2, b3, b4, b5, b6, b7, b8, b9, b10, b11, b12, b13,
      b14, b15]
    norm_num
  · simp only [Binary64.SnapPointBase.Evaluate, Binary64.RepeatedScrollSnapPoint.Evaluate,
        Binary64.RepeatedScrollSnapPoint.DetermineFirstRepeatedSnapPointValue,
        Binary64.RepeatedScrollSnapPoint.DetermineLastRepeatedSnapPointValue,
        Binary64.RepeatedScrollSnapPoint.ActualOffset, Binary64.RepeatedScrollSnapPoint.ActualStart,
        Binary64.RepeatedScrollSnapPoint.ActualEnd,
      Binary64.RepeatedScrollSnapPoint.ImpulseInfluence,
      Binary64.SnapPointBase.ImpulseInfluence, SnapPointBase.setAlignmentAdjustment,
      Scenario.repeatedEnd96, Dbl.INFINITY, b1, b2, b3, b4, b5, b6, b7, b8, b9, b10, b11, b12, b13,
      b14, b15]
    norm_num

/-- C3 (amended). The computed `Evaluate` of a repeated point of the integer domain (offset,
interval, start, end and alignment adjustment integers of magnitude at most `2 ^ 48`, a range
that is such an integer or `INFINITY`, `interval > 0`) on an integer value inside
`[actual start, actual end]`: there is an integer `k` such that `prev = first + k * interval`
is the greatest sequence position `<= value` (`prev <= value < prev + interval`, `first` being
the computed `DetermineFirstRepeatedSnapPointValue`), and `Evaluate` returns `prev` when
`value - prev <= next - value` and `value - prev` is within the applicable range, `next` when
`next` is strictly nearer and `next - value` is within the applicable range, and `value`
otherwise.  The first conjunct is the scroll kind, the second the zoom kind (no adjustment). -/
theorem C3_Evaluate_repeated_inside (offset interval start end_ adj value : ℤ) (range : Dbl)
    (alignment : ScrollSnapPointsAlignment) (rangeType : SnapPointApplicableRangeType)
    (zone : Dbl × Dbl)
    (hob : |offset| ≤ 2 ^ 48) (hib : interval ≤ 2 ^ 48) (hsb : |start| ≤ 2 ^ 48)
    (heb : |end_| ≤ 2 ^ 48) (hab : |adj| ≤ 2 ^ 48)
    (hr : range = Dbl.pinf ∨ ∃ r : ℤ, |r| ≤ 2 ^ 48 ∧ range = Dbl.fin r)
    (hi : 0 < interval) (hlo : start + adj ≤ value) (hhi : value ≤ end_ + adj) :
    (∃ (first : ℚ) (k : ℤ),
      Binary64.RepeatedScrollSnapPoint.DetermineFirstRepeatedSnapPointValue
        ⟨Dbl.fin offset, Dbl.fin interval, Dbl.fin start, Dbl.fin end_, alignment, Dbl.fin adj,
          range, rangeType⟩ = Dbl.fin first ∧
      first + k * interval ≤ value ∧ value < first + k * interval + interval ∧
      Binary64.SnapPointBase.Evaluate
        (SnapPointBase.repeatedScroll
          ⟨Dbl.fin offset, Dbl.fin interval, Dbl.fin start, Dbl.fin end_, alignment,
            Dbl.fin adj, range, rangeType⟩) zone (Dbl.fin value)
        = Spec.repeatedEvaluate first interval range k value) ∧
    (adj = 0 → ∃ (first : ℚ) (k : ℤ),
      Binary64.RepeatedZoomSnapPoint.DetermineFirstRepeatedSnapPointValue
        ⟨Dbl.fin offset, Dbl.fin interval, Dbl.fin start, Dbl.fin end_, range, rangeType⟩
        = Dbl.fin first ∧
      first + k * interval ≤ value ∧ value < first + k * interval + interval ∧
      Binary64.SnapPointBase.Evaluate
        (SnapPointBase.repeatedZoom
          ⟨Dbl.fin offset, Dbl.fin interval, Dbl.fin start, Dbl.fin end_, range, rangeType⟩)
          zone (Dbl.fin value)
        = Spec.repeatedEvaluate first interval range k value) := by
  have hiq : (0 : ℚ) < (interval : ℚ) := by exact_mod_cast hi
  have hloq : (start : ℚ) + adj ≤ value := by exact_mod_cast hlo
  have hhiq : (value : ℚ) ≤ end_ + adj := by exact_mod_cast hhi
  obtain ⟨⟨first, k, h1, h2, h3, h4⟩, hz⟩ :=
    exact_Evaluate_repeated_inside offset interval start end_ adj value range alignment rangeType
      zone hiq hloq hhiq
  constructor
  · obtain ⟨hF1, hF2⟩ := binary64_First_intCast
      ⟨Dbl.fin offset, Dbl.fin interval, Dbl.fin start, Dbl.fin end_, alignment, Dbl.fin adj,
        range, rangeType⟩ offset interval start adj rfl rfl rfl rfl hob hib hsb hab hi
    obtain ⟨hE, _⟩ := binary64_Evaluate_intCast
      ⟨Dbl.fin offset, Dbl.fin interval, Dbl.fin start, Dbl.fin end_, alignment, Dbl.fin adj,
        range, rangeType⟩ offset interval start end_ adj value zone rfl rfl rfl rfl rfl hr hob hib
      hsb heb hab hi
    refine ⟨first, k, ?_, h2, h3, ?_⟩
    · rw [hF1, ← hF2]
      exact h1
    · simp only [Binary64.SnapPointBase.Evaluate, hE]
      exact h4
  · intro ha
    obtain ⟨first, k, h1, h2, h3, h4⟩ := hz (by exact_mod_cast ha)
    obtain ⟨hF1, hF2⟩ := binary64_zoom_First_intCast
      ⟨Dbl.fin offset, Dbl.fin interval, Dbl.fin start, Dbl.fin end_, range, rangeType⟩
      offset interval start rfl rfl rfl hob hib hsb hi
    obtain ⟨hE, _⟩ := binary64_zoom_Evaluate_intCast
      ⟨Dbl.fin offset, Dbl.fin interval, Dbl.fin start, Dbl.fin end_, range, rangeType⟩
      offset interval start end_ value zone rfl rfl rfl rfl hr hob hib hsb heb hi
    refine ⟨first, k, ?_, h2, h3, ?_⟩
    · rw [hF1, ← hF2]
      exact h1
    · simp only [Binary64.SnapPointBase.Evaluate, hE]
      exact h4

/-- C3 witness, the scenario of the specification: `offset = 0`, `interval = 10`, `start = 0`,
`end = 100`, `applicableRange = 3` gives `Evaluate(7) = 10` and `Evaluate(5) = 5`. -/
theorem C3_Evaluate_repeated_inside_witness :
    Binary64.SnapPointBase.Evaluate (SnapPointBase.repeatedScroll Scenario.optionalRepeated)
      (Dbl.fin 0, Dbl.fin 100) (Dbl.fin 7) = Dbl.fin 10 ∧
    Binary64.SnapPointBase.Evaluate (SnapPointBase.repeatedScroll Scenario.optionalRepeated)
      (Dbl.fin 0, Dbl.fin 100) (Dbl.fin 5) = Dbl.fin 5 := by
  have hfirst : ∀ first : ℚ,
      Binary64.RepeatedScrollSnapPoint.DetermineFirstRepeatedSnapPointValue
        ⟨Dbl.fin ((0 : ℤ) : ℚ), Dbl.fin ((10 : ℤ) : ℚ), Dbl.fin ((0 : ℤ) : ℚ),
          Dbl.fin ((100 : ℤ) : ℚ), ScrollSnapPointsAlignment.Near, Dbl.fin ((0 : ℤ) : ℚ),
          Dbl.fin 3, SnapPointApplicableRangeType.Optional⟩ = Dbl.fin first → first = 0 := by
    intro first h
    obtain ⟨hF1, _⟩ := binary64_First_intCast
      ⟨Dbl.fin ((0 : ℤ) : ℚ), Dbl.fin ((10 : ℤ) : ℚ), Dbl.fin ((0 : ℤ) : ℚ),
        Dbl.fin ((100 : ℤ) : ℚ), ScrollSnapPointsAlignment.Near, Dbl.fin ((0 : ℤ) : ℚ),
        Dbl.fin 3, SnapPointApplicableRangeType.Optional⟩ 0 10 0 0 rfl rfl rfl rfl
      (by norm_num) (by norm_num) (by norm_num) (by norm_num) (by norm_num)
    rw [hF1] at h
    have h' := Dbl.fin.inj h
    norm_num at h'
    exact h'.symm
  constructor
  · obtain ⟨first, k, h1, h2, h3, h4⟩ :=
      (C3_Evaluate_repeated_inside 0 10 0 100 0 7 (Dbl.fin 3) ScrollSnapPointsAlignment.Near
        SnapPointApplicableRangeType.Optional (Dbl.fin 0, Dbl.fin 100)
        (by norm_num) (by norm_num) (by norm_num) (by norm_num) (by norm_num)
        (Or.inr ⟨3, by norm_num, by norm_num⟩) (by norm_num) (by norm_num) (by norm_num)).1
    have hf := hfirst first h1
    subst hf
    have hk : k = 0 := by
      have a1 : (k : ℚ) * 10 ≤ 7 := by push_cast at h2; linarith
      have a2 : (7 : ℚ) < k * 10 + 10 := by push_cast at h3; linarith
      have b1 : k * 10 ≤ 7 := by exact_mod_cast a1
      have b2 : 7 < k * 10 + 10 := by exact_mod_cast a2
      omega
    subst hk
    have hpt : (SnapPointBase.repeatedScroll Scenario.optionalRepeated)
        = SnapPointBase.repeatedScroll
          ⟨Dbl.fin ((0 : ℤ) : ℚ), Dbl.fin ((10 : ℤ) : ℚ), Dbl.fin ((0 : ℤ) : ℚ),
            Dbl.fin ((100 : ℤ) : ℚ), ScrollSnapPointsAlignment.Near, Dbl.fin ((0 : ℤ) : ℚ),
            Dbl.fin 3, SnapPointApplicableRangeType.Optional⟩ := by
      simp [Scenario.optionalRepeated]
    rw [hpt]
    have h7 : (Dbl.fin 7 : Dbl) = Dbl.fin ((7 : ℤ) : ℚ) := by norm_num
    rw [h7, h4]
    norm_num [Spec.repeatedEvaluate]
  · obtain ⟨first, k, h1, h2, h3, h4⟩ :=
      (C3_Evaluate_repeated_inside 0 10 0 100 0 5 (Dbl.fin 3) ScrollSnapPointsAlignment.Near
        SnapPointApplicableRangeType.Optional (Dbl.fin 0, Dbl.fin 100)
        (by norm_num) (by norm_num) (by norm_num) (by norm_num) (by norm_num)
        (Or.inr ⟨3, by norm_num, by norm_num⟩) (by norm_num) (by norm_num) (by norm_num)).1
    have hf := hfirst first h1
    subst hf
    have hk : k = 0 := by
      have a1 : (k : ℚ) * 10 ≤ 5 := by push_cast at h2; linarith
      have a2 : (5 : ℚ) < k * 10 + 10 := by push_cast at h3; linarith
      have b1 : k * 10 ≤ 5 := by exact_mod_cast a1
      have b2 : 5 < k * 10 + 10 := by exact_mod_cast a2
      omega
    subst hk
    have hpt : (SnapPointBase.repeatedScroll Scenario.optionalRepeated)
        = SnapPointBase.repeatedScroll
          ⟨Dbl.fin ((0 : ℤ) : ℚ), Dbl.fin ((10 : ℤ) : ℚ), Dbl.fin ((0 : ℤ) : ℚ),
            Dbl.fin ((100 : ℤ) : ℚ), ScrollSnapPointsAlignment.Near, Dbl.fin ((0 : ℤ) : ℚ),
            Dbl.fin 3, SnapPointApplicableRangeType.Optional⟩ := by
      simp [Scenario.optionalRepeated]
    rw [hpt]
    have h5 : (Dbl.fin 5 : Dbl) = Dbl.fin ((5 : ℤ) : ℚ) := by norm_num
    rw [h5, h4]
    norm_num [Spec.repeatedEvaluate]

/-- C3 counterexample.  First conjuncts: the mandatory repeated point `offset = 0`, `interval =
0.1`, `start = 0`, `end = 1000` (valid for the constructor; the interval is the double `i =
(3602879701896397 / 2 ^ 55)`) and the value `v = (3039929748475085 / 2 ^ 51)` (the double nearest to
`1.35`), inside `[start, end]`.  The computed first position is `0`; `prev = 13 * i` is the greatest
sequence position `<= v`, and `next = 14 * i` is strictly nearer to `v` than `prev`, so that the
claim gives `next`; the computed `Evaluate` returns `(5854679515581645 / 2 ^ 52)` (the double
nearest to `1.3`), because the computed differences `v - prev` and `next - v` are equal.  Last
conjuncts: the point `offset = 0`, `interval = 10`, `start = -inf`, `end = 100`, which the
constructor accepts, has the computed first position `-inf`, no sequence position at all. -/
theorem C3_counterexample :
    (SnapPointBase.repeatedScroll Scenario.roundingTenths).repeatedValid = true ∧
    Binary64.RepeatedScrollSnapPoint.DetermineFirstRepeatedSnapPointValue Scenario.roundingTenths
      = Dbl.fin 0 ∧
    (0 : ℚ) + 13 * (3602879701896397 / 2 ^ 55) ≤ (3039929748475085 / 2 ^ 51) ∧
    ((3039929748475085 / 2 ^ 51) : ℚ)
        < 0 + 13 * (3602879701896397 / 2 ^ 55) + (3602879701896397 / 2 ^ 55) ∧
    Spec.repeatedEvaluate 0 (3602879701896397 / 2 ^ 55) Dbl.pinf 13 (3039929748475085 / 2 ^ 51)
      = Dbl.fin (14 * (3602879701896397 / 2 ^ 55)) ∧
    Binary64.SnapPointBase.Evaluate (SnapPointBase.repeatedScroll Scenario.roundingTenths)
      (Dbl.fin 0, Dbl.fin 1000) (Dbl.fin (3039929748475085 / 2 ^ 51))
          = Dbl.fin (5854679515581645 / 2 ^ 52) ∧
    Dbl.fin (5854679515581645 / 2 ^ 52) ≠ Dbl.fin (14 * (3602879701896397 / 2 ^ 55)) ∧
    (SnapPointBase.repeatedScroll Scenario.unboundedStart).repeatedValid = true ∧
    Binary64.RepeatedScrollSnapPoint.DetermineFirstRepeatedSnapPointValue Scenario.unboundedStart
      = Dbl.ninf := by
  have h1 : Binary64.add (Dbl.fin 0) (Dbl.fin 0) = Dbl.fin 0 := by
    rw [Binary64.add, Dbl.fin_add_fin]
    norm_num [Dbl.round64, Dbl.roundTo]
  have h2 : Binary64.sub (Dbl.fin 0) (Dbl.fin 0) = Dbl.fin 0 := by
    rw [Binary64.sub, Dbl.fin_sub_fin]
    norm_num [Dbl.round64, Dbl.roundTo]
  have h3 : Binary64.div (Dbl.fin 0) (Dbl.fin (3602879701896397 / 2 ^ 55)) = Dbl.fin 0 := by
    rw [Binary64.div, Dbl.fin_div_fin _ _ (by norm_num)]
    norm_num [Dbl.round64, Dbl.roundTo]
  have h4 : Dbl.floor (Dbl.fin 0) = Dbl.fin 0 := by
    rw [Dbl.floor_fin_cert 0 (0) (by norm_num) (by norm_num)]
    norm_num
  have h5 : Binary64.mul (Dbl.fin 0) (Dbl.fin (3602879701896397 / 2 ^ 55)) = Dbl.fin 0 := by
    rw [Binary64.mul, Dbl.fin_mul_fin]
    norm_num [Dbl.round64, Dbl.roundTo]
  have h6 : Binary64.add (Dbl.fin 1000) (Dbl.fin 0) = Dbl.fin 1000 := by
    rw [Binary64.add, Dbl.fin_add_fin]
    exact Dbl.round64_cert _ _ (9) (8796093022208000) (by norm_num) (by norm_num)
      (by norm_num) (by norm_num) (Or.inl ⟨by norm_num, by norm_num⟩) (by norm_num)
  have h7 : Binary64.sub (Dbl.fin (3039929748475085 / 2 ^ 51)) (Dbl.fin 0)
      = Dbl.fin (3039929748475085 / 2 ^ 51) := by
    rw [Binary64.sub, Dbl.fin_sub_fin]
    exact Dbl.round64_cert _ _ (0) (6079859496950170) (by norm_num) (by norm_num)
      (by norm_num) (by norm_num) (Or.inl ⟨by norm_num, by norm_num⟩) (by norm_num)
  have h8 : Binary64.div (Dbl.fin (3039929748475085 / 2 ^ 51)) (Dbl.fin (3602879701896397 / 2 ^ 55))
      = Dbl.fin (27 / 2 ^ 1) := by
    rw [Binary64.div, Dbl.fin_div_fin _ _ (by norm_num)]
    exact Dbl.round64_cert _ _ (3) (7599824371187712) (by norm_num) (by norm_num)
      (by norm_num) (by norm_num) (Or.inl ⟨by norm_num, by norm_num⟩) (by norm_num)
  have h9 : Dbl.floor (Dbl.fin (27 / 2 ^ 1)) = Dbl.fin 13 := by
    rw [Dbl.floor_fin_cert (27 / 2 ^ 1) (13) (by norm_num) (by norm_num)]
    norm_num
  have h10 : Binary64.mul (Dbl.fin 13) (Dbl.fin (3602879701896397 / 2 ^ 55))
      = Dbl.fin (5854679515581645 / 2 ^ 52) := by
    rw [Binary64.mul, Dbl.fin_mul_fin]
    exact Dbl.round64_cert _ _ (0) (5854679515581645) (by norm_num) (by norm_num)
      (by norm_num) (by norm_num) (Or.inl ⟨by norm_num, by norm_num⟩) (by norm_num)
  have h11 : Binary64.add (Dbl.fin (5854679515581645 / 2 ^ 52)) (Dbl.fin 0)
      = Dbl.fin (5854679515581645 / 2 ^ 52) := by
    rw [Binary64.add, Dbl.fin_add_fin]
    exact Dbl.round64_cert _ _ (0) (5854679515581645) (by norm_num) (by norm_num)
      (by norm_num) (by norm_num) (Or.inl ⟨by norm_num, by norm_num⟩) (by norm_num)
  have h12 : Binary64.add (Dbl.fin (5854679515581645 / 2 ^ 52))
      (Dbl.fin (3602879701896397 / 2 ^ 55))
      = Dbl.fin (6305039478318695 / 2 ^ 52) := by
    rw [Binary64.add, Dbl.fin_add_fin]
    exact Dbl.round64_cert _ _ (0) (6305039478318695) (by norm_num) (by norm_num)
      (by norm_num) (by norm_num) (Or.inl ⟨by norm_num, by norm_num⟩) (by norm_num)
  have h13 : Binary64.sub (Dbl.fin (3039929748475085 / 2 ^ 51))
      (Dbl.fin (5854679515581645 / 2 ^ 52))
      = Dbl.fin (225179981368525 / 2 ^ 52) := by
    rw [Binary64.sub, Dbl.fin_sub_fin]
    exact Dbl.round64_cert _ _ (-5) (7205759403792800) (by norm_num) (by norm_num)
      (by norm_num) (by norm_num) (Or.inl ⟨by norm_num, by norm_num⟩) (by norm_num)
  have h14 : Binary64.sub (Dbl.fin (6305039478318695 / 2 ^ 52))
      (Dbl.fin (3039929748475085 / 2 ^ 51))
      = Dbl.fin (225179981368525 / 2 ^ 52) := by
    rw [Binary64.sub, Dbl.fin_sub_fin]
    exact Dbl.round64_cert _ _ (-5) (7205759403792800) (by norm_num) (by norm_num)
      (by norm_num) (by norm_num) (Or.inl ⟨by norm_num, by norm_num⟩) (by norm_num)
  have h15 : Binary64.add (Dbl.fin (5854679515581645 / 2 ^ 52)) (Dbl.pinf) = Dbl.pinf := by
    norm_num [Binary64.add, Dbl.round64, Dbl.add_def, Dbl.add, Dbl.infOfSign]
  have k1 : Binary64.add (Dbl.fin 0) (Dbl.fin 0) = Dbl.fin 0 := by
    rw [Binary64.add, Dbl.fin_add_fin]
    norm_num [Dbl.round64, Dbl.roundTo]
  have k2 : Binary64.add (Dbl.ninf) (Dbl.fin 0) = Dbl.ninf := by
    norm_num [Binary64.add, Dbl.round64, Dbl.add_def, Dbl.add, Dbl.infOfSign]
  have k3 : Binary64.sub (Dbl.fin 0) (Dbl.ninf) = Dbl.pinf := by
    norm_num [Binary64.sub, Dbl.round64, Dbl.sub_def, Dbl.sub, Dbl.infOfSign, Dbl.sub_def, Dbl.add,
        Dbl.neg]
  have k4 : Binary64.div (Dbl.pinf) (Dbl.fin 10) = Dbl.pinf := by
    norm_num [Binary64.div, Dbl.round64, Dbl.div_def, Dbl.div, Dbl.infOfSign]
  have k5 : Dbl.floor (Dbl.pinf) = Dbl.pinf := rfl
  have k6 : Binary64.mul (Dbl.pinf) (Dbl.fin 10) = Dbl.pinf := by
    norm_num [Binary64.mul, Dbl.round64, Dbl.mul_def, Dbl.mul, Dbl.infOfSign]
  have k7 : Binary64.sub (Dbl.fin 0) (Dbl.pinf) = Dbl.ninf := by
    norm_num [Binary64.sub, Dbl.round64, Dbl.sub_def, Dbl.sub, Dbl.infOfSign, Dbl.sub_def, Dbl.add,
        Dbl.neg]
  have k8 : Binary64.add (Dbl.fin 100) (Dbl.fin 0) = Dbl.fin 100 := by
    rw [Binary64.add, Dbl.fin_add_fin]
    exact Dbl.round64_cert _ _ (6) (7036874417766400) (by norm_num) (by norm_num)
      (by norm_num) (by norm_num) (Or.inl ⟨by norm_num, by norm_num⟩) (by norm_num)
  have k9 : Binary64.sub (Dbl.fin 7) (Dbl.ninf) = Dbl.pinf := by
    norm_num [Binary64.sub, Dbl.round64, Dbl.sub_def, Dbl.sub, Dbl.infOfSign, Dbl.sub_def, Dbl.add,
        Dbl.neg]
  have k10 : Binary64.add (Dbl.pinf) (Dbl.ninf) = Dbl.nan := by
    norm_num [Binary64.add, Dbl.round64, Dbl.add_def, Dbl.add, Dbl.infOfSign]
  have k11 : Binary64.add (Dbl.nan) (Dbl.fin 10) = Dbl.nan := by
    norm_num [Binary64.add, Dbl.round64, Dbl.add_def, Dbl.add, Dbl.infOfSign]
  have k12 : Binary64.sub (Dbl.fin 7) (Dbl.nan) = Dbl.nan := by
    norm_num [Binary64.sub, Dbl.round64, Dbl.sub_def, Dbl.sub, Dbl.infOfSign, Dbl.sub_def, Dbl.add,
        Dbl.neg]
  have k13 : Binary64.sub (Dbl.nan) (Dbl.fin 7) = Dbl.nan := by
    norm_num [Binary64.sub, Dbl.round64, Dbl.sub_def, Dbl.sub, Dbl.infOfSign, Dbl.sub_def, Dbl.add,
        Dbl.neg]
  have k14 : Binary64.sub (Dbl.nan) (Dbl.pinf) = Dbl.nan := by
    norm_num [Binary64.sub, Dbl.round64, Dbl.sub_def, Dbl.sub, Dbl.infOfSign, Dbl.sub_def, Dbl.add,
        Dbl.neg]
  refine ⟨?_, ?_, by norm_num, by norm_num, ?_, ?_, ?_, ?_, ?_⟩
  · norm_num [SnapPointBase.repeatedValid, Scenario.roundingTenths, Dbl.INFINITY]
  · simp only [Binary64.SnapPointBase.Evaluate, Binary64.RepeatedScrollSnapPoint.Evaluate,
        Binary64.RepeatedScrollSnapPoint.DetermineFirstRepeatedSnapPointValue,
        Binary64.RepeatedScrollSnapPoint.DetermineLastRepeatedSnapPointValue,
        Binary64.RepeatedScrollSnapPoint.ActualOffset, Binary64.RepeatedScrollSnapPoint.ActualStart,
        Binary64.RepeatedScrollSnapPoint.ActualEnd,
      Binary64.RepeatedScrollSnapPoint.ImpulseInfluence,
      Binary64.SnapPointBase.ImpulseInfluence, SnapPointBase.setAlignmentAdjustment,
      Scenario.roundingTenths, Dbl.INFINITY, h1, h2, h3, h4, h5, h6, h7, h8, h9, h10, h11, h12, h13,
      h14, h15]
  · norm_num [Spec.repeatedEvaluate]
  · simp only [Binary64.SnapPointBase.Evaluate, Binary64.RepeatedScrollSnapPoint.Evaluate,
        Binary64.RepeatedScrollSnapPoint.DetermineFirstRepeatedSnapPointValue,
        Binary64.RepeatedScrollSnapPoint.DetermineLastRepeatedSnapPointValue,
        Binary64.RepeatedScrollSnapPoint.ActualOffset, Binary64.RepeatedScrollSnapPoint.ActualStart,
        Binary64.RepeatedScrollSnapPoint.ActualEnd,
      Binary64.RepeatedScrollSnapPoint.ImpulseInfluence,
      Binary64.SnapPointBase.ImpulseInfluence, SnapPointBase.setAlignmentAdjustment,
      Scenario.roundingTenths, Dbl.INFINITY, h1, h2, h3, h4, h5, h6, h7, h8, h9, h10, h11, h12, h13,
      h14, h15]
    norm_num
  · norm_num
  · norm_num [SnapPointBase.repeatedValid, Scenario.unboundedStart, Dbl.INFINITY]
  · simp only [Binary64.SnapPointBase.Evaluate, Binary64.RepeatedScrollSnapPoint.Evaluate,
        Binary64.RepeatedScrollSnapPoint.DetermineFirstRepeatedSnapPointValue,
        Binary64.RepeatedScrollSnapPoint.DetermineLastRepeatedSnapPointValue,
        Binary64.RepeatedScrollSnapPoint.ActualOffset, Binary64.RepeatedScrollSnapPoint.ActualStart,
        Binary64.RepeatedScrollSnapPoint.ActualEnd,
      Binary64.RepeatedScrollSnapPoint.ImpulseInfluence,
      Binary64.SnapPointBase.ImpulseInfluence, SnapPointBase.setAlignmentAdjustment,
      Scenario.unboundedStart, Dbl.INFINITY, k1, k2, k3, k4, k5, k6, k7, k8, k9, k10, k11, k12, k13,
      k14]

/-! ## The alignment adjustment on the integer domain -/

/-- The computed sum of a zone bound (an infinity or an integer of magnitude at most `2 ^ 48`)
and an integer adjustment is the exact one. -/
theorem binary64_add_zoneBound (b : Dbl) (a : ℤ)
    (hb : b = Dbl.ninf ∨ b = Dbl.pinf ∨ b.isInteger48 = true) (ha : |a| ≤ 2 ^ 48) :
    Binary64.add b (Dbl.fin a) = b + Dbl.fin a := by
  rcases hb with rfl | rfl | hb
  · rfl
  · rfl
  · obtain ⟨n, hn, rfl⟩ := (Dbl.isInteger48_iff b).1 hb
    rw [abs_le] at hn ha
    rw [Binary64.add_intCast n a (abs_lt.mpr ⟨by linarith, by linarith⟩), Dbl.fin_add_fin]
    push_cast
    rfl

/-- On the integer domain the exact `Evaluate` of an integer of magnitude at most `2 ^ 48` is an
integer of magnitude at most `2 ^ 49`. -/
theorem exact_Evaluate_int_bound (sp : SnapPointBase) (zone : Dbl × Dbl) (v : ℤ)
    (hint : sp.integerFields = true) (hfin : sp.repeatedFinite = true) (hv : |v| ≤ 2 ^ 48) :
    ∃ w : ℤ, sp.Evaluate zone (Dbl.fin v) = Dbl.fin w ∧ |w| ≤ 2 ^ 49 := by
  obtain ⟨_, w, hw⟩ := binary64_SnapPointBase_Evaluate_intCast sp zone v hint hfin
  refine ⟨w, hw, ?_⟩
  rw [abs_le] at hv
  cases sp with
  | scroll p =>
      simp only [SnapPointBase.integerFields, Bool.and_eq_true, Dbl.isInteger48_iff] at hint
      obtain ⟨⟨m, hm, h1⟩, ⟨adj, ha, h2⟩⟩ := hint
      rw [abs_le] at hm ha
      simp only [SnapPointBase.Evaluate, ScrollSnapPoint.Evaluate, ScrollSnapPoint.ActualValue,
        h1, h2, Dbl.fin_add_fin] at hw
      split_ifs at hw
      · have h3 : (m : ℚ) + adj = w := Dbl.fin.inj hw
        have h4 : m + adj = w := by exact_mod_cast h3
        rw [abs_le]
        constructor <;> linarith
      · have h3 : (v : ℚ) = w := Dbl.fin.inj hw
        have h4 : v = w := by exact_mod_cast h3
        rw [abs_le]
        constructor <;> linarith
  | zoom p =>
      simp only [SnapPointBase.integerFields, Dbl.isInteger48_iff] at hint
      obtain ⟨m, hm, h1⟩ := hint
      rw [abs_le] at hm
      simp only [SnapPointBase.Evaluate, ZoomSnapPoint.Evaluate, h1] at hw
      split_ifs at hw
      · have h3 : (m : ℚ) = w := Dbl.fin.inj hw
        have h4 : m = w := by exact_mod_cast h3
        rw [abs_le]
        constructor <;> linarith
      · have h3 : (v : ℚ) = w := Dbl.fin.inj hw
        have h4 : v = w := by exact_mod_cast h3
        rw [abs_le]
        constructor <;> linarith
  | repeatedScroll p =>
      obtain ⟨o, i, s, e, adj, h1, h2, h3, h4, h5, ho, hi, hs, he, ha, _⟩ :=
        SnapPointBase.integerFields_repeatedScroll p hint
      have hd := (exact_Evaluate_moves_at_most (SnapPointBase.repeatedScroll p) _ _ zone v hfin
        rfl).1
      rw [hw, h2] at hd
      simp only [Dbl.fin_sub_fin, Dbl.abs_fin, Dbl.fin_div_two, Dbl.fin_le_fin] at hd
      rw [abs_le] at hd hi
      have hiq : (i : ℚ) ≤ 2 ^ 48 := by exact_mod_cast hi.2
      have hvq1 : (-(2 : ℚ) ^ 48) ≤ v := by exact_mod_cast hv.1
      have hvq2 : (v : ℚ) ≤ 2 ^ 48 := by exact_mod_cast hv.2
      have b1 : (-(2 : ℚ) ^ 49) ≤ w := by linarith [hd.1]
      have b2 : (w : ℚ) ≤ 2 ^ 49 := by linarith [hd.2]
      rw [abs_le]
      constructor
      · exact_mod_cast b1
      · exact_mod_cast b2
  | repeatedZoom p =>
      obtain ⟨o, i, s, e, h1, h2, h3, h4, ho, hi, hs, he, _⟩ :=
        SnapPointBase.integerFields_repeatedZoom p hint
      have hd := (exact_Evaluate_moves_at_most (SnapPointBase.repeatedZoom p) _ _ zone v hfin
        rfl).1
      rw [hw, h2] at hd
      simp only [Dbl.fin_sub_fin, Dbl.abs_fin, Dbl.fin_div_two, Dbl.fin_le_fin] at hd
      rw [abs_le] at hd hi
      have hiq : (i : ℚ) ≤ 2 ^ 48 := by exact_mod_cast hi.2
      have hvq1 : (-(2 : ℚ) ^ 48) ≤ v := by exact_mod_cast hv.1
      have hvq2 : (v : ℚ) ≤ 2 ^ 48 := by exact_mod_cast hv.2
      have b1 : (-(2 : ℚ) ^ 49) ≤ w := by linarith [hd.1]
      have b2 : (w : ℚ) ≤ 2 ^ 49 := by linarith [hd.2]
      rw [abs_le]
      constructor
      · exact_mod_cast b1
      · exact_mod_cast b2

/-- On the integer domain the computed sort key of a point is the exact one. -/
theorem binary64_SortPredicate_intCast (sp : SnapPointBase)
    (hint : sp.integerFields = true) (hfin : sp.repeatedFinite = true) :
    Binary64.SnapPointBase.SortPredicate sp = sp.SortPredicate := by
  obtain ⟨hv, hb, _, _⟩ := binary64_vocabulary_intCast sp hint hfin
  cases sp with
  | scroll p =>
      simp only [Binary64.SnapPointBase.singleValue, SnapPointBase.singleValue,
        Option.some.injEq] at hv
      simp only [Binary64.SnapPointBase.SortPredicate, Binary64.ScrollSnapPoint.SortPredicate,
        SnapPointBase.SortPredicate, ScrollSnapPoint.SortPredicate, hv]
  | zoom p => rfl
  | repeatedScroll p =>
      simp only [Binary64.SnapPointBase.repeatedBounds, SnapPointBase.repeatedBounds,
        Option.some.injEq, Prod.mk.injEq] at hb
      simp only [Binary64.SnapPointBase.SortPredicate,
        Binary64.RepeatedScrollSnapPoint.SortPredicate, SnapPointBase.SortPredicate,
        RepeatedScrollSnapPoint.SortPredicate, hb.1, hb.2]
  | repeatedZoom p => rfl

/-- Setting the alignment adjustment to `0` keeps a point in the integer domain. -/
theorem SnapPointBase.integerFields_setAlignmentAdjustment (sp : SnapPointBase)
    (hint : sp.integerFields = true) :
    (sp.setAlignmentAdjustment (Dbl.fin 0)).integerFields = true := by
  have h0 : (Dbl.fin 0).isInteger48 = true := by
    have := Dbl.isInteger48_intCast 0 (by norm_num)
    simpa using this
  cases sp with
  | scroll p =>
      simp only [SnapPointBase.integerFields, Bool.and_eq_true] at hint
      simp only [SnapPointBase.setAlignmentAdjustment, SnapPointBase.integerFields,
        Bool.and_eq_true, hint.1, h0, and_self]
  | zoom p => exact hint
  | repeatedScroll p =>
      simp only [SnapPointBase.integerFields, Bool.and_eq_true] at hint
      obtain ⟨⟨⟨⟨⟨h1, h2⟩, h3⟩, h4⟩, _⟩, h6⟩ := hint
      simp only [SnapPointBase.setAlignmentAdjustment, SnapPointBase.integerFields,
        Bool.and_eq_true, h1, h2, h3, h4, h0, h6, and_self]
  | repeatedZoom p => exact hint

/-- Setting the alignment adjustment to `0` keeps the fields finite. -/
theorem SnapPointBase.repeatedFinite_setAlignmentAdjustment (sp : SnapPointBase)
    (hfin : sp.repeatedFinite = true) :
    (sp.setAlignmentAdjustment (Dbl.fin 0)).repeatedFinite = true := by
  cases sp with
  | scroll p => rfl
  | zoom p => rfl
  | repeatedScroll p =>
      simp only [SnapPointBase.repeatedFinite, Bool.and_eq_true, decide_eq_true_eq] at hfin
      obtain ⟨⟨⟨⟨⟨h1, h2⟩, h3⟩, h4⟩, _⟩, h6⟩ := hfin
      have h0 : (Dbl.fin 0).isFinite = true := rfl
      simp only [SnapPointBase.setAlignmentAdjustment, SnapPointBase.repeatedFinite,
        Bool.and_eq_true, decide_eq_true_eq, h1, h2, h3, h4, h6, h0, and_self]
  | repeatedZoom p => exact hfin

/-- The computed sum of two integers of magnitude at most `2 ^ 51` is the exact one. -/
theorem binary64_add_int51 (x : Dbl) (y : ℤ) (hx : ∃ n : ℤ, x = Dbl.fin n ∧ |n| ≤ 2 ^ 51)
    (hy : |y| ≤ 2 ^ 51) :
    Binary64.add x (Dbl.fin y) = x + Dbl.fin (y : ℚ) ∧
    Binary64.add (Dbl.fin y) x = Dbl.fin (y : ℚ) + x := by
  obtain ⟨n, rfl, hn⟩ := hx
  rw [abs_le] at hn hy
  constructor
  · rw [Binary64.add_intCast n y (abs_lt.mpr ⟨by linarith, by linarith⟩), Dbl.fin_add_fin]
    push_cast
    rfl
  · rw [Binary64.add_intCast y n (abs_lt.mpr ⟨by linarith, by linarith⟩), Dbl.fin_add_fin]
    push_cast
    rfl

/-- On the integer domain the actual value, the bounds and the first and last position of a
point are integers of magnitude at most `2 ^ 51`. -/
theorem exact_vocabulary_int_bound (sp : SnapPointBase)
    (hint : sp.integerFields = true) (hfin : sp.repeatedFinite = true) :
    (∀ u, sp.singleValue = some u → ∃ n : ℤ, u = Dbl.fin n ∧ |n| ≤ 2 ^ 51) ∧
    (∀ s e, sp.repeatedBounds = some (s, e) →
      (∃ n : ℤ, s = Dbl.fin n ∧ |n| ≤ 2 ^ 51) ∧ (∃ n : ℤ, e = Dbl.fin n ∧ |n| ≤ 2 ^ 51)) ∧
    (∀ f l, sp.repeatedFirstLast = some (f, l) →
      (∃ n : ℤ, f = Dbl.fin n ∧ |n| ≤ 2 ^ 51) ∧ (∃ n : ℤ, l = Dbl.fin n ∧ |n| ≤ 2 ^ 51)) := by
  cases sp with
  | scroll p =>
      simp only [SnapPointBase.integerFields, Bool.and_eq_true, Dbl.isInteger48_iff] at hint
      obtain ⟨⟨m, hm, h1⟩, ⟨adj, ha, h2⟩⟩ := hint
      rw [abs_le] at hm ha
      refine ⟨?_, by simp [SnapPointBase.repeatedBounds],
        by simp [SnapPointBase.repeatedFirstLast]⟩
      intro u hu
      simp only [SnapPointBase.singleValue, ScrollSnapPoint.ActualValue, h1, h2,
        Dbl.fin_add_fin, Option.some.injEq] at hu
      exact ⟨m + adj, by rw [← hu]; push_cast; rfl, abs_le.mpr ⟨by linarith, by linarith⟩⟩
  | zoom p =>
      simp only [SnapPointBase.integerFields, Dbl.isInteger48_iff] at hint
      obtain ⟨m, hm, h1⟩ := hint
      rw [abs_le] at hm
      refine ⟨?_, by simp [SnapPointBase.repeatedBounds],
        by simp [SnapPointBase.repeatedFirstLast]⟩
      intro u hu
      simp only [SnapPointBase.singleValue, h1, Option.some.injEq] at hu
      exact ⟨m, hu.symm, abs_le.mpr ⟨by linarith, by linarith⟩⟩
  | repeatedScroll p =>
      obtain ⟨o, i, s, e, adj, h1, h2, h3, h4, h5, ho, hi, hs, he, ha, _⟩ :=
        SnapPointBase.integerFields_repeatedScroll p hint
      have hipos : 0 < i := by
        simp only [SnapPointBase.repeatedFinite, Bool.and_eq_true, decide_eq_true_eq, h2,
          Dbl.fin_lt_fin] at hfin
        exact_mod_cast hfin.2
      have hib : i ≤ 2 ^ 48 := (abs_le.mp hi).2
      obtain ⟨_, hF⟩ := binary64_First_intCast p o i s adj h1 h2 h3 h5 ho hib hs ha hipos
      obtain ⟨_, hL⟩ := binary64_Last_intCast p o i e adj h1 h2 h4 h5 ho hib he ha hipos
      rw [abs_le] at ho hs he ha
      have hk1 : ((o + adj) - (s + adj)) / i * i ≤ (o + adj) - (s + adj) :=
        Int.ediv_mul_le _ (by omega)
      have hk2 : (o + adj) - (s + adj) < ((o + adj) - (s + adj)) / i * i + i := by
        have := Int.lt_ediv_add_one_mul_self ((o + adj) - (s + adj)) hipos
        linarith
      have hm1 : ((e + adj) - (o + adj)) / i * i ≤ (e + adj) - (o + adj) :=
        Int.ediv_mul_le _ (by omega)
      have hm2 : (e + adj) - (o + adj) < ((e + adj) - (o + adj)) / i * i + i := by
        have := Int.lt_ediv_add_one_mul_self ((e + adj) - (o + adj)) hipos
        linarith
      refine ⟨by simp [SnapPointBase.singleValue], ?_, ?_⟩
      · intro s' e' hb
        simp only [SnapPointBase.repeatedBounds, RepeatedScrollSnapPoint.ActualStart,
          RepeatedScrollSnapPoint.ActualEnd, h3, h4, h5, Dbl.fin_add_fin, Option.some.injEq,
          Prod.mk.injEq] at hb
        exact ⟨⟨s + adj, by rw [← hb.1]; push_cast; rfl, abs_le.mpr ⟨by linarith, by linarith⟩⟩,
          ⟨e + adj, by rw [← hb.2]; push_cast; rfl, abs_le.mpr ⟨by linarith, by linarith⟩⟩⟩
      · intro f l hfl
        simp only [SnapPointBase.repeatedFirstLast, hF, hL, Option.some.injEq,
          Prod.mk.injEq] at hfl
        exact ⟨⟨_, hfl.1.symm, abs_le.mpr ⟨by linarith, by linarith⟩⟩,
          ⟨_, hfl.2.symm, abs_le.mpr ⟨by linarith, by linarith⟩⟩⟩
  | repeatedZoom p =>
      obtain ⟨o, i, s, e, h1, h2, h3, h4, ho, hi, hs, he, _⟩ :=
        SnapPointBase.integerFields_repeatedZoom p hint
      have hipos : 0 < i := by
        simp only [SnapPointBase.repeatedFinite, Bool.and_eq_true, decide_eq_true_eq, h2,
          Dbl.fin_lt_fin] at hfin
        exact_mod_cast hfin.2
      have hib : i ≤ 2 ^ 48 := (abs_le.mp hi).2
      obtain ⟨_, hF⟩ := binary64_zoom_First_intCast p o i s h1 h2 h3 ho hib hs hipos
      obtain ⟨_, hL⟩ := binary64_zoom_Last_intCast p o i e h1 h2 h4 ho hib he hipos
      rw [abs_le] at ho hs he
      have hk1 : (o - s) / i * i ≤ o - s := Int.ediv_mul_le _ (by omega)
      have hk2 : o - s < (o - s) / i * i + i := by
        have := Int.lt_ediv_add_one_mul_self (o - s) hipos
        linarith
      have hm1 : (e - o) / i * i ≤ e - o := Int.ediv_mul_le _ (by omega)
      have hm2 : e - o < (e - o) / i * i + i := by
        have := Int.lt_ediv_add_one_mul_self (e - o) hipos
        linarith
      refine ⟨by simp [SnapPointBase.singleValue], ?_, ?_⟩
      · intro s' e' hb
        simp only [SnapPointBase.repeatedBounds, h3, h4, Option.some.injEq,
          Prod.mk.injEq] at hb
        exact ⟨⟨s, hb.1.symm, abs_le.mpr ⟨by linarith, by linarith⟩⟩,
          ⟨e, hb.2.symm, abs_le.mpr ⟨by linarith, by linarith⟩⟩⟩
      · intro f l hfl
        simp only [SnapPointBase.repeatedFirstLast, hF, hL, Option.some.injEq,
          Prod.mk.injEq] at hfl
        exact ⟨⟨_, hfl.1.symm, abs_le.mpr ⟨by linarith, by linarith⟩⟩,
          ⟨_, hfl.2.symm, abs_le.mpr ⟨by linarith, by linarith⟩⟩⟩

/-- The sort key of a point of the integer domain holds integers of magnitude at most
`2 ^ 51`. -/
theorem exact_SortPredicate_int_bound (sp : SnapPointBase)
    (hint : sp.integerFields = true) (hfin : sp.repeatedFinite = true) :
    (∃ n : ℤ, sp.SortPredicate.primary = Dbl.fin n ∧ |n| ≤ 2 ^ 51) ∧
    (∃ n : ℤ, sp.SortPredicate.secondary = Dbl.fin n ∧ |n| ≤ 2 ^ 51) := by
  obtain ⟨hv, hb, _⟩ := exact_vocabulary_int_bound sp hint hfin
  rcases SnapPointBase.single_or_repeated sp with ⟨u, hu⟩ | ⟨s, e, hse⟩
  · rw [SnapPointBase.SortPredicate_single sp u hu]
    exact ⟨hv u hu, hv u hu⟩
  · rw [SnapPointBase.SortPredicate_repeated sp s e hse]
    exact hb s e hse

/-- C25 (amended). The alignment adjustment translates every position of a scroll snap point of
the integer domain: for a scroll snap point (single, or repeated as the constructor accepts it:
`end > start`, `start <= offset <= end`, `interval > 0`) whose fields are integers of magnitude
at most `2 ^ 48` (the range of a repeated point such an integer or `INFINITY`), with the
alignment adjustment `a`, every zone `(min, max)` whose bounds are
infinite or such integers and every such integer value `v`, the computed `Evaluate` of the point
on the zone `(min + a, max + a)` and the value `v + a` equals the computed `a` plus `Evaluate`
of the same point with adjustment `0` on `(min, max)` and `v`; the computed actual value of a
single point, the first and last repeated positions and both sort-key bounds are those of the
point with adjustment `0` plus `a`. -/
theorem C25_alignment_adjustment_translates (sp : SnapPointBase) (a v : ℤ) (min max : Dbl)
    (hadj : sp.alignmentAdjustment = some (Dbl.fin a))
    (hint : sp.integerFields = true) (hvalid : sp.repeatedValid = true)
    (hv : |v| ≤ 2 ^ 48)
    (hmin : min = Dbl.ninf ∨ min = Dbl.pinf ∨ min.isInteger48 = true)
    (hmax : max = Dbl.ninf ∨ max = Dbl.pinf ∨ max.isInteger48 = true) :
    Binary64.SnapPointBase.Evaluate sp
        (Binary64.add min (Dbl.fin a), Binary64.add max (Dbl.fin a))
        (Binary64.add (Dbl.fin v) (Dbl.fin a))
      = Binary64.add (Dbl.fin a)
          (Binary64.SnapPointBase.Evaluate (sp.setAlignmentAdjustment (Dbl.fin 0)) (min, max)
            (Dbl.fin v)) ∧
    (Binary64.SnapPointBase.SortPredicate sp).primary
      = Binary64.add
          (Binary64.SnapPointBase.SortPredicate (sp.setAlignmentAdjustment (Dbl.fin 0))).primary
          (Dbl.fin a) ∧
    (Binary64.SnapPointBase.SortPredicate sp).secondary
      = Binary64.add
          (Binary64.SnapPointBase.SortPredicate (sp.setAlignmentAdjustment (Dbl.fin 0))).secondary
          (Dbl.fin a) ∧
    (∀ value value0 : Dbl, Binary64.SnapPointBase.singleValue sp = some value →
      Binary64.SnapPointBase.singleValue (sp.setAlignmentAdjustment (Dbl.fin 0)) = some value0 →
      value = Binary64.add value0 (Dbl.fin a)) ∧
    (∀ first last first0 last0 : Dbl,
      Binary64.SnapPointBase.repeatedFirstLast sp = some (first, last) →
      Binary64.SnapPointBase.repeatedFirstLast (sp.setAlignmentAdjustment (Dbl.fin 0))
        = some (first0, last0) →
      first = Binary64.add first0 (Dbl.fin a) ∧ last = Binary64.add last0 (Dbl.fin a)) := by
  have hfin := SnapPointBase.repeatedFinite_of_integerFields sp hint hvalid
  have hint0 := SnapPointBase.integerFields_setAlignmentAdjustment sp hint
  have hfin0 := SnapPointBase.repeatedFinite_setAlignmentAdjustment sp hfin
  have ha : |a| ≤ 2 ^ 48 := by
    cases sp with
    | scroll p =>
        simp only [SnapPointBase.integerFields, Bool.and_eq_true, Dbl.isInteger48_iff] at hint
        obtain ⟨_, ⟨adj, hb, h2⟩⟩ := hint
        simp only [SnapPointBase.alignmentAdjustment, Option.some.injEq] at hadj
        rw [h2] at hadj
        have h3 : (adj : ℚ) = a := Dbl.fin.inj hadj
        have h4 : adj = a := by exact_mod_cast h3
        rw [← h4]; exact hb
    | zoom p => simp [SnapPointBase.alignmentAdjustment] at hadj
    | repeatedScroll p =>
        obtain ⟨o, i, s, e, adj, h1, h2, h3, h4, h5, ho, hi, hs, he, hb, _⟩ :=
          SnapPointBase.integerFields_repeatedScroll p hint
        simp only [SnapPointBase.alignmentAdjustment, Option.some.injEq] at hadj
        rw [h5] at hadj
        have h3 : (adj : ℚ) = a := Dbl.fin.inj hadj
        have h4 : adj = a := by exact_mod_cast h3
        rw [← h4]; exact hb
    | repeatedZoom p => simp [SnapPointBase.alignmentAdjustment] at hadj
  have ha51 : |a| ≤ 2 ^ 51 := le_trans ha (by norm_num)
  obtain ⟨e1, e2, e3, e4, e5⟩ :=
    exact_alignment_adjustment_translates sp a min max (Dbl.fin v) hadj hfin
  obtain ⟨hvoc1, _, _, hvoc4⟩ := binary64_vocabulary_intCast sp hint hfin
  obtain ⟨hvoc01, _, _, hvoc04⟩ := binary64_vocabulary_intCast _ hint0 hfin0
  obtain ⟨hb1, _, hb3⟩ := exact_vocabulary_int_bound _ hint0 hfin0
  obtain ⟨hk1, hk2⟩ := exact_SortPredicate_int_bound _ hint0 hfin0
  refine ⟨?_, ?_, ?_, ?_, ?_⟩
  · obtain ⟨w, hw, hwb⟩ := exact_Evaluate_int_bound _ (min, max) v hint0 hfin0 hv
    rw [binary64_add_zoneBound min a hmin ha, binary64_add_zoneBound max a hmax ha]
    have hva : Binary64.add (Dbl.fin v) (Dbl.fin a) = Dbl.fin ((v + a : ℤ) : ℚ) := by
      rw [abs_le] at hv ha
      exact Binary64.add_intCast v a (abs_lt.mpr ⟨by linarith, by linarith⟩)
    rw [hva, (binary64_SnapPointBase_Evaluate_intCast sp _ (v + a) hint hfin).1,
      (binary64_SnapPointBase_Evaluate_intCast _ (min, max) v hint0 hfin0).1, hw,
      (binary64_add_int51 (Dbl.fin w) a ⟨w, rfl, le_trans hwb (by norm_num)⟩ ha51).2, ← hw,
      ← e1]
    congr 2
    push_cast
    rfl
  · rw [binary64_SortPredicate_intCast sp hint hfin, binary64_SortPredicate_intCast _ hint0 hfin0,
      (binary64_add_int51 _ a hk1 ha51).1]
    exact e2
  · rw [binary64_SortPredicate_intCast sp hint hfin, binary64_SortPredicate_intCast _ hint0 hfin0,
      (binary64_add_int51 _ a hk2 ha51).1]
    exact e3
  · intro value value0 h1 h0
    rw [hvoc1] at h1
    rw [hvoc01] at h0
    rw [(binary64_add_int51 _ a (hb1 value0 h0) ha51).1]
    exact e4 value value0 h1 h0
  · intro first last first0 last0 h1 h0
    rw [hvoc4] at h1
    rw [hvoc04] at h0
    obtain ⟨b1, b2⟩ := hb3 first0 last0 h0
    rw [(binary64_add_int51 _ a b1 ha51).1, (binary64_add_int51 _ a b2 ha51).1]
    exact e5 first last first0 last0 h1 h0

/-- C25 witness: the repeated point `offset = 6, interval = 10, start = 0, end = 100` with
adjustment `-200` (a `Center` point in a viewport of `400`) evaluates `-183 = 17 - 200` to
`-184 = 16 - 200`, the result `16` of the unadjusted point on `17`, translated. -/
theorem C25_alignment_adjustment_translates_witness :
    Binary64.SnapPointBase.Evaluate
      (SnapPointBase.repeatedScroll
        { Scenario.repeatedOffset6 with m_alignmentAdjustment := Dbl.fin (-200) })
      (Dbl.fin (-200), Dbl.fin (-100)) (Dbl.fin (-183)) = Dbl.fin (-184) := by
  have hint : (SnapPointBase.repeatedScroll
      { Scenario.repeatedOffset6 with m_alignmentAdjustment := Dbl.fin (-200) }).integerFields
      = true := by decide
  have h := (C25_alignment_adjustment_translates
    (SnapPointBase.repeatedScroll
      { Scenario.repeatedOffset6 with m_alignmentAdjustment := Dbl.fin (-200) })
    (-200) 17 (Dbl.fin 0) (Dbl.fin 100)
    (by simp [SnapPointBase.alignmentAdjustment])
    hint (by decide) (by norm_num) (Or.inr (Or.inr (by decide)))
    (Or.inr (Or.inr (by decide)))).1
  have e1 : Binary64.add (Dbl.fin 0) (Dbl.fin ((-200 : ℤ) : ℚ)) = Dbl.fin (-200) := by
    have h := Binary64.add_intCast 0 (-200) (by norm_num)
    norm_num at h ⊢
    exact h
  have e2 : Binary64.add (Dbl.fin 100) (Dbl.fin ((-200 : ℤ) : ℚ)) = Dbl.fin (-100) := by
    have h := Binary64.add_intCast 100 (-200) (by norm_num)
    norm_num at h ⊢
    exact h
  have e3 : Binary64.add (Dbl.fin ((17 : ℤ) : ℚ)) (Dbl.fin ((-200 : ℤ) : ℚ))
      = Dbl.fin (-183) := by
    have h := Binary64.add_intCast 17 (-200) (by norm_num)
    norm_num at h ⊢
    exact h
  have e4 : Binary64.SnapPointBase.Evaluate
      ((SnapPointBase.repeatedScroll
        { Scenario.repeatedOffset6 with
          m_alignmentAdjustment := Dbl.fin (-200) }).setAlignmentAdjustment (Dbl.fin 0))
      (Dbl.fin 0, Dbl.fin 100) (Dbl.fin ((17 : ℤ) : ℚ)) = Dbl.fin 16 := by
    rw [(binary64_SnapPointBase_Evaluate_intCast _ (Dbl.fin 0, Dbl.fin 100) 17
      (by decide) (by decide)).1]
    have hfloor1 : ⌊((6 : ℚ) + 0 - (0 + 0)) / 10⌋ = 0 := by
      rw [Int.floor_eq_iff]
      norm_num
    have hfloor2 : ⌊((17 : ℚ) - 6) / 10⌋ = 1 := by
      rw [Int.floor_eq_iff]
      norm_num
    norm_num [SnapPointBase.setAlignmentAdjustment, SnapPointBase.Evaluate,
      RepeatedScrollSnapPoint.Evaluate, Scenario.repeatedOffset6,
      RepeatedScrollSnapPoint.DetermineFirstRepeatedSnapPointValue,
      RepeatedScrollSnapPoint.ActualOffset, RepeatedScrollSnapPoint.ActualStart,
      RepeatedScrollSnapPoint.ActualEnd, Dbl.fin_div_fin, hfloor1, hfloor2, Dbl.INFINITY]
  have e5 : Binary64.add (Dbl.fin ((-200 : ℤ) : ℚ)) (Dbl.fin 16) = Dbl.fin (-184) := by
    have h := Binary64.add_intCast (-200) 16 (by norm_num)
    norm_num at h ⊢
    exact h
  rw [e1, e2, e3, e4, e5] at h
  exact h

/-- C25 counterexample: the repeated scroll point with `offset = 64.05`, `interval = 3.76`,
`start = 7.3`, `end = 85.8` and the alignment adjustment `a = -465.4` (a `Far` point in a
viewport of `465.4`; all numbers the doubles nearest to the decimals), the zone
`(min, max) = (7.3, 85.8)` and the value `v = 72.41`.  `Evaluate` of the adjusted point on
`(min + a, max + a)` and `v + a` returns `(-216510332183511 / 2 ^ 39)`
(`-393.8299999999999`), while `a` plus `Evaluate` of the point with adjustment `0` on
`(min, max)` and `v` is `(-6928330629872353 / 2 ^ 44)` (`-393.83`). -/
theorem C25_counterexample :
    (SnapPointBase.repeatedScroll Scenario.roundingTranslation).repeatedValid = true ∧
    (SnapPointBase.repeatedScroll Scenario.roundingTranslation).alignmentAdjustment
      = some (Dbl.fin (-4093701692535603 / 2 ^ 43)) ∧
    Binary64.SnapPointBase.Evaluate (SnapPointBase.repeatedScroll Scenario.roundingTranslation)
        (Binary64.add (Dbl.fin (8219069319951155 / 2 ^ 50)) (Dbl.fin (-4093701692535603 / 2 ^ 43)),
          Binary64.add (Dbl.fin (6037638250443571 / 2 ^ 46)) (Dbl.fin (-4093701692535603 / 2 ^ 43)))
        (Binary64.add (Dbl.fin (2547700382952325 / 2 ^ 45)) (Dbl.fin (-4093701692535603 / 2 ^ 43)))
      = Dbl.fin (-216510332183511 / 2 ^ 39) ∧
    Binary64.add (Dbl.fin (-4093701692535603 / 2 ^ 43))
        (Binary64.SnapPointBase.Evaluate
          ((SnapPointBase.repeatedScroll Scenario.roundingTranslation).setAlignmentAdjustment (Dbl.fin 0))
          (Dbl.fin (8219069319951155 / 2 ^ 50), Dbl.fin (6037638250443571 / 2 ^ 46))
          (Dbl.fin (2547700382952325 / 2 ^ 45)))
      = Dbl.fin (-6928330629872353 / 2 ^ 44) ∧
    Dbl.fin (-216510332183511 / 2 ^ 39) ≠ Dbl.fin (-6928330629872353 / 2 ^ 44) := by
  have h1 : Binary64.add (Dbl.fin (8219069319951155 / 2 ^ 50))
      (Dbl.fin (-4093701692535603 / 2 ^ 43))
      = Dbl.fin (-8058980426946969 / 2 ^ 44) := by
    rw [Binary64.add, Dbl.fin_add_fin]
    exact Dbl.round64_cert _ _ (8) (-8058980426946969) (by norm_num) (by norm_num)
      (by norm_num) (by norm_num) (Or.inl ⟨by norm_num, by norm_num⟩) (by norm_num)
  have h2 : Binary64.add (Dbl.fin (6037638250443571 / 2 ^ 46))
      (Dbl.fin (-4093701692535603 / 2 ^ 43))
      = Dbl.fin (-6677993822460313 / 2 ^ 44) := by
    rw [Binary64.add, Dbl.fin_add_fin]
    exact Dbl.round64_cert _ _ (8) (-6677993822460313) (by norm_num) (by norm_num)
      (by norm_num) (by norm_num) (Or.inl ⟨by norm_num, by norm_num⟩) (by norm_num)
  have h3 : Binary64.add (Dbl.fin (2547700382952325 / 2 ^ 45))
      (Dbl.fin (-4093701692535603 / 2 ^ 43))
      = Dbl.fin (-1728388298398761 / 2 ^ 42) := by
    rw [Binary64.add, Dbl.fin_add_fin]
    exact Dbl.round64_cert _ _ (8) (-6913553193595044) (by norm_num) (by norm_num)
      (by norm_num) (by norm_num) (Or.inr ⟨by norm_num, by norm_num⟩) (by norm_num)
  have h4 : Binary64.add (Dbl.fin (4507118064579379 / 2 ^ 46))
      (Dbl.fin (-4093701692535603 / 2 ^ 43))
      = Dbl.fin (-7060623868926361 / 2 ^ 44) := by
    rw [Binary64.add, Dbl.fin_add_fin]
    exact Dbl.round64_cert _ _ (8) (-7060623868926361) (by norm_num) (by norm_num)
      (by norm_num) (by norm_num) (Or.inl ⟨by norm_num, by norm_num⟩) (by norm_num)
  have h5 : Binary64.sub (Dbl.fin (-7060623868926361 / 2 ^ 44))
      (Dbl.fin (-8058980426946969 / 2 ^ 44))
      = Dbl.fin (227 / 2 ^ 2) := by
    rw [Binary64.sub, Dbl.fin_sub_fin]
    exact Dbl.round64_cert _ _ (5) (7986852464164864) (by norm_num) (by norm_num)
      (by norm_num) (by norm_num) (Or.inl ⟨by norm_num, by norm_num⟩) (by norm_num)
  have h6 : Binary64.div (Dbl.fin (227 / 2 ^ 2)) (Dbl.fin (2116691824864133 / 2 ^ 49))
      = Dbl.fin (2124162889405549 / 2 ^ 47) := by
    rw [Binary64.div, Dbl.fin_div_fin _ _ (by norm_num)]
    exact Dbl.round64_cert _ _ (3) (8496651557622196) (by norm_num) (by norm_num)
      (by norm_num) (by norm_num) (Or.inl ⟨by norm_num, by norm_num⟩) (by norm_num)
  have h7 : Dbl.floor (Dbl.fin (2124162889405549 / 2 ^ 47)) = Dbl.fin 15 := by
    rw [Dbl.floor_fin_cert (2124162889405549 / 2 ^ 47) (15) (by norm_num) (by norm_num)]
    norm_num
  have h8 : Binary64.mul (Dbl.fin 15) (Dbl.fin (2116691824864133 / 2 ^ 49))
      = Dbl.fin (7937594343240499 / 2 ^ 47) := by
    rw [Binary64.mul, Dbl.fin_mul_fin]
    exact Dbl.round64_cert _ _ (5) (7937594343240499) (by norm_num) (by norm_num)
      (by norm_num) (by norm_num) (Or.inl ⟨by norm_num, by norm_num⟩) (by norm_num)
  have h9 : Binary64.sub (Dbl.fin (-7060623868926361 / 2 ^ 44))
      (Dbl.fin (7937594343240499 / 2 ^ 47))
      = Dbl.fin (-8052823161831423 / 2 ^ 44) := by
    rw [Binary64.sub, Dbl.fin_sub_fin]
    exact Dbl.round64_cert _ _ (8) (-8052823161831423) (by norm_num) (by norm_num)
      (by norm_num) (by norm_num) (Or.inl ⟨by norm_num, by norm_num⟩) (by norm_num)
  have h10 : Binary64.sub (Dbl.fin (-1728388298398761 / 2 ^ 42))
      (Dbl.fin (-8052823161831423 / 2 ^ 44))
      = Dbl.fin (1139269968236379 / 2 ^ 44) := by
    rw [Binary64.sub, Dbl.fin_sub_fin]
    exact Dbl.round64_cert _ _ (6) (4557079872945516) (by norm_num) (by norm_num)
      (by norm_num) (by norm_num) (Or.inl ⟨by norm_num, by norm_num⟩) (by norm_num)
  have h11 : Binary64.div (Dbl.fin (1139269968236379 / 2 ^ 44))
      (Dbl.fin (2116691824864133 / 2 ^ 49))
      = Dbl.fin (2423978655822083 / 2 ^ 47) := by
    rw [Binary64.div, Dbl.fin_div_fin _ _ (by norm_num)]
    exact Dbl.round64_cert _ _ (4) (4847957311644166) (by norm_num) (by norm_num)
      (by norm_num) (by norm_num) (Or.inl ⟨by norm_num, by norm_num⟩) (by norm_num)
  have h12 : Dbl.floor (Dbl.fin (2423978655822083 / 2 ^ 47)) = Dbl.fin 17 := by
    rw [Dbl.floor_fin_cert (2423978655822083 / 2 ^ 47) (17) (by norm_num) (by norm_num)]
    norm_num
  have h13 : Binary64.mul (Dbl.fin 17) (Dbl.fin (2116691824864133 / 2 ^ 49))
      = Dbl.fin (8995940255672565 / 2 ^ 47) := by
    rw [Binary64.mul, Dbl.fin_mul_fin]
    exact Dbl.round64_cert _ _ (5) (8995940255672565) (by norm_num) (by norm_num)
      (by norm_num) (by norm_num) (Or.inl ⟨by norm_num, by norm_num⟩) (by norm_num)
  have h14 : Binary64.add (Dbl.fin (8995940255672565 / 2 ^ 47))
      (Dbl.fin (-8052823161831423 / 2 ^ 44))
      = Dbl.fin (-216510332183511 / 2 ^ 39) := by
    rw [Binary64.add, Dbl.fin_add_fin]
    exact Dbl.round64_cert _ _ (8) (-6928330629872352) (by norm_num) (by norm_num)
      (by norm_num) (by norm_num) (Or.inl ⟨by norm_num, by norm_num⟩) (by norm_num)
  have h15 : Binary64.add (Dbl.fin (-216510332183511 / 2 ^ 39))
      (Dbl.fin (2116691824864133 / 2 ^ 49))
      = Dbl.fin (-1715546002586337 / 2 ^ 42) := by
    rw [Binary64.add, Dbl.fin_add_fin]
    exact Dbl.round64_cert _ _ (8) (-6862184010345348) (by norm_num) (by norm_num)
      (by norm_num) (by norm_num) (Or.inl ⟨by norm_num, by norm_num⟩) (by norm_num)
  have h16 : Binary64.sub (Dbl.fin (-1728388298398761 / 2 ^ 42))
      (Dbl.fin (-216510332183511 / 2 ^ 39))
      = Dbl.fin (3694359069327 / 2 ^ 42) := by
    rw [Binary64.sub, Dbl.fin_sub_fin]
    exact Dbl.round64_cert _ _ (-1) (7566047373981696) (by norm_num) (by norm_num)
      (by norm_num) (by norm_num) (Or.inl ⟨by norm_num, by norm_num⟩) (by norm_num)
  have h17 : Binary64.sub (Dbl.fin (-1715546002586337 / 2 ^ 42))
      (Dbl.fin (-1728388298398761 / 2 ^ 42))
      = Dbl.fin (1605286976553 / 2 ^ 39) := by
    rw [Binary64.sub, Dbl.fin_sub_fin]
    exact Dbl.round64_cert _ _ (1) (6575255455961088) (by norm_num) (by norm_num)
      (by norm_num) (by norm_num) (Or.inl ⟨by norm_num, by norm_num⟩) (by norm_num)
  have h18 : Binary64.add (Dbl.fin (-216510332183511 / 2 ^ 39)) (Dbl.pinf) = Dbl.pinf := by
    norm_num [Binary64.add, Dbl.round64, Dbl.add_def, Dbl.add, Dbl.infOfSign]
  have h19 : Binary64.add (Dbl.fin (8219069319951155 / 2 ^ 50)) (Dbl.fin 0)
      = Dbl.fin (8219069319951155 / 2 ^ 50) := by
    rw [Binary64.add, Dbl.fin_add_fin]
    exact Dbl.round64_cert _ _ (2) (8219069319951155) (by norm_num) (by norm_num)
      (by norm_num) (by norm_num) (Or.inl ⟨by norm_num, by norm_num⟩) (by norm_num)
  have h20 : Binary64.add (Dbl.fin (6037638250443571 / 2 ^ 46)) (Dbl.fin 0)
      = Dbl.fin (6037638250443571 / 2 ^ 46) := by
    rw [Binary64.add, Dbl.fin_add_fin]
    exact Dbl.round64_cert _ _ (6) (6037638250443571) (by norm_num) (by norm_num)
      (by norm_num) (by norm_num) (Or.inl ⟨by norm_num, by norm_num⟩) (by norm_num)
  have h21 : Binary64.add (Dbl.fin (4507118064579379 / 2 ^ 46)) (Dbl.fin 0)
      = Dbl.fin (4507118064579379 / 2 ^ 46) := by
    rw [Binary64.add, Dbl.fin_add_fin]
    exact Dbl.round64_cert _ _ (6) (4507118064579379) (by norm_num) (by norm_num)
      (by norm_num) (by norm_num) (Or.inl ⟨by norm_num, by norm_num⟩) (by norm_num)
  have h22 : Binary64.sub (Dbl.fin (4507118064579379 / 2 ^ 46))
      (Dbl.fin (8219069319951155 / 2 ^ 50))
      = Dbl.fin (227 / 2 ^ 2) := by
    rw [Binary64.sub, Dbl.fin_sub_fin]
    exact Dbl.round64_cert _ _ (5) (7986852464164864) (by norm_num) (by norm_num)
      (by norm_num) (by norm_num) (Or.inl ⟨by norm_num, by norm_num⟩) (by norm_num)
  have h23 : Binary64.sub (Dbl.fin (4507118064579379 / 2 ^ 46))
      (Dbl.fin (7937594343240499 / 2 ^ 47))
      = Dbl.fin (1076641785918259 / 2 ^ 47) := by
    rw [Binary64.sub, Dbl.fin_sub_fin]
    exact Dbl.round64_cert _ _ (2) (8613134287346072) (by norm_num) (by norm_num)
      (by norm_num) (by norm_num) (Or.inl ⟨by norm_num, by norm_num⟩) (by norm_num)
  have h24 : Binary64.sub (Dbl.fin (2547700382952325 / 2 ^ 45))
      (Dbl.fin (1076641785918259 / 2 ^ 47))
      = Dbl.fin (284817492059095 / 2 ^ 42) := by
    rw [Binary64.sub, Dbl.fin_sub_fin]
    exact Dbl.round64_cert _ _ (6) (4557079872945520) (by norm_num) (by norm_num)
      (by norm_num) (by norm_num) (Or.inr ⟨by norm_num, by norm_num⟩) (by norm_num)
  have h25 : Binary64.div (Dbl.fin (284817492059095 / 2 ^ 42)) (Dbl.fin (2116691824864133 / 2 ^ 49))
      = Dbl.fin (2423978655822085 / 2 ^ 47) := by
    rw [Binary64.div, Dbl.fin_div_fin _ _ (by norm_num)]
    exact Dbl.round64_cert _ _ (4) (4847957311644170) (by norm_num) (by norm_num)
      (by norm_num) (by norm_num) (Or.inl ⟨by norm_num, by norm_num⟩) (by norm_num)
  have h26 : Dbl.floor (Dbl.fin (2423978655822085 / 2 ^ 47)) = Dbl.fin 17 := by
    rw [Dbl.floor_fin_cert (2423978655822085 / 2 ^ 47) (17) (by norm_num) (by norm_num)]
    norm_num
  have h27 : Binary64.add (Dbl.fin (8995940255672565 / 2 ^ 47))
      (Dbl.fin (1076641785918259 / 2 ^ 47))
      = Dbl.fin (1259072755198853 / 2 ^ 44) := by
    rw [Binary64.add, Dbl.fin_add_fin]
    exact Dbl.round64_cert _ _ (6) (5036291020795412) (by norm_num) (by norm_num)
      (by norm_num) (by norm_num) (Or.inl ⟨by norm_num, by norm_num⟩) (by norm_num)
  have h28 : Binary64.add (Dbl.fin (1259072755198853 / 2 ^ 44))
      (Dbl.fin (2116691824864133 / 2 ^ 49))
      = Dbl.fin (5300877498903429 / 2 ^ 46) := by
    rw [Binary64.add, Dbl.fin_add_fin]
    exact Dbl.round64_cert _ _ (6) (5300877498903429) (by norm_num) (by norm_num)
      (by norm_num) (by norm_num) (Or.inl ⟨by norm_num, by norm_num⟩) (by norm_num)
  have h29 : Binary64.sub (Dbl.fin (2547700382952325 / 2 ^ 45))
      (Dbl.fin (1259072755198853 / 2 ^ 44))
      = Dbl.fin (29554872554619 / 2 ^ 45) := by
    rw [Binary64.sub, Dbl.fin_sub_fin]
    exact Dbl.round64_cert _ _ (-1) (7566047373982464) (by norm_num) (by norm_num)
      (by norm_num) (by norm_num) (Or.inl ⟨by norm_num, by norm_num⟩) (by norm_num)
  have h30 : Binary64.sub (Dbl.fin (5300877498903429 / 2 ^ 46))
      (Dbl.fin (2547700382952325 / 2 ^ 45))
      = Dbl.fin (205476732998779 / 2 ^ 46) := by
    rw [Binary64.sub, Dbl.fin_sub_fin]
    exact Dbl.round64_cert _ _ (1) (6575255455960928) (by norm_num) (by norm_num)
      (by norm_num) (by norm_num) (Or.inl ⟨by norm_num, by norm_num⟩) (by norm_num)
  have h31 : Binary64.add (Dbl.fin (1259072755198853 / 2 ^ 44)) (Dbl.pinf) = Dbl.pinf := by
    norm_num [Binary64.add, Dbl.round64, Dbl.add_def, Dbl.add, Dbl.infOfSign]
  have h32 : Binary64.add (Dbl.fin (-4093701692535603 / 2 ^ 43))
      (Dbl.fin (1259072755198853 / 2 ^ 44))
      = Dbl.fin (-6928330629872353 / 2 ^ 44) := by
    rw [Binary64.add, Dbl.fin_add_fin]
    exact Dbl.round64_cert _ _ (8) (-6928330629872353) (by norm_num) (by norm_num)
      (by norm_num) (by norm_num) (Or.inl ⟨by norm_num, by norm_num⟩) (by norm_num)
  have e0 : Binary64.SnapPointBase.Evaluate
      ((SnapPointBase.repeatedScroll Scenario.roundingTranslation).setAlignmentAdjustment
          (Dbl.fin 0))
      (Dbl.fin (8219069319951155 / 2 ^ 50), Dbl.fin (6037638250443571 / 2 ^ 46))
      (Dbl.fin (2547700382952325 / 2 ^ 45)) = Dbl.fin (1259072755198853 / 2 ^ 44) := by
    simp only [Binary64.SnapPointBase.Evaluate, Binary64.RepeatedScrollSnapPoint.Evaluate,
        Binary64.RepeatedScrollSnapPoint.DetermineFirstRepeatedSnapPointValue,
        Binary64.RepeatedScrollSnapPoint.DetermineLastRepeatedSnapPointValue,
        Binary64.RepeatedScrollSnapPoint.ActualOffset, Binary64.RepeatedScrollSnapPoint.ActualStart,
        Binary64.RepeatedScrollSnapPoint.ActualEnd,
        Binary64.RepeatedScrollSnapPoint.ImpulseInfluence,
        Binary64.SnapPointBase.ImpulseInfluence, SnapPointBase.setAlignmentAdjustment,
        Scenario.roundingTranslation, Dbl.INFINITY, h1, h2, h3, h4, h5, h6, h7, h8, h9, h10, h11,
        h12, h13, h14, h15, h16, h17, h18, h19, h20, h21, h22, h23, h24, h25, h26, h27, h28, h29,
        h30, h31, h32]
    norm_num
  refine ⟨?_, ?_, ?_, ?_, by norm_num⟩
  · norm_num [SnapPointBase.repeatedValid, Scenario.roundingTranslation, Dbl.INFINITY]
  · simp [SnapPointBase.alignmentAdjustment, Scenario.roundingTranslation]
  · simp only [Binary64.SnapPointBase.Evaluate, Binary64.RepeatedScrollSnapPoint.Evaluate,
        Binary64.RepeatedScrollSnapPoint.DetermineFirstRepeatedSnapPointValue,
        Binary64.RepeatedScrollSnapPoint.DetermineLastRepeatedSnapPointValue,
        Binary64.RepeatedScrollSnapPoint.ActualOffset, Binary64.RepeatedScrollSnapPoint.ActualStart,
        Binary64.RepeatedScrollSnapPoint.ActualEnd,
      Binary64.RepeatedScrollSnapPoint.ImpulseInfluence,
      Binary64.SnapPointBase.ImpulseInfluence, SnapPointBase.setAlignmentAdjustment,
      Scenario.roundingTranslation, Dbl.INFINITY, h1, h2, h3, h4, h5, h6, h7, h8, h9, h10, h11, h12,
      h13, h14, h15, h16, h17, h18, h19, h20, h21, h22, h23, h24, h25, h26, h27, h28, h29, h30, h31,
      h32]
    norm_num
  · rw [e0]
    exact h32

/-! ## The narrowing to `float` -/

namespace Dbl

/-- A number `n * 2 ^ j` with `|n| < 2 ^ 24` and `-126 ≤ j ≤ 104` is a float. -/
theorem static_cast_float_dyadic (n j : ℤ) (hn : |n| < 2 ^ 24) (hj1 : -126 ≤ j) (hj2 : j ≤ 104) :
    static_cast_float (fin ((n : ℚ) * 2 ^ j)) = fin ((n : ℚ) * 2 ^ j) := by
  by_cases hn0 : n = 0
  · subst hn0; simp [static_cast_float, roundTo]
  have h2 : (0 : ℚ) < 2 := by norm_num
  set x : ℚ := (n : ℚ) * 2 ^ j with hx
  have hnq : (1 : ℚ) ≤ |(n : ℚ)| := by
    have : (1 : ℤ) ≤ |n| := Int.one_le_abs hn0
    exact_mod_cast this
  have hnq2 : |(n : ℚ)| < 2 ^ (24 : ℤ) := by
    have : ((|n| : ℤ) : ℚ) < ((2 ^ 24 : ℤ) : ℚ) := by exact_mod_cast hn
    rw [Int.cast_abs] at this
    have e53 : ((2 : ℚ) ^ (24 : ℤ)) = ((2 ^ 24 : ℤ) : ℚ) := by norm_num
    rw [e53]; exact this
  have hxabs : |x| = |(n : ℚ)| * 2 ^ j := by
    rw [hx, abs_mul, abs_of_pos (zpow_pos h2 j)]
  have hxpos : 0 < |x| := by
    rw [hxabs]; exact mul_pos (by linarith) (zpow_pos h2 j)
  have hlo : (2 : ℚ) ^ (Int.log 2 |x|) ≤ |x| := by
    have := Int.zpow_log_le_self (b := 2) (by norm_num) hxpos
    exact_mod_cast this
  have hhi : |x| < (2 : ℚ) ^ (Int.log 2 |x| + 1) := by
    have := Int.lt_zpow_succ_log_self (b := 2) (by norm_num) |x|
    exact_mod_cast this
  set e := Int.log 2 |x| with he
  -- j ≤ e
  have hje : j ≤ e := by
    have : (2 : ℚ) ^ j ≤ |x| := by
      rw [hxabs]; nlinarith [zpow_pos h2 j]
    have := (Int.zpow_le_iff_le_log (b := 2) (by norm_num) hxpos (x := j)).1
      (by exact_mod_cast this)
    exact this
  -- e < 24 + j
  have hej : e < 24 + j := by
    have : |x| < (2 : ℚ) ^ (24 + j) := by
      rw [hxabs, zpow_add₀ (by norm_num : (2 : ℚ) ≠ 0)]
      exact mul_lt_mul_of_pos_right hnq2 (zpow_pos h2 j)
    have := (Int.lt_zpow_iff_log_lt (b := 2) (by norm_num) hxpos (x := 24 + j)).1
      (by exact_mod_cast this)
    exact this
  obtain ⟨t, ht⟩ : ∃ t : ℕ, (t : ℤ) = j - e + 23 := ⟨(j - e + 23).toNat, by omega⟩
  have hdiv : x / 2 ^ (e - (((24 : ℕ) : ℤ) - 1)) = ((n * 2 ^ t : ℤ) : ℚ) := by
    have h53 : (((24 : ℕ) : ℤ) - 1) = 23 := by norm_num
    rw [h53, hx]
    push_cast
    rw [← zpow_natCast (2 : ℚ) t, ht, mul_div_assoc, ← zpow_sub₀ (by norm_num : (2 : ℚ) ≠ 0)]
    congr 2
    ring
  have hround := roundTo_of 24 (-126) 127 x e (n * 2 ^ t) (by omega) hlo hhi
    (Or.inl (by rw [hdiv]; simp))
  have hback : ((n * 2 ^ t : ℤ) : ℚ) * 2 ^ (e - (((24 : ℕ) : ℤ) - 1)) = x := by
    rw [← hdiv]
    field_simp
  rw [hback] at hround
  have hov : ¬ ((2 : ℚ) ^ ((127 : ℤ) + 1) ≤ |x|) := by
    apply not_le.mpr
    calc |x| < (2 : ℚ) ^ (24 + j) := by
          rw [hxabs, zpow_add₀ (by norm_num : (2 : ℚ) ≠ 0)]
          exact mul_lt_mul_of_pos_right hnq2 (zpow_pos h2 j)
      _ ≤ (2 : ℚ) ^ ((127 : ℤ) + 1) := zpow_le_zpow_right₀ (by norm_num) (by omega)
  rw [if_neg hov] at hround
  show roundTo 24 (-126) 127 x = fin x
  exact hround

/-- An integer of magnitude at most `2 ^ 24` is a float. -/
theorem static_cast_float_intCast (n : ℤ) (hn : |n| ≤ 2 ^ 24) :
    static_cast_float (fin (n : ℚ)) = fin (n : ℚ) := by
  rcases lt_or_eq_of_le hn with h | h
  · have := static_cast_float_dyadic n 0 h (by norm_num) (by norm_num)
    simpa using this
  · rcases abs_eq (by norm_num : (0 : ℤ) ≤ 2 ^ 24) |>.1 h with h1 | h1
    · have := static_cast_float_dyadic 1 24 (by norm_num) (by norm_num) (by norm_num)
      rw [h1]
      norm_num at this ⊢
      exact this
    · have := static_cast_float_dyadic (-1) 24 (by norm_num) (by norm_num) (by norm_num)
      rw [h1]
      norm_num at this ⊢
      exact this

/-- Certificate of a narrowing to `float`: `x` lies in the binade of exponent `e`, and `n` is
the integer nearest to `x / 2 ^ (e - 23)` (the even one at a tie). -/
theorem static_cast_float_cert (x y : ℚ) (e n : ℤ) (hemin : -126 ≤ e)
    (hlo : (2 : ℚ) ^ e ≤ x ∨ x ≤ -(2 : ℚ) ^ e)
    (hhi : -(2 : ℚ) ^ (e + 1) < x ∧ x < (2 : ℚ) ^ (e + 1))
    (hy : y = (n : ℚ) * 2 ^ (e - 23))
    (hnear : (-(1 / 2) < x / 2 ^ (e - 23) - n ∧ x / 2 ^ (e - 23) - n < 1 / 2) ∨
      ((x / 2 ^ (e - 23) - n = 1 / 2 ∨ x / 2 ^ (e - 23) - n = -(1 / 2)) ∧ n % 2 = 0))
    (hov : -(2 : ℚ) ^ (128 : ℤ) < y ∧ y < (2 : ℚ) ^ (128 : ℤ)) :
    static_cast_float (fin x) = fin y := by
  have hlo' : (2 : ℚ) ^ e ≤ |x| := by
    rcases hlo with h | h
    · exact le_trans h (le_abs_self x)
    · exact le_trans (by linarith) (neg_le_abs x)
  have hnear' : |x / 2 ^ (e - (((24 : ℕ) : ℤ) - 1)) - n| < 1 / 2 ∨
      (|x / 2 ^ (e - (((24 : ℕ) : ℤ) - 1)) - n| = 1 / 2 ∧ n % 2 = 0) := by
    have h24 : (((24 : ℕ) : ℤ) - 1) = 23 := by norm_num
    rw [h24]
    rcases hnear with h | ⟨h, he⟩
    · exact Or.inl (abs_lt.2 h)
    · refine Or.inr ⟨?_, he⟩
      rcases h with h | h
      · rw [h]; norm_num
      · rw [h]; norm_num
  have h := roundTo_of 24 (-126) 127 x e n hemin hlo' (abs_lt.2 hhi) hnear'
  have h24 : (((24 : ℕ) : ℤ) - 1) = 23 := by norm_num
  rw [h24, ← hy] at h
  have hov2 : ¬ ((2 : ℚ) ^ ((127 : ℤ) + 1) ≤ |y|) := by
    have : ((127 : ℤ) + 1) = 128 := by norm_num
    rw [this]; exact not_le.mpr (abs_lt.2 hov)
  rw [if_neg hov2] at h
  exact h

end Dbl

/-! ## SnapsAt -/

/-- `SnapsAt` is true exactly when `value` is inside the zone and the computed `Evaluate` moves
the narrowed value to less than epsilon from `value`, the difference being computed. -/
theorem binary64_SnapsAt_iff (s_equalityEpsilon : Dbl) (sp : SnapPointBase) (zone : Dbl × Dbl)
    (value : Dbl) :
    Binary64.SnapPointBase.SnapsAt s_equalityEpsilon sp zone value = true ↔
      zone.1 ≤ value ∧ value ≤ zone.2 ∧
        Dbl.abs (Binary64.sub value
          (Binary64.SnapPointBase.Evaluate sp zone (Dbl.static_cast_float value)))
          < s_equalityEpsilon := by
  simp only [Binary64.SnapPointBase.SnapsAt, ge_iff_le]
  by_cases hin : zone.1 ≤ value ∧ value ≤ zone.2
  · rw [if_pos hin]
    simp only [decide_eq_true_eq]
    exact ⟨fun h => ⟨hin.1, hin.2, h⟩, fun h => h.2.2⟩
  · rw [if_neg hin]
    constructor
    · intro h
      cases h
    · rintro ⟨h1, h2, _⟩
      exact absurd ⟨h1, h2⟩ hin

/-- C16 (amended). For every snap point, zone `(min, max)` and value: `SnapsAt(zone, value)` is
true if and only if `min <= value <= max` and `|value - Evaluate(zone, float(value))| < epsilon`,
where `float(value)` is `value` narrowed to `float` (the source passes
`static_cast<float>(value)` to `Evaluate`) and the difference is the computed one; in particular
`SnapsAt(zone, value) = true` implies that `value` lies inside the zone.  For a value that the
narrowing leaves unchanged this is the condition `|value - Evaluate(zone, value)| < epsilon`. -/
theorem C16_SnapsAt_iff (s_equalityEpsilon : Dbl) (sp : SnapPointBase) (zone : Dbl × Dbl)
    (value : Dbl) :
    (Binary64.SnapPointBase.SnapsAt s_equalityEpsilon sp zone value = true ↔
      zone.1 ≤ value ∧ value ≤ zone.2 ∧
        Dbl.abs (Binary64.sub value
          (Binary64.SnapPointBase.Evaluate sp zone (Dbl.static_cast_float value)))
          < s_equalityEpsilon) ∧
    (Binary64.SnapPointBase.SnapsAt s_equalityEpsilon sp zone value = true →
      zone.1 ≤ value ∧ value ≤ zone.2) ∧
    (Dbl.static_cast_float value = value →
      (Binary64.SnapPointBase.SnapsAt s_equalityEpsilon sp zone value = true ↔
        zone.1 ≤ value ∧ value ≤ zone.2 ∧
          Dbl.abs (Binary64.sub value (Binary64.SnapPointBase.Evaluate sp zone value))
            < s_equalityEpsilon)) := by
  have h := binary64_SnapsAt_iff s_equalityEpsilon sp zone value
  refine ⟨h, fun hs => ⟨(h.mp hs).1, (h.mp hs).2.1⟩, fun hexact => ?_⟩
  rw [hexact] at h
  exact h

/-- C16 witness: with tolerance `1/100000`, the mandatory repeated scenario point with zone
`(0, 100)` snaps at `10`, a value that the narrowing to `float` leaves unchanged, and `10` lies
inside the zone. -/
theorem C16_SnapsAt_iff_witness :
    Dbl.static_cast_float (Dbl.fin 10) = Dbl.fin 10 ∧
    Binary64.SnapPointBase.SnapsAt (Dbl.fin (1 / 100000))
      (SnapPointBase.repeatedScroll Scenario.mandatoryRepeated) (Dbl.fin 0, Dbl.fin 100)
      (Dbl.fin 10) = true ∧
    (Dbl.fin 0, Dbl.fin 100).1 ≤ Dbl.fin 10 ∧ Dbl.fin 10 ≤ (Dbl.fin 0, Dbl.fin 100).2 := by
  have hexact : Dbl.static_cast_float (Dbl.fin 10) = Dbl.fin 10 := by
    have h := Dbl.static_cast_float_intCast 10 (by norm_num)
    norm_num at h
    exact h
  have e10 : Binary64.SnapPointBase.Evaluate
      (SnapPointBase.repeatedScroll Scenario.mandatoryRepeated) (Dbl.fin 0, Dbl.fin 100)
      (Dbl.fin 10) = Dbl.fin 10 := by
    have h := (binary64_SnapPointBase_Evaluate_intCast
      (SnapPointBase.repeatedScroll Scenario.mandatoryRepeated) (Dbl.fin 0, Dbl.fin 100) 10
      (by decide) (by decide)).1
    norm_num at h
    rw [h]
    norm_num [SnapPointBase.Evaluate, RepeatedScrollSnapPoint.Evaluate,
      Scenario.mandatoryRepeated, RepeatedScrollSnapPoint.ActualStart,
      RepeatedScrollSnapPoint.ActualEnd,
      RepeatedScrollSnapPoint.DetermineFirstRepeatedSnapPointValue,
      RepeatedScrollSnapPoint.ActualOffset, Dbl.fin_div_fin, Dbl.INFINITY]
  have hsub : Binary64.sub (Dbl.fin 10) (Dbl.fin 10) = Dbl.fin 0 := by
    have h := Binary64.sub_intCast 10 10 (by norm_num)
    norm_num at h
    exact h
  have hs := ((C16_SnapsAt_iff (Dbl.fin (1 / 100000))
    (SnapPointBase.repeatedScroll Scenario.mandatoryRepeated) (Dbl.fin 0, Dbl.fin 100)
    (Dbl.fin 10)).2.2 hexact).mpr ⟨by norm_num, by norm_num, by rw [e10, hsub]; norm_num⟩
  exact ⟨hexact, hs,
    (C16_SnapsAt_iff (Dbl.fin (1 / 100000))
      (SnapPointBase.repeatedScroll Scenario.mandatoryRepeated) (Dbl.fin 0, Dbl.fin 100)
      (Dbl.fin 10)).2.1 hs⟩

/-- C16 counterexample, with the tolerance `1/100000`.  First conjuncts: the mandatory scroll point
at `100`, the zone `((7036874431840149 / 2 ^ 47), +inf)` whose lower bound is the double nearest to
`50.0000001`, and the value equal to that bound.  The narrowing to `float` gives `50`, which is
below the zone, so `Evaluate` returns `50` and `SnapsAt` is true; but `Evaluate(zone, value)` is
`100`, not within the tolerance of the value.  Last conjuncts: the mandatory scroll point at
`16777217`, the zone `(16777217, +inf)` and the value `16777217`.  The narrowing gives `16777216`,
below the zone, so `Evaluate` returns it and `SnapsAt` is false; but the value is inside the zone
and `Evaluate(zone, value)` is the value itself. -/
theorem C16_counterexample :
    Binary64.SnapPointBase.SnapsAt (Dbl.fin (1 / 100000))
        (SnapPointBase.scroll (Scenario.mandatoryScroll 100))
      (Dbl.fin (7036874431840149 / 2 ^ 47), Dbl.pinf) (Dbl.fin (7036874431840149 / 2 ^ 47)) = true ∧
    Binary64.SnapPointBase.Evaluate (SnapPointBase.scroll (Scenario.mandatoryScroll 100))
      (Dbl.fin (7036874431840149 / 2 ^ 47), Dbl.pinf) (Dbl.fin (7036874431840149 / 2 ^ 47))
          = Dbl.fin 100 ∧
    ¬ Dbl.abs (Binary64.sub (Dbl.fin (7036874431840149 / 2 ^ 47)) (Dbl.fin 100))
        < Dbl.fin (1 / 100000) ∧
    Binary64.SnapPointBase.SnapsAt (Dbl.fin (1 / 100000))
        (SnapPointBase.scroll (Scenario.mandatoryScroll 16777217))
      (Dbl.fin 16777217, Dbl.pinf) (Dbl.fin 16777217) = false ∧
    (Dbl.fin 16777217, Dbl.pinf).1 ≤ Dbl.fin 16777217 ∧
    Dbl.fin 16777217 ≤ (Dbl.fin 16777217, Dbl.pinf).2 ∧
    Dbl.abs (Binary64.sub (Dbl.fin 16777217)
      (Binary64.SnapPointBase.Evaluate (SnapPointBase.scroll (Scenario.mandatoryScroll 16777217))
        (Dbl.fin 16777217, Dbl.pinf) (Dbl.fin 16777217))) < Dbl.fin (1 / 100000) := by
  have a1 : Dbl.static_cast_float (Dbl.fin (7036874431840149 / 2 ^ 47)) = Dbl.fin 50 :=
    Dbl.static_cast_float_cert _ _ (5) (13107200) (by norm_num) (by norm_num)
      (by norm_num) (by norm_num) (Or.inl ⟨by norm_num, by norm_num⟩) (by norm_num)
  have a2 : Binary64.add (Dbl.fin 100) (Dbl.fin 0) = Dbl.fin 100 := by
    rw [Binary64.add, Dbl.fin_add_fin]
    exact Dbl.round64_cert _ _ (6) (7036874417766400) (by norm_num) (by norm_num)
      (by norm_num) (by norm_num) (Or.inl ⟨by norm_num, by norm_num⟩) (by norm_num)
  have a3 : Binary64.sub (Dbl.fin (7036874431840149 / 2 ^ 47)) (Dbl.fin 50)
      = Dbl.fin (14073749 / 2 ^ 47) := by
    rw [Binary64.sub, Dbl.fin_sub_fin]
    exact Dbl.round64_cert _ _ (-24) (7555786460889088) (by norm_num) (by norm_num)
      (by norm_num) (by norm_num) (Or.inl ⟨by norm_num, by norm_num⟩) (by norm_num)
  have a4 : Binary64.sub (Dbl.fin (7036874431840149 / 2 ^ 47)) (Dbl.fin 100)
      = Dbl.fin (-7036874403692651 / 2 ^ 47) := by
    rw [Binary64.sub, Dbl.fin_sub_fin]
    exact Dbl.round64_cert _ _ (5) (-7036874403692651) (by norm_num) (by norm_num)
      (by norm_num) (by norm_num) (Or.inl ⟨by norm_num, by norm_num⟩) (by norm_num)
  have b1 : Dbl.static_cast_float (Dbl.fin 16777217) = Dbl.fin 16777216 :=
    Dbl.static_cast_float_cert _ _ (24) (8388608) (by norm_num) (by norm_num)
      (by norm_num) (by norm_num) (Or.inr ⟨by norm_num, by norm_num⟩) (by norm_num)
  have b2 : Binary64.add (Dbl.fin 16777217) (Dbl.fin 0) = Dbl.fin 16777217 := by
    rw [Binary64.add, Dbl.fin_add_fin]
    exact Dbl.round64_cert _ _ (24) (4503599895805952) (by norm_num) (by norm_num)
      (by norm_num) (by norm_num) (Or.inl ⟨by norm_num, by norm_num⟩) (by norm_num)
  have b3 : Binary64.sub (Dbl.fin 16777217) (Dbl.fin 16777216) = Dbl.fin 1 := by
    rw [Binary64.sub, Dbl.fin_sub_fin]
    exact Dbl.round64_cert _ _ (0) (4503599627370496) (by norm_num) (by norm_num)
      (by norm_num) (by norm_num) (Or.inl ⟨by norm_num, by norm_num⟩) (by norm_num)
  have b4 : Binary64.sub (Dbl.fin 16777217) (Dbl.fin 16777217) = Dbl.fin 0 := by
    rw [Binary64.sub, Dbl.fin_sub_fin]
    norm_num [Dbl.round64, Dbl.roundTo]
  have ea : Binary64.SnapPointBase.Evaluate (SnapPointBase.scroll (Scenario.mandatoryScroll 100))
      (Dbl.fin (7036874431840149 / 2 ^ 47), Dbl.pinf) (Dbl.fin 50) = Dbl.fin 50 := by
    simp only [Binary64.SnapPointBase.Evaluate, Binary64.ScrollSnapPoint.Evaluate,
      Binary64.ScrollSnapPoint.ActualValue, Scenario.mandatoryScroll]
    norm_num
  have eb : Binary64.SnapPointBase.Evaluate
      (SnapPointBase.scroll (Scenario.mandatoryScroll 16777217))
      (Dbl.fin 16777217, Dbl.pinf) (Dbl.fin 16777216) = Dbl.fin 16777216 := by
    simp only [Binary64.SnapPointBase.Evaluate, Binary64.ScrollSnapPoint.Evaluate,
      Binary64.ScrollSnapPoint.ActualValue, Scenario.mandatoryScroll]
    norm_num
  have eb2 : Binary64.SnapPointBase.Evaluate
      (SnapPointBase.scroll (Scenario.mandatoryScroll 16777217))
      (Dbl.fin 16777217, Dbl.pinf) (Dbl.fin 16777217) = Dbl.fin 16777217 := by
    simp only [Binary64.SnapPointBase.Evaluate, Binary64.ScrollSnapPoint.Evaluate,
      Binary64.ScrollSnapPoint.ActualValue, Scenario.mandatoryScroll, b2]
    norm_num
  refine ⟨?_, ?_, ?_, ?_, by norm_num, by norm_num, ?_⟩
  · rw [binary64_SnapsAt_iff]
    refine ⟨by norm_num, by norm_num, ?_⟩
    rw [a1, ea, a3]
    norm_num [abs_lt]
  · simp only [Binary64.SnapPointBase.Evaluate, Binary64.ScrollSnapPoint.Evaluate,
      Binary64.ScrollSnapPoint.ActualValue, Scenario.mandatoryScroll, a2]
    norm_num
  · rw [a4]
    norm_num [le_abs]
  · rw [Bool.eq_false_iff]
    intro hs
    rw [binary64_SnapsAt_iff] at hs
    obtain ⟨_, _, h3⟩ := hs
    rw [b1, eb, b3] at h3
    norm_num at h3
  · rw [eb2, b4]
    norm_num

